import Mathlib

/-!
Registry chaincode (`src/chaincode/assetTransfer.go`).

A shallow embedding of the ThingVisor / VThing / Flavour / VirtualSilo /
Membership registry.  Every transaction function of the contract is a Lean
function over an explicit ledger state; the ledger stub, `strings.Split` and
`encoding/json` (libraries the chaincode calls) are modelled in the first
sections.
-/

namespace Chaincode

/-! ## Strings -/

/-- Character-level worker of `strings.Split` for a one-character separator:
one more piece than there are separators, never an empty result. -/
def splitChars (sep : Char) : List Char → List (List Char)
  | [] => [[]]
  | c :: cs =>
    if c = sep then [] :: splitChars sep cs
    else
      match splitChars sep cs with
      | [] => [[c]]
      | w :: ws => (c :: w) :: ws

/-- Go `strings.Split(s, sep)` for a one-character separator. -/
def Split (s : String) (sep : Char) : List String :=
  (splitChars sep s.data).map String.mk

/-- Byte order of the ledger keys: lexicographic on code points (the order of
the UTF-8 encodings). -/
def ltChars : List Char → List Char → Bool
  | _, [] => false
  | [], _ :: _ => true
  | a :: as, b :: bs =>
    if a.toNat < b.toNat then true
    else if b.toNat < a.toNat then false
    else ltChars as bs

/-- Strict key order of the ledger. -/
def keyLt (a b : String) : Bool := ltChars a.data b.data

/-! ## Constants of the contract -/

/-- Names of the five private data collections. -/
inductive CollectionName
  | CollectionThingVisors
  | CollectionvThingTVs
  | CollectionvThingVSilos
  | CollectionvSilos
  | CollectionFlavours
  deriving DecidableEq, Repr

open CollectionName

def vThingTVObject : String := "vThingTV"
def vThingTVPrefix : String := "\x7bvthingtvprefix\x7d"
def vSiloObject : String := "vSilo"
def vSiloPrefix : String := "\x7bvsiloprefix\x7d"
def vThingVSiloObject : String := "vThingVSilo"
def vThingVSiloPrefix : String := "\x7bvthingvsiloprefix\x7d"

def STATUS_PENDING : String := "pending"
def STATUS_RUNNING : String := "running"
def STATUS_STOPPING : String := "stopping"
def STATUS_STOPPED : String := "stopped"
def STATUS_SHUTTING_DOWN : String := "shutting_down"
def STATUS_TERMINATED : String := "terminated"
def STATUS_READY : String := "ready"
def STATUS_ERROR : String := "error"

/-! ## Errors -/

/-- Failures of a transaction function.  The first four carry the message of
the `errors.New` call of the source and are named after the error kind the
message stands for; the others come from the libraries or the runtime. -/
inductive Error
  /-- messages "... not exist" / "... not exists" -/
  | NotFound (msg : String)
  /-- messages "... already exists" -/
  | AlreadyExists (msg : String)
  /-- messages "... is not ready" / "... is not running!" -/
  | InvalidState (msg : String)
  /-- messages "... not valid" and the messages that replace a failure of
  `CreateCompositeKey` -/
  | InvalidKey (msg : String)
  /-- an error returned by `json.Unmarshal` -/
  | Serialization
  /-- an error returned by the ledger stub, or a message of the source that
  replaces one -/
  | Store (msg : String)
  /-- a run-time panic (index or slice bound out of range, nil iterator): the
  call aborts, nothing is returned -/
  | Panic (msg : String)
  deriving DecidableEq, Repr

deriving instance DecidableEq for Except

/-! ## Ledger stub -/

/-- One private data collection: key/value pairs, kept in key order by
`putKey`. -/
abbrev Collection := List (String × String)

/-- Value stored under a key, `none` for an absent key (a nil slice in Go). -/
def lookupKey (k : String) : Collection → Option String
  | [] => none
  | kv :: rest => if kv.1 = k then some kv.2 else lookupKey k rest

/-- Removal of a key. -/
def eraseKey (k : String) (c : Collection) : Collection :=
  c.filter (fun kv => decide (kv.1 ≠ k))

/-- Ordered insertion of a pair. -/
def insertKey (k v : String) : Collection → Collection
  | [] => [(k, v)]
  | kv :: rest =>
    if keyLt k kv.1 then (k, v) :: kv :: rest else kv :: insertKey k v rest

/-- Write of a value under a key, replacing the previous one. -/
def putKey (k v : String) (c : Collection) : Collection :=
  insertKey k v (eraseKey k c)

/-- Pairs with `startKey ≤ key < endKey`; an empty `endKey` is unbounded. -/
def rangeScan (startKey endKey : String) (c : Collection) : Collection :=
  c.filter (fun kv => !keyLt kv.1 startKey && (endKey = "" || keyLt kv.1 endKey))

def minUnicodeRuneValue : Char := Char.ofNat 0
def maxUnicodeRuneValue : Char := Char.ofNat 0x10FFFF
def compositeKeyNamespace : String := String.mk [minUnicodeRuneValue]
def emptyKeySubstitute : String := String.mk [Char.ofNat 1]

/-- Stub `validateCompositeKeyAttribute`: U+0000 and U+10FFFF are refused. -/
def validateCompositeKeyAttribute (str : String) : Bool :=
  str.data.all (fun c => c ≠ minUnicodeRuneValue && c ≠ maxUnicodeRuneValue)

/-- Unchecked concatenation done by `CreateCompositeKey`. -/
def compositeKey (objectType : String) (attributes : List String) : String :=
  attributes.foldl (fun ck att => ck ++ att ++ String.mk [minUnicodeRuneValue])
    (compositeKeyNamespace ++ objectType ++ String.mk [minUnicodeRuneValue])

/-- Stub `CreateCompositeKey`: namespace byte, object type and attributes, each
followed by U+0000; fails on an attribute holding U+0000 or U+10FFFF. -/
def CreateCompositeKey (objectType : String) (attributes : List String) : Option String :=
  if validateCompositeKeyAttribute objectType && attributes.all validateCompositeKeyAttribute
  then some (compositeKey objectType attributes)
  else none

/-- Actor, transaction and call arguments supplied by the execution context. -/
structure Context where
  /-- `GetStub().GetTxID()` -/
  TxID : String
  /-- `GetStub().GetTxTimestamp()` rendered by `String()` -/
  Time : String
  /-- `GetClientIdentity().GetID()` -/
  userID : String
  /-- `GetClientIdentity().GetMSPID()` -/
  userMSPID : String
  /-- `GetStub().GetStringArgs()`: the function name, then every argument of
  the call -/
  StringArgs : List String
  deriving DecidableEq, Repr

structure GraphNode where
  StartNode : String
  EndNode : String
  Delete : Bool := false
  deriving DecidableEq, Repr

structure History where
  EventName : String
  Time : String
  TxID : String
  UserID : String
  UserMSPID : String
  GraphNodes : List GraphNode
  deriving DecidableEq, Repr

/-- Ledger state: the five collections and the log of emitted events (name and
payload; the payload is kept as the `History` value that is marshalled). -/
structure State where
  thingVisors : Collection := []
  vThingTVs : Collection := []
  vThingVSilos : Collection := []
  vSilos : Collection := []
  flavours : Collection := []
  events : List (String × History) := []
  deriving DecidableEq, Repr

/-- Contents of a collection. -/
def State.collection (s : State) : CollectionName → Collection
  | CollectionThingVisors => s.thingVisors
  | CollectionvThingTVs => s.vThingTVs
  | CollectionvThingVSilos => s.vThingVSilos
  | CollectionvSilos => s.vSilos
  | CollectionFlavours => s.flavours

/-- Replacement of a collection. -/
def State.setCollection (s : State) (n : CollectionName) (c : Collection) : State :=
  match n with
  | CollectionThingVisors => { s with thingVisors := c }
  | CollectionvThingTVs => { s with vThingTVs := c }
  | CollectionvThingVSilos => { s with vThingVSilos := c }
  | CollectionvSilos => { s with vSilos := c }
  | CollectionFlavours => { s with flavours := c }

/-- Stub `GetPrivateData`: the stored bytes, nil (`none`) for an absent key. -/
def GetPrivateData (s : State) (n : CollectionName) (key : String) : Option String :=
  lookupKey key (s.collection n)

/-- Stub `PutPrivateData`: refuses the empty key; a write of an empty value is
recorded by the ledger as a delete of the key. -/
def PutPrivateData (s : State) (n : CollectionName) (key value : String) : Except Error State :=
  if key = "" then .error (.Store "key must not be an empty string")
  else if value = "" then .ok (s.setCollection n (eraseKey key (s.collection n)))
  else .ok (s.setCollection n (putKey key value (s.collection n)))

/-- Stub `DelPrivateData`. -/
def DelPrivateData (s : State) (n : CollectionName) (key : String) : Except Error State :=
  .ok (s.setCollection n (eraseKey key (s.collection n)))

/-- Stub `GetPrivateDataByPartialCompositeKey`: the range from the partial key
to the partial key followed by U+10FFFF. -/
def GetPrivateDataByPartialCompositeKey (s : State) (n : CollectionName)
    (objectType : String) (attributes : List String) : Except Error Collection :=
  match CreateCompositeKey objectType attributes with
  | none => .error (.Store "invalid composite key attribute")
  | some partialKey =>
    .ok (rangeScan partialKey (partialKey ++ String.mk [maxUnicodeRuneValue]) (s.collection n))

/-- Stub `validateSimpleKeys`. -/
def validateSimpleKeys (keys : List String) : Bool :=
  keys.all (fun key => key.data.head? ≠ some minUnicodeRuneValue)

/-- Stub `GetPrivateDataByRange`: an empty start key is replaced by U+0001, so
that composite keys stay out of the result. -/
def GetPrivateDataByRange (s : State) (n : CollectionName) (startKey endKey : String) :
    Except Error Collection :=
  let startKey := if startKey = "" then emptyKeySubstitute else startKey
  if validateSimpleKeys [startKey, endKey] then .ok (rangeScan startKey endKey (s.collection n))
  else .error (.Store "first character of the key contains a null character")

/-- Stub `SetEvent`: refuses the empty name. -/
def SetEvent (s : State) (name : String) (payload : History) : Except Error State :=
  if name = "" then .error (.Store "event name can not be empty string")
  else .ok { s with events := s.events ++ [(name, payload)] }

/-- Results handed out by successive `Next` calls of an iterator over `rs`.
The peer ships `batch` results at a time; an iterator closed before it is read
still serves the first batch and fails when it has to fetch the next one. -/
def nextResults (closedEarly : Bool) (batch : Nat) (rs : Collection) :
    List (Except Error (String × String)) :=
  if closedEarly && batch < rs.length then
    (rs.take (batch - 1)).map .ok ++ [.error (.Store "query iterator not found")]
  else rs.map .ok

/-- Go `GetStringArgs()[1:]`: panics on an empty argument list. -/
def argsFrom1 (ctx : Context) : Except Error (List String) :=
  match ctx.StringArgs with
  | [] => .error (.Panic "slice bounds out of range [1:0]")
  | _ :: rest => .ok rest

/-- Go `keyArr[0]` on a result of `strings.Split`, which is never empty. -/
def index0 (keyArr : List String) : String := keyArr.headD ""

/-- Go `keyArr[1]`: panics when the slice has a single element. -/
def index1 (keyArr : List String) : Except Error String :=
  match keyArr with
  | _ :: k1 :: _ => .ok k1
  | _ => .error (.Panic "index out of range [1] with length 1")

/-! ## Documents -/

structure MQTTProfile where
  IP : String := ""
  Port : String := ""
  deriving DecidableEq, Repr

structure VThingTV where
  Label : String := ""
  ID : String := ""
  Description : String := ""
  Type_ : String := ""
  Endpoint : String := ""
  deriving DecidableEq, Repr

structure VThingTVWithKey where
  Key : String
  VThing : VThingTV
  deriving DecidableEq, Repr

structure ThingVisor where
  ThingVisorID : String := ""
  CreationTime : String := ""
  TvDescription : String := ""
  Status : String := ""
  DebugMode : Bool := false
  IpAddress : String := ""
  DeploymentName : String := ""
  ServiceName : String := ""
  ContainerID : String := ""
  VThings : List VThingTV := []
  Params : String := ""
  MQTTDataBroker : Option MQTTProfile := none
  MQTTControlBroker : Option MQTTProfile := none
  AdditionalServicesNames : List String := []
  AdditionalDeploymentsNames : List String := []
  deriving DecidableEq, Repr

structure ThingVisorWithVThingKey where
  ThingVisor : ThingVisor
  VThings : List VThingTVWithKey
  deriving DecidableEq, Repr

structure Flavour where
  FlavourID : String := ""
  FlavourParams : String := ""
  ImageName : List String := []
  FlavourDescription : String := ""
  CreationTime : String := ""
  Status : String := ""
  YamlFiles : List String := []
  deriving DecidableEq, Repr

structure VirtualSilo where
  VSiloID : String := ""
  VSiloName : String := ""
  CreationTime : String := ""
  ContainerName : String := ""
  ContainerID : String := ""
  DeploymentName : String := ""
  ServiceName : String := ""
  IPAddress : String := ""
  FlavourID : String := ""
  FlavourParams : String := ""
  TenantID : String := ""
  Status : String := ""
  Port : String := ""
  MQTTDataBroker : Option MQTTProfile := none
  MQTTControlBroker : Option MQTTProfile := none
  AdditionalServicesNames : List String := []
  AdditionalDeploymentsNames : List String := []
  deriving DecidableEq, Repr

structure VThingVSilo where
  TenantID : String := ""
  VSiloID : String := ""
  CreationTime : String := ""
  VThingID : String := ""
  deriving DecidableEq, Repr

/-! ## Serialization and peer configuration

`encoding/json` is a collaborator of the contract, used through `Marshal` and
`Unmarshal` only; it is a parameter of the model, together with the number of
results the peer ships per iterator fetch. -/

/-- The `encoding/json` functions at the document types of the contract, and
the peer's query batch size. -/
structure Host where
  /-- `json.Unmarshal` into a zero `ThingVisor`; `none` when it returns an error -/
  unmarshalThingVisor : String → Option ThingVisor
  unmarshalVThingTV : String → Option VThingTV
  unmarshalFlavour : String → Option Flavour
  unmarshalVirtualSilo : String → Option VirtualSilo
  unmarshalVThingVSilo : String → Option VThingVSilo
  /-- contents of the target `Flavour` after an `Unmarshal` that returned an
  error -/
  flavourAfterError : String → Flavour
  /-- `json.Marshal`; it returns no error at these types -/
  marshalThingVisor : ThingVisor → String
  marshalFlavour : Flavour → String
  marshalVirtualSilo : VirtualSilo → String
  /-- results shipped by the peer per fetch of a query iterator -/
  queryBatch : Nat

/-- Go `json.Unmarshal(data, &x)` on a zero `x`: a nil or empty input is
refused ("unexpected end of JSON input"). -/
def Unmarshal {α : Type} (dec : String → Option α) (data : Option String) : Except Error α :=
  match data with
  | none => .error .Serialization
  | some b =>
    if b = "" then .error .Serialization
    else
      match dec b with
      | none => .error .Serialization
      | some x => .ok x

/-- The loop `for it.HasNext() { r, err := it.Next(); ...; json.Unmarshal(r.Value, &x);
...; results = append(results, x) }` shared by the listing functions. -/
def collectLoop {α : Type} (dec : String → Option α) :
    List (Except Error (String × String)) → List α → Except Error (List α)
  | [], results => .ok results
  | .error e :: _, _ => .error e
  | .ok queryResponse :: rest, results =>
    match Unmarshal dec (some queryResponse.2) with
    | .error e => .error e
    | .ok x => collectLoop dec rest (results ++ [x])

/-! ## Provenance -/

def SetHistory (ctx : Context) (EventName : String) (nodes : List GraphNode)
    (userID userMSPID : String) (s : State) : Except Error State :=
  let history : History :=
    { EventName := EventName
      Time := ctx.Time
      TxID := ctx.TxID
      UserID := userID
      UserMSPID := userMSPID
      GraphNodes := nodes }
  SetEvent s EventName history

/-! ## ThingVisor -/

def CreateThingVisor (ctx : Context) (id JSONstr : String) (s : State) : Except Error State :=
  match GetPrivateData s CollectionThingVisors id with
  | some _ => .error (.AlreadyExists ("Add fails - thingVisor " ++ id ++ " already exists"))
  | none =>
    match PutPrivateData s CollectionThingVisors id JSONstr with
    | .error e => .error e
    | .ok s1 =>
      let userID := ctx.userID
      let userMSPID := ctx.userMSPID
      SetHistory ctx "CreateThingVisor"
        [ { StartNode := userMSPID, EndNode := "user-" ++ userID },
          { StartNode := "user-" ++ userID, EndNode := "thingvisor-" ++ id } ]
        userID userMSPID s1

def UpdateThingVisor (ctx : Context) (id JSONstr : String) (s : State) : Except Error State :=
  match PutPrivateData s CollectionThingVisors id JSONstr with
  | .error e => .error e
  | .ok s1 =>
    let userID := ctx.userID
    let userMSPID := ctx.userMSPID
    SetHistory ctx "UpdateThingVisor"
      [ { StartNode := userMSPID, EndNode := "user-" ++ userID, Delete := false },
        { StartNode := "user-" ++ userID, EndNode := "thingvisor-" ++ id, Delete := false } ]
      userID userMSPID s1

def UpdateThingVisorPartial (h : Host) (ctx : Context) (id tvDescription params : String)
    (s : State) : Except Error State :=
  let byteData := GetPrivateData s CollectionThingVisors id
  match Unmarshal h.unmarshalThingVisor byteData with
  | .error e => .error e
  | .ok thingVisor =>
    let thingVisor :=
      if tvDescription ≠ "" then { thingVisor with TvDescription := tvDescription } else thingVisor
    let thingVisor :=
      if params ≠ "" then { thingVisor with Params := params } else thingVisor
    let assetJSON := h.marshalThingVisor thingVisor
    match PutPrivateData s CollectionThingVisors id assetJSON with
    | .error e => .error e
    | .ok s1 =>
      let userID := ctx.userID
      let userMSPID := ctx.userMSPID
      SetHistory ctx "UpdateThingVisorPartial"
        [ { StartNode := userMSPID, EndNode := "user-" ++ userID, Delete := false },
          { StartNode := "user-" ++ userID, EndNode := "thingvisor-" ++ id, Delete := false } ]
        userID userMSPID s1

/-- The iterator of `GetThingVisor` is closed before the loop reads it. -/
def GetThingVisor (h : Host) (s : State) (id : String) : Except Error ThingVisor :=
  match GetPrivateData s CollectionThingVisors id with
  | none => .error (.NotFound ("Operation fails - thingVisor " ++ id ++ " not exists"))
  | some byteData =>
    match Unmarshal h.unmarshalThingVisor (some byteData) with
    | .error e => .error e
    | .ok thingVisor =>
      match GetPrivateDataByPartialCompositeKey s CollectionvThingTVs vThingTVObject
          [vThingTVPrefix, id] with
      | .error e => .error e
      | .ok resultsIterator =>
        match collectLoop h.unmarshalVThingTV (nextResults true h.queryBatch resultsIterator)
            thingVisor.VThings with
        | .error e => .error e
        | .ok vThings => .ok { thingVisor with VThings := vThings }

def ThingVisorRunning (h : Host) (s : State) (id : String) : Except Error Unit :=
  let tv := GetPrivateData s CollectionThingVisors id
  match Unmarshal h.unmarshalThingVisor tv with
  | .error _ => .error (.InvalidState ("ThingVisor " ++ id ++ "is not running!"))
  | .ok thingVisor =>
    if thingVisor.Status ≠ STATUS_RUNNING then
      .error (.InvalidState ("ThingVisor " ++ id ++ "is not running!"))
    else .ok ()

/-- The loop `for _, key := range args { DelPrivateData(collection, key) }`. -/
def delLoop (n : CollectionName) : List String → State → Except Error State
  | [], s => .ok s
  | key :: rest, s =>
    match DelPrivateData s n key with
    | .error e => .error e
    | .ok s1 => delLoop n rest s1

def DeleteThingVisor (ctx : Context) (ThingVisorID : String) (s : State) : Except Error State :=
  let userID := ctx.userID
  let userMSPID := ctx.userMSPID
  match argsFrom1 ctx with
  | .error e => .error e
  | .ok args =>
    match delLoop CollectionvThingTVs args s with
    | .error e => .error e
    | .ok s1 =>
      match DelPrivateData s1 CollectionThingVisors ThingVisorID with
      | .error e => .error e
      | .ok s2 =>
        SetHistory ctx "DeleteThingVisor"
          [ { StartNode := userMSPID, EndNode := "user-" ++ userID, Delete := false },
            { StartNode := "user-" ++ userID, EndNode := "thingvisor-" ++ ThingVisorID,
              Delete := true } ]
          userID userMSPID s2

def StopThingVisor (h : Host) (ctx : Context) (ThingVisorID : String) (s : State) :
    Except Error State :=
  match GetPrivateData s CollectionThingVisors ThingVisorID with
  | none =>
    .error (.NotFound ("WARNING Add fails - ThingVisor " ++ ThingVisorID ++ " not exist"))
  | some thingVisorByte =>
    match Unmarshal h.unmarshalThingVisor (some thingVisorByte) with
    | .error e => .error e
    | .ok thingVisor =>
      if thingVisor.Status ≠ STATUS_RUNNING then
        .error (.InvalidState ("WARNING Add fails - ThingVisor " ++ ThingVisorID ++ " is not ready"))
      else
        let thingVisor := { thingVisor with Status := STATUS_STOPPING }
        let assetJSON := h.marshalThingVisor thingVisor
        match PutPrivateData s CollectionThingVisors ThingVisorID assetJSON with
        | .error e => .error e
        | .ok s1 =>
          let userID := ctx.userID
          let userMSPID := ctx.userMSPID
          SetHistory ctx "StopThingVisor"
            [ { StartNode := userMSPID, EndNode := "user-" ++ userID },
              { StartNode := "user-" ++ userID, EndNode := "thingvisor-" ++ ThingVisorID } ]
            userID userMSPID s1

/-- The inner loop of `GetAllThingVisors`: `for _, v := range vThings { keyArr :=
strings.Split(v.ID, "/"); if keyArr[0] == thingVisor.ThingVisorID { append } }`. -/
def appendOwned (ThingVisorID : String) : List VThingTV → List VThingTV → List VThingTV
  | [], acc => acc
  | v :: rest, acc =>
    let keyArr := Split v.ID '/'
    if index0 keyArr = ThingVisorID then appendOwned ThingVisorID rest (acc ++ [v])
    else appendOwned ThingVisorID rest acc

/-- The outer loop of `GetAllThingVisors`. -/
def thingVisorLoop (h : Host) (vThings : List VThingTV) :
    List (Except Error (String × String)) → List ThingVisor → Except Error (List ThingVisor)
  | [], results => .ok results
  | .error e :: _, _ => .error e
  | .ok queryResponse :: rest, results =>
    match Unmarshal h.unmarshalThingVisor (some queryResponse.2) with
    | .error e => .error e
    | .ok thingVisor =>
      let thingVisor :=
        { thingVisor with VThings := appendOwned thingVisor.ThingVisorID vThings thingVisor.VThings }
      thingVisorLoop h vThings rest (results ++ [thingVisor])

def GetAllThingVisors (h : Host) (s : State) : Except Error (List ThingVisor) :=
  match GetPrivateDataByPartialCompositeKey s CollectionvThingTVs vThingTVObject [vThingTVPrefix]
  with
  | .error _ => .error (.Panic "nil iterator")
  | .ok vThingIterator =>
    match GetPrivateDataByRange s CollectionThingVisors "" "" with
    | .error e => .error e
    | .ok tvIterator =>
      match collectLoop h.unmarshalVThingTV (nextResults false h.queryBatch vThingIterator) [] with
      | .error e => .error e
      | .ok vThings =>
        thingVisorLoop h vThings (nextResults false h.queryBatch tvIterator) []

/-! ## VThing -/

def GetAllVThings (h : Host) (s : State) : Except Error (List VThingTV) :=
  match GetPrivateDataByPartialCompositeKey s CollectionvThingTVs vThingTVObject [vThingTVPrefix]
  with
  | .error e => .error e
  | .ok resultsIterator =>
    collectLoop h.unmarshalVThingTV (nextResults false h.queryBatch resultsIterator) []

def GetVThingByID (h : Host) (s : State) (VThingID : String) : Except Error VThingTV :=
  let keyArr := Split VThingID '/'
  match index1 keyArr with
  | .error e => .error e
  | .ok k1 =>
    match CreateCompositeKey vThingTVObject [vThingTVPrefix, index0 keyArr, k1] with
    | none => .error (.InvalidKey ("Get VThing " ++ VThingID ++ "failed"))
    | some key =>
      match GetPrivateData s CollectionvThingTVs key with
      | none => .error (.NotFound ("Get VThing Failed - VThing " ++ VThingID ++ " not exists"))
      | some byteData => Unmarshal h.unmarshalVThingTV (some byteData)

def GetAllVThingOfThingVisor (h : Host) (s : State) (ThingVisorID : String) :
    Except Error (List VThingTV) :=
  match GetPrivateDataByPartialCompositeKey s CollectionvThingTVs vThingTVObject
      [vThingTVPrefix, ThingVisorID] with
  | .error e => .error e
  | .ok resultsIterator =>
    collectLoop h.unmarshalVThingTV (nextResults false h.queryBatch resultsIterator) []

/-- The loop of `GetThingVisorWithVThingKeys`, which keeps the key of each
result. -/
def collectWithKeyLoop (h : Host) :
    List (Except Error (String × String)) → List VThingTVWithKey →
      Except Error (List VThingTVWithKey)
  | [], vThings => .ok vThings
  | .error e :: _, _ => .error e
  | .ok queryResponse :: rest, vThings =>
    match Unmarshal h.unmarshalVThingTV (some queryResponse.2) with
    | .error e => .error e
    | .ok vThingTV =>
      collectWithKeyLoop h rest (vThings ++ [{ Key := queryResponse.1, VThing := vThingTV }])

def GetThingVisorWithVThingKeys (h : Host) (s : State) (ThingVisorID : String) :
    Except Error ThingVisorWithVThingKey :=
  match GetPrivateData s CollectionThingVisors ThingVisorID with
  | none => .error (.NotFound ("Deletion fails - thingVisor " ++ ThingVisorID ++ " not exists"))
  | some byteData =>
    match Unmarshal h.unmarshalThingVisor (some byteData) with
    | .error e => .error e
    | .ok thingVisor =>
      match GetPrivateDataByPartialCompositeKey s CollectionvThingTVs vThingTVObject
          [vThingTVPrefix, ThingVisorID] with
      | .error e => .error e
      | .ok resultsIterator =>
        match collectWithKeyLoop h (nextResults false h.queryBatch resultsIterator) [] with
        | .error e => .error e
        | .ok vThings => .ok { ThingVisor := thingVisor, VThings := vThings }

def AddVThingToThingVisor (h : Host) (ctx : Context) (ThingVisorID vThingData : String)
    (s : State) : Except Error State :=
  match GetPrivateData s CollectionThingVisors ThingVisorID with
  | none =>
    .error (.NotFound ("WARNING Add fails - ThingVisor " ++ ThingVisorID ++ " not exist"))
  | some thingVisorByte =>
    match Unmarshal h.unmarshalThingVisor (some thingVisorByte) with
    | .error e => .error e
    | .ok thingVisor =>
      if thingVisor.Status ≠ STATUS_RUNNING then
        .error (.InvalidState ("WARNING Add fails - ThingVisor " ++ ThingVisorID ++ " is not ready"))
      else
        let newVThingByte := vThingData
        match Unmarshal h.unmarshalVThingTV (some newVThingByte) with
        | .error e => .error e
        | .ok newVThing =>
          let newVThingID := newVThing.ID
          let keyArr := Split newVThingID '/'
          if index0 keyArr ≠ ThingVisorID then
            .error (.InvalidKey ("WARNING Add fails - vThingID '" ++ newVThingID ++ "' not valid"))
          else
            match index1 keyArr with
            | .error e => .error e
            | .ok k1 =>
              match CreateCompositeKey vThingTVObject [vThingTVPrefix, index0 keyArr, k1] with
              | none => .error (.Store "invalid composite key attribute")
              | some key =>
                match PutPrivateData s CollectionvThingTVs key newVThingByte with
                | .error e => .error e
                | .ok s1 =>
                  let userID := ctx.userID
                  let userMSPID := ctx.userMSPID
                  SetHistory ctx "AddVThingToThingVisor"
                    [ { StartNode := userMSPID, EndNode := "user-" ++ userID, Delete := false },
                      { StartNode := "user-" ++ userID, EndNode := "thingvisor-" ++ ThingVisorID,
                        Delete := false },
                      { StartNode := "thingvisor-" ++ ThingVisorID,
                        EndNode := "vthing-" ++ newVThingID, Delete := false } ]
                    userID userMSPID s1

def UpdateVThingOfThingVisor (h : Host) (ctx : Context) (VThingID vThingData : String)
    (s : State) : Except Error State :=
  let VThingByte := vThingData
  match Unmarshal h.unmarshalVThingTV (some VThingByte) with
  | .error e => .error e
  | .ok _ =>
    let keyArr := Split VThingID '/'
    match index1 keyArr with
    | .error e => .error e
    | .ok k1 =>
      match CreateCompositeKey vThingTVObject [vThingTVPrefix, index0 keyArr, k1] with
      | none => .error (.Store "invalid composite key attribute")
      | some key =>
        match PutPrivateData s CollectionvThingTVs key VThingByte with
        | .error e => .error e
        | .ok s1 =>
          let userID := ctx.userID
          let userMSPID := ctx.userMSPID
          SetHistory ctx "UpdateVThingOfThingVisor"
            [ { StartNode := userMSPID, EndNode := "user-" ++ userID, Delete := false },
              { StartNode := "user-" ++ userID, EndNode := "thingvisor-" ++ index0 keyArr,
                Delete := false },
              { StartNode := "thingvisor-" ++ index0 keyArr, EndNode := "vthing-" ++ VThingID,
                Delete := false } ]
            userID userMSPID s1

def GetVThingOfThingVisor (h : Host) (s : State) (VThingID : String) : Except Error VThingTV :=
  let keyArr := Split VThingID '/'
  match index1 keyArr with
  | .error e => .error e
  | .ok k1 =>
    match CreateCompositeKey vThingTVObject [vThingTVPrefix, index0 keyArr, k1] with
    | none => .error (.InvalidKey ("Error to create composite key of" ++ VThingID))
    | some key =>
      match GetPrivateData s CollectionvThingTVs key with
      | none => .error (.NotFound ("VThing " ++ VThingID ++ " not exists"))
      | some byteData => Unmarshal h.unmarshalVThingTV (some byteData)

def DeleteVThingFromThingVisor (h : Host) (ctx : Context) (ThingVisorID vThingData : String)
    (s : State) : Except Error State :=
  match GetPrivateData s CollectionThingVisors ThingVisorID with
  | none =>
    .error (.NotFound ("WARNING Add fails - ThingVisor " ++ ThingVisorID ++ " not exist"))
  | some thingVisorByte =>
    match Unmarshal h.unmarshalThingVisor (some thingVisorByte) with
    | .error e => .error e
    | .ok thingVisor =>
      if thingVisor.Status ≠ STATUS_RUNNING then
        .error (.InvalidState ("WARNING Add fails - ThingVisor " ++ ThingVisorID ++ " is not ready"))
      else
        let VThingByte := vThingData
        match Unmarshal h.unmarshalVThingTV (some VThingByte) with
        | .error e => .error e
        | .ok VThing =>
          let VThingID := VThing.ID
          let keyArr := Split VThingID '/'
          if index0 keyArr ≠ ThingVisorID then
            .error (.InvalidKey ("WARNING Add fails - vThingID '" ++ VThingID ++ "' not valid"))
          else
            match index1 keyArr with
            | .error e => .error e
            | .ok k1 =>
              match CreateCompositeKey vThingTVObject [vThingTVPrefix, index0 keyArr, k1] with
              | none => .error (.Store "invalid composite key attribute")
              | some key =>
                match DelPrivateData s CollectionvThingTVs key with
                | .error e => .error e
                | .ok s1 =>
                  let userID := ctx.userID
                  let userMSPID := ctx.userMSPID
                  SetHistory ctx "DeleteVThingFromThingVisor"
                    [ { StartNode := userMSPID, EndNode := "user-" ++ userID, Delete := false },
                      { StartNode := "thingvisor-" ++ ThingVisorID,
                        EndNode := "vthing-" ++ VThingID, Delete := true } ]
                    userID userMSPID s1

/-! ## Flavour -/

def AddFlavour (h : Host) (ctx : Context) (flavourID : String) (s : State) : Except Error State :=
  match GetPrivateData s CollectionFlavours flavourID with
  | some _ =>
    .error (.AlreadyExists ("WARNING Add fails - Flavour " ++ flavourID ++ " already exists"))
  | none =>
    let data := h.marshalFlavour
      { FlavourID := flavourID
        FlavourParams := ""
        ImageName := []
        FlavourDescription := ""
        CreationTime := ""
        Status := STATUS_PENDING
        YamlFiles := [] }
    match PutPrivateData s CollectionFlavours flavourID data with
    | .error e => .error e
    | .ok s1 =>
      let userID := ctx.userID
      let userMSPID := ctx.userMSPID
      SetHistory ctx "AddFlavour"
        [ { StartNode := userMSPID, EndNode := "user-" ++ userID, Delete := false },
          { StartNode := "user-" ++ userID, EndNode := "flavour-" ++ flavourID, Delete := false } ]
        userID userMSPID s1

def UpdateFlavour (ctx : Context) (flavourID flavourData : String) (s : State) :
    Except Error State :=
  match GetPrivateData s CollectionFlavours flavourID with
  | none => .error (.NotFound ("Update Flavour fails - Flavour " ++ flavourID ++ " not exist"))
  | some _ =>
    match PutPrivateData s CollectionFlavours flavourID flavourData with
    | .error e => .error e
    | .ok s1 =>
      let userID := ctx.userID
      let userMSPID := ctx.userMSPID
      SetHistory ctx "UpdateFlavour"
        [ { StartNode := userMSPID, EndNode := "user-" ++ userID, Delete := false },
          { StartNode := "user-" ++ userID, EndNode := "flavour-" ++ flavourID, Delete := false } ]
        userID userMSPID s1

def DeleteFlavour (ctx : Context) (flavourID : String) (s : State) : Except Error State :=
  match GetPrivateData s CollectionFlavours flavourID with
  | none => .error (.NotFound ("Delete Flavour fails - Flavour " ++ flavourID ++ " not exist"))
  | some _ =>
    match DelPrivateData s CollectionFlavours flavourID with
    | .error e => .error e
    | .ok s1 =>
      let userID := ctx.userID
      let userMSPID := ctx.userMSPID
      SetHistory ctx "DeleteFlavour"
        [ { StartNode := userMSPID, EndNode := "user-" ++ userID, Delete := false },
          { StartNode := "user-" ++ userID, EndNode := "flavour-" ++ flavourID, Delete := true } ]
        userID userMSPID s1

def GetAllFlavours (h : Host) (s : State) : Except Error (List Flavour) :=
  match GetPrivateDataByRange s CollectionFlavours "" "" with
  | .error e => .error e
  | .ok flavourIterator =>
    collectLoop h.unmarshalFlavour (nextResults false h.queryBatch flavourIterator) []

/-- The error of `json.Unmarshal` is assigned and not looked at. -/
def GetFlavour (h : Host) (s : State) (flavourID : String) : Except Error Flavour :=
  match GetPrivateData s CollectionFlavours flavourID with
  | none => .error (.NotFound ("Get Flavour fails - Flavour " ++ flavourID ++ " not exist"))
  | some byteData =>
    match Unmarshal h.unmarshalFlavour (some byteData) with
    | .error _ => .ok (h.flavourAfterError byteData)
    | .ok flavour => .ok flavour

/-! ## VirtualSilo -/

def AddVirtualSilo (h : Host) (ctx : Context) (VSiloID flavourID : String) (s : State) :
    Except Error State :=
  let keyArr := Split VSiloID '_'
  match index1 keyArr with
  | .error e => .error e
  | .ok k1 =>
    match CreateCompositeKey vSiloObject [vSiloPrefix, index0 keyArr, k1] with
    | none => .error (.InvalidKey ("Generate key of " ++ VSiloID ++ " failed."))
    | some key =>
      match GetPrivateData s CollectionvSilos key with
      | some _ =>
        .error (.AlreadyExists ("WARNING Add fails - VirtualSilo " ++ VSiloID ++ " already exists"))
      | none =>
        let data := h.marshalVirtualSilo
          { VSiloID := VSiloID
            AdditionalServicesNames := []
            AdditionalDeploymentsNames := []
            Status := STATUS_PENDING }
        match PutPrivateData s CollectionvSilos key data with
        | .error e => .error e
        | .ok s1 =>
          let userID := ctx.userID
          let userMSPID := ctx.userMSPID
          SetHistory ctx "AddVirtualSilo"
            [ { StartNode := userMSPID, EndNode := "user-" ++ userID, Delete := false },
              { StartNode := "user-" ++ userID, EndNode := "silo-" ++ VSiloID, Delete := false },
              { StartNode := "flavour-" ++ flavourID, EndNode := "silo-" ++ VSiloID,
                Delete := false } ]
            userID userMSPID s1

def UpdateVirtualSilo (ctx : Context) (VSiloID SiloData : String) (s : State) :
    Except Error State :=
  let keyArr := Split VSiloID '_'
  match index1 keyArr with
  | .error e => .error e
  | .ok k1 =>
    match CreateCompositeKey vSiloObject [vSiloPrefix, index0 keyArr, k1] with
    | none => .error (.InvalidKey ("Generate key of " ++ VSiloID ++ " failed."))
    | some key =>
      match GetPrivateData s CollectionvSilos key with
      | none =>
        .error (.NotFound ("Update VirtualSilo fails - VirtualSilo " ++ VSiloID ++ " not exist"))
      | some _ =>
        match PutPrivateData s CollectionvSilos key SiloData with
        | .error e => .error e
        | .ok s1 =>
          let userID := ctx.userID
          let userMSPID := ctx.userMSPID
          SetHistory ctx "UpdateVirtualSilo"
            [ { StartNode := userMSPID, EndNode := "user-" ++ userID, Delete := false },
              { StartNode := "user-" ++ userID, EndNode := "silo-" ++ VSiloID, Delete := false } ]
            userID userMSPID s1

def GetAllVirtualSilos (h : Host) (s : State) : Except Error (List VirtualSilo) :=
  match GetPrivateDataByRange s CollectionvSilos "" "" with
  | .error e => .error e
  | .ok siloIterator =>
    collectLoop h.unmarshalVirtualSilo (nextResults false h.queryBatch siloIterator) []

def GetVirtualSilo (h : Host) (s : State) (VSiloID : String) : Except Error VirtualSilo :=
  let keyArr := Split VSiloID '_'
  match index1 keyArr with
  | .error e => .error e
  | .ok k1 =>
    match CreateCompositeKey vSiloObject [vSiloPrefix, index0 keyArr, k1] with
    | none => .error (.InvalidKey ("Generate key of " ++ VSiloID ++ " failed."))
    | some key =>
      match GetPrivateData s CollectionvSilos key with
      | none =>
        .error (.NotFound ("Get VirtualSilo fails - VirtualSilo " ++ VSiloID ++ " not exist"))
      | some byteData => Unmarshal h.unmarshalVirtualSilo (some byteData)

def GetVirtualSilosByTenantID (h : Host) (s : State) (TenantID : String) :
    Except Error (List VirtualSilo) :=
  match GetPrivateDataByPartialCompositeKey s CollectionvSilos vSiloObject [vSiloPrefix, TenantID]
  with
  | .error e => .error e
  | .ok resultsIterator =>
    collectLoop h.unmarshalVirtualSilo (nextResults false h.queryBatch resultsIterator) []

/-- The loop of `DeleteVirtualSilo` over `GetStringArgs()[1:]`: one membership
key deleted and one edge appended per argument. -/
def deleteMembershipLoop (VSiloID k0 k1 : String) :
    List String → State → List GraphNode → Except Error (State × List GraphNode)
  | [], s, graphNode => .ok (s, graphNode)
  | vThingID :: rest, s, graphNode =>
    match CreateCompositeKey vThingVSiloObject [vThingVSiloPrefix, k0, k1, vThingID] with
    | none => .error (.InvalidKey ("Generate key of " ++ VSiloID ++ vThingID ++ " failed."))
    | some key =>
      match DelPrivateData s CollectionvThingVSilos key with
      | .error _ => .error (.Store ("Warning - Delete VThing" ++ vThingID ++ " Failed."))
      | .ok s1 =>
        deleteMembershipLoop VSiloID k0 k1 rest s1
          (graphNode ++
            [{ StartNode := "silo-" ++ VSiloID, EndNode := "vthing-" ++ vThingID, Delete := true }])

def DeleteVirtualSilo (ctx : Context) (VSiloID : String) (s : State) : Except Error State :=
  let keyArr := Split VSiloID '_'
  let userID := ctx.userID
  let userMSPID := ctx.userMSPID
  match index1 keyArr with
  | .error e => .error e
  | .ok k1 =>
    let graphNode : List GraphNode :=
      [ { StartNode := userMSPID, EndNode := "user-" ++ userID, Delete := false },
        { StartNode := "user-" ++ userID, EndNode := "silo-" ++ VSiloID, Delete := true },
        { StartNode := "flavour-" ++ k1, EndNode := "silo-" ++ VSiloID, Delete := true } ]
    match argsFrom1 ctx with
    | .error e => .error e
    | .ok args =>
      match deleteMembershipLoop VSiloID (index0 keyArr) k1 args s graphNode with
      | .error e => .error e
      | .ok (s1, graphNode) =>
        match CreateCompositeKey vSiloObject [vSiloPrefix, index0 keyArr, k1] with
        | none => .error (.InvalidKey ("Generate key of " ++ VSiloID ++ " failed."))
        | some key =>
          match DelPrivateData s1 CollectionvSilos key with
          | .error _ => .error (.Store ("Warning - Delete VirtualSilo " ++ VSiloID ++ " Failed."))
          | .ok s2 => SetHistory ctx "DeleteVirtualSilo" graphNode userID userMSPID s2

/-! ## Membership (VThingVSilo) -/

def AddVThingVSilo (ctx : Context) (VSiloID VThingID Data : String) (s : State) :
    Except Error State :=
  let keyArr := Split VSiloID '_'
  match index1 keyArr with
  | .error e => .error e
  | .ok k1 =>
    match CreateCompositeKey vThingVSiloObject [vThingVSiloPrefix, index0 keyArr, k1, VThingID]
    with
    | none => .error (.InvalidKey ("Generate key of " ++ VSiloID ++ VThingID ++ " failed."))
    | some key =>
      match PutPrivateData s CollectionvThingVSilos key Data with
      | .error e => .error e
      | .ok s1 =>
        let userID := ctx.userID
        let userMSPID := ctx.userMSPID
        SetHistory ctx "AddVThingVSilo"
          [ { StartNode := userMSPID, EndNode := "user-" ++ userID, Delete := false },
            { StartNode := "user-" ++ userID, EndNode := "silo-" ++ VSiloID, Delete := false },
            { StartNode := "silo-" ++ VSiloID, EndNode := "vthing-" ++ VThingID, Delete := false } ]
          userID userMSPID s1

def DeleteVThingVSilo (ctx : Context) (VSiloID VThingID : String) (s : State) :
    Except Error State :=
  let keyArr := Split VSiloID '_'
  match index1 keyArr with
  | .error e => .error e
  | .ok k1 =>
    match CreateCompositeKey vThingVSiloObject [vThingVSiloPrefix, index0 keyArr, k1, VThingID]
    with
    | none => .error (.InvalidKey ("Generate key of " ++ VSiloID ++ VThingID ++ " failed."))
    | some key =>
      match DelPrivateData s CollectionvThingVSilos key with
      | .error e => .error e
      | .ok s1 =>
        let userID := ctx.userID
        let userMSPID := ctx.userMSPID
        SetHistory ctx "DeleteVThingVSilo"
          [ { StartNode := userMSPID, EndNode := "user-" ++ userID, Delete := false },
            { StartNode := "user-" ++ userID, EndNode := "silo-" ++ VSiloID, Delete := false },
            { StartNode := "silo-" ++ VSiloID, EndNode := "vthing-" ++ VThingID, Delete := true } ]
          userID userMSPID s1

def GetVThingVSilosByVSiloID (h : Host) (s : State) (VSiloID : String) :
    Except Error (List VThingVSilo) :=
  let keyArr := Split VSiloID '_'
  match index1 keyArr with
  | .error e => .error e
  | .ok k1 =>
    match GetPrivateDataByPartialCompositeKey s CollectionvThingVSilos vThingVSiloObject
        [vThingVSiloPrefix, index0 keyArr, k1] with
    | .error e => .error e
    | .ok resultsIterator =>
      collectLoop h.unmarshalVThingVSilo (nextResults false h.queryBatch resultsIterator) []

def GetVThingVSilosByTenantID (h : Host) (s : State) (TenantID : String) :
    Except Error (List VThingVSilo) :=
  match GetPrivateDataByPartialCompositeKey s CollectionvThingVSilos vThingVSiloObject
      [vThingVSiloPrefix, TenantID] with
  | .error e => .error e
  | .ok resultsIterator =>
    collectLoop h.unmarshalVThingVSilo (nextResults false h.queryBatch resultsIterator) []

def GetVThingVSilo (h : Host) (s : State) (VSiloID VThingID : String) :
    Except Error (List VThingVSilo) :=
  let keyArr := Split VSiloID '_'
  match index1 keyArr with
  | .error e => .error e
  | .ok k1 =>
    match GetPrivateDataByPartialCompositeKey s CollectionvThingVSilos vThingVSiloObject
        [vThingVSiloPrefix, index0 keyArr, k1, VThingID] with
    | .error e => .error e
    | .ok resultsIterator =>
      collectLoop h.unmarshalVThingVSilo (nextResults false h.queryBatch resultsIterator) []

/-! ## Invocations -/

/-- A call of one of the transaction functions of the contract. -/
inductive Invocation
  | CreateThingVisor (id JSONstr : String)
  | UpdateThingVisor (id JSONstr : String)
  | UpdateThingVisorPartial (id tvDescription params : String)
  | GetThingVisor (id : String)
  | ThingVisorRunning (id : String)
  | DeleteThingVisor (ThingVisorID : String)
  | StopThingVisor (ThingVisorID : String)
  | GetAllThingVisors
  | GetAllVThings
  | GetVThingByID (VThingID : String)
  | GetAllVThingOfThingVisor (ThingVisorID : String)
  | GetThingVisorWithVThingKeys (ThingVisorID : String)
  | AddVThingToThingVisor (ThingVisorID vThingData : String)
  | UpdateVThingOfThingVisor (VThingID vThingData : String)
  | GetVThingOfThingVisor (VThingID : String)
  | DeleteVThingFromThingVisor (ThingVisorID vThingData : String)
  | AddFlavour (flavourID : String)
  | UpdateFlavour (flavourID flavourData : String)
  | DeleteFlavour (flavourID : String)
  | GetAllFlavours
  | GetFlavour (flavourID : String)
  | AddVirtualSilo (VSiloID flavourID : String)
  | UpdateVirtualSilo (VSiloID SiloData : String)
  | GetAllVirtualSilos
  | GetVirtualSilo (VSiloID : String)
  | GetVirtualSilosByTenantID (TenantID : String)
  | DeleteVirtualSilo (VSiloID : String)
  | AddVThingVSilo (VSiloID VThingID Data : String)
  | DeleteVThingVSilo (VSiloID VThingID : String)
  | GetVThingVSilosByVSiloID (VSiloID : String)
  | GetVThingVSilosByTenantID (TenantID : String)
  | GetVThingVSilo (VSiloID VThingID : String)
  deriving DecidableEq, Repr

/-- Value returned by a successful call. -/
inductive Response
  | done
  | thingVisor (t : ThingVisor)
  | thingVisors (ts : List ThingVisor)
  | thingVisorWithVThingKey (t : ThingVisorWithVThingKey)
  | vThing (v : VThingTV)
  | vThings (vs : List VThingTV)
  | flavour (f : Flavour)
  | flavours (fs : List Flavour)
  | virtualSilo (v : VirtualSilo)
  | virtualSilos (vs : List VirtualSilo)
  | vThingVSilos (ms : List VThingVSilo)
  deriving DecidableEq, Repr

/-- Name of the transaction function. -/
def Invocation.name : Invocation → String
  | .CreateThingVisor .. => "CreateThingVisor"
  | .UpdateThingVisor .. => "UpdateThingVisor"
  | .UpdateThingVisorPartial .. => "UpdateThingVisorPartial"
  | .GetThingVisor .. => "GetThingVisor"
  | .ThingVisorRunning .. => "ThingVisorRunning"
  | .DeleteThingVisor .. => "DeleteThingVisor"
  | .StopThingVisor .. => "StopThingVisor"
  | .GetAllThingVisors => "GetAllThingVisors"
  | .GetAllVThings => "GetAllVThings"
  | .GetVThingByID .. => "GetVThingByID"
  | .GetAllVThingOfThingVisor .. => "GetAllVThingOfThingVisor"
  | .GetThingVisorWithVThingKeys .. => "GetThingVisorWithVThingKeys"
  | .AddVThingToThingVisor .. => "AddVThingToThingVisor"
  | .UpdateVThingOfThingVisor .. => "UpdateVThingOfThingVisor"
  | .GetVThingOfThingVisor .. => "GetVThingOfThingVisor"
  | .DeleteVThingFromThingVisor .. => "DeleteVThingFromThingVisor"
  | .AddFlavour .. => "AddFlavour"
  | .UpdateFlavour .. => "UpdateFlavour"
  | .DeleteFlavour .. => "DeleteFlavour"
  | .GetAllFlavours => "GetAllFlavours"
  | .GetFlavour .. => "GetFlavour"
  | .AddVirtualSilo .. => "AddVirtualSilo"
  | .UpdateVirtualSilo .. => "UpdateVirtualSilo"
  | .GetAllVirtualSilos => "GetAllVirtualSilos"
  | .GetVirtualSilo .. => "GetVirtualSilo"
  | .GetVirtualSilosByTenantID .. => "GetVirtualSilosByTenantID"
  | .DeleteVirtualSilo .. => "DeleteVirtualSilo"
  | .AddVThingVSilo .. => "AddVThingVSilo"
  | .DeleteVThingVSilo .. => "DeleteVThingVSilo"
  | .GetVThingVSilosByVSiloID .. => "GetVThingVSilosByVSiloID"
  | .GetVThingVSilosByTenantID .. => "GetVThingVSilosByTenantID"
  | .GetVThingVSilo .. => "GetVThingVSilo"

/-- The mutating transaction functions: the Create/Update/Stop/Delete/Add
functions; the `Get*` functions and `ThingVisorRunning` are read-only. -/
def Invocation.mutating : Invocation → Bool
  | .CreateThingVisor .. | .UpdateThingVisor .. | .UpdateThingVisorPartial ..
  | .DeleteThingVisor .. | .StopThingVisor ..
  | .AddVThingToThingVisor .. | .UpdateVThingOfThingVisor .. | .DeleteVThingFromThingVisor ..
  | .AddFlavour .. | .UpdateFlavour .. | .DeleteFlavour ..
  | .AddVirtualSilo .. | .UpdateVirtualSilo .. | .DeleteVirtualSilo ..
  | .AddVThingVSilo .. | .DeleteVThingVSilo .. => true
  | _ => false

/-- Outcome of a function that returns only an error: the state it built. -/
def written (r : Except Error State) : Except Error (Response × State) :=
  match r with
  | .ok s' => .ok (.done, s')
  | .error e => .error e

/-- Outcome of a function that makes no write and sets no event: its value,
with the ledger it was given. -/
def answered {α : Type} (f : α → Response) (s : State) (r : Except Error α) :
    Except Error (Response × State) :=
  match r with
  | .ok a => .ok (f a, s)
  | .error e => .error e

/-- Execution of one transaction: the returned value and the ledger after
it. -/
def invoke (h : Host) (ctx : Context) (call : Invocation) (s : State) :
    Except Error (Response × State) :=
  match call with
  | .CreateThingVisor id JSONstr => written (CreateThingVisor ctx id JSONstr s)
  | .UpdateThingVisor id JSONstr => written (UpdateThingVisor ctx id JSONstr s)
  | .UpdateThingVisorPartial id tvDescription params =>
    written (UpdateThingVisorPartial h ctx id tvDescription params s)
  | .GetThingVisor id => answered .thingVisor s (GetThingVisor h s id)
  | .ThingVisorRunning id => answered (fun _ => .done) s (ThingVisorRunning h s id)
  | .DeleteThingVisor ThingVisorID => written (DeleteThingVisor ctx ThingVisorID s)
  | .StopThingVisor ThingVisorID => written (StopThingVisor h ctx ThingVisorID s)
  | .GetAllThingVisors => answered .thingVisors s (GetAllThingVisors h s)
  | .GetAllVThings => answered .vThings s (GetAllVThings h s)
  | .GetVThingByID VThingID => answered .vThing s (GetVThingByID h s VThingID)
  | .GetAllVThingOfThingVisor ThingVisorID =>
    answered .vThings s (GetAllVThingOfThingVisor h s ThingVisorID)
  | .GetThingVisorWithVThingKeys ThingVisorID =>
    answered .thingVisorWithVThingKey s (GetThingVisorWithVThingKeys h s ThingVisorID)
  | .AddVThingToThingVisor ThingVisorID vThingData =>
    written (AddVThingToThingVisor h ctx ThingVisorID vThingData s)
  | .UpdateVThingOfThingVisor VThingID vThingData =>
    written (UpdateVThingOfThingVisor h ctx VThingID vThingData s)
  | .GetVThingOfThingVisor VThingID => answered .vThing s (GetVThingOfThingVisor h s VThingID)
  | .DeleteVThingFromThingVisor ThingVisorID vThingData =>
    written (DeleteVThingFromThingVisor h ctx ThingVisorID vThingData s)
  | .AddFlavour flavourID => written (AddFlavour h ctx flavourID s)
  | .UpdateFlavour flavourID flavourData => written (UpdateFlavour ctx flavourID flavourData s)
  | .DeleteFlavour flavourID => written (DeleteFlavour ctx flavourID s)
  | .GetAllFlavours => answered .flavours s (GetAllFlavours h s)
  | .GetFlavour flavourID => answered .flavour s (GetFlavour h s flavourID)
  | .AddVirtualSilo VSiloID flavourID => written (AddVirtualSilo h ctx VSiloID flavourID s)
  | .UpdateVirtualSilo VSiloID SiloData => written (UpdateVirtualSilo ctx VSiloID SiloData s)
  | .GetAllVirtualSilos => answered .virtualSilos s (GetAllVirtualSilos h s)
  | .GetVirtualSilo VSiloID => answered .virtualSilo s (GetVirtualSilo h s VSiloID)
  | .GetVirtualSilosByTenantID TenantID =>
    answered .virtualSilos s (GetVirtualSilosByTenantID h s TenantID)
  | .DeleteVirtualSilo VSiloID => written (DeleteVirtualSilo ctx VSiloID s)
  | .AddVThingVSilo VSiloID VThingID Data => written (AddVThingVSilo ctx VSiloID VThingID Data s)
  | .DeleteVThingVSilo VSiloID VThingID => written (DeleteVThingVSilo ctx VSiloID VThingID s)
  | .GetVThingVSilosByVSiloID VSiloID =>
    answered .vThingVSilos s (GetVThingVSilosByVSiloID h s VSiloID)
  | .GetVThingVSilosByTenantID TenantID =>
    answered .vThingVSilos s (GetVThingVSilosByTenantID h s TenantID)
  | .GetVThingVSilo VSiloID VThingID =>
    answered .vThingVSilos s (GetVThingVSilo h s VSiloID VThingID)

/-- Ledger after a transaction: the one it built when it succeeded, the
untouched one when it returned an error or panicked. -/
def ledgerAfter (s : State) (r : Except Error (Response × State)) : State :=
  match r with
  | .ok (_, s') => s'
  | .error _ => s

/-! ## A concrete host

A small JSON host used to evaluate the contract on concrete calls: it renders
documents as JSON text and decodes the bodies listed below. -/

def sampleQuote (s : String) : String := "\"" ++ s ++ "\""

def sampleArray (xs : List String) : String :=
  match xs with
  | [] => "null"
  | _ => "[" ++ ",".intercalate xs ++ "]"

def sampleField (name value : String) : String := sampleQuote name ++ ":" ++ value

def sampleObject (fields : List String) : String :=
  "\x7b" ++ ",".intercalate fields ++ "\x7d"

def sampleBool (b : Bool) : String := if b then "true" else "false"

def sampleMQTTProfile : Option MQTTProfile → String
  | none => "null"
  | some m =>
    sampleObject [sampleField "ip" (sampleQuote m.IP), sampleField "port" (sampleQuote m.Port)]

def sampleMarshalVThingTV (v : VThingTV) : String :=
  sampleObject
    [ sampleField "label" (sampleQuote v.Label),
      sampleField "id" (sampleQuote v.ID),
      sampleField "description" (sampleQuote v.Description),
      sampleField "type" (sampleQuote v.Type_),
      sampleField "endpoint" (sampleQuote v.Endpoint) ]

def sampleMarshalThingVisor (t : ThingVisor) : String :=
  sampleObject
    [ sampleField "thingVisorID" (sampleQuote t.ThingVisorID),
      sampleField "creationTime" (sampleQuote t.CreationTime),
      sampleField "tvDescription" (sampleQuote t.TvDescription),
      sampleField "status" (sampleQuote t.Status),
      sampleField "debug_mode" (sampleBool t.DebugMode),
      sampleField "ipAddress" (sampleQuote t.IpAddress),
      sampleField "deploymentName" (sampleQuote t.DeploymentName),
      sampleField "serviceName" (sampleQuote t.ServiceName),
      sampleField "containerID" (sampleQuote t.ContainerID),
      sampleField "vThings" (sampleArray (t.VThings.map sampleMarshalVThingTV)),
      sampleField "params" (sampleQuote t.Params),
      sampleField "MQTTDataBroker" (sampleMQTTProfile t.MQTTDataBroker),
      sampleField "MQTTControlBroker" (sampleMQTTProfile t.MQTTControlBroker),
      sampleField "additionalServicesNames" (sampleArray (t.AdditionalServicesNames.map sampleQuote)),
      sampleField "additionalDeploymentsNames"
        (sampleArray (t.AdditionalDeploymentsNames.map sampleQuote)) ]

def sampleMarshalFlavour (f : Flavour) : String :=
  sampleObject
    [ sampleField "flavourID" (sampleQuote f.FlavourID),
      sampleField "flavourParams" (sampleQuote f.FlavourParams),
      sampleField "imageName" (sampleArray (f.ImageName.map sampleQuote)),
      sampleField "flavourDescription" (sampleQuote f.FlavourDescription),
      sampleField "creationTime" (sampleQuote f.CreationTime),
      sampleField "status" (sampleQuote f.Status),
      sampleField "yamlFiles" (sampleArray (f.YamlFiles.map sampleQuote)) ]

def sampleMarshalVirtualSilo (v : VirtualSilo) : String :=
  sampleObject
    [ sampleField "vSiloID" (sampleQuote v.VSiloID),
      sampleField "vSiloName" (sampleQuote v.VSiloName),
      sampleField "creationTime" (sampleQuote v.CreationTime),
      sampleField "containerName" (sampleQuote v.ContainerName),
      sampleField "containerID" (sampleQuote v.ContainerID),
      sampleField "deploymentName" (sampleQuote v.DeploymentName),
      sampleField "serviceName" (sampleQuote v.ServiceName),
      sampleField "ipAddress" (sampleQuote v.IPAddress),
      sampleField "flavourID" (sampleQuote v.FlavourID),
      sampleField "flavourParams" (sampleQuote v.FlavourParams),
      sampleField "tenantID" (sampleQuote v.TenantID),
      sampleField "status" (sampleQuote v.Status),
      sampleField "port" (sampleQuote v.Port),
      sampleField "MQTTDataBroker" (sampleMQTTProfile v.MQTTDataBroker),
      sampleField "MQTTControlBroker" (sampleMQTTProfile v.MQTTControlBroker),
      sampleField "additionalServicesNames" (sampleArray (v.AdditionalServicesNames.map sampleQuote)),
      sampleField "additionalDeploymentsNames"
        (sampleArray (v.AdditionalDeploymentsNames.map sampleQuote)) ]

/-- Decoder of the sample host: the listed bodies, then the renderings of the
listed values. -/
def sampleDecode {α : Type} (marshal : α → String) (bodies : List (String × α))
    (values : List α) (b : String) : Option α :=
  match bodies.find? (fun p => p.1 = b) with
  | some p => some p.2
  | none => values.find? (fun x => marshal x = b)

/-- Body of ThingVisor `tv1`, running. -/
def tv1RunningJSON : String :=
  "\x7b\"thingVisorID\":\"tv1\",\"status\":\"running\"\x7d"

/-- Body of ThingVisor `tv1`, pending. -/
def tv1PendingJSON : String :=
  "\x7b\"thingVisorID\":\"tv1\",\"status\":\"pending\"\x7d"

/-- A running ThingVisor body whose `thingVisorID` is not `tv1`. -/
def otherRunningJSON : String :=
  "\x7b\"thingVisorID\":\"other\",\"status\":\"running\"\x7d"

def tv1Running : ThingVisor := { ThingVisorID := "tv1", Status := "running" }
def tv1Pending : ThingVisor := { ThingVisorID := "tv1", Status := "pending" }
def otherRunning : ThingVisor := { ThingVisorID := "other", Status := "running" }

/-- VThing body with logical id `tv1/t1`. -/
def t1JSON : String := "\x7b\"id\":\"tv1/t1\"\x7d"

/-- VThing body whose logical id `tv1` has a single segment. -/
def oneSegmentJSON : String := "\x7b\"id\":\"tv1\"\x7d"

/-- VThing body with logical id `tv2/t1`. -/
def foreignJSON : String := "\x7b\"id\":\"tv2/t1\"\x7d"

/-- Membership body of thing `t1` in silo `tenantA_flavourX`. -/
def memberJSON : String :=
  "\x7b\"tenantID\":\"tenantA\",\"vSiloID\":\"tenantA_flavourX\",\"vThingID\":\"t1\"\x7d"

def sampleHost : Host where
  unmarshalThingVisor :=
    sampleDecode sampleMarshalThingVisor
      [(tv1RunningJSON, tv1Running), (tv1PendingJSON, tv1Pending), (otherRunningJSON, otherRunning)]
      [ { tv1Running with Status := STATUS_STOPPING },
        { tv1Running with TvDescription := "relay" } ]
  unmarshalVThingTV :=
    sampleDecode sampleMarshalVThingTV
      [(t1JSON, { ID := "tv1/t1" }), (oneSegmentJSON, { ID := "tv1" }),
        (foreignJSON, { ID := "tv2/t1" })] []
  unmarshalFlavour :=
    sampleDecode sampleMarshalFlavour [] [{ FlavourID := "flavourX", Status := STATUS_PENDING }]
  unmarshalVirtualSilo :=
    sampleDecode sampleMarshalVirtualSilo []
      [{ VSiloID := "tenantA_flavourX", Status := STATUS_PENDING }]
  unmarshalVThingVSilo :=
    sampleDecode (fun _ => "") 
      [(memberJSON, { TenantID := "tenantA", VSiloID := "tenantA_flavourX", VThingID := "t1" })] []
  flavourAfterError := fun _ => {}
  marshalThingVisor := sampleMarshalThingVisor
  marshalFlavour := sampleMarshalFlavour
  marshalVirtualSilo := sampleMarshalVirtualSilo
  queryBatch := 100

/-- Context of the sample calls. -/
def sampleContext (args : List String) : Context :=
  { TxID := "tx1", Time := "seconds:1", userID := "alice", userMSPID := "Org1MSP",
    StringArgs := args }

/-- State after a transaction: the writes and the event of a call that returned
an error, or panicked, are discarded by the host. -/
def State.after (s : State) (r : Except Error State) : State :=
  match r with
  | .ok s' => s'
  | .error _ => s

/-- Ledger holding ThingVisor `tv1`, running. -/
def stateTv1Running : State := { thingVisors := [("tv1", tv1RunningJSON)] }

/-- Ledger holding ThingVisor `tv1`, pending. -/
def stateTv1Pending : State := { thingVisors := [("tv1", tv1PendingJSON)] }

/-- Ledger after `AddVThingVSilo("tenantA_flavourX", "t1", memberJSON)` on the
empty ledger. -/
def stateOneMember : State :=
  State.after {}
    (AddVThingVSilo (sampleContext ["AddVThingVSilo", "tenantA_flavourX", "t1", memberJSON])
      "tenantA_flavourX" "t1" memberJSON {})

/-- Ledger after `DeleteVirtualSilo("tenantA_flavourX")` accompanied by `t1`. -/
def stateOneMemberDeleted : State :=
  stateOneMember.after
    (DeleteVirtualSilo (sampleContext ["DeleteVirtualSilo", "tenantA_flavourX", "t1"])
      "tenantA_flavourX" stateOneMember)

/-- Range test of a prefix scan: from the partial key to the partial key
followed by U+10FFFF. -/
def inPartialRange (partialKey key : String) : Bool :=
  !keyLt key partialKey && keyLt key (partialKey ++ String.mk [maxUnicodeRuneValue])

/-- Documents decoded from scan results, in scan order. -/
def decodeAll {α : Type} (dec : String → Option α) (rs : Collection) : List α :=
  rs.filterMap (fun kv => (Unmarshal dec (some kv.2)).toOption)

/-- Every ThingVisor record sits under a non-empty key free of U+0000 and
U+10FFFF, and its body decodes to a ThingVisor that carries this key as its
`thingVisorID` and has no VThings of its own. -/
def ThingVisorsConsistent (h : Host) (s : State) : Prop :=
  ∀ kv ∈ s.thingVisors,
    kv.1 ≠ "" ∧ validateCompositeKeyAttribute kv.1 = true ∧
      ∃ t, Unmarshal h.unmarshalThingVisor (some kv.2) = .ok t ∧ t.ThingVisorID = kv.1 ∧
        t.VThings = []

/-- Every VThing record sits under the composite key of an owner segment and a
local segment, and its body decodes to a VThing whose `id` starts with the
owner segment. -/
def VThingsConsistent (h : Host) (s : State) : Prop :=
  ∀ kv ∈ s.vThingTVs,
    ∃ o l v, validateCompositeKeyAttribute o = true ∧ validateCompositeKeyAttribute l = true ∧
      kv.1 = compositeKey vThingTVObject [vThingTVPrefix, o, l] ∧
      Unmarshal h.unmarshalVThingTV (some kv.2) = .ok v ∧ index0 (Split v.ID '/') = o

/-- Ledger after `CreateThingVisor("tv1", tv1RunningJSON)` and
`AddVThingToThingVisor("tv1", t1JSON)` on the empty ledger. -/
def stateTv1WithT1 : State :=
  State.after stateTv1Running
    (AddVThingToThingVisor sampleHost (sampleContext ["AddVThingToThingVisor", "tv1", t1JSON])
      "tv1" t1JSON stateTv1Running)

/-- Ledger after `CreateThingVisor("tv1", otherRunningJSON)` on the empty
ledger: the body names another ThingVisor. -/
def stateMismatch : State :=
  State.after {}
    (CreateThingVisor (sampleContext ["CreateThingVisor", "tv1", otherRunningJSON]) "tv1"
      otherRunningJSON {})

/-- Ledger after `AddVThingToThingVisor("tv1", t1JSON)` on `stateMismatch`. -/
def stateMismatchWithT1 : State :=
  stateMismatch.after
    (AddVThingToThingVisor sampleHost (sampleContext ["AddVThingToThingVisor", "tv1", t1JSON])
      "tv1" t1JSON stateMismatch)

/-- Ledger after `CreateThingVisor("tv1", tv1RunningJSON)`,
`AddFlavour("flavourX")` and `AddVirtualSilo("tenantA_flavourX", "flavourX")`
on the empty ledger. -/
def stateOccupied : State :=
  let s1 := State.after {}
    (CreateThingVisor (sampleContext ["CreateThingVisor", "tv1", tv1RunningJSON]) "tv1"
      tv1RunningJSON {})
  let s2 := s1.after (AddFlavour sampleHost (sampleContext ["AddFlavour", "flavourX"]) "flavourX" s1)
  s2.after
    (AddVirtualSilo sampleHost (sampleContext ["AddVirtualSilo", "tenantA_flavourX", "flavourX"])
      "tenantA_flavourX" "flavourX" s2)

/-- The event `SetHistory` emits: its name, and the record carrying the
context's timestamp, transaction id, actor id and actor organisation id. -/
def provenance (ctx : Context) (EventName : String) (nodes : List GraphNode) :
    String × History :=
  (EventName,
    { EventName := EventName
      Time := ctx.Time
      TxID := ctx.TxID
      UserID := ctx.userID
      UserMSPID := ctx.userMSPID
      GraphNodes := nodes })

/-- The state with one more event, built from the context as `SetHistory`
does. -/
def State.withEvent (s : State) (ctx : Context) (EventName : String) (nodes : List GraphNode) :
    State :=
  { s with events := s.events ++ [provenance ctx EventName nodes] }

/-- The call `AddVThingVSilo(VSiloID, t, bodyOf t)` for each thing id of a list,
in order, each under its own context; the first failure stops the sequence. -/
def AddVThingVSiloEach (ctxOf : String → Context) (VSiloID : String) (bodyOf : String → String) :
    List String → State → Except Error State
  | [], s => .ok s
  | t :: rest, s =>
    match AddVThingVSilo (ctxOf t) VSiloID t (bodyOf t) s with
    | .error e => .error e
    | .ok s1 => AddVThingVSiloEach ctxOf VSiloID bodyOf rest s1

/-- Ledger after `AddVirtualSilo("tenantA_flavourX", "flavourX")` on the empty
ledger. -/
def stateSiloOnly : State :=
  State.after {}
    (AddVirtualSilo sampleHost (sampleContext ["AddVirtualSilo", "tenantA_flavourX", "flavourX"])
      "tenantA_flavourX" "flavourX" {})

/-- A thing id that holds the character U+0000. -/
def nulThing : String := String.mk ['t', minUnicodeRuneValue, '1']

/-- VThing body with logical id `tv1/t1` and a label. -/
def t1LabelledJSON : String := "\x7b\"label\":\"lamp\",\"id\":\"tv1/t1\"\x7d"

/-- Body of the running ThingVisor `a/b`, whose id holds the separator. -/
def slashRunningJSON : String :=
  "\x7b\"thingVisorID\":\"a/b\",\"status\":\"running\"\x7d"

/-- VThing body with logical id `a/b/t1`. -/
def slashThingJSON : String := "\x7b\"id\":\"a/b/t1\"\x7d"

/-- Body of ThingVisor `tv1`, running, that lists the VThing `tv1/t1` itself. -/
def tv1EnrichedJSON : String :=
  "\x7b\"thingVisorID\":\"tv1\",\"status\":\"running\",\"vThings\":[\x7b\"id\":\"tv1/t1\"\x7d]\x7d"

/-- Membership body of thing `t1` in silo `tenantA_flavourX`, with a creation
time. -/
def memberLaterJSON : String :=
  "\x7b\"tenantID\":\"tenantA\",\"vSiloID\":\"tenantA_flavourX\",\"creationTime\":\"later\",\"vThingID\":\"t1\"\x7d"

/-- The sample host, decoding some more bodies. -/
def sampleHost2 : Host :=
  { sampleHost with
    unmarshalThingVisor := fun b =>
      if b = slashRunningJSON then some { ThingVisorID := "a/b", Status := "running" }
      else if b = tv1EnrichedJSON then
        some { ThingVisorID := "tv1", Status := "running", VThings := [{ ID := "tv1/t1" }] }
      else sampleHost.unmarshalThingVisor b
    unmarshalVThingTV := fun b =>
      if b = t1LabelledJSON then some { Label := "lamp", ID := "tv1/t1" }
      else if b = slashThingJSON then some { ID := "a/b/t1" }
      else sampleHost.unmarshalVThingTV b }

/-- Ledger after `AddVirtualSilo("tenantA_flavourX", "flavourX")` on
`stateOneMember`: a pending silo with one membership. -/
def statePendingSiloMember : State :=
  stateOneMember.after
    (AddVirtualSilo sampleHost (sampleContext ["AddVirtualSilo", "tenantA_flavourX", "flavourX"])
      "tenantA_flavourX" "flavourX" stateOneMember)

/-- Ledger after `CreateThingVisor("a/b", slashRunningJSON)` on the empty
ledger. -/
def stateSlash : State :=
  State.after {}
    (CreateThingVisor (sampleContext ["CreateThingVisor", "a/b", slashRunningJSON]) "a/b"
      slashRunningJSON {})

/-- Ledgers reachable from the empty one by successful calls of the transaction
functions admitted by `allowed` (a failed call leaves the ledger as it is). -/
inductive Reachable (h : Host) (allowed : Invocation → Prop) : State → Prop
  | empty : Reachable h allowed {}
  | step {s s' : State} {ctx : Context} {call : Invocation} {x : Response} :
      Reachable h allowed s → allowed call → invoke h ctx call s = .ok (x, s') →
      Reachable h allowed s'

/-- Every call. -/
def anyCall : Invocation → Prop := fun _ => True

/-- The calls that keep the key of a VThing in step with the `id` of its body:
every call but an `UpdateVThingOfThingVisor(VThingID, body)` whose body decodes
to an `id` with other first two `/` segments than those of `VThingID`. -/
def updateKeepsSegments (h : Host) : Invocation → Prop
  | .UpdateVThingOfThingVisor VThingID vThingData =>
    ∀ v, Unmarshal h.unmarshalVThingTV (some vThingData) = .ok v →
      index0 (Split v.ID '/') = index0 (Split VThingID '/')
      ∧ index1 (Split v.ID '/') = index1 (Split VThingID '/')
  | _ => True

/-- Ledgers reachable from the empty one by successful calls admitted by
`allowed`, which sees the ledger and the context of the call. -/
inductive ReachableWhen (h : Host) (allowed : State → Context → Invocation → Prop) :
    State → Prop
  | empty : ReachableWhen h allowed {}
  | step {s s' : State} {ctx : Context} {call : Invocation} {x : Response} :
      ReachableWhen h allowed s → allowed s ctx call → invoke h ctx call s = .ok (x, s') →
      ReachableWhen h allowed s'

/-- The calls that leave no VThing without its owner: every call but
`UpdateVThingOfThingVisor` under an owner segment that is not stored,
`DeleteThingVisor` of an id (a valid key segment) with a VThing record in its
prefix range whose key is not among `GetStringArgs()[1:]`, and `UpdateThingVisor`
with an empty body (a write of an empty value is a delete) of an id (a valid
key segment) with a VThing record in its prefix range. -/
def keepsOwners (s : State) (ctx : Context) : Invocation → Prop
  | .UpdateVThingOfThingVisor VThingID _ =>
    (lookupKey (index0 (Split VThingID '/')) s.thingVisors).isSome = true
  | .DeleteThingVisor ThingVisorID =>
    validateCompositeKeyAttribute ThingVisorID = true →
    ∀ kv ∈ s.vThingTVs,
      inPartialRange (compositeKey vThingTVObject [vThingTVPrefix, ThingVisorID]) kv.1 = true →
      kv.1 ∈ ctx.StringArgs.drop 1
  | .UpdateThingVisor id JSONstr =>
    JSONstr ≠ "" ∨ validateCompositeKeyAttribute id = false ∨
      ∀ kv ∈ s.vThingTVs,
        inPartialRange (compositeKey vThingTVObject [vThingTVPrefix, id]) kv.1 = false
  | _ => True

/-- The functions that can remove a ThingVisor record. -/
def Invocation.mayRemoveThingVisor : Invocation → Bool
  | .DeleteThingVisor .. | .UpdateThingVisor .. => true
  | _ => false

/-- Every VThing record decodes, and its key is the composite key of the first
two `/` segments of the `id` of its body. -/
def VThingKeysFromIds (h : Host) (s : State) : Prop :=
  ∀ kv ∈ s.vThingTVs,
    ∃ v k1, Unmarshal h.unmarshalVThingTV (some kv.2) = .ok v ∧
      index1 (Split v.ID '/') = .ok k1 ∧
      kv.1 = compositeKey vThingTVObject [vThingTVPrefix, index0 (Split v.ID '/'), k1]

/-- Every VThing record sits under the composite key of an owner segment and a
local segment, both free of U+0000 and U+10FFFF, and a ThingVisor record is
stored under the owner segment. -/
def VThingOwnersStored (s : State) : Prop :=
  ∀ kv ∈ s.vThingTVs,
    ∃ o l, validateCompositeKeyAttribute o = true ∧ validateCompositeKeyAttribute l = true ∧
      kv.1 = compositeKey vThingTVObject [vThingTVPrefix, o, l] ∧
      (lookupKey o s.thingVisors).isSome = true

/-- Ledger after `CreateThingVisor("tv1", tv1RunningJSON)` on the empty
ledger. -/
def stateCreated : State :=
  State.after {}
    (CreateThingVisor (sampleContext ["CreateThingVisor", "tv1", tv1RunningJSON]) "tv1"
      tv1RunningJSON {})

/-- Ledger after `AddVThingToThingVisor("tv1", t1JSON)` on `stateCreated`. -/
def stateCreatedWithT1 : State :=
  stateCreated.after
    (AddVThingToThingVisor sampleHost (sampleContext ["AddVThingToThingVisor", "tv1", t1JSON])
      "tv1" t1JSON stateCreated)

/-- Ledger after `UpdateVThingOfThingVisor("tv2/x", t1JSON)` on the empty
ledger. -/
def stateStrayVThing : State :=
  State.after {}
    (UpdateVThingOfThingVisor sampleHost
      (sampleContext ["UpdateVThingOfThingVisor", "tv2/x", t1JSON]) "tv2/x" t1JSON {})

/-- The functions that write a VThing record. -/
def Invocation.writesVThing : Invocation → Bool
  | .AddVThingToThingVisor .. | .UpdateVThingOfThingVisor .. => true
  | _ => false

/-- Ledger after `DeleteThingVisor("tv1")`, accompanied by no child key, on
`stateCreatedWithT1`. -/
def stateOrphanedT1 : State :=
  stateCreatedWithT1.after
    (DeleteThingVisor (sampleContext ["DeleteThingVisor", "tv1"]) "tv1" stateCreatedWithT1)

/-- A silo id `a<U+0000>_b`, whose first segment the ledger refuses as a
composite-key attribute. -/
def nulSilo : String := String.mk ['a', minUnicodeRuneValue, '_', 'b']

/-- Ledger after `AddFlavour("flavourX")` on the empty ledger. -/
def stateFlavourAdded : State :=
  State.after {} (AddFlavour sampleHost (sampleContext ["AddFlavour", "flavourX"]) "flavourX" {})

/-- Ledger after `UpdateFlavour("flavourX", "oops")` on `stateFlavourAdded`:
the stored body is not JSON. -/
def stateFlavourUndecodable : State :=
  stateFlavourAdded.after
    (UpdateFlavour (sampleContext ["UpdateFlavour", "flavourX", "oops"]) "flavourX" "oops"
      stateFlavourAdded)

/-- Ledger after `CreateThingVisor("tv1", tv1EnrichedJSON)` on the empty
ledger: the stored ThingVisor lists a VThing, no VThing record is stored. -/
def stateEnriched : State :=
  State.after {}
    (CreateThingVisor (sampleContext ["CreateThingVisor", "tv1", tv1EnrichedJSON]) "tv1"
      tv1EnrichedJSON {})

/-- Ledger after `UpdateVThingOfThingVisor("tv1/t2", t1JSON)` on
`stateCreatedWithT1`: two VThing records under `tv1`. -/
def stateTwoThings : State :=
  stateCreatedWithT1.after
    (UpdateVThingOfThingVisor sampleHost
      (sampleContext ["UpdateVThingOfThingVisor", "tv1/t2", t1JSON]) "tv1/t2" t1JSON
      stateCreatedWithT1)

/-- The sample host on a peer that ships one result per fetch. -/
def sampleHostBatch1 : Host := { sampleHost with queryBatch := 1 }

/-- Ledger after `DeleteVirtualSilo("tenantA_flavourX")` accompanied by the
thing id `t1`, on `statePendingSiloMember`. -/
def stateSiloDeleted : State :=
  statePendingSiloMember.after
    (DeleteVirtualSilo (sampleContext ["DeleteVirtualSilo", "tenantA_flavourX", "t1"])
      "tenantA_flavourX" statePendingSiloMember)

/-- Ledger after `UpdateFlavour("flavourX", "")` on `stateFlavourAdded`. -/
def stateFlavourEmptied : State :=
  stateFlavourAdded.after
    (UpdateFlavour (sampleContext ["UpdateFlavour", "flavourX", ""]) "flavourX" ""
      stateFlavourAdded)

/-- Ledger after `UpdateVirtualSilo("tenantA_flavourX", "")` on
`stateSiloOnly`. -/
def stateSiloEmptied : State :=
  stateSiloOnly.after
    (UpdateVirtualSilo (sampleContext ["UpdateVirtualSilo", "tenantA_flavourX", ""])
      "tenantA_flavourX" "" stateSiloOnly)

/-- Ledger after `UpdateThingVisor("tv1", "")` on `stateCreated`. -/
def stateThingVisorEmptied : State :=
  stateCreated.after
    (UpdateThingVisor (sampleContext ["UpdateThingVisor", "tv1", ""]) "tv1" "" stateCreated)

/-- Ledger after `StopThingVisor("tv1")` on `stateCreatedWithT1`. -/
def stateStopped : State :=
  stateCreatedWithT1.after
    (StopThingVisor sampleHost (sampleContext ["StopThingVisor", "tv1"]) "tv1"
      stateCreatedWithT1)

/-- What `GetThingVisorWithVThingKeys("tv1")` returns on `stateCreatedWithT1`. -/
def listedT1 : ThingVisorWithVThingKey :=
  { ThingVisor := tv1Running,
    VThings :=
      [{ Key := compositeKey vThingTVObject [vThingTVPrefix, "tv1", "t1"],
         VThing := { ID := "tv1/t1" } }] }

/-- Membership body of thing `t1` in silo `tenantAB_flavourX`. -/
def memberABJSON : String :=
  "\x7b\"tenantID\":\"tenantAB\",\"vSiloID\":\"tenantAB_flavourX\",\"vThingID\":\"t1\"\x7d"

/-- The sample host, decoding the silos and memberships of two tenants. -/
def sampleHostTenants : Host :=
  { sampleHost with
    unmarshalVirtualSilo :=
      sampleDecode sampleMarshalVirtualSilo []
        [ { VSiloID := "tenantA_flavourX", Status := STATUS_PENDING },
          { VSiloID := "tenantAB_flavourX", Status := STATUS_PENDING } ]
    unmarshalVThingVSilo := fun b =>
      if b = memberABJSON then
        some { TenantID := "tenantAB", VSiloID := "tenantAB_flavourX", VThingID := "t1" }
      else sampleHost.unmarshalVThingVSilo b }

/-- Ledger after `AddVirtualSilo` and `AddVThingVSilo` (thing `t1`) for the
silos `tenantAB_flavourX` and `tenantA_flavourX`, in this order, on the empty
ledger: the tenant id `tenantA` is a proper prefix of the tenant id
`tenantAB`. -/
def stateTwoTenants : State :=
  let s1 := State.after {}
    (AddVirtualSilo sampleHostTenants
      (sampleContext ["AddVirtualSilo", "tenantAB_flavourX", "flavourX"])
      "tenantAB_flavourX" "flavourX" {})
  let s2 := s1.after
    (AddVThingVSilo (sampleContext ["AddVThingVSilo", "tenantAB_flavourX", "t1", memberABJSON])
      "tenantAB_flavourX" "t1" memberABJSON s1)
  let s3 := s2.after
    (AddVirtualSilo sampleHostTenants
      (sampleContext ["AddVirtualSilo", "tenantA_flavourX", "flavourX"])
      "tenantA_flavourX" "flavourX" s2)
  s3.after
    (AddVThingVSilo (sampleContext ["AddVThingVSilo", "tenantA_flavourX", "t1", memberJSON])
      "tenantA_flavourX" "t1" memberJSON s3)

/-- A collection in strict key order. -/
def SortedByKey (c : Collection) : Prop := c.Pairwise (fun a b => keyLt a.1 b.1 = true)

/-- Every collection of the ledger is in strict key order. -/
def StateSorted (s : State) : Prop := ∀ n, SortedByKey (s.collection n)

/-- VThing body with the three-segment logical id `tv1/t1/x`. -/
def threeSegmentJSON : String := "\x7b\"id\":\"tv1/t1/x\"\x7d"

/-- The sample host, decoding the three-segment body as well. -/
def sampleHostSegments : Host :=
  { sampleHost with
    unmarshalVThingTV := fun b =>
      if b = threeSegmentJSON then some { ID := "tv1/t1/x" }
      else sampleHost.unmarshalVThingTV b }

/-- Ledger after `AddVThingToThingVisor("tv1", threeSegmentJSON)` on
`stateCreated`. -/
def stateThreeSegments : State :=
  stateCreated.after
    (AddVThingToThingVisor sampleHostSegments
      (sampleContext ["AddVThingToThingVisor", "tv1", threeSegmentJSON]) "tv1" threeSegmentJSON
      stateCreated)

/-- Ledger after `UpdateVThingOfThingVisor("tv1/t1", t1JSON)` on
`stateCreatedWithT1`. -/
def stateUpdatedT1 : State :=
  stateCreatedWithT1.after
    (UpdateVThingOfThingVisor sampleHost
      (sampleContext ["UpdateVThingOfThingVisor", "tv1/t1", t1JSON]) "tv1/t1" t1JSON
      stateCreatedWithT1)

/-- Ledger after `UpdateThingVisor("tv1", "")` on `stateCreatedWithT1`. -/
def stateOwnerEmptied : State :=
  stateCreatedWithT1.after
    (UpdateThingVisor (sampleContext ["UpdateThingVisor", "tv1", ""]) "tv1" ""
      stateCreatedWithT1)

/-! ## Facts about the ledger stub -/

theorem lookupKey_cons (k a b : String) (rest : Collection) :
    lookupKey k ((a, b) :: rest) = if a = k then some b else lookupKey k rest := rfl

theorem eraseKey_cons (k a b : String) (rest : Collection) :
    eraseKey k ((a, b) :: rest) = if a = k then eraseKey k rest else (a, b) :: eraseKey k rest := by
  by_cases hk : a = k <;> simp [eraseKey, List.filter_cons, hk]

theorem insertKey_cons (k v a b : String) (rest : Collection) :
    insertKey k v ((a, b) :: rest) =
      if keyLt k a then (k, v) :: (a, b) :: rest else (a, b) :: insertKey k v rest := rfl

theorem lookupKey_eraseKey_self (k : String) (c : Collection) :
    lookupKey k (eraseKey k c) = none := by
  induction c with
  | nil => rfl
  | cons kv rest ih =>
    obtain ⟨a, b⟩ := kv
    rw [eraseKey_cons]
    by_cases hk : a = k
    · rw [if_pos hk]; exact ih
    · rw [if_neg hk, lookupKey_cons, if_neg hk]; exact ih

theorem lookupKey_eraseKey_ne {k k' : String} (hne : k' ≠ k) (c : Collection) :
    lookupKey k' (eraseKey k c) = lookupKey k' c := by
  induction c with
  | nil => rfl
  | cons kv rest ih =>
    obtain ⟨a, b⟩ := kv
    rw [eraseKey_cons, lookupKey_cons]
    by_cases hk : a = k
    · have hk' : a ≠ k' := fun e => hne (e ▸ hk)
      rw [if_pos hk, if_neg hk']; exact ih
    · rw [if_neg hk, lookupKey_cons]
      by_cases hk' : a = k'
      · rw [if_pos hk', if_pos hk']
      · rw [if_neg hk', if_neg hk']; exact ih

theorem lookupKey_insertKey_ne {k k' : String} (hne : k' ≠ k) (v : String) (c : Collection) :
    lookupKey k' (insertKey k v c) = lookupKey k' c := by
  have hne' : k ≠ k' := fun e => hne e.symm
  induction c with
  | nil => show lookupKey k' [(k, v)] = none; rw [lookupKey_cons, if_neg hne']; rfl
  | cons kv rest ih =>
    obtain ⟨a, b⟩ := kv
    rw [insertKey_cons]
    by_cases hlt : keyLt k a = true
    · rw [if_pos hlt, lookupKey_cons, if_neg hne']
    · rw [if_neg hlt, lookupKey_cons, lookupKey_cons, ih]

theorem lookupKey_insertKey_self (k v : String) (c : Collection)
    (hfresh : lookupKey k c = none) : lookupKey k (insertKey k v c) = some v := by
  induction c with
  | nil => show lookupKey k [(k, v)] = some v; rw [lookupKey_cons, if_pos rfl]
  | cons kv rest ih =>
    obtain ⟨a, b⟩ := kv
    rw [lookupKey_cons] at hfresh
    by_cases hk : a = k
    · rw [if_pos hk] at hfresh; cases hfresh
    · rw [if_neg hk] at hfresh
      rw [insertKey_cons]
      by_cases hlt : keyLt k a = true
      · rw [if_pos hlt, lookupKey_cons, if_pos rfl]
      · rw [if_neg hlt, lookupKey_cons, if_neg hk]; exact ih hfresh

theorem lookupKey_putKey_self (k v : String) (c : Collection) :
    lookupKey k (putKey k v c) = some v :=
  lookupKey_insertKey_self k v _ (lookupKey_eraseKey_self k c)

theorem lookupKey_putKey_ne {k k' : String} (hne : k' ≠ k) (v : String) (c : Collection) :
    lookupKey k' (putKey k v c) = lookupKey k' c := by
  unfold putKey
  rw [lookupKey_insertKey_ne hne, lookupKey_eraseKey_ne hne]

theorem collection_setCollection_self (s : State) (n : CollectionName) (c : Collection) :
    (s.setCollection n c).collection n = c := by
  cases n <;> rfl

theorem collection_setCollection_ne (s : State) {n m : CollectionName} (hne : m ≠ n)
    (c : Collection) : (s.setCollection n c).collection m = s.collection m := by
  cases n <;> cases m <;> first | rfl | exact absurd rfl hne

theorem events_setCollection (s : State) (n : CollectionName) (c : Collection) :
    (s.setCollection n c).events = s.events := by
  cases n <;> rfl

theorem Unmarshal_ok_ne_empty {α : Type} {dec : String → Option α} {b : String} {x : α}
    (hdec : Unmarshal dec (some b) = .ok x) : b ≠ "" ∧ dec b = some x := by
  unfold Unmarshal at hdec
  by_cases hb : b = ""
  · simp [hb] at hdec
  · refine ⟨hb, ?_⟩
    cases hd : dec b with
    | none => simp [hb, hd] at hdec
    | some y => simp [hb, hd] at hdec; rw [hdec]

theorem CreateCompositeKey_of_valid (objectType : String) (attributes : List String)
    (hobj : validateCompositeKeyAttribute objectType = true)
    (hatt : ∀ a ∈ attributes, validateCompositeKeyAttribute a = true) :
    CreateCompositeKey objectType attributes = some (compositeKey objectType attributes) := by
  unfold CreateCompositeKey
  have hall : attributes.all validateCompositeKeyAttribute = true := by
    simpa [List.all_eq_true] using hatt
  simp [hobj, hall]

theorem compositeKey_fold_length (attributes : List String) (init : String)
    (hpos : 0 < init.length) :
    0 < (attributes.foldl (fun ck att => ck ++ att ++ String.mk [minUnicodeRuneValue])
      init).length := by
  induction attributes generalizing init with
  | nil => exact hpos
  | cons a rest ih =>
    apply ih
    simp [String.length_append]

theorem compositeKey_ne_empty (objectType : String) (attributes : List String) :
    compositeKey objectType attributes ≠ "" := by
  intro hempty
  have hlen := compositeKey_fold_length attributes
    (compositeKeyNamespace ++ objectType ++ String.mk [minUnicodeRuneValue])
    (by simp [String.length_append])
  unfold compositeKey at hempty
  rw [hempty] at hlen
  exact absurd hlen (by decide)

theorem CreateCompositeKey_ne_empty {objectType : String} {attributes : List String}
    {key : String} (hkey : CreateCompositeKey objectType attributes = some key) : key ≠ "" := by
  unfold CreateCompositeKey at hkey
  split at hkey
  · cases hkey; exact compositeKey_ne_empty _ _
  · cases hkey

theorem SetHistory_ok (ctx : Context) (EventName : String) (nodes : List GraphNode)
    (userID userMSPID : String) (s : State) (hname : EventName ≠ "") :
    SetHistory ctx EventName nodes userID userMSPID s =
      .ok { s with events := s.events ++
        [(EventName, { EventName := EventName, Time := ctx.Time, TxID := ctx.TxID,
                       UserID := userID, UserMSPID := userMSPID, GraphNodes := nodes })] } := by
  simp [SetHistory, SetEvent, hname]

theorem PutPrivateData_ok (s : State) (n : CollectionName) (key value : String)
    (hkey : key ≠ "") (hvalue : value ≠ "") :
    PutPrivateData s n key value = .ok (s.setCollection n (putKey key value (s.collection n))) := by
  simp [PutPrivateData, hkey, hvalue]

theorem SetHistory_withEvent (ctx : Context) (EventName : String) (nodes : List GraphNode)
    (s : State) (hname : EventName ≠ "") :
    SetHistory ctx EventName nodes ctx.userID ctx.userMSPID s =
      .ok (s.withEvent ctx EventName nodes) := by
  simp [SetHistory, SetEvent, hname, State.withEvent, provenance]

theorem collection_withEvent (s : State) (ctx : Context) (EventName : String)
    (nodes : List GraphNode) (n : CollectionName) :
    (s.withEvent ctx EventName nodes).collection n = s.collection n := by
  cases n <;> rfl

theorem events_withEvent (s : State) (ctx : Context) (EventName : String)
    (nodes : List GraphNode) :
    (s.withEvent ctx EventName nodes).events = s.events ++ [provenance ctx EventName nodes] :=
  rfl

theorem GetPrivateData_congr {s1 s2 : State} {n : CollectionName}
    (hcoll : s1.collection n = s2.collection n) (key : String) :
    GetPrivateData s1 n key = GetPrivateData s2 n key := by
  simp [GetPrivateData, hcoll]

theorem GetPrivateDataByPartialCompositeKey_congr {s1 s2 : State} {n : CollectionName}
    (hcoll : s1.collection n = s2.collection n) (objectType : String) (attributes : List String) :
    GetPrivateDataByPartialCompositeKey s1 n objectType attributes =
      GetPrivateDataByPartialCompositeKey s2 n objectType attributes := by
  simp [GetPrivateDataByPartialCompositeKey, hcoll]

theorem GetPrivateDataByRange_congr {s1 s2 : State} {n : CollectionName}
    (hcoll : s1.collection n = s2.collection n) (startKey endKey : String) :
    GetPrivateDataByRange s1 n startKey endKey = GetPrivateDataByRange s2 n startKey endKey := by
  simp [GetPrivateDataByRange, hcoll]

/-! ## AddVThingToThingVisor -/

/-- C1 (as amended): with ThingVisor `P` stored and decoding to `thingVisor`,
and the body decoding to `newVThing`: a status other than `running` gives the
invalid-state error; a running parent and a first id segment other than `P`
give the invalid-key error; and when the id has a second segment and both
segments are valid key attributes, the call succeeds exactly when the parent is
running and the first segment is `P`. -/
theorem AddVThingToThingVisor_outcome (h : Host) (ctx : Context) (P body : String) (s : State)
    (thingVisorByte : String) (thingVisor : ThingVisor) (newVThing : VThingTV)
    (hget : GetPrivateData s CollectionThingVisors P = some thingVisorByte)
    (htv : Unmarshal h.unmarshalThingVisor (some thingVisorByte) = .ok thingVisor)
    (hv : Unmarshal h.unmarshalVThingTV (some body) = .ok newVThing) :
    (thingVisor.Status ≠ STATUS_RUNNING →
      AddVThingToThingVisor h ctx P body s =
        .error (.InvalidState ("WARNING Add fails - ThingVisor " ++ P ++ " is not ready")))
    ∧ (thingVisor.Status = STATUS_RUNNING → index0 (Split newVThing.ID '/') ≠ P →
      AddVThingToThingVisor h ctx P body s =
        .error (.InvalidKey ("WARNING Add fails - vThingID '" ++ newVThing.ID ++ "' not valid")))
    ∧ (∀ k1, index1 (Split newVThing.ID '/') = .ok k1 →
        validateCompositeKeyAttribute (index0 (Split newVThing.ID '/')) = true →
        validateCompositeKeyAttribute k1 = true →
        ((∃ s', AddVThingToThingVisor h ctx P body s = .ok s') ↔
          (thingVisor.Status = STATUS_RUNNING ∧ index0 (Split newVThing.ID '/') = P))) := by
  refine ⟨?_, ?_, ?_⟩
  · intro hstatus
    simp [AddVThingToThingVisor, hget, htv, hstatus]
  · intro hstatus howner
    simp [AddVThingToThingVisor, hget, htv, hv, hstatus, howner]
  · intro k1 hk1 hvalid0 hvalid1
    have hkey := CreateCompositeKey_of_valid vThingTVObject
      [vThingTVPrefix, index0 (Split newVThing.ID '/'), k1] (by decide)
      (by
        intro a ha
        simp only [List.mem_cons, List.mem_singleton, List.not_mem_nil, or_false] at ha
        rcases ha with rfl | rfl | rfl
        · decide
        · exact hvalid0
        · exact hvalid1)
    have hbody := (Unmarshal_ok_ne_empty hv).1
    constructor
    · rintro ⟨s', hs'⟩
      by_cases hstatus : thingVisor.Status = STATUS_RUNNING
      · by_cases howner : index0 (Split newVThing.ID '/') = P
        · exact ⟨hstatus, howner⟩
        · simp [AddVThingToThingVisor, hget, htv, hv, hstatus, howner] at hs'
      · simp [AddVThingToThingVisor, hget, htv, hstatus] at hs'
    · rintro ⟨hstatus, howner⟩
      simp only [AddVThingToThingVisor, hget, htv, hv, hstatus, howner, hk1, ne_eq,
        not_true_eq_false, if_false]
      rw [howner] at hkey
      rw [hkey]
      simp only [PutPrivateData_ok _ _ _ _ (compositeKey_ne_empty _ _) hbody]
      simp [SetHistory, SetEvent]

/-- Witness of `AddVThingToThingVisor_outcome`: ThingVisor `tv1` is running and
the body has logical id `tv1/t1`; the call succeeds. -/
theorem AddVThingToThingVisor_outcome_witness :
    (GetPrivateData stateTv1Running CollectionThingVisors "tv1" = some tv1RunningJSON
      ∧ Unmarshal sampleHost.unmarshalThingVisor (some tv1RunningJSON) = .ok tv1Running
      ∧ Unmarshal sampleHost.unmarshalVThingTV (some t1JSON) = .ok { ID := "tv1/t1" })
    ∧ ∃ s', AddVThingToThingVisor sampleHost (sampleContext ["AddVThingToThingVisor", "tv1", t1JSON])
        "tv1" t1JSON stateTv1Running = .ok s' :=
  ⟨⟨by decide, by decide, by decide⟩,
    ((AddVThingToThingVisor_outcome sampleHost
        (sampleContext ["AddVThingToThingVisor", "tv1", t1JSON]) "tv1" t1JSON stateTv1Running
        tv1RunningJSON tv1Running { ID := "tv1/t1" } (by decide) (by decide) (by decide)).2.2
      "t1" (by decide) (by decide) (by decide)).mpr ⟨by decide, by decide⟩⟩

/-- C1 (counterexample): ThingVisor `tv1` is stored and running, the body
decodes to the logical id `tv1`, whose first segment is `tv1`; the call does
not succeed, the read of the second segment panics. -/
theorem AddVThingToThingVisor_single_segment :
    GetPrivateData stateTv1Running CollectionThingVisors "tv1" = some tv1RunningJSON
    ∧ Unmarshal sampleHost.unmarshalThingVisor (some tv1RunningJSON) = .ok tv1Running
    ∧ tv1Running.Status = STATUS_RUNNING
    ∧ Unmarshal sampleHost.unmarshalVThingTV (some oneSegmentJSON) = .ok { ID := "tv1" }
    ∧ index0 (Split "tv1" '/') = "tv1"
    ∧ AddVThingToThingVisor sampleHost
        (sampleContext ["AddVThingToThingVisor", "tv1", oneSegmentJSON]) "tv1" oneSegmentJSON
        stateTv1Running = .error (.Panic "index out of range [1] with length 1") := by
  decide

/-! ## StopThingVisor -/

/-- C2: for a ThingVisor stored under a non-empty key `id` and decoding to
`thingVisor`, `StopThingVisor` succeeds exactly when the status is `running`,
and the record stored afterwards decodes to the same ThingVisor with status
`stopping`; with any other status it fails with the invalid-state error and the
stored bytes stay as they were. -/
theorem StopThingVisor_outcome (h : Host) (ctx : Context) (id : String) (s : State)
    (thingVisorByte : String) (thingVisor : ThingVisor)
    (hid : id ≠ "")
    (hget : GetPrivateData s CollectionThingVisors id = some thingVisorByte)
    (htv : Unmarshal h.unmarshalThingVisor (some thingVisorByte) = .ok thingVisor)
    (hround : Unmarshal h.unmarshalThingVisor
        (some (h.marshalThingVisor { thingVisor with Status := STATUS_STOPPING })) =
      .ok { thingVisor with Status := STATUS_STOPPING }) :
    ((∃ s', StopThingVisor h ctx id s = .ok s') ↔ thingVisor.Status = STATUS_RUNNING)
    ∧ (∀ s', StopThingVisor h ctx id s = .ok s' →
        Unmarshal h.unmarshalThingVisor (GetPrivateData s' CollectionThingVisors id) =
          .ok { thingVisor with Status := STATUS_STOPPING })
    ∧ (thingVisor.Status ≠ STATUS_RUNNING →
        StopThingVisor h ctx id s =
          .error (.InvalidState ("WARNING Add fails - ThingVisor " ++ id ++ " is not ready"))
        ∧ GetPrivateData (s.after (StopThingVisor h ctx id s)) CollectionThingVisors id =
          some thingVisorByte) := by
  have hne := (Unmarshal_ok_ne_empty hround).1
  have hrun : thingVisor.Status = STATUS_RUNNING →
      StopThingVisor h ctx id s = .ok
        { s.setCollection CollectionThingVisors
            (putKey id (h.marshalThingVisor { thingVisor with Status := STATUS_STOPPING })
              (s.collection CollectionThingVisors)) with
          events := s.events ++
            [("StopThingVisor",
              { EventName := "StopThingVisor", Time := ctx.Time, TxID := ctx.TxID,
                UserID := ctx.userID, UserMSPID := ctx.userMSPID,
                GraphNodes :=
                  [ { StartNode := ctx.userMSPID, EndNode := "user-" ++ ctx.userID },
                    { StartNode := "user-" ++ ctx.userID, EndNode := "thingvisor-" ++ id } ] })] } := by
    intro hstatus
    simp only [StopThingVisor, hget, htv, hstatus, ne_eq, not_true_eq_false, if_false]
    simp only [PutPrivateData_ok _ _ _ _ hid hne]
    rw [SetHistory_ok _ _ _ _ _ _ (by decide)]
    simp [events_setCollection]
  have hstop : thingVisor.Status ≠ STATUS_RUNNING →
      StopThingVisor h ctx id s =
        .error (.InvalidState ("WARNING Add fails - ThingVisor " ++ id ++ " is not ready")) := by
    intro hstatus
    simp [StopThingVisor, hget, htv, hstatus]
  refine ⟨?_, ?_, ?_⟩
  · constructor
    · rintro ⟨s', hs'⟩
      by_contra hstatus
      rw [hstop hstatus] at hs'
      cases hs'
    · intro hstatus
      exact ⟨_, hrun hstatus⟩
  · intro s' hs'
    by_cases hstatus : thingVisor.Status = STATUS_RUNNING
    · rw [hrun hstatus] at hs'
      cases hs'
      have hlookup : GetPrivateData
          { s.setCollection CollectionThingVisors
              (putKey id (h.marshalThingVisor { thingVisor with Status := STATUS_STOPPING })
                (s.collection CollectionThingVisors)) with
            events := s.events ++
              [("StopThingVisor",
                { EventName := "StopThingVisor", Time := ctx.Time, TxID := ctx.TxID,
                  UserID := ctx.userID, UserMSPID := ctx.userMSPID,
                  GraphNodes :=
                    [ { StartNode := ctx.userMSPID, EndNode := "user-" ++ ctx.userID },
                      { StartNode := "user-" ++ ctx.userID,
                        EndNode := "thingvisor-" ++ id } ] })] }
          CollectionThingVisors id =
          some (h.marshalThingVisor { thingVisor with Status := STATUS_STOPPING }) := by
        show lookupKey id (putKey id _ _) = _
        exact lookupKey_putKey_self _ _ _
      rw [hlookup]
      exact hround
    · rw [hstop hstatus] at hs'
      cases hs'
  · intro hstatus
    refine ⟨hstop hstatus, ?_⟩
    rw [hstop hstatus]
    exact hget

set_option maxRecDepth 1000000 in
/-- Witness of `StopThingVisor_outcome`: the running ThingVisor `tv1` is
stopped. -/
theorem StopThingVisor_outcome_witness :
    ("tv1" ≠ ""
      ∧ GetPrivateData stateTv1Running CollectionThingVisors "tv1" = some tv1RunningJSON
      ∧ Unmarshal sampleHost.unmarshalThingVisor (some tv1RunningJSON) = .ok tv1Running
      ∧ Unmarshal sampleHost.unmarshalThingVisor
          (some (sampleHost.marshalThingVisor { tv1Running with Status := STATUS_STOPPING })) =
        .ok { tv1Running with Status := STATUS_STOPPING })
    ∧ ∃ s', StopThingVisor sampleHost (sampleContext ["StopThingVisor", "tv1"]) "tv1"
        stateTv1Running = .ok s' :=
  ⟨⟨by decide, by decide, by decide, by decide⟩,
    (StopThingVisor_outcome sampleHost (sampleContext ["StopThingVisor", "tv1"]) "tv1"
      stateTv1Running tv1RunningJSON tv1Running (by decide) (by decide) (by decide)
      (by decide)).1.mpr (by decide)⟩

/-! ## DeleteVirtualSilo and the memberships of a silo -/

theorem CreateCompositeKey_eq_some {objectType : String} {attributes : List String}
    {key : String} (hkey : CreateCompositeKey objectType attributes = some key) :
    validateCompositeKeyAttribute objectType = true
    ∧ (∀ a ∈ attributes, validateCompositeKeyAttribute a = true)
    ∧ key = compositeKey objectType attributes := by
  unfold CreateCompositeKey at hkey
  split at hkey
  · rename_i hvalid
    simp only [Bool.and_eq_true, List.all_eq_true] at hvalid
    cases hkey
    exact ⟨hvalid.1, hvalid.2, rfl⟩
  · cases hkey

/-- Effect of the membership loop of `DeleteVirtualSilo`: the membership
collection loses exactly the keys built from the arguments, nothing else
changes. -/
theorem deleteMembershipLoop_ok (VSiloID k0 k1 : String) (args : List String) :
    ∀ (s s1 : State) (g g1 : List GraphNode),
      deleteMembershipLoop VSiloID k0 k1 args s g = .ok (s1, g1) →
      (∀ kv, kv ∈ s1.vThingVSilos ↔
        kv ∈ s.vThingVSilos ∧
          ∀ t ∈ args, CreateCompositeKey vThingVSiloObject [vThingVSiloPrefix, k0, k1, t]
            ≠ some kv.1)
      ∧ s1.thingVisors = s.thingVisors ∧ s1.vThingTVs = s.vThingTVs ∧ s1.vSilos = s.vSilos
      ∧ s1.flavours = s.flavours ∧ s1.events = s.events
      ∧ g1 = g ++ args.map (fun t =>
          { StartNode := "silo-" ++ VSiloID, EndNode := "vthing-" ++ t, Delete := true }) := by
  induction args with
  | nil =>
    intro s s1 g g1 hloop
    simp only [deleteMembershipLoop, Except.ok.injEq, Prod.mk.injEq] at hloop
    obtain ⟨rfl, rfl⟩ := hloop
    simp
  | cons t rest ih =>
    intro s s1 g g1 hloop
    unfold deleteMembershipLoop at hloop
    cases hkey : CreateCompositeKey vThingVSiloObject [vThingVSiloPrefix, k0, k1, t] with
    | none => simp [hkey] at hloop
    | some key =>
      simp only [hkey, DelPrivateData] at hloop
      obtain ⟨hmem, htv, hvt, hvs, hfl, hev, hg⟩ := ih _ _ _ _ hloop
      refine ⟨?_, htv, hvt, hvs, hfl, hev, ?_⟩
      · intro kv
        rw [hmem kv]
        simp only [State.setCollection, State.collection, eraseKey, List.mem_filter,
          decide_eq_true_eq, List.mem_cons, forall_eq_or_imp, hkey, ne_eq, Option.some.injEq]
        constructor
        · rintro ⟨⟨hin, hne⟩, hrest⟩
          exact ⟨hin, fun e => hne e.symm, hrest⟩
        · rintro ⟨hin, hne, hrest⟩
          exact ⟨⟨hin, fun e => hne e.symm⟩, hrest⟩
      · rw [hg]
        simp

/-- Shape of a successful `DeleteVirtualSilo`. -/
theorem DeleteVirtualSilo_ok {ctx : Context} {VSiloID : String} {s s' : State}
    (hdel : DeleteVirtualSilo ctx VSiloID s = .ok s') :
    ∃ k1 args s1 g key,
      index1 (Split VSiloID '_') = .ok k1
      ∧ argsFrom1 ctx = .ok args
      ∧ deleteMembershipLoop VSiloID (index0 (Split VSiloID '_')) k1 args s
          [ { StartNode := ctx.userMSPID, EndNode := "user-" ++ ctx.userID, Delete := false },
            { StartNode := "user-" ++ ctx.userID, EndNode := "silo-" ++ VSiloID, Delete := true },
            { StartNode := "flavour-" ++ k1, EndNode := "silo-" ++ VSiloID, Delete := true } ]
          = .ok (s1, g)
      ∧ CreateCompositeKey vSiloObject [vSiloPrefix, index0 (Split VSiloID '_'), k1] = some key
      ∧ s' = { s1.setCollection CollectionvSilos (eraseKey key (s1.collection CollectionvSilos))
                with events := s1.events ++
                  [("DeleteVirtualSilo",
                    { EventName := "DeleteVirtualSilo", Time := ctx.Time, TxID := ctx.TxID,
                      UserID := ctx.userID, UserMSPID := ctx.userMSPID, GraphNodes := g })] } := by
  unfold DeleteVirtualSilo at hdel
  cases hk1 : index1 (Split VSiloID '_') with
  | error e => simp [hk1] at hdel
  | ok k1 =>
    cases hargs : argsFrom1 ctx with
    | error e => simp [hk1, hargs] at hdel
    | ok args =>
      simp only [hk1, hargs] at hdel
      split at hdel
      · cases hdel
      · rename_i s1 g hloop
        cases hkey : CreateCompositeKey vSiloObject [vSiloPrefix, index0 (Split VSiloID '_'), k1]
          with
        | none => simp [hkey] at hdel
        | some key =>
          simp only [hkey, DelPrivateData] at hdel
          rw [SetHistory_ok _ _ _ _ _ _ (by decide)] at hdel
          simp only [Except.ok.injEq] at hdel
          refine ⟨k1, args, s1, g, key, rfl, rfl, hloop, hkey, ?_⟩
          rw [← hdel]
          simp [events_setCollection]

/-- C3 (as amended): after a successful `DeleteVirtualSilo(S)` accompanied by
the thing ids `ts`, when every membership stored under the prefix of `S` has
the key of one of those ids, `GetVThingVSilosByVSiloID(S)` returns the empty
sequence. -/
theorem DeleteVirtualSilo_listed_memberships (h : Host) (ctx : Context) (S fn k1 : String)
    (ts : List String) (s s' : State) (stored : Collection)
    (hctx : ctx.StringArgs = fn :: S :: ts)
    (hk1 : index1 (Split S '_') = .ok k1)
    (hscan : GetPrivateDataByPartialCompositeKey s CollectionvThingVSilos vThingVSiloObject
        [vThingVSiloPrefix, index0 (Split S '_'), k1] = .ok stored)
    (hcover : ∀ kv ∈ stored, ∃ t ∈ ts,
        CreateCompositeKey vThingVSiloObject [vThingVSiloPrefix, index0 (Split S '_'), k1, t]
          = some kv.1)
    (hdel : DeleteVirtualSilo ctx S s = .ok s') :
    GetVThingVSilosByVSiloID h s' S = .ok [] := by
  obtain ⟨k1', args, s1, g, key, hk1', hargs, hloop, -, hs'⟩ := DeleteVirtualSilo_ok hdel
  rw [hk1] at hk1'
  cases hk1'
  have hargs' : args = S :: ts := by
    simp only [argsFrom1, hctx, Except.ok.injEq] at hargs
    exact hargs.symm
  obtain ⟨hmem, -⟩ := deleteMembershipLoop_ok _ _ _ _ _ _ _ _ hloop
  have hcoll : s'.collection CollectionvThingVSilos = s1.vThingVSilos := by
    rw [hs']; rfl
  unfold GetPrivateDataByPartialCompositeKey at hscan
  cases hp : CreateCompositeKey vThingVSiloObject
      [vThingVSiloPrefix, index0 (Split S '_'), k1] with
  | none => simp [hp] at hscan
  | some p =>
    simp only [hp, Except.ok.injEq] at hscan
    have hempty : rangeScan p (p ++ String.mk [maxUnicodeRuneValue]) s1.vThingVSilos = [] := by
      unfold rangeScan
      rw [List.filter_eq_nil_iff]
      intro kv hkv hin
      obtain ⟨hkvs, hnot⟩ := (hmem kv).1 hkv
      have hstored : kv ∈ stored := by
        rw [← hscan]
        unfold rangeScan
        exact List.mem_filter.2 ⟨hkvs, hin⟩
      obtain ⟨t, ht, hkey⟩ := hcover kv hstored
      exact hnot t (by rw [hargs']; exact List.mem_cons_of_mem _ ht) hkey
    simp [GetVThingVSilosByVSiloID, hk1, GetPrivateDataByPartialCompositeKey, hp, hcoll, hempty,
      nextResults, collectLoop]

/-- Witness of `DeleteVirtualSilo_listed_memberships`: silo `tenantA_flavourX`
holds the membership of `t1`, and `t1` accompanies the call. -/
theorem DeleteVirtualSilo_listed_memberships_witness :
    DeleteVirtualSilo (sampleContext ["DeleteVirtualSilo", "tenantA_flavourX", "t1"])
        "tenantA_flavourX" stateOneMember = .ok stateOneMemberDeleted
    ∧ GetVThingVSilosByVSiloID sampleHost stateOneMember "tenantA_flavourX" =
        .ok [{ TenantID := "tenantA", VSiloID := "tenantA_flavourX", VThingID := "t1" }]
    ∧ GetVThingVSilosByVSiloID sampleHost stateOneMemberDeleted "tenantA_flavourX" = .ok [] :=
  ⟨by decide, by decide,
    DeleteVirtualSilo_listed_memberships sampleHost
      (sampleContext ["DeleteVirtualSilo", "tenantA_flavourX", "t1"]) "tenantA_flavourX"
      "DeleteVirtualSilo" "flavourX" ["t1"] stateOneMember stateOneMemberDeleted
      stateOneMember.vThingVSilos rfl (by decide) (by decide) (by decide) (by decide)⟩

/-- C3 (counterexample): the membership of `t1` is added to silo
`tenantA_flavourX`; `DeleteVirtualSilo` called without thing ids succeeds, and
`GetVThingVSilosByVSiloID` still returns the membership. -/
theorem DeleteVirtualSilo_unlisted_membership :
    AddVThingVSilo (sampleContext ["AddVThingVSilo", "tenantA_flavourX", "t1", memberJSON])
        "tenantA_flavourX" "t1" memberJSON {} = .ok stateOneMember
    ∧ (DeleteVirtualSilo (sampleContext ["DeleteVirtualSilo", "tenantA_flavourX"])
        "tenantA_flavourX" stateOneMember).toBool = true
    ∧ GetVThingVSilosByVSiloID sampleHost
        (stateOneMember.after
          (DeleteVirtualSilo (sampleContext ["DeleteVirtualSilo", "tenantA_flavourX"])
            "tenantA_flavourX" stateOneMember))
        "tenantA_flavourX" =
      .ok [{ TenantID := "tenantA", VSiloID := "tenantA_flavourX", VThingID := "t1" }] := by
  decide

/-! ## Key order and composite keys -/

theorem ltChars_append_left (p a b : List Char) : ltChars (p ++ a) (p ++ b) = ltChars a b := by
  induction p with
  | nil => rfl
  | cons c p ih => simp [ltChars, ih]

theorem ltChars_nil_right (a : List Char) : ltChars a [] = false := by
  cases a <;> rfl

theorem Char.toNat_pos_of_ne_min {c : Char} (hc : c ≠ minUnicodeRuneValue) : 0 < c.toNat := by
  rcases Nat.eq_zero_or_pos c.toNat with h0 | hpos
  · exact absurd (by rw [← Char.ofNat_toNat c, h0]; rfl) hc
  · exact hpos

theorem Char.toNat_lt_of_ne_max {c : Char} (hc : c ≠ maxUnicodeRuneValue) :
    c.toNat < maxUnicodeRuneValue.toNat := by
  have hvalid : c.toNat < 0xd800 ∨ (0xdfff < c.toNat ∧ c.toNat < 0x110000) := c.valid
  have hmax : maxUnicodeRuneValue.toNat = 0x10FFFF := by decide
  rw [hmax]
  by_contra hge
  have heq : c.toNat = 0x10FFFF := by omega
  exact hc (by rw [← Char.ofNat_toNat c, heq]; rfl)

theorem Char.eq_of_toNat_not_lt {c d : Char} (h1 : ¬ c.toNat < d.toNat)
    (h2 : ¬ d.toNat < c.toNat) : c = d := by
  have heq : c.toNat = d.toNat := by omega
  rw [← Char.ofNat_toNat c, heq, Char.ofNat_toNat]

theorem validateCompositeKeyAttribute_iff (str : String) :
    validateCompositeKeyAttribute str = true ↔
      ∀ c ∈ str.data, c ≠ minUnicodeRuneValue ∧ c ≠ maxUnicodeRuneValue := by
  simp [validateCompositeKeyAttribute, List.all_eq_true]

/-- A key that extends `p` by characters not starting with U+10FFFF lies in the
range from `p` to `p` followed by U+10FFFF. -/
theorem ltChars_extension (p r : List Char)
    (hr : ∀ c ∈ r.head?, c ≠ maxUnicodeRuneValue) :
    ltChars (p ++ r) p = false ∧ ltChars (p ++ r) (p ++ [maxUnicodeRuneValue]) = true := by
  constructor
  · have h := ltChars_append_left p r []
    rw [List.append_nil] at h
    rw [h, ltChars_nil_right]
  · rw [ltChars_append_left]
    cases r with
    | nil => rfl
    | cons c r =>
      have hc := Char.toNat_lt_of_ne_max (hr c (by simp))
      simp [ltChars, hc]

/-- Two different attributes free of U+0000, each closed by U+0000: the key of
the first is outside the range of the second. -/
theorem ltChars_other_attribute (o i rest : List Char)
    (ho : ∀ c ∈ o, c ≠ minUnicodeRuneValue) (hi : ∀ c ∈ i, c ≠ minUnicodeRuneValue)
    (hne : o ≠ i) :
    ltChars (o ++ minUnicodeRuneValue :: rest) (i ++ [minUnicodeRuneValue]) = true
    ∨ ltChars (o ++ minUnicodeRuneValue :: rest)
        (i ++ [minUnicodeRuneValue] ++ [maxUnicodeRuneValue]) = false := by
  have hmin : minUnicodeRuneValue.toNat = 0 := by decide
  induction o generalizing i with
  | nil =>
    cases i with
    | nil => exact absurd rfl hne
    | cons d i =>
      left
      have hd := Char.toNat_pos_of_ne_min (hi d (by simp))
      simp [ltChars, hmin, hd]
  | cons c o ih =>
    have hc := Char.toNat_pos_of_ne_min (ho c (by simp))
    cases i with
    | nil =>
      right
      simp [ltChars, hmin, hc]
    | cons d i =>
      by_cases hcd : c.toNat < d.toNat
      · left
        simp [ltChars, hcd]
      · by_cases hdc : d.toNat < c.toNat
        · right
          simp [ltChars, hcd, hdc]
        · have heq := Char.eq_of_toNat_not_lt hcd hdc
          subst heq
          have hne' : o ≠ i := fun e => hne (by rw [e])
          rcases ih i (fun x hx => ho x (by simp [hx])) (fun x hx => hi x (by simp [hx])) hne'
            with h | h
          · left
            simpa [ltChars] using h
          · right
            simpa [ltChars] using h

/-- Characters of a composite key. -/
theorem compositeKey_data_fold (attributes : List String) (init : String) :
    (attributes.foldl (fun ck att => ck ++ att ++ String.mk [minUnicodeRuneValue]) init).data =
      init.data ++ attributes.flatMap (fun a => a.data ++ [minUnicodeRuneValue]) := by
  induction attributes generalizing init with
  | nil => simp
  | cons a rest ih => simp [ih, List.flatMap_cons]

theorem compositeKey_data (objectType : String) (attributes : List String) :
    (compositeKey objectType attributes).data =
      minUnicodeRuneValue :: objectType.data ++ [minUnicodeRuneValue] ++
        attributes.flatMap (fun a => a.data ++ [minUnicodeRuneValue]) := by
  unfold compositeKey
  rw [compositeKey_data_fold]
  simp [compositeKeyNamespace]

theorem rangeScan_inPartialRange (p : String) (c : Collection) :
    rangeScan p (p ++ String.mk [maxUnicodeRuneValue]) c =
      c.filter (fun kv => inPartialRange p kv.1) := by
  have hne : p ++ String.mk [maxUnicodeRuneValue] ≠ "" := by
    intro hempty
    have hlen := congrArg String.length hempty
    simp [String.length_append] at hlen
  unfold rangeScan inPartialRange
  simp [hne]

/-- A composite key lies in the prefix range of each of its leading attribute
lists. -/
theorem inPartialRange_extension (objectType : String) (pre more : List String)
    (hmore : ∀ a ∈ more, validateCompositeKeyAttribute a = true) :
    inPartialRange (compositeKey objectType pre) (compositeKey objectType (pre ++ more)) = true := by
  have hhead : ∀ c ∈ (more.flatMap (fun a => a.data ++ [minUnicodeRuneValue])).head?,
      c ≠ maxUnicodeRuneValue := by
    cases more with
    | nil => simp
    | cons a rest =>
      intro c hc
      have ha := (validateCompositeKeyAttribute_iff a).1 (hmore a (by simp))
      cases hdata : a.data with
      | nil =>
        simp [List.flatMap_cons, hdata] at hc
        rw [← hc]; decide
      | cons d ds =>
        simp [List.flatMap_cons, hdata] at hc
        rw [← hc]
        exact (ha d (by simp [hdata])).2
  have hdata : (compositeKey objectType (pre ++ more)).data =
      (compositeKey objectType pre).data ++
        more.flatMap (fun a => a.data ++ [minUnicodeRuneValue]) := by
    simp [compositeKey_data, List.flatMap_append]
  obtain ⟨h1, h2⟩ := ltChars_extension (compositeKey objectType pre).data _ hhead
  simp [inPartialRange, keyLt, hdata, h1, h2]

/-- A composite key is outside the prefix range of a key that differs from it
in the attribute following the common ones. -/
theorem inPartialRange_other (objectType : String) (pre more : List String) (o i : String)
    (ho : validateCompositeKeyAttribute o = true) (hi : validateCompositeKeyAttribute i = true)
    (hne : o ≠ i) :
    inPartialRange (compositeKey objectType (pre ++ [i]))
      (compositeKey objectType (pre ++ o :: more)) = false := by
  have ho' : ∀ c ∈ o.data, c ≠ minUnicodeRuneValue :=
    fun c hc => ((validateCompositeKeyAttribute_iff o).1 ho c hc).1
  have hi' : ∀ c ∈ i.data, c ≠ minUnicodeRuneValue :=
    fun c hc => ((validateCompositeKeyAttribute_iff i).1 hi c hc).1
  have hne' : o.data ≠ i.data := fun e => hne (String.ext e)
  have hkey : (compositeKey objectType (pre ++ o :: more)).data =
      (compositeKey objectType pre).data ++
        (o.data ++ minUnicodeRuneValue ::
          more.flatMap (fun a => a.data ++ [minUnicodeRuneValue])) := by
    simp [compositeKey_data, List.flatMap_append, List.flatMap_cons]
  have hp : (compositeKey objectType (pre ++ [i])).data =
      (compositeKey objectType pre).data ++ (i.data ++ [minUnicodeRuneValue]) := by
    simp [compositeKey_data, List.flatMap_append, List.flatMap_cons]
  have hpmax : (compositeKey objectType (pre ++ [i]) ++ String.mk [maxUnicodeRuneValue]).data =
      (compositeKey objectType pre).data ++
        (i.data ++ [minUnicodeRuneValue] ++ [maxUnicodeRuneValue]) := by
    rw [String.data_append, hp]
    simp
  unfold inPartialRange keyLt
  rw [hkey, hp, hpmax, ltChars_append_left, ltChars_append_left]
  rcases ltChars_other_attribute o.data i.data
      (more.flatMap (fun a => a.data ++ [minUnicodeRuneValue])) ho' hi' hne' with h | h
  · rw [h]; rfl
  · rw [h]; simp

theorem nextResults_open (batch : Nat) (rs : Collection) :
    nextResults false batch rs = rs.map .ok := by
  simp [nextResults]

theorem collectLoop_decodeAll {α : Type} (dec : String → Option α) (rs : Collection)
    (hall : ∀ kv ∈ rs, ∃ x, Unmarshal dec (some kv.2) = .ok x) (results : List α) :
    collectLoop dec (rs.map .ok) results = .ok (results ++ decodeAll dec rs) := by
  induction rs generalizing results with
  | nil => simp [collectLoop, decodeAll]
  | cons kv rest ih =>
    obtain ⟨x, hx⟩ := hall kv (by simp)
    have hrest := ih (fun kv' hkv' => hall kv' (by simp [hkv'])) (results ++ [x])
    have hdec : decodeAll dec (kv :: rest) = x :: decodeAll dec rest := by
      simp [decodeAll, List.filterMap_cons, hx, Except.toOption]
    simp only [List.map_cons, collectLoop, hx, hrest, hdec]
    simp

theorem appendOwned_eq (ThingVisorID : String) (vThings acc : List VThingTV) :
    appendOwned ThingVisorID vThings acc =
      acc ++ vThings.filter (fun v => decide (index0 (Split v.ID '/') = ThingVisorID)) := by
  induction vThings generalizing acc with
  | nil => simp [appendOwned]
  | cons v rest ih =>
    by_cases hv : index0 (Split v.ID '/') = ThingVisorID
    · simp [appendOwned, hv, ih, List.filter_cons]
    · simp [appendOwned, hv, ih, List.filter_cons]

/-! ## GetAllThingVisors -/

theorem decodeAll_filter {α : Type} (dec : String → Option α) (q : α → Bool)
    (r : String × String → Bool) (l : Collection)
    (hall : ∀ kv ∈ l, ∃ x, Unmarshal dec (some kv.2) = .ok x ∧ q x = r kv) :
    (decodeAll dec l).filter q = decodeAll dec (l.filter r) := by
  induction l with
  | nil => rfl
  | cons kv rest ih =>
    obtain ⟨x, hx, hq⟩ := hall kv (by simp)
    have hrest := ih (fun kv' hkv' => hall kv' (by simp [hkv']))
    have hdec : ∀ tl, decodeAll dec (kv :: tl) = x :: decodeAll dec tl := by
      intro tl
      simp [decodeAll, List.filterMap_cons, hx, Except.toOption]
    rw [hdec, List.filter_cons, List.filter_cons, hq]
    cases hr : r kv with
    | true => simp only [if_true]; rw [hdec, hrest]
    | false => simpa using hrest

theorem rangeScan_all_vThings (h : Host) (s : State) (hvt : VThingsConsistent h s) :
    rangeScan (compositeKey vThingTVObject [vThingTVPrefix])
      (compositeKey vThingTVObject [vThingTVPrefix] ++ String.mk [maxUnicodeRuneValue])
      s.vThingTVs = s.vThingTVs := by
  rw [rangeScan_inPartialRange, List.filter_eq_self]
  intro kv hkv
  obtain ⟨o, l, v, ho, hl, hkey, -, -⟩ := hvt kv hkv
  rw [hkey]
  exact inPartialRange_extension vThingTVObject [vThingTVPrefix] [o, l]
    (by
      intro a ha
      simp only [List.mem_cons, List.mem_singleton, List.not_mem_nil, or_false] at ha
      rcases ha with rfl | rfl
      · exact ho
      · exact hl)

theorem rangeScan_all_thingVisors (h : Host) (s : State) (htv : ThingVisorsConsistent h s) :
    rangeScan emptyKeySubstitute "" s.thingVisors = s.thingVisors := by
  unfold rangeScan
  rw [List.filter_eq_self]
  intro kv hkv
  obtain ⟨hne, hvalid, -⟩ := htv kv hkv
  have hchars := (validateCompositeKeyAttribute_iff kv.1).1 hvalid
  cases hdata : kv.1.data with
  | nil => exact absurd (String.ext hdata) hne
  | cons c cs =>
    have hc := Char.toNat_pos_of_ne_min (hchars c (by simp [hdata])).1
    have hone : (Char.ofNat 1).toNat = 1 := by decide
    have hlt : ¬ c.toNat < 1 := by omega
    simp [keyLt, hdata, emptyKeySubstitute, ltChars, hone, hlt, ltChars_nil_right]

/-- Under consistency, the VThings that `GetAllThingVisors` attaches to an id
are those of the prefix scan of that id. -/
theorem owned_eq_scan (h : Host) (s : State) (hvt : VThingsConsistent h s) (id : String)
    (hid : validateCompositeKeyAttribute id = true) :
    (decodeAll h.unmarshalVThingTV s.vThingTVs).filter
        (fun v => decide (index0 (Split v.ID '/') = id)) =
      decodeAll h.unmarshalVThingTV
        (rangeScan (compositeKey vThingTVObject [vThingTVPrefix, id])
          (compositeKey vThingTVObject [vThingTVPrefix, id] ++ String.mk [maxUnicodeRuneValue])
          s.vThingTVs) := by
  rw [rangeScan_inPartialRange]
  apply decodeAll_filter
  intro kv hkv
  obtain ⟨o, l, v, ho, hl, hkey, hv, hown⟩ := hvt kv hkv
  refine ⟨v, hv, ?_⟩
  rw [hkey, hown]
  by_cases hoi : o = id
  · subst hoi
    have hin := inPartialRange_extension vThingTVObject [vThingTVPrefix, o] [l]
      (by intro a ha; simp only [List.mem_singleton] at ha; rw [ha]; exact hl)
    simpa using hin.symm
  · have hout := inPartialRange_other vThingTVObject [vThingTVPrefix] [l] o id ho hid hoi
    simpa [hoi] using hout.symm

theorem GetAllVThingOfThingVisor_consistent (h : Host) (s : State)
    (hvt : VThingsConsistent h s) (id : String) (hid : validateCompositeKeyAttribute id = true) :
    GetAllVThingOfThingVisor h s id =
      .ok ((decodeAll h.unmarshalVThingTV s.vThingTVs).filter
        (fun v => decide (index0 (Split v.ID '/') = id))) := by
  have hkey := CreateCompositeKey_of_valid vThingTVObject [vThingTVPrefix, id] (by decide)
    (by
      intro a ha
      simp only [List.mem_cons, List.mem_singleton, List.not_mem_nil, or_false] at ha
      rcases ha with rfl | rfl
      · decide
      · exact hid)
  have hall : ∀ kv ∈ rangeScan (compositeKey vThingTVObject [vThingTVPrefix, id])
      (compositeKey vThingTVObject [vThingTVPrefix, id] ++ String.mk [maxUnicodeRuneValue])
      (s.collection CollectionvThingTVs), ∃ x, Unmarshal h.unmarshalVThingTV (some kv.2) = .ok x := by
    intro kv hkv
    obtain ⟨o, l, v, -, -, -, hv, -⟩ := hvt kv (List.mem_of_mem_filter hkv)
    exact ⟨v, hv⟩
  simp only [GetAllVThingOfThingVisor, GetPrivateDataByPartialCompositeKey, hkey,
    nextResults_open]
  rw [collectLoop_decodeAll _ _ hall, owned_eq_scan h s hvt id hid]
  rfl

theorem thingVisorLoop_consistent (h : Host) (s : State) (hvt : VThingsConsistent h s)
    (l : Collection)
    (hl : ∀ kv ∈ l, validateCompositeKeyAttribute kv.1 = true ∧
      ∃ t, Unmarshal h.unmarshalThingVisor (some kv.2) = .ok t ∧ t.ThingVisorID = kv.1 ∧
        t.VThings = [])
    (acc : List ThingVisor) :
    ∃ results,
      thingVisorLoop h (decodeAll h.unmarshalVThingTV s.vThingTVs) (l.map .ok) acc =
        .ok (acc ++ results)
      ∧ List.Forall₂
          (fun kv t => ∃ t0 vs, Unmarshal h.unmarshalThingVisor (some kv.2) = .ok t0 ∧
            GetAllVThingOfThingVisor h s kv.1 = .ok vs ∧ t = { t0 with VThings := vs })
          l results := by
  induction l generalizing acc with
  | nil => exact ⟨[], by simp [thingVisorLoop], List.Forall₂.nil⟩
  | cons kv rest ih =>
    obtain ⟨hvalid, t0, ht0, hid, hnone⟩ := hl kv (by simp)
    have hrest : ∀ x : ThingVisor, ∃ results,
        thingVisorLoop h (decodeAll h.unmarshalVThingTV s.vThingTVs) (rest.map .ok) (acc ++ [x]) =
          .ok (acc ++ [x] ++ results)
        ∧ List.Forall₂
            (fun kv t => ∃ t0 vs, Unmarshal h.unmarshalThingVisor (some kv.2) = .ok t0 ∧
              GetAllVThingOfThingVisor h s kv.1 = .ok vs ∧ t = { t0 with VThings := vs })
            rest results :=
      fun x => ih (fun kv1 hkv1 => hl kv1 (by simp [hkv1])) (acc ++ [x])
    obtain ⟨results, hloop, hforall⟩ := hrest
      { t0 with VThings := (List.filter (fun v => decide (index0 (Split v.ID '/') = kv.1))
          (decodeAll h.unmarshalVThingTV s.vThingTVs)) }
    refine ⟨_ :: results, ?_, List.Forall₂.cons
      ⟨t0, _, ht0, GetAllVThingOfThingVisor_consistent h s hvt kv.1 hvalid, rfl⟩ hforall⟩
    simp only [List.map_cons, thingVisorLoop, ht0, appendOwned_eq, hid, hnone, List.nil_append]
    rw [hid] at hloop
    rw [hloop]
    simp [hid]

/-- C4 (as amended): in a state whose ThingVisor and VThing records are
consistent with their keys, `GetAllThingVisors` returns one entry per stored
ThingVisor record, in stored order: the decoded body with, as its VThings,
exactly the VThing records stored under that ThingVisor's key prefix (the
result of `GetAllVThingOfThingVisor` for its id). -/
theorem GetAllThingVisors_consistent (h : Host) (s : State)
    (htv : ThingVisorsConsistent h s) (hvt : VThingsConsistent h s) :
    ∃ results,
      GetAllThingVisors h s = .ok results
      ∧ List.Forall₂
          (fun kv t => ∃ t0 vs, Unmarshal h.unmarshalThingVisor (some kv.2) = .ok t0 ∧
            GetAllVThingOfThingVisor h s kv.1 = .ok vs ∧ t = { t0 with VThings := vs })
          s.thingVisors results := by
  obtain ⟨results, hloop, hforall⟩ := thingVisorLoop_consistent h s hvt s.thingVisors
    (fun kv hkv => ⟨(htv kv hkv).2.1, (htv kv hkv).2.2⟩) []
  refine ⟨results, ?_, hforall⟩
  have hkey : CreateCompositeKey vThingTVObject [vThingTVPrefix] =
      some (compositeKey vThingTVObject [vThingTVPrefix]) := by decide
  have hall : ∀ kv ∈ s.vThingTVs, ∃ x, Unmarshal h.unmarshalVThingTV (some kv.2) = .ok x := by
    intro kv hkv
    obtain ⟨o, l, v, -, -, -, hv, -⟩ := hvt kv hkv
    exact ⟨v, hv⟩
  have hvalid : validateSimpleKeys [emptyKeySubstitute, ""] = true := by decide
  simp only [GetAllThingVisors, GetPrivateDataByPartialCompositeKey, hkey,
    GetPrivateDataByRange, nextResults_open, State.collection, if_true, hvalid,
    rangeScan_all_vThings h s hvt, rangeScan_all_thingVisors h s htv,
    collectLoop_decodeAll _ _ hall, List.nil_append]
  simpa using hloop

theorem stateTv1WithT1_thingVisors : ThingVisorsConsistent sampleHost stateTv1WithT1 := by
  intro kv hkv
  have hkv' : kv = ("tv1", tv1RunningJSON) := by
    have hlist : stateTv1WithT1.thingVisors = [("tv1", tv1RunningJSON)] := by decide
    rw [hlist] at hkv
    simpa using hkv
  subst hkv'
  exact ⟨by decide, by decide, tv1Running, by decide, rfl, rfl⟩

theorem stateTv1WithT1_vThings : VThingsConsistent sampleHost stateTv1WithT1 := by
  intro kv hkv
  have hkv' : kv = (compositeKey vThingTVObject [vThingTVPrefix, "tv1", "t1"], t1JSON) := by
    have hlist : stateTv1WithT1.vThingTVs =
        [(compositeKey vThingTVObject [vThingTVPrefix, "tv1", "t1"], t1JSON)] := by decide
    rw [hlist] at hkv
    simpa using hkv
  subst hkv'
  exact ⟨"tv1", "t1", { ID := "tv1/t1" }, by decide, by decide, rfl, by decide, by decide⟩

/-- Witness of `GetAllThingVisors_consistent`: ThingVisor `tv1` with its VThing
`tv1/t1`. -/
theorem GetAllThingVisors_consistent_witness :
    GetAllThingVisors sampleHost stateTv1WithT1 =
        .ok [{ tv1Running with VThings := [{ ID := "tv1/t1" }] }]
    ∧ ∃ results,
        GetAllThingVisors sampleHost stateTv1WithT1 = .ok results
        ∧ List.Forall₂
            (fun kv t => ∃ t0 vs,
              Unmarshal sampleHost.unmarshalThingVisor (some kv.2) = .ok t0 ∧
              GetAllVThingOfThingVisor sampleHost stateTv1WithT1 kv.1 = .ok vs ∧
              t = { t0 with VThings := vs })
            stateTv1WithT1.thingVisors results :=
  ⟨by decide,
    GetAllThingVisors_consistent sampleHost stateTv1WithT1 stateTv1WithT1_thingVisors
      stateTv1WithT1_vThings⟩

/-- C4 (counterexample): `CreateThingVisor("tv1", body)` with a body whose
`thingVisorID` is `other`, then `AddVThingToThingVisor("tv1", ...)` with logical
id `tv1/t1`, both succeed; the VThing is stored under the owner segment `tv1`,
and `GetAllThingVisors` returns the ThingVisor stored under `tv1` without it. -/
theorem GetAllThingVisors_body_id_mismatch :
    CreateThingVisor (sampleContext ["CreateThingVisor", "tv1", otherRunningJSON]) "tv1"
        otherRunningJSON {} = .ok stateMismatch
    ∧ AddVThingToThingVisor sampleHost (sampleContext ["AddVThingToThingVisor", "tv1", t1JSON])
        "tv1" t1JSON stateMismatch = .ok stateMismatchWithT1
    ∧ stateMismatchWithT1.thingVisors.map (fun kv => kv.1) = ["tv1"]
    ∧ GetAllVThingOfThingVisor sampleHost stateMismatchWithT1 "tv1" = .ok [{ ID := "tv1/t1" }]
    ∧ GetAllThingVisors sampleHost stateMismatchWithT1 = .ok [{ otherRunning with VThings := [] }] := by
  decide

/-! ## Creation on an occupied key -/

/-- C5: `CreateThingVisor`, `AddFlavour` and `AddVirtualSilo` on an occupied key
fail with the already-exists error; the ledger after the call, collections and
event log, is the ledger before it. -/
theorem create_on_occupied_key (h : Host) (ctx : Context) (s : State) :
    (∀ id JSONstr v, GetPrivateData s CollectionThingVisors id = some v →
      CreateThingVisor ctx id JSONstr s =
        .error (.AlreadyExists ("Add fails - thingVisor " ++ id ++ " already exists"))
      ∧ s.after (CreateThingVisor ctx id JSONstr s) = s)
    ∧ (∀ flavourID v, GetPrivateData s CollectionFlavours flavourID = some v →
      AddFlavour h ctx flavourID s =
        .error (.AlreadyExists ("WARNING Add fails - Flavour " ++ flavourID ++ " already exists"))
      ∧ s.after (AddFlavour h ctx flavourID s) = s)
    ∧ (∀ VSiloID flavourID k1 key v, index1 (Split VSiloID '_') = .ok k1 →
      CreateCompositeKey vSiloObject [vSiloPrefix, index0 (Split VSiloID '_'), k1] = some key →
      GetPrivateData s CollectionvSilos key = some v →
      AddVirtualSilo h ctx VSiloID flavourID s =
        .error (.AlreadyExists
          ("WARNING Add fails - VirtualSilo " ++ VSiloID ++ " already exists"))
      ∧ s.after (AddVirtualSilo h ctx VSiloID flavourID s) = s) := by
  refine ⟨?_, ?_, ?_⟩
  · intro id JSONstr v hget
    have herr : CreateThingVisor ctx id JSONstr s =
        .error (.AlreadyExists ("Add fails - thingVisor " ++ id ++ " already exists")) := by
      simp [CreateThingVisor, hget]
    exact ⟨herr, by rw [herr]; rfl⟩
  · intro flavourID v hget
    have herr : AddFlavour h ctx flavourID s =
        .error (.AlreadyExists
          ("WARNING Add fails - Flavour " ++ flavourID ++ " already exists")) := by
      simp [AddFlavour, hget]
    exact ⟨herr, by rw [herr]; rfl⟩
  · intro VSiloID flavourID k1 key v hk1 hkey hget
    have herr : AddVirtualSilo h ctx VSiloID flavourID s =
        .error (.AlreadyExists
          ("WARNING Add fails - VirtualSilo " ++ VSiloID ++ " already exists")) := by
      simp [AddVirtualSilo, hk1, hkey, hget]
    exact ⟨herr, by rw [herr]; rfl⟩

set_option maxRecDepth 1000000 in
/-- Witness of `create_on_occupied_key`: ThingVisor `tv1`, Flavour `flavourX`
and VirtualSilo `tenantA_flavourX` are stored; creating them again fails. -/
theorem create_on_occupied_key_witness :
    CreateThingVisor (sampleContext ["CreateThingVisor", "tv1", tv1PendingJSON]) "tv1"
        tv1PendingJSON stateOccupied =
      .error (.AlreadyExists ("Add fails - thingVisor " ++ "tv1" ++ " already exists"))
    ∧ AddFlavour sampleHost (sampleContext ["AddFlavour", "flavourX"]) "flavourX" stateOccupied =
      .error (.AlreadyExists ("WARNING Add fails - Flavour " ++ "flavourX" ++ " already exists"))
    ∧ AddVirtualSilo sampleHost (sampleContext ["AddVirtualSilo", "tenantA_flavourX", "flavourX"])
        "tenantA_flavourX" "flavourX" stateOccupied =
      .error (.AlreadyExists
        ("WARNING Add fails - VirtualSilo " ++ "tenantA_flavourX" ++ " already exists")) :=
  ⟨((create_on_occupied_key sampleHost
        (sampleContext ["CreateThingVisor", "tv1", tv1PendingJSON]) stateOccupied).1
      "tv1" tv1PendingJSON tv1RunningJSON (by decide)).1,
    ((create_on_occupied_key sampleHost (sampleContext ["AddFlavour", "flavourX"])
        stateOccupied).2.1
      "flavourX" (sampleMarshalFlavour { FlavourID := "flavourX", Status := STATUS_PENDING })
      (by decide)).1,
    ((create_on_occupied_key sampleHost
        (sampleContext ["AddVirtualSilo", "tenantA_flavourX", "flavourX"]) stateOccupied).2.2
      "tenantA_flavourX" "flavourX" "flavourX"
      (compositeKey vSiloObject [vSiloPrefix, "tenantA", "flavourX"])
      (sampleMarshalVirtualSilo { VSiloID := "tenantA_flavourX", Status := STATUS_PENDING })
      (by decide) (by decide) (by decide)).1⟩

/-! ## CreateThingVisor then GetThingVisor -/

theorem eraseKey_of_absent (k : String) (c : Collection) (habsent : lookupKey k c = none) :
    eraseKey k c = c := by
  induction c with
  | nil => rfl
  | cons kv rest ih =>
    obtain ⟨a, b⟩ := kv
    rw [lookupKey_cons] at habsent
    by_cases hk : a = k
    · rw [if_pos hk] at habsent; cases habsent
    · rw [if_neg hk] at habsent
      rw [eraseKey_cons, if_neg hk, ih habsent]

/-- C6 (as amended): for a non-empty id free of U+0000 and U+10FFFF that is
absent from the ThingVisor collection and has no VThing record in the range of
its key prefix, and a body that decodes to `t`: `CreateThingVisor(id, body)` succeeds
and `GetThingVisor(id)` on the resulting ledger returns `t`. -/
theorem CreateThingVisor_then_GetThingVisor (h : Host) (ctx : Context) (id body : String)
    (s : State) (t : ThingVisor)
    (hid : id ≠ "") (hvalid : validateCompositeKeyAttribute id = true)
    (habsent : GetPrivateData s CollectionThingVisors id = none)
    (hchildren : ∀ kv ∈ s.vThingTVs,
        inPartialRange (compositeKey vThingTVObject [vThingTVPrefix, id]) kv.1 = false)
    (hbody : Unmarshal h.unmarshalThingVisor (some body) = .ok t) :
    ∃ s', CreateThingVisor ctx id body s = .ok s' ∧ GetThingVisor h s' id = .ok t := by
  have hne := (Unmarshal_ok_ne_empty hbody).1
  have hkey := CreateCompositeKey_of_valid vThingTVObject [vThingTVPrefix, id] (by decide)
    (by
      intro a ha
      simp only [List.mem_cons, List.mem_singleton, List.not_mem_nil, or_false] at ha
      rcases ha with rfl | rfl
      · decide
      · exact hvalid)
  have hchildren' : GetPrivateDataByPartialCompositeKey s CollectionvThingTVs vThingTVObject
      [vThingTVPrefix, id] = .ok [] := by
    simp only [GetPrivateDataByPartialCompositeKey, hkey, rangeScan_inPartialRange, Except.ok.injEq,
      List.filter_eq_nil_iff]
    intro kv hkv
    simp [hchildren kv hkv]
  have hcreate : CreateThingVisor ctx id body s =
      .ok ((s.setCollection CollectionThingVisors
          (putKey id body (s.collection CollectionThingVisors))).withEvent ctx "CreateThingVisor"
        [ { StartNode := ctx.userMSPID, EndNode := "user-" ++ ctx.userID },
          { StartNode := "user-" ++ ctx.userID, EndNode := "thingvisor-" ++ id } ]) := by
    simp only [CreateThingVisor, habsent, PutPrivateData_ok _ _ _ _ hid hne]
    rw [SetHistory_withEvent _ _ _ _ (by decide)]
  refine ⟨_, hcreate, ?_⟩
  have hget : GetPrivateData
      ((s.setCollection CollectionThingVisors
          (putKey id body (s.collection CollectionThingVisors))).withEvent ctx "CreateThingVisor"
        [ { StartNode := ctx.userMSPID, EndNode := "user-" ++ ctx.userID },
          { StartNode := "user-" ++ ctx.userID, EndNode := "thingvisor-" ++ id } ])
      CollectionThingVisors id = some body := by
    unfold GetPrivateData
    rw [collection_withEvent, collection_setCollection_self]
    exact lookupKey_putKey_self _ _ _
  have hscan : GetPrivateDataByPartialCompositeKey
      ((s.setCollection CollectionThingVisors
          (putKey id body (s.collection CollectionThingVisors))).withEvent ctx "CreateThingVisor"
        [ { StartNode := ctx.userMSPID, EndNode := "user-" ++ ctx.userID },
          { StartNode := "user-" ++ ctx.userID, EndNode := "thingvisor-" ++ id } ])
      CollectionvThingTVs vThingTVObject [vThingTVPrefix, id] = .ok [] := by
    rw [← hchildren']
    apply GetPrivateDataByPartialCompositeKey_congr
    rw [collection_withEvent, collection_setCollection_ne _ (by decide)]
  simp [GetThingVisor, hget, hbody, hscan, nextResults, collectLoop]

/-- Witness of `CreateThingVisor_then_GetThingVisor`: `tv1` on the empty
ledger. -/
theorem CreateThingVisor_then_GetThingVisor_witness :
    ("tv1" ≠ "" ∧ validateCompositeKeyAttribute "tv1" = true
      ∧ GetPrivateData {} CollectionThingVisors "tv1" = none
      ∧ (∀ kv ∈ ({} : State).vThingTVs,
          inPartialRange (compositeKey vThingTVObject [vThingTVPrefix, "tv1"]) kv.1 = false)
      ∧ Unmarshal sampleHost.unmarshalThingVisor (some tv1PendingJSON) = .ok tv1Pending)
    ∧ ∃ s', CreateThingVisor (sampleContext ["CreateThingVisor", "tv1", tv1PendingJSON]) "tv1"
          tv1PendingJSON {} = .ok s'
        ∧ GetThingVisor sampleHost s' "tv1" = .ok tv1Pending :=
  ⟨⟨by decide, by decide, by decide, by decide, by decide⟩,
    CreateThingVisor_then_GetThingVisor sampleHost
      (sampleContext ["CreateThingVisor", "tv1", tv1PendingJSON]) "tv1" tv1PendingJSON {}
      tv1Pending (by decide) (by decide) (by decide) (by decide) (by decide)⟩

/-- C6 (counterexample): the empty id is absent from the empty ledger, no
VThing is stored under it and the body decodes; `CreateThingVisor` fails, the
ledger refuses the empty key. -/
theorem CreateThingVisor_empty_id :
    GetPrivateData {} CollectionThingVisors "" = none
    ∧ GetPrivateDataByPartialCompositeKey {} CollectionvThingTVs vThingTVObject
        [vThingTVPrefix, ""] = .ok []
    ∧ Unmarshal sampleHost.unmarshalThingVisor (some tv1PendingJSON) = .ok tv1Pending
    ∧ CreateThingVisor (sampleContext ["CreateThingVisor", "", tv1PendingJSON]) ""
        tv1PendingJSON {} = .error (.Store "key must not be an empty string") := by
  decide

/-! ## Deletion of an absent record -/

theorem delLoop_frame (n : CollectionName) (args : List String) :
    ∀ (s s1 : State), delLoop n args s = .ok s1 →
      s1.events = s.events ∧ (∀ m, m ≠ n → s1.collection m = s.collection m)
      ∧ ∀ k, lookupKey k (s1.collection n) =
          if k ∈ args then none else lookupKey k (s.collection n) := by
  induction args with
  | nil =>
    intro s s1 hloop
    simp only [delLoop, Except.ok.injEq] at hloop
    subst hloop
    simp
  | cons key rest ih =>
    intro s s1 hloop
    simp only [delLoop, DelPrivateData] at hloop
    obtain ⟨hev, hother, hlook⟩ := ih _ _ hloop
    refine ⟨by rw [hev, events_setCollection], ?_, ?_⟩
    · intro m hm
      rw [hother m hm, collection_setCollection_ne _ hm]
    · intro k
      rw [hlook k, collection_setCollection_self]
      by_cases hk : k = key
      · subst hk
        simp [lookupKey_eraseKey_self]
      · by_cases hrest : k ∈ rest
        · simp [hrest]
        · simp [hrest, hk, lookupKey_eraseKey_ne hk]

theorem deleteMembershipLoop_succeeds (VSiloID k0 k1 : String) (args : List String)
    (hk0 : validateCompositeKeyAttribute k0 = true) (hk1 : validateCompositeKeyAttribute k1 = true)
    (hargs : ∀ t ∈ args, validateCompositeKeyAttribute t = true) :
    ∀ (s : State) (g : List GraphNode),
      ∃ s1 g1, deleteMembershipLoop VSiloID k0 k1 args s g = .ok (s1, g1) := by
  induction args with
  | nil => intro s g; exact ⟨s, g, rfl⟩
  | cons t rest ih =>
    intro s g
    have hkey := CreateCompositeKey_of_valid vThingVSiloObject [vThingVSiloPrefix, k0, k1, t]
      (by decide)
      (by
        intro a ha
        simp only [List.mem_cons, List.mem_singleton, List.not_mem_nil, or_false] at ha
        rcases ha with rfl | rfl | rfl | rfl
        · decide
        · exact hk0
        · exact hk1
        · exact hargs _ (by simp))
    simp only [deleteMembershipLoop, hkey, DelPrivateData]
    exact ih (fun t' ht' => hargs t' (by simp [ht'])) _ _

/-- C7 (as amended): `DeleteFlavour` on an absent id fails with the not-found
error and the ledger stays as it was; `DeleteVirtualSilo` makes no existence
check: on an absent silo with valid id segments and valid accompanying ids it
succeeds, leaves the silo collection as it was and appends its event. -/
theorem delete_absent (ctx : Context) (s : State) :
    (∀ flavourID, GetPrivateData s CollectionFlavours flavourID = none →
      DeleteFlavour ctx flavourID s =
        .error (.NotFound ("Delete Flavour fails - Flavour " ++ flavourID ++ " not exist"))
      ∧ s.after (DeleteFlavour ctx flavourID s) = s)
    ∧ (∀ VSiloID fn ts k1 key, ctx.StringArgs = fn :: VSiloID :: ts →
      index1 (Split VSiloID '_') = .ok k1 →
      CreateCompositeKey vSiloObject [vSiloPrefix, index0 (Split VSiloID '_'), k1] = some key →
      (∀ t ∈ VSiloID :: ts, validateCompositeKeyAttribute t = true) →
      GetPrivateData s CollectionvSilos key = none →
      ∃ s' nodes, DeleteVirtualSilo ctx VSiloID s = .ok s'
        ∧ s'.vSilos = s.vSilos
        ∧ s'.events = s.events ++ [provenance ctx "DeleteVirtualSilo" nodes]) := by
  refine ⟨?_, ?_⟩
  · intro flavourID hget
    have herr : DeleteFlavour ctx flavourID s =
        .error (.NotFound ("Delete Flavour fails - Flavour " ++ flavourID ++ " not exist")) := by
      simp [DeleteFlavour, hget]
    exact ⟨herr, by rw [herr]; rfl⟩
  · intro VSiloID fn ts k1 key hctx hk1 hkey hvalid habsent
    obtain ⟨-, hatts, -⟩ := CreateCompositeKey_eq_some hkey
    obtain ⟨s1, g1, hloop⟩ := deleteMembershipLoop_succeeds VSiloID (index0 (Split VSiloID '_')) k1
      (VSiloID :: ts) (hatts _ (by simp)) (hatts _ (by simp)) hvalid s
      [ { StartNode := ctx.userMSPID, EndNode := "user-" ++ ctx.userID, Delete := false },
        { StartNode := "user-" ++ ctx.userID, EndNode := "silo-" ++ VSiloID, Delete := true },
        { StartNode := "flavour-" ++ k1, EndNode := "silo-" ++ VSiloID, Delete := true } ]
    obtain ⟨-, -, -, hsilos, -, hevents, -⟩ := deleteMembershipLoop_ok _ _ _ _ _ _ _ _ hloop
    have hargs : argsFrom1 ctx = .ok (VSiloID :: ts) := by simp [argsFrom1, hctx]
    have hdel : DeleteVirtualSilo ctx VSiloID s =
        .ok ((s1.setCollection CollectionvSilos
          (eraseKey key (s1.collection CollectionvSilos))).withEvent ctx "DeleteVirtualSilo" g1) := by
      simp only [DeleteVirtualSilo, hk1, hargs, hloop, hkey, DelPrivateData]
      rw [SetHistory_withEvent _ _ _ _ (by decide)]
    refine ⟨_, g1, hdel, ?_, ?_⟩
    · have hcoll : s1.collection CollectionvSilos = s.vSilos := hsilos
      show eraseKey key (s1.collection CollectionvSilos) = s.vSilos
      rw [hcoll]
      exact eraseKey_of_absent _ _ habsent
    · rw [events_withEvent, events_setCollection, hevents]

/-- Witness of `delete_absent`: Flavour `flavourX` and VirtualSilo
`tenantA_flavourX` are absent from the empty ledger. -/
theorem delete_absent_witness :
    (DeleteFlavour (sampleContext ["DeleteFlavour", "flavourX"]) "flavourX" {} =
        .error (.NotFound ("Delete Flavour fails - Flavour " ++ "flavourX" ++ " not exist")))
    ∧ ∃ s' nodes, DeleteVirtualSilo (sampleContext ["DeleteVirtualSilo", "tenantA_flavourX"])
          "tenantA_flavourX" {} = .ok s'
        ∧ s'.vSilos = ({} : State).vSilos
        ∧ s'.events = ({} : State).events ++
            [provenance (sampleContext ["DeleteVirtualSilo", "tenantA_flavourX"])
              "DeleteVirtualSilo" nodes] :=
  ⟨((delete_absent (sampleContext ["DeleteFlavour", "flavourX"]) {}).1 "flavourX"
      (by decide)).1,
    (delete_absent (sampleContext ["DeleteVirtualSilo", "tenantA_flavourX"]) {}).2
      "tenantA_flavourX" "DeleteVirtualSilo" [] "flavourX"
      (compositeKey vSiloObject [vSiloPrefix, "tenantA", "flavourX"])
      rfl (by decide) (by decide) (by decide) (by decide)⟩

/-- C7 (counterexample): VirtualSilo `tenantA_flavourX` is absent from the empty
ledger (`GetVirtualSilo` reports it), and `DeleteVirtualSilo` on it succeeds
and emits its event. -/
theorem DeleteVirtualSilo_absent_succeeds :
    GetVirtualSilo sampleHost {} "tenantA_flavourX" =
      .error (.NotFound "Get VirtualSilo fails - VirtualSilo tenantA_flavourX not exist")
    ∧ DeleteVirtualSilo (sampleContext ["DeleteVirtualSilo", "tenantA_flavourX"])
        "tenantA_flavourX" {} =
      .ok { events :=
        [("DeleteVirtualSilo",
          { EventName := "DeleteVirtualSilo", Time := "seconds:1", TxID := "tx1",
            UserID := "alice", UserMSPID := "Org1MSP",
            GraphNodes :=
              [ { StartNode := "Org1MSP", EndNode := "user-alice", Delete := false },
                { StartNode := "user-alice", EndNode := "silo-tenantA_flavourX", Delete := true },
                { StartNode := "flavour-flavourX", EndNode := "silo-tenantA_flavourX",
                  Delete := true },
                { StartNode := "silo-tenantA_flavourX", EndNode := "vthing-tenantA_flavourX",
                  Delete := true } ] })] } := by
  decide

/-! ## UpdateThingVisorPartial -/

/-- C8: on an absent id `UpdateThingVisorPartial` fails (nothing decodes) and
the ledger stays as it was; on a non-empty id holding a record that decodes to
`t` it succeeds, and the record stored afterwards decodes to `t` with
`tvDescription` and `params` replaced by the arguments that are not empty, all
other fields as in `t`. -/
theorem UpdateThingVisorPartial_outcome (h : Host) (ctx : Context)
    (id tvDescription params : String) (s : State) :
    (GetPrivateData s CollectionThingVisors id = none →
      UpdateThingVisorPartial h ctx id tvDescription params s = .error .Serialization
      ∧ s.after (UpdateThingVisorPartial h ctx id tvDescription params s) = s)
    ∧ (∀ byteData t, id ≠ "" →
      GetPrivateData s CollectionThingVisors id = some byteData →
      Unmarshal h.unmarshalThingVisor (some byteData) = .ok t →
      Unmarshal h.unmarshalThingVisor
          (some (h.marshalThingVisor
            { t with
              TvDescription := if tvDescription = "" then t.TvDescription else tvDescription
              Params := if params = "" then t.Params else params })) =
        .ok { t with
              TvDescription := if tvDescription = "" then t.TvDescription else tvDescription
              Params := if params = "" then t.Params else params } →
      ∃ s', UpdateThingVisorPartial h ctx id tvDescription params s = .ok s'
        ∧ Unmarshal h.unmarshalThingVisor (GetPrivateData s' CollectionThingVisors id) =
          .ok { t with
                TvDescription := if tvDescription = "" then t.TvDescription else tvDescription
                Params := if params = "" then t.Params else params }) := by
  refine ⟨?_, ?_⟩
  · intro habsent
    have herr : UpdateThingVisorPartial h ctx id tvDescription params s =
        .error .Serialization := by
      simp [UpdateThingVisorPartial, habsent, Unmarshal]
    exact ⟨herr, by rw [herr]; rfl⟩
  · intro byteData t hid hget ht hround
    have hne := (Unmarshal_ok_ne_empty hround).1
    have hmerge :
        (if params ≠ "" then
            { (if tvDescription ≠ "" then { t with TvDescription := tvDescription } else t) with
              Params := params }
          else (if tvDescription ≠ "" then { t with TvDescription := tvDescription } else t)) =
        { t with
          TvDescription := if tvDescription = "" then t.TvDescription else tvDescription
          Params := if params = "" then t.Params else params } := by
      by_cases hd : tvDescription = "" <;> by_cases hp : params = "" <;> simp [hd, hp]
    have hupdate : UpdateThingVisorPartial h ctx id tvDescription params s =
        .ok ((s.setCollection CollectionThingVisors
            (putKey id
              (h.marshalThingVisor
                { t with
                  TvDescription := if tvDescription = "" then t.TvDescription else tvDescription
                  Params := if params = "" then t.Params else params })
              (s.collection CollectionThingVisors))).withEvent ctx "UpdateThingVisorPartial"
          [ { StartNode := ctx.userMSPID, EndNode := "user-" ++ ctx.userID, Delete := false },
            { StartNode := "user-" ++ ctx.userID, EndNode := "thingvisor-" ++ id,
              Delete := false } ]) := by
      simp only [UpdateThingVisorPartial, hget, ht, hmerge, PutPrivateData_ok _ _ _ _ hid hne]
      rw [SetHistory_withEvent _ _ _ _ (by decide)]
    refine ⟨_, hupdate, ?_⟩
    have hstored : ∀ v nodes, GetPrivateData
        ((s.setCollection CollectionThingVisors
            (putKey id v (s.collection CollectionThingVisors))).withEvent ctx
          "UpdateThingVisorPartial" nodes) CollectionThingVisors id = some v := by
      intro v nodes
      unfold GetPrivateData
      rw [collection_withEvent, collection_setCollection_self]
      exact lookupKey_putKey_self _ _ _
    rw [hstored]
    exact hround

set_option maxRecDepth 1000000 in
/-- Witness of `UpdateThingVisorPartial_outcome`: the description of the running
ThingVisor `tv1` is set, its params are left. -/
theorem UpdateThingVisorPartial_outcome_witness :
    ∃ s', UpdateThingVisorPartial sampleHost
          (sampleContext ["UpdateThingVisorPartial", "tv1", "relay", ""]) "tv1" "relay" ""
          stateTv1Running = .ok s'
      ∧ Unmarshal sampleHost.unmarshalThingVisor (GetPrivateData s' CollectionThingVisors "tv1") =
        .ok { tv1Running with TvDescription := "relay" } :=
  (UpdateThingVisorPartial_outcome sampleHost
      (sampleContext ["UpdateThingVisorPartial", "tv1", "relay", ""]) "tv1" "relay" ""
      stateTv1Running).2 tv1RunningJSON tv1Running (by decide) (by decide) (by decide) (by decide)

/-! ## Provenance events -/

/-- The event record `SetHistory` builds from the context. -/
theorem SetHistory_events {ctx : Context} {EventName : String} {nodes : List GraphNode}
    {s s' : State} (hok : SetHistory ctx EventName nodes ctx.userID ctx.userMSPID s = .ok s') :
    s'.events = s.events ++ [provenance ctx EventName nodes] := by
  unfold SetHistory SetEvent at hok
  split at hok
  · cases hok
  · cases hok; rfl

theorem PutPrivateData_events {s s' : State} {n : CollectionName} {key value : String}
    (hok : PutPrivateData s n key value = .ok s') : s'.events = s.events := by
  unfold PutPrivateData at hok
  split at hok
  · cases hok
  · split at hok <;> (cases hok; exact events_setCollection _ _ _)

theorem DelPrivateData_events {s s' : State} {n : CollectionName} {key : String}
    (hok : DelPrivateData s n key = .ok s') : s'.events = s.events := by
  unfold DelPrivateData at hok
  cases hok
  exact events_setCollection _ _ _

theorem CreateThingVisor_events {ctx : Context} {id JSONstr : String} {s s' : State}
    (hok : CreateThingVisor ctx id JSONstr s = .ok s') :
    ∃ nodes, s'.events = s.events ++ [provenance ctx "CreateThingVisor" nodes] := by
  unfold CreateThingVisor at hok
  dsimp only at hok
  repeat' split at hok
  all_goals first
    | exact ⟨_, by rw [SetHistory_events hok, PutPrivateData_events (by assumption)]⟩
    | cases hok

theorem UpdateThingVisor_events {ctx : Context} {id JSONstr : String} {s s' : State}
    (hok : UpdateThingVisor ctx id JSONstr s = .ok s') :
    ∃ nodes, s'.events = s.events ++ [provenance ctx "UpdateThingVisor" nodes] := by
  unfold UpdateThingVisor at hok
  dsimp only at hok
  repeat' split at hok
  all_goals first
    | exact ⟨_, by rw [SetHistory_events hok, PutPrivateData_events (by assumption)]⟩
    | cases hok

theorem UpdateThingVisorPartial_events {h : Host} {ctx : Context} {id tvDescription params : String} {s s' : State}
    (hok : UpdateThingVisorPartial h ctx id tvDescription params s = .ok s') :
    ∃ nodes, s'.events = s.events ++ [provenance ctx "UpdateThingVisorPartial" nodes] := by
  unfold UpdateThingVisorPartial at hok
  dsimp only at hok
  split at hok
  · cases hok
  · split at hok
    · cases hok
    · exact ⟨_, by rw [SetHistory_events hok, PutPrivateData_events (by assumption)]⟩

theorem StopThingVisor_events {h : Host} {ctx : Context} {ThingVisorID : String} {s s' : State}
    (hok : StopThingVisor h ctx ThingVisorID s = .ok s') :
    ∃ nodes, s'.events = s.events ++ [provenance ctx "StopThingVisor" nodes] := by
  unfold StopThingVisor at hok
  dsimp only at hok
  repeat' split at hok
  all_goals first
    | exact ⟨_, by rw [SetHistory_events hok, PutPrivateData_events (by assumption)]⟩
    | cases hok

theorem AddVThingToThingVisor_events {h : Host} {ctx : Context} {ThingVisorID vThingData : String} {s s' : State}
    (hok : AddVThingToThingVisor h ctx ThingVisorID vThingData s = .ok s') :
    ∃ nodes, s'.events = s.events ++ [provenance ctx "AddVThingToThingVisor" nodes] := by
  unfold AddVThingToThingVisor at hok
  dsimp only at hok
  repeat' split at hok
  all_goals first
    | exact ⟨_, by rw [SetHistory_events hok, PutPrivateData_events (by assumption)]⟩
    | cases hok

theorem UpdateVThingOfThingVisor_events {h : Host} {ctx : Context} {VThingID vThingData : String} {s s' : State}
    (hok : UpdateVThingOfThingVisor h ctx VThingID vThingData s = .ok s') :
    ∃ nodes, s'.events = s.events ++ [provenance ctx "UpdateVThingOfThingVisor" nodes] := by
  unfold UpdateVThingOfThingVisor at hok
  dsimp only at hok
  repeat' split at hok
  all_goals first
    | exact ⟨_, by rw [SetHistory_events hok, PutPrivateData_events (by assumption)]⟩
    | cases hok

theorem DeleteVThingFromThingVisor_events {h : Host} {ctx : Context} {ThingVisorID vThingData : String} {s s' : State}
    (hok : DeleteVThingFromThingVisor h ctx ThingVisorID vThingData s = .ok s') :
    ∃ nodes, s'.events = s.events ++ [provenance ctx "DeleteVThingFromThingVisor" nodes] := by
  unfold DeleteVThingFromThingVisor at hok
  dsimp only at hok
  repeat' split at hok
  all_goals first
    | exact ⟨_, by rw [SetHistory_events hok, DelPrivateData_events (by assumption)]⟩
    | cases hok

theorem AddFlavour_events {h : Host} {ctx : Context} {flavourID : String} {s s' : State}
    (hok : AddFlavour h ctx flavourID s = .ok s') :
    ∃ nodes, s'.events = s.events ++ [provenance ctx "AddFlavour" nodes] := by
  unfold AddFlavour at hok
  dsimp only at hok
  repeat' split at hok
  all_goals first
    | exact ⟨_, by rw [SetHistory_events hok, PutPrivateData_events (by assumption)]⟩
    | cases hok

theorem UpdateFlavour_events {ctx : Context} {flavourID flavourData : String} {s s' : State}
    (hok : UpdateFlavour ctx flavourID flavourData s = .ok s') :
    ∃ nodes, s'.events = s.events ++ [provenance ctx "UpdateFlavour" nodes] := by
  unfold UpdateFlavour at hok
  dsimp only at hok
  repeat' split at hok
  all_goals first
    | exact ⟨_, by rw [SetHistory_events hok, PutPrivateData_events (by assumption)]⟩
    | cases hok

theorem DeleteFlavour_events {ctx : Context} {flavourID : String} {s s' : State}
    (hok : DeleteFlavour ctx flavourID s = .ok s') :
    ∃ nodes, s'.events = s.events ++ [provenance ctx "DeleteFlavour" nodes] := by
  unfold DeleteFlavour at hok
  dsimp only at hok
  repeat' split at hok
  all_goals first
    | exact ⟨_, by rw [SetHistory_events hok, DelPrivateData_events (by assumption)]⟩
    | cases hok

theorem AddVirtualSilo_events {h : Host} {ctx : Context} {VSiloID flavourID : String} {s s' : State}
    (hok : AddVirtualSilo h ctx VSiloID flavourID s = .ok s') :
    ∃ nodes, s'.events = s.events ++ [provenance ctx "AddVirtualSilo" nodes] := by
  unfold AddVirtualSilo at hok
  dsimp only at hok
  repeat' split at hok
  all_goals first
    | exact ⟨_, by rw [SetHistory_events hok, PutPrivateData_events (by assumption)]⟩
    | cases hok

theorem UpdateVirtualSilo_events {ctx : Context} {VSiloID SiloData : String} {s s' : State}
    (hok : UpdateVirtualSilo ctx VSiloID SiloData s = .ok s') :
    ∃ nodes, s'.events = s.events ++ [provenance ctx "UpdateVirtualSilo" nodes] := by
  unfold UpdateVirtualSilo at hok
  dsimp only at hok
  repeat' split at hok
  all_goals first
    | exact ⟨_, by rw [SetHistory_events hok, PutPrivateData_events (by assumption)]⟩
    | cases hok

theorem AddVThingVSilo_events {ctx : Context} {VSiloID VThingID Data : String} {s s' : State}
    (hok : AddVThingVSilo ctx VSiloID VThingID Data s = .ok s') :
    ∃ nodes, s'.events = s.events ++ [provenance ctx "AddVThingVSilo" nodes] := by
  unfold AddVThingVSilo at hok
  dsimp only at hok
  repeat' split at hok
  all_goals first
    | exact ⟨_, by rw [SetHistory_events hok, PutPrivateData_events (by assumption)]⟩
    | cases hok

theorem DeleteVThingVSilo_events {ctx : Context} {VSiloID VThingID : String} {s s' : State}
    (hok : DeleteVThingVSilo ctx VSiloID VThingID s = .ok s') :
    ∃ nodes, s'.events = s.events ++ [provenance ctx "DeleteVThingVSilo" nodes] := by
  unfold DeleteVThingVSilo at hok
  dsimp only at hok
  repeat' split at hok
  all_goals first
    | exact ⟨_, by rw [SetHistory_events hok, DelPrivateData_events (by assumption)]⟩
    | cases hok

theorem DeleteThingVisor_events {ctx : Context} {ThingVisorID : String} {s s' : State}
    (hok : DeleteThingVisor ctx ThingVisorID s = .ok s') :
    ∃ nodes, s'.events = s.events ++ [provenance ctx "DeleteThingVisor" nodes] := by
  unfold DeleteThingVisor at hok
  dsimp only at hok
  repeat' split at hok
  all_goals first
    | exact ⟨_, by
        rw [SetHistory_events hok, DelPrivateData_events (by assumption),
          (delLoop_frame _ _ _ _ (by assumption)).1]⟩
    | cases hok

theorem DeleteVirtualSilo_events {ctx : Context} {VSiloID : String} {s s' : State}
    (hok : DeleteVirtualSilo ctx VSiloID s = .ok s') :
    ∃ nodes, s'.events = s.events ++ [provenance ctx "DeleteVirtualSilo" nodes] := by
  obtain ⟨k1, args, s1, g, key, -, -, hloop, -, hs'⟩ := DeleteVirtualSilo_ok hok
  obtain ⟨-, -, -, -, -, hevents, -⟩ := deleteMembershipLoop_ok _ _ _ _ _ _ _ _ hloop
  refine ⟨g, ?_⟩
  rw [hs', ← hevents]
  rfl

theorem written_ok {r : Except Error State} {x : Response} {s' : State}
    (hok : written r = .ok (x, s')) : r = .ok s' := by
  unfold written at hok
  split at hok
  · cases hok; rfl
  · cases hok

/-- C9: a successful call of a mutating transaction function appends exactly
one event to the log, named after the function and carrying the transaction
id, timestamp, actor id and actor organisation id of the context; a call of a
read-only function leaves the whole ledger, event log included, as it was. -/
theorem invoke_provenance (h : Host) (ctx : Context) (call : Invocation) (s : State) :
    (∀ x s', invoke h ctx call s = .ok (x, s') → call.mutating = true →
      ∃ nodes, s'.events = s.events ++
        [(call.name, { EventName := call.name, Time := ctx.Time, TxID := ctx.TxID,
                       UserID := ctx.userID, UserMSPID := ctx.userMSPID, GraphNodes := nodes })])
    ∧ (call.mutating = false → ledgerAfter s (invoke h ctx call s) = s) := by
  have hread : ∀ {α : Type} (f : α → Response) (r : Except Error α),
      ledgerAfter s (answered f s r) = s := by
    intro α f r
    cases r <;> rfl
  cases call <;> simp only [invoke]
  case CreateThingVisor =>
    exact ⟨fun _ _ hok _ => CreateThingVisor_events (written_ok hok), by intro hm; cases hm⟩
  case UpdateThingVisor =>
    exact ⟨fun _ _ hok _ => UpdateThingVisor_events (written_ok hok), by intro hm; cases hm⟩
  case UpdateThingVisorPartial =>
    exact ⟨fun _ _ hok _ => UpdateThingVisorPartial_events (written_ok hok),
      by intro hm; cases hm⟩
  case DeleteThingVisor =>
    exact ⟨fun _ _ hok _ => DeleteThingVisor_events (written_ok hok), by intro hm; cases hm⟩
  case StopThingVisor =>
    exact ⟨fun _ _ hok _ => StopThingVisor_events (written_ok hok), by intro hm; cases hm⟩
  case AddVThingToThingVisor =>
    exact ⟨fun _ _ hok _ => AddVThingToThingVisor_events (written_ok hok), by intro hm; cases hm⟩
  case UpdateVThingOfThingVisor =>
    exact ⟨fun _ _ hok _ => UpdateVThingOfThingVisor_events (written_ok hok),
      by intro hm; cases hm⟩
  case DeleteVThingFromThingVisor =>
    exact ⟨fun _ _ hok _ => DeleteVThingFromThingVisor_events (written_ok hok),
      by intro hm; cases hm⟩
  case AddFlavour =>
    exact ⟨fun _ _ hok _ => AddFlavour_events (written_ok hok), by intro hm; cases hm⟩
  case UpdateFlavour =>
    exact ⟨fun _ _ hok _ => UpdateFlavour_events (written_ok hok), by intro hm; cases hm⟩
  case DeleteFlavour =>
    exact ⟨fun _ _ hok _ => DeleteFlavour_events (written_ok hok), by intro hm; cases hm⟩
  case AddVirtualSilo =>
    exact ⟨fun _ _ hok _ => AddVirtualSilo_events (written_ok hok), by intro hm; cases hm⟩
  case UpdateVirtualSilo =>
    exact ⟨fun _ _ hok _ => UpdateVirtualSilo_events (written_ok hok), by intro hm; cases hm⟩
  case DeleteVirtualSilo =>
    exact ⟨fun _ _ hok _ => DeleteVirtualSilo_events (written_ok hok), by intro hm; cases hm⟩
  case AddVThingVSilo =>
    exact ⟨fun _ _ hok _ => AddVThingVSilo_events (written_ok hok), by intro hm; cases hm⟩
  case DeleteVThingVSilo =>
    exact ⟨fun _ _ hok _ => DeleteVThingVSilo_events (written_ok hok), by intro hm; cases hm⟩
  all_goals exact ⟨(by intro _ _ _ hm; cases hm), fun _ => hread _ _⟩

/-- Witness of `invoke_provenance`: `CreateThingVisor` on the empty ledger
appends its event; `GetThingVisor` leaves the ledger as it was. -/
theorem invoke_provenance_witness :
    (∃ nodes, stateMismatch.events = ({} : State).events ++
      [("CreateThingVisor",
        { EventName := "CreateThingVisor", Time := "seconds:1", TxID := "tx1", UserID := "alice",
          UserMSPID := "Org1MSP", GraphNodes := nodes })])
    ∧ ledgerAfter stateTv1Running
        (invoke sampleHost (sampleContext ["GetThingVisor", "tv1"]) (.GetThingVisor "tv1")
          stateTv1Running) = stateTv1Running :=
  ⟨(invoke_provenance sampleHost (sampleContext ["CreateThingVisor", "tv1", otherRunningJSON])
      (.CreateThingVisor "tv1" otherRunningJSON) {}).1 .done stateMismatch (by decide) rfl,
    (invoke_provenance sampleHost (sampleContext ["GetThingVisor", "tv1"])
      (.GetThingVisor "tv1") stateTv1Running).2 rfl⟩

/-! ## DeleteThingVisor with child keys -/

/-- Shape of a successful `AddVThingToThingVisor`. -/
theorem AddVThingToThingVisor_ok {h : Host} {ctx : Context} {ThingVisorID vThingData : String}
    {s s' : State} (hadd : AddVThingToThingVisor h ctx ThingVisorID vThingData s = .ok s') :
    ∃ thingVisorByte thingVisor newVThing k1 key,
      GetPrivateData s CollectionThingVisors ThingVisorID = some thingVisorByte
      ∧ Unmarshal h.unmarshalThingVisor (some thingVisorByte) = .ok thingVisor
      ∧ thingVisor.Status = STATUS_RUNNING
      ∧ Unmarshal h.unmarshalVThingTV (some vThingData) = .ok newVThing
      ∧ index0 (Split newVThing.ID '/') = ThingVisorID
      ∧ index1 (Split newVThing.ID '/') = .ok k1
      ∧ CreateCompositeKey vThingTVObject [vThingTVPrefix, ThingVisorID, k1] = some key
      ∧ s' = (s.setCollection CollectionvThingTVs
            (putKey key vThingData (s.collection CollectionvThingTVs))).withEvent ctx
          "AddVThingToThingVisor"
          [ { StartNode := ctx.userMSPID, EndNode := "user-" ++ ctx.userID, Delete := false },
            { StartNode := "user-" ++ ctx.userID, EndNode := "thingvisor-" ++ ThingVisorID,
              Delete := false },
            { StartNode := "thingvisor-" ++ ThingVisorID, EndNode := "vthing-" ++ newVThing.ID,
              Delete := false } ] := by
  unfold AddVThingToThingVisor at hadd
  cases hget : GetPrivateData s CollectionThingVisors ThingVisorID with
  | none => simp [hget] at hadd
  | some thingVisorByte =>
    cases htv : Unmarshal h.unmarshalThingVisor (some thingVisorByte) with
    | error e => simp [hget, htv] at hadd
    | ok thingVisor =>
      by_cases hstatus : thingVisor.Status = STATUS_RUNNING
      · cases hv : Unmarshal h.unmarshalVThingTV (some vThingData) with
        | error e => simp [hget, htv, hstatus, hv] at hadd
        | ok newVThing =>
          by_cases howner : index0 (Split newVThing.ID '/') = ThingVisorID
          · cases hk1 : index1 (Split newVThing.ID '/') with
            | error e => simp [hget, htv, hstatus, hv, howner, hk1] at hadd
            | ok k1 =>
              cases hkey : CreateCompositeKey vThingTVObject [vThingTVPrefix, ThingVisorID, k1]
                with
              | none => simp [hget, htv, hstatus, hv, howner, hk1, hkey] at hadd
              | some key =>
                have hbody := (Unmarshal_ok_ne_empty hv).1
                have hkeyne := CreateCompositeKey_ne_empty hkey
                simp only [hget, htv, hstatus, hv, howner, hk1, hkey, ne_eq, not_true_eq_false,
                  if_false, PutPrivateData_ok _ _ _ _ hkeyne hbody] at hadd
                rw [SetHistory_withEvent _ _ _ _ (by decide)] at hadd
                exact ⟨thingVisorByte, thingVisor, newVThing, k1, key, rfl, htv, hstatus, rfl,
                  howner, hk1, hkey, (Except.ok.inj hadd).symm⟩
          · simp [hget, htv, hstatus, hv, howner] at hadd
      · simp [hget, htv, hstatus] at hadd

/-- C10 (as amended): after `AddVThingToThingVisor` stored a VThing under
ThingVisor `tv`, `DeleteThingVisor(tv)` accompanied by the storage key of that
VThing (the composite key of the owner and local segments of its id) removes
both records: `GetThingVisor(tv)` and `GetVThingByID` of the VThing's id fail
with the not-found error. -/
theorem DeleteThingVisor_with_child_key (h : Host) (ctx : Context) (tv body : String)
    (s s1 : State) (v : VThingTV)
    (hadd : AddVThingToThingVisor h ctx tv body s = .ok s1)
    (hv : Unmarshal h.unmarshalVThingTV (some body) = .ok v) :
    ∃ k1 key, index1 (Split v.ID '/') = .ok k1
      ∧ CreateCompositeKey vThingTVObject [vThingTVPrefix, tv, k1] = some key
      ∧ GetVThingByID h s1 v.ID = .ok v
      ∧ ∀ ctx2 fn, ctx2.StringArgs = [fn, tv, key] →
          ∃ s2, DeleteThingVisor ctx2 tv s1 = .ok s2
            ∧ GetThingVisor h s2 tv =
                .error (.NotFound ("Operation fails - thingVisor " ++ tv ++ " not exists"))
            ∧ GetVThingByID h s2 v.ID =
                .error (.NotFound ("Get VThing Failed - VThing " ++ v.ID ++ " not exists")) := by
  obtain ⟨thingVisorByte, thingVisor, newVThing, k1, key, -, -, -, hv', howner, hk1, hkey, hs1⟩ :=
    AddVThingToThingVisor_ok hadd
  rw [hv] at hv'
  cases hv'
  have hstored : GetPrivateData s1 CollectionvThingTVs key = some body := by
    rw [hs1]
    unfold GetPrivateData
    rw [collection_withEvent, collection_setCollection_self]
    exact lookupKey_putKey_self _ _ _
  refine ⟨k1, key, hk1, hkey, ?_, ?_⟩
  · simp [GetVThingByID, hk1, howner, hkey, hstored, hv]
  · intro ctx2 fn hargs
    have hargs' : argsFrom1 ctx2 = .ok [tv, key] := by simp [argsFrom1, hargs]
    obtain ⟨sl, hloop⟩ : ∃ sl, delLoop CollectionvThingTVs [tv, key] s1 = .ok sl :=
      ⟨_, rfl⟩
    obtain ⟨-, hother, hlook⟩ := delLoop_frame _ _ _ _ hloop
    have hdel : DeleteThingVisor ctx2 tv s1 =
        .ok ((sl.setCollection CollectionThingVisors
            (eraseKey tv (sl.collection CollectionThingVisors))).withEvent ctx2 "DeleteThingVisor"
          [ { StartNode := ctx2.userMSPID, EndNode := "user-" ++ ctx2.userID, Delete := false },
            { StartNode := "user-" ++ ctx2.userID, EndNode := "thingvisor-" ++ tv,
              Delete := true } ]) := by
      simp only [DeleteThingVisor, hargs', hloop, DelPrivateData]
      rw [SetHistory_withEvent _ _ _ _ (by decide)]
    refine ⟨_, hdel, ?_, ?_⟩
    · have hgone : GetPrivateData
          ((sl.setCollection CollectionThingVisors
              (eraseKey tv (sl.collection CollectionThingVisors))).withEvent ctx2
            "DeleteThingVisor"
            [ { StartNode := ctx2.userMSPID, EndNode := "user-" ++ ctx2.userID, Delete := false },
              { StartNode := "user-" ++ ctx2.userID, EndNode := "thingvisor-" ++ tv,
                Delete := true } ]) CollectionThingVisors tv = none := by
        unfold GetPrivateData
        rw [collection_withEvent, collection_setCollection_self]
        exact lookupKey_eraseKey_self _ _
      simp [GetThingVisor, hgone]
    · have hgone : GetPrivateData
          ((sl.setCollection CollectionThingVisors
              (eraseKey tv (sl.collection CollectionThingVisors))).withEvent ctx2
            "DeleteThingVisor"
            [ { StartNode := ctx2.userMSPID, EndNode := "user-" ++ ctx2.userID, Delete := false },
              { StartNode := "user-" ++ ctx2.userID, EndNode := "thingvisor-" ++ tv,
                Delete := true } ]) CollectionvThingTVs key = none := by
        unfold GetPrivateData
        rw [collection_withEvent, collection_setCollection_ne _ (by decide), hlook key]
        simp
      simp [GetVThingByID, hk1, howner, hkey, hgone]

/-- Witness of `DeleteThingVisor_with_child_key`: ThingVisor `tv1` with VThing
`tv1/t1`. -/
theorem DeleteThingVisor_with_child_key_witness :
    (AddVThingToThingVisor sampleHost (sampleContext ["AddVThingToThingVisor", "tv1", t1JSON])
        "tv1" t1JSON stateTv1Running = .ok stateTv1WithT1
      ∧ Unmarshal sampleHost.unmarshalVThingTV (some t1JSON) = .ok { ID := "tv1/t1" })
    ∧ ∃ k1 key, index1 (Split "tv1/t1" '/') = .ok k1
      ∧ CreateCompositeKey vThingTVObject [vThingTVPrefix, "tv1", k1] = some key
      ∧ GetVThingByID sampleHost stateTv1WithT1 "tv1/t1" = .ok { ID := "tv1/t1" }
      ∧ ∀ ctx2 fn, ctx2.StringArgs = [fn, "tv1", key] →
          ∃ s2, DeleteThingVisor ctx2 "tv1" stateTv1WithT1 = .ok s2
            ∧ GetThingVisor sampleHost s2 "tv1" =
                .error (.NotFound ("Operation fails - thingVisor " ++ "tv1" ++ " not exists"))
            ∧ GetVThingByID sampleHost s2 "tv1/t1" =
                .error (.NotFound ("Get VThing Failed - VThing " ++ "tv1/t1" ++ " not exists")) :=
  ⟨⟨by decide, by decide⟩,
    DeleteThingVisor_with_child_key sampleHost
      (sampleContext ["AddVThingToThingVisor", "tv1", t1JSON]) "tv1" t1JSON stateTv1Running
      stateTv1WithT1 { ID := "tv1/t1" } (by decide) (by decide)⟩

/-- C10 (counterexample): ThingVisor `tv1` is running and VThing `tv1/t1` was
added by `AddVThingToThingVisor`; `DeleteThingVisor("tv1")` accompanied by the
child list `["tv1/t1"]` succeeds and removes the ThingVisor, and
`GetVThingByID("tv1/t1")` still returns the VThing. -/
theorem DeleteThingVisor_logical_child_id :
    AddVThingToThingVisor sampleHost (sampleContext ["AddVThingToThingVisor", "tv1", t1JSON])
        "tv1" t1JSON stateTv1Running = .ok stateTv1WithT1
    ∧ (DeleteThingVisor (sampleContext ["DeleteThingVisor", "tv1", "tv1/t1"]) "tv1"
        stateTv1WithT1).toBool = true
    ∧ GetThingVisor sampleHost
        (stateTv1WithT1.after
          (DeleteThingVisor (sampleContext ["DeleteThingVisor", "tv1", "tv1/t1"]) "tv1"
            stateTv1WithT1)) "tv1" =
      .error (.NotFound "Operation fails - thingVisor tv1 not exists")
    ∧ GetVThingByID sampleHost
        (stateTv1WithT1.after
          (DeleteThingVisor (sampleContext ["DeleteThingVisor", "tv1", "tv1/t1"]) "tv1"
            stateTv1WithT1)) "tv1/t1" = .ok { ID := "tv1/t1" } := by
  decide

/-! ## Lifecycle of a silo and its memberships -/

theorem splitChars_chars (sep : Char) (cs : List Char) :
    ∀ w ∈ splitChars sep cs, ∀ c ∈ w, c ∈ cs := by
  induction cs with
  | nil =>
    intro w hw c hc
    simp only [splitChars, List.mem_singleton] at hw
    subst hw
    cases hc
  | cons d ds ih =>
    intro w hw c hc
    unfold splitChars at hw
    split at hw
    · rcases List.mem_cons.1 hw with rfl | hw'
      · cases hc
      · exact List.mem_cons_of_mem _ (ih w hw' c hc)
    · split at hw
      · simp only [List.mem_singleton] at hw
        subst hw
        simp only [List.mem_singleton] at hc
        subst hc
        exact List.mem_cons_self _ _
      · rename_i w0 ws hsplit
        rcases List.mem_cons.1 hw with rfl | hw'
        · rcases List.mem_cons.1 hc with rfl | hc'
          · exact List.mem_cons_self _ _
          · exact List.mem_cons_of_mem _ (ih w0 (by rw [hsplit]; simp) c hc')
        · exact List.mem_cons_of_mem _ (ih w (by rw [hsplit]; simp [hw']) c hc)

/-- A segment of a valid key attribute is a valid key attribute. -/
theorem validate_of_mem_Split {s : String} {sep : Char} {w : String}
    (hs : validateCompositeKeyAttribute s = true) (hw : w ∈ Split s sep) :
    validateCompositeKeyAttribute w = true := by
  rw [validateCompositeKeyAttribute_iff] at hs ⊢
  unfold Split at hw
  obtain ⟨cs, hcs, rfl⟩ := List.mem_map.1 hw
  intro c hc
  exact hs c (splitChars_chars sep s.data cs hcs c hc)

theorem Split_ne_nil (s : String) (sep : Char) : Split s sep ≠ [] := by
  have hchars : ∀ cs : List Char, splitChars sep cs ≠ [] := by
    intro cs
    cases cs with
    | nil => simp [splitChars]
    | cons d ds =>
      unfold splitChars
      split
      · simp
      · split <;> simp
  unfold Split
  simpa using hchars s.data

theorem index0_mem_Split (s : String) (sep : Char) : index0 (Split s sep) ∈ Split s sep := by
  have hne := Split_ne_nil s sep
  cases hsplit : Split s sep with
  | nil => exact absurd hsplit hne
  | cons a rest => simp [index0]

theorem index1_mem {keyArr : List String} {k1 : String} (hk1 : index1 keyArr = .ok k1) :
    k1 ∈ keyArr := by
  unfold index1 at hk1
  split at hk1
  · cases hk1; simp
  · cases hk1

theorem mem_eraseKey {k : String} {c : Collection} {kv : String × String}
    (hkv : kv ∈ eraseKey k c) : kv ∈ c ∧ kv.1 ≠ k := by
  unfold eraseKey at hkv
  simpa using List.mem_filter.1 hkv

theorem mem_insertKey {k v : String} {c : Collection} {kv : String × String}
    (hkv : kv ∈ insertKey k v c) : kv = (k, v) ∨ kv ∈ c := by
  induction c with
  | nil => left; simpa [insertKey] using hkv
  | cons a rest ih =>
    unfold insertKey at hkv
    split at hkv
    · rcases List.mem_cons.1 hkv with h | h
      · exact Or.inl h
      · exact Or.inr h
    · rcases List.mem_cons.1 hkv with h | h
      · exact Or.inr (by rw [h]; exact List.mem_cons_self _ _)
      · rcases ih h with h' | h'
        · exact Or.inl h'
        · exact Or.inr (List.mem_cons_of_mem _ h')

theorem mem_putKey {k v : String} {c : Collection} {kv : String × String}
    (hkv : kv ∈ putKey k v c) : kv = (k, v) ∨ kv ∈ c := by
  rcases mem_insertKey hkv with h | h
  · exact Or.inl h
  · exact Or.inr (mem_eraseKey h).1

/-- Result of `PutPrivateData` under a non-empty key: the value is written, or
the key is removed when the value is empty. -/
theorem PutPrivateData_nonempty_key (s : State) (n : CollectionName) (key value : String)
    (hkey : key ≠ "") :
    PutPrivateData s n key value =
      .ok (s.setCollection n
        (if value = "" then eraseKey key (s.collection n)
         else putKey key value (s.collection n))) := by
  by_cases hvalue : value = "" <;> simp [PutPrivateData, hkey, hvalue]

theorem mem_written {key value : String} {c : Collection} {kv : String × String}
    (hkv : kv ∈ (if value = "" then eraseKey key c else putKey key value c)) :
    kv.1 = key ∨ kv ∈ c := by
  split at hkv
  · exact Or.inr (mem_eraseKey hkv).1
  · rcases mem_putKey hkv with h | h
    · exact Or.inl (by rw [h])
    · exact Or.inr h

theorem CreateCompositeKey_vSilo {k0 k1 : String}
    (hk0 : validateCompositeKeyAttribute k0 = true) (hk1 : validateCompositeKeyAttribute k1 = true) :
    CreateCompositeKey vSiloObject [vSiloPrefix, k0, k1] =
      some (compositeKey vSiloObject [vSiloPrefix, k0, k1]) :=
  CreateCompositeKey_of_valid _ _ (by decide)
    (by
      intro a ha
      simp only [List.mem_cons, List.mem_singleton, List.not_mem_nil, or_false] at ha
      rcases ha with rfl | rfl | rfl
      · decide
      · exact hk0
      · exact hk1)

theorem CreateCompositeKey_vThingVSilo {k0 k1 t : String}
    (hk0 : validateCompositeKeyAttribute k0 = true) (hk1 : validateCompositeKeyAttribute k1 = true)
    (ht : validateCompositeKeyAttribute t = true) :
    CreateCompositeKey vThingVSiloObject [vThingVSiloPrefix, k0, k1, t] =
      some (compositeKey vThingVSiloObject [vThingVSiloPrefix, k0, k1, t]) :=
  CreateCompositeKey_of_valid _ _ (by decide)
    (by
      intro a ha
      simp only [List.mem_cons, List.mem_singleton, List.not_mem_nil, or_false] at ha
      rcases ha with rfl | rfl | rfl | rfl
      · decide
      · exact hk0
      · exact hk1
      · exact ht)

/-- Result of `AddVThingVSilo` on an id with a second segment and a valid key:
one write under the membership key, one event. -/
theorem AddVThingVSilo_written (ctx : Context) (VSiloID VThingID Data k1 key : String)
    (s : State) (hk1 : index1 (Split VSiloID '_') = .ok k1)
    (hkey : CreateCompositeKey vThingVSiloObject
      [vThingVSiloPrefix, index0 (Split VSiloID '_'), k1, VThingID] = some key) :
    AddVThingVSilo ctx VSiloID VThingID Data s =
      .ok ((s.setCollection CollectionvThingVSilos
          (if Data = "" then eraseKey key (s.collection CollectionvThingVSilos)
           else putKey key Data (s.collection CollectionvThingVSilos))).withEvent ctx
        "AddVThingVSilo"
        [ { StartNode := ctx.userMSPID, EndNode := "user-" ++ ctx.userID, Delete := false },
          { StartNode := "user-" ++ ctx.userID, EndNode := "silo-" ++ VSiloID, Delete := false },
          { StartNode := "silo-" ++ VSiloID, EndNode := "vthing-" ++ VThingID,
            Delete := false } ]) := by
  simp only [AddVThingVSilo, hk1, hkey,
    PutPrivateData_nonempty_key _ _ _ _ (CreateCompositeKey_ne_empty hkey)]
  rw [SetHistory_withEvent _ _ _ _ (by decide)]

/-- Result of `DeleteVThingVSilo` on an id with a second segment and a valid
key: the membership key is removed, one event. -/
theorem DeleteVThingVSilo_written (ctx : Context) (VSiloID VThingID k1 key : String)
    (s : State) (hk1 : index1 (Split VSiloID '_') = .ok k1)
    (hkey : CreateCompositeKey vThingVSiloObject
      [vThingVSiloPrefix, index0 (Split VSiloID '_'), k1, VThingID] = some key) :
    DeleteVThingVSilo ctx VSiloID VThingID s =
      .ok ((s.setCollection CollectionvThingVSilos
          (eraseKey key (s.collection CollectionvThingVSilos))).withEvent ctx
        "DeleteVThingVSilo"
        [ { StartNode := ctx.userMSPID, EndNode := "user-" ++ ctx.userID, Delete := false },
          { StartNode := "user-" ++ ctx.userID, EndNode := "silo-" ++ VSiloID, Delete := false },
          { StartNode := "silo-" ++ VSiloID, EndNode := "vthing-" ++ VThingID,
            Delete := true } ]) := by
  simp only [DeleteVThingVSilo, hk1, hkey, DelPrivateData]
  rw [SetHistory_withEvent _ _ _ _ (by decide)]

/-- Result of `AddVirtualSilo` on an absent silo with a valid key. -/
theorem AddVirtualSilo_written (h : Host) (ctx : Context) (VSiloID flavourID k1 key : String)
    (s : State) (hk1 : index1 (Split VSiloID '_') = .ok k1)
    (hkey : CreateCompositeKey vSiloObject [vSiloPrefix, index0 (Split VSiloID '_'), k1] = some key)
    (habsent : GetPrivateData s CollectionvSilos key = none) :
    AddVirtualSilo h ctx VSiloID flavourID s =
      .ok ((s.setCollection CollectionvSilos
          (if h.marshalVirtualSilo { VSiloID := VSiloID, Status := STATUS_PENDING } = "" then
            eraseKey key (s.collection CollectionvSilos)
           else putKey key (h.marshalVirtualSilo { VSiloID := VSiloID, Status := STATUS_PENDING })
            (s.collection CollectionvSilos))).withEvent ctx "AddVirtualSilo"
        [ { StartNode := ctx.userMSPID, EndNode := "user-" ++ ctx.userID, Delete := false },
          { StartNode := "user-" ++ ctx.userID, EndNode := "silo-" ++ VSiloID, Delete := false },
          { StartNode := "flavour-" ++ flavourID, EndNode := "silo-" ++ VSiloID,
            Delete := false } ]) := by
  simp only [AddVirtualSilo, hk1, hkey, habsent,
    PutPrivateData_nonempty_key _ _ _ _ (CreateCompositeKey_ne_empty hkey)]
  rw [SetHistory_withEvent _ _ _ _ (by decide)]

/-- The memberships added one by one: the silo collection is untouched and
every membership record afterwards was there before or sits under the key of
one of the added ids. -/
theorem AddVThingVSiloEach_written (ctxOf : String → Context) (VSiloID k1 : String)
    (bodyOf : String → String) (hk1 : index1 (Split VSiloID '_') = .ok k1)
    (hk0v : validateCompositeKeyAttribute (index0 (Split VSiloID '_')) = true)
    (hk1v : validateCompositeKeyAttribute k1 = true) (ts : List String)
    (hts : ∀ t ∈ ts, validateCompositeKeyAttribute t = true) :
    ∀ s, ∃ s2, AddVThingVSiloEach ctxOf VSiloID bodyOf ts s = .ok s2
      ∧ s2.vSilos = s.vSilos
      ∧ ∀ kv ∈ s2.vThingVSilos, kv ∈ s.vThingVSilos ∨
          ∃ t ∈ ts, kv.1 = compositeKey vThingVSiloObject
            [vThingVSiloPrefix, index0 (Split VSiloID '_'), k1, t] := by
  induction ts with
  | nil => intro s; exact ⟨s, rfl, rfl, fun kv hkv => Or.inl hkv⟩
  | cons t rest ih =>
    intro s
    have hkey := CreateCompositeKey_vThingVSilo hk0v hk1v (hts t (by simp))
    obtain ⟨s2, heach, hsilos, hmem⟩ := ih (fun t' ht' => hts t' (by simp [ht']))
      ((s.setCollection CollectionvThingVSilos
          (if bodyOf t = "" then
            eraseKey (compositeKey vThingVSiloObject
              [vThingVSiloPrefix, index0 (Split VSiloID '_'), k1, t])
              (s.collection CollectionvThingVSilos)
           else putKey (compositeKey vThingVSiloObject
              [vThingVSiloPrefix, index0 (Split VSiloID '_'), k1, t]) (bodyOf t)
              (s.collection CollectionvThingVSilos))).withEvent (ctxOf t) "AddVThingVSilo"
        [ { StartNode := (ctxOf t).userMSPID, EndNode := "user-" ++ (ctxOf t).userID,
            Delete := false },
          { StartNode := "user-" ++ (ctxOf t).userID, EndNode := "silo-" ++ VSiloID,
            Delete := false },
          { StartNode := "silo-" ++ VSiloID, EndNode := "vthing-" ++ t, Delete := false } ])
    refine ⟨s2, ?_, ?_, ?_⟩
    · simp only [AddVThingVSiloEach, AddVThingVSilo_written _ _ _ _ _ _ _ hk1 hkey]
      exact heach
    · rw [hsilos]; rfl
    · intro kv hkv
      rcases hmem kv hkv with hold | ⟨t', ht', hk⟩
      · rcases mem_written hold with hk | hin
        · exact Or.inr ⟨t, by simp, hk⟩
        · exact Or.inl hin
      · exact Or.inr ⟨t', by simp [ht'], hk⟩

/-- Result of `DeleteVirtualSilo` accompanied by valid ids: the membership loop
runs to its end, the silo key is removed, one event. -/
theorem DeleteVirtualSilo_written (ctx : Context) (VSiloID fn k1 : String) (ts : List String)
    (s : State) (hctx : ctx.StringArgs = fn :: VSiloID :: ts)
    (hk1 : index1 (Split VSiloID '_') = .ok k1)
    (hk0v : validateCompositeKeyAttribute (index0 (Split VSiloID '_')) = true)
    (hk1v : validateCompositeKeyAttribute k1 = true)
    (hargs : ∀ t ∈ VSiloID :: ts, validateCompositeKeyAttribute t = true) :
    ∃ sl g, deleteMembershipLoop VSiloID (index0 (Split VSiloID '_')) k1 (VSiloID :: ts) s
          [ { StartNode := ctx.userMSPID, EndNode := "user-" ++ ctx.userID, Delete := false },
            { StartNode := "user-" ++ ctx.userID, EndNode := "silo-" ++ VSiloID, Delete := true },
            { StartNode := "flavour-" ++ k1, EndNode := "silo-" ++ VSiloID, Delete := true } ]
          = .ok (sl, g)
      ∧ DeleteVirtualSilo ctx VSiloID s =
        .ok ((sl.setCollection CollectionvSilos
          (eraseKey (compositeKey vSiloObject [vSiloPrefix, index0 (Split VSiloID '_'), k1])
            (sl.collection CollectionvSilos))).withEvent ctx "DeleteVirtualSilo" g) := by
  obtain ⟨sl, g, hloop⟩ := deleteMembershipLoop_succeeds VSiloID (index0 (Split VSiloID '_')) k1
    (VSiloID :: ts) hk0v hk1v hargs s
    [ { StartNode := ctx.userMSPID, EndNode := "user-" ++ ctx.userID, Delete := false },
      { StartNode := "user-" ++ ctx.userID, EndNode := "silo-" ++ VSiloID, Delete := true },
      { StartNode := "flavour-" ++ k1, EndNode := "silo-" ++ VSiloID, Delete := true } ]
  have hargs' : argsFrom1 ctx = .ok (VSiloID :: ts) := by simp [argsFrom1, hctx]
  refine ⟨sl, g, hloop, ?_⟩
  simp only [DeleteVirtualSilo, hk1, hargs', hloop, CreateCompositeKey_vSilo hk0v hk1v,
    DelPrivateData]
  rw [SetHistory_withEvent _ _ _ _ (by decide)]

/-- C11 (as amended): for a silo id `S` with a second `_` segment whose
characters are valid in a key, and thing ids `ts` valid in a key: from a state
with no silo record and no membership under `S`, `AddVirtualSilo(S, flavour)`,
then `AddVThingVSilo(S, t, body)` for each `t` of `ts`, then
`DeleteVirtualSilo(S)` accompanied by `ts` all succeed, and afterwards
`GetVirtualSilo(S)` fails with the not-found error and
`GetVThingVSilosByVSiloID(S)` returns the empty sequence. -/
theorem silo_lifecycle (h : Host) (ctxA ctxD : Context) (ctxOf : String → Context)
    (S flavourID fn k1 : String) (ts : List String) (bodyOf : String → String) (s : State)
    (hS : validateCompositeKeyAttribute S = true)
    (hk1 : index1 (Split S '_') = .ok k1)
    (hts : ∀ t ∈ ts, validateCompositeKeyAttribute t = true)
    (hctxD : ctxD.StringArgs = fn :: S :: ts)
    (habsent : GetPrivateData s CollectionvSilos
      (compositeKey vSiloObject [vSiloPrefix, index0 (Split S '_'), k1]) = none)
    (hnone : ∀ kv ∈ s.vThingVSilos,
      inPartialRange (compositeKey vThingVSiloObject [vThingVSiloPrefix, index0 (Split S '_'), k1])
        kv.1 = false) :
    ∃ s1 s2 s3,
      AddVirtualSilo h ctxA S flavourID s = .ok s1
      ∧ AddVThingVSiloEach ctxOf S bodyOf ts s1 = .ok s2
      ∧ DeleteVirtualSilo ctxD S s2 = .ok s3
      ∧ GetVirtualSilo h s3 S =
          .error (.NotFound ("Get VirtualSilo fails - VirtualSilo " ++ S ++ " not exist"))
      ∧ GetVThingVSilosByVSiloID h s3 S = .ok [] := by
  have hk0v := validate_of_mem_Split hS (index0_mem_Split S '_')
  have hk1v := validate_of_mem_Split hS (index1_mem hk1)
  have hadd := AddVirtualSilo_written h ctxA S flavourID k1 _ s hk1
    (CreateCompositeKey_vSilo hk0v hk1v) habsent
  obtain ⟨s2, heach, -, hmem2⟩ := AddVThingVSiloEach_written ctxOf S k1 bodyOf hk1 hk0v hk1v ts hts
    ((s.setCollection CollectionvSilos
        (if h.marshalVirtualSilo { VSiloID := S, Status := STATUS_PENDING } = "" then
          eraseKey (compositeKey vSiloObject [vSiloPrefix, index0 (Split S '_'), k1])
            (s.collection CollectionvSilos)
         else putKey (compositeKey vSiloObject [vSiloPrefix, index0 (Split S '_'), k1])
          (h.marshalVirtualSilo { VSiloID := S, Status := STATUS_PENDING })
          (s.collection CollectionvSilos))).withEvent ctxA "AddVirtualSilo"
      [ { StartNode := ctxA.userMSPID, EndNode := "user-" ++ ctxA.userID, Delete := false },
        { StartNode := "user-" ++ ctxA.userID, EndNode := "silo-" ++ S, Delete := false },
        { StartNode := "flavour-" ++ flavourID, EndNode := "silo-" ++ S, Delete := false } ])
  obtain ⟨sl, g, hloop, hdel⟩ := DeleteVirtualSilo_written ctxD S fn k1 ts s2 hctxD hk1 hk0v hk1v
    (by
      intro t ht
      rcases List.mem_cons.1 ht with rfl | ht'
      · exact hS
      · exact hts t ht')
  obtain ⟨hmeml, -⟩ := deleteMembershipLoop_ok _ _ _ _ _ _ _ _ hloop
  refine ⟨_, s2, _, hadd, heach, hdel, ?_, ?_⟩
  · have hgone : GetPrivateData
        ((sl.setCollection CollectionvSilos
          (eraseKey (compositeKey vSiloObject [vSiloPrefix, index0 (Split S '_'), k1])
            (sl.collection CollectionvSilos))).withEvent ctxD "DeleteVirtualSilo" g)
        CollectionvSilos (compositeKey vSiloObject [vSiloPrefix, index0 (Split S '_'), k1]) =
        none := by
      unfold GetPrivateData
      rw [collection_withEvent, collection_setCollection_self]
      exact lookupKey_eraseKey_self _ _
    simp [GetVirtualSilo, hk1, CreateCompositeKey_vSilo hk0v hk1v, hgone]
  · have hp : CreateCompositeKey vThingVSiloObject
        [vThingVSiloPrefix, index0 (Split S '_'), k1] =
        some (compositeKey vThingVSiloObject [vThingVSiloPrefix, index0 (Split S '_'), k1]) :=
      CreateCompositeKey_of_valid _ _ (by decide)
        (by
          intro a ha
          simp only [List.mem_cons, List.mem_singleton, List.not_mem_nil, or_false] at ha
          rcases ha with rfl | rfl | rfl
          · decide
          · exact hk0v
          · exact hk1v)
    have hcoll : ((sl.setCollection CollectionvSilos
          (eraseKey (compositeKey vSiloObject [vSiloPrefix, index0 (Split S '_'), k1])
            (sl.collection CollectionvSilos))).withEvent ctxD "DeleteVirtualSilo" g).collection
        CollectionvThingVSilos = sl.vThingVSilos := rfl
    have hempty : rangeScan
        (compositeKey vThingVSiloObject [vThingVSiloPrefix, index0 (Split S '_'), k1])
        (compositeKey vThingVSiloObject [vThingVSiloPrefix, index0 (Split S '_'), k1] ++
          String.mk [maxUnicodeRuneValue]) sl.vThingVSilos = [] := by
      rw [rangeScan_inPartialRange, List.filter_eq_nil_iff]
      intro kv hkv hin
      obtain ⟨hkv2, hnot⟩ := (hmeml kv).1 hkv
      rcases hmem2 kv hkv2 with hold | ⟨t, ht, hk⟩
      · have hfalse := hnone kv hold
        rw [hin] at hfalse
        cases hfalse
      · exact hnot t (List.mem_cons_of_mem _ ht)
          (by rw [CreateCompositeKey_vThingVSilo hk0v hk1v (hts t ht), hk])
    simp [GetVThingVSilosByVSiloID, hk1, GetPrivateDataByPartialCompositeKey, hp, hcoll, hempty,
      nextResults, collectLoop]

set_option maxRecDepth 1000000 in
/-- Witness of `silo_lifecycle`: silo `tenantA_flavourX` with the things `t1`
and `t2`, on the empty ledger. -/
theorem silo_lifecycle_witness :
    (validateCompositeKeyAttribute "tenantA_flavourX" = true
      ∧ index1 (Split "tenantA_flavourX" '_') = .ok "flavourX")
    ∧ ∃ s1 s2 s3,
      AddVirtualSilo sampleHost (sampleContext ["AddVirtualSilo", "tenantA_flavourX", "flavourX"])
        "tenantA_flavourX" "flavourX" {} = .ok s1
      ∧ AddVThingVSiloEach
          (fun t => sampleContext ["AddVThingVSilo", "tenantA_flavourX", t, memberJSON])
          "tenantA_flavourX" (fun _ => memberJSON) ["t1", "t2"] s1 = .ok s2
      ∧ DeleteVirtualSilo (sampleContext ["DeleteVirtualSilo", "tenantA_flavourX", "t1", "t2"])
          "tenantA_flavourX" s2 = .ok s3
      ∧ GetVirtualSilo sampleHost s3 "tenantA_flavourX" =
          .error (.NotFound
            ("Get VirtualSilo fails - VirtualSilo " ++ "tenantA_flavourX" ++ " not exist"))
      ∧ GetVThingVSilosByVSiloID sampleHost s3 "tenantA_flavourX" = .ok [] :=
  ⟨⟨by decide, by decide⟩,
    silo_lifecycle sampleHost
      (sampleContext ["AddVirtualSilo", "tenantA_flavourX", "flavourX"])
      (sampleContext ["DeleteVirtualSilo", "tenantA_flavourX", "t1", "t2"])
      (fun t => sampleContext ["AddVThingVSilo", "tenantA_flavourX", t, memberJSON])
      "tenantA_flavourX" "flavourX" "DeleteVirtualSilo" "flavourX" ["t1", "t2"]
      (fun _ => memberJSON) {} (by decide) (by decide) (by decide) rfl (by decide) (by decide)⟩

set_option maxRecDepth 1000000 in
/-- C11 (counterexample): after `AddVirtualSilo("tenantA_flavourX", "flavourX")`
on the empty ledger, with the thing id `nulThing` (it holds U+0000) the call
`AddVThingVSilo` fails and so does `DeleteVirtualSilo` accompanied by that id;
the silo is still stored and `GetVirtualSilo` returns it. -/
theorem silo_lifecycle_invalid_thing_id :
    AddVirtualSilo sampleHost (sampleContext ["AddVirtualSilo", "tenantA_flavourX", "flavourX"])
        "tenantA_flavourX" "flavourX" {} = .ok stateSiloOnly
    ∧ AddVThingVSiloEach
        (fun t => sampleContext ["AddVThingVSilo", "tenantA_flavourX", t, memberJSON])
        "tenantA_flavourX" (fun _ => memberJSON) [nulThing] stateSiloOnly =
      .error (.InvalidKey ("Generate key of " ++ "tenantA_flavourX" ++ nulThing ++ " failed."))
    ∧ DeleteVirtualSilo (sampleContext ["DeleteVirtualSilo", "tenantA_flavourX", nulThing])
        "tenantA_flavourX" stateSiloOnly =
      .error (.InvalidKey ("Generate key of " ++ "tenantA_flavourX" ++ nulThing ++ " failed."))
    ∧ GetVirtualSilo sampleHost stateSiloOnly "tenantA_flavourX" =
      .ok { VSiloID := "tenantA_flavourX", Status := STATUS_PENDING } := by
  decide

/-! ## Creation on an occupied child key -/

/-- Result of `AddVThingToThingVisor` when the parent is stored and running
and the id of the body has the parent as first segment, a second segment and a
valid key. -/
theorem AddVThingToThingVisor_written (h : Host) (ctx : Context) (P body : String) (s : State)
    (thingVisorByte : String) (thingVisor : ThingVisor) (newVThing : VThingTV) (k1 key : String)
    (hget : GetPrivateData s CollectionThingVisors P = some thingVisorByte)
    (htv : Unmarshal h.unmarshalThingVisor (some thingVisorByte) = .ok thingVisor)
    (hstatus : thingVisor.Status = STATUS_RUNNING)
    (hv : Unmarshal h.unmarshalVThingTV (some body) = .ok newVThing)
    (howner : index0 (Split newVThing.ID '/') = P)
    (hk1 : index1 (Split newVThing.ID '/') = .ok k1)
    (hkey : CreateCompositeKey vThingTVObject [vThingTVPrefix, P, k1] = some key) :
    AddVThingToThingVisor h ctx P body s =
      .ok ((s.setCollection CollectionvThingTVs
          (putKey key body (s.collection CollectionvThingTVs))).withEvent ctx
        "AddVThingToThingVisor"
        [ { StartNode := ctx.userMSPID, EndNode := "user-" ++ ctx.userID, Delete := false },
          { StartNode := "user-" ++ ctx.userID, EndNode := "thingvisor-" ++ P, Delete := false },
          { StartNode := "thingvisor-" ++ P, EndNode := "vthing-" ++ newVThing.ID,
            Delete := false } ]) := by
  have hbody := (Unmarshal_ok_ne_empty hv).1
  simp only [AddVThingToThingVisor, hget, htv, hstatus, hv, howner, hk1, hkey, ne_eq,
    not_true_eq_false, if_false, PutPrivateData_ok _ _ _ _ (CreateCompositeKey_ne_empty hkey) hbody]
  rw [SetHistory_withEvent _ _ _ _ (by decide)]

theorem GetPrivateData_written (s : State) (ctx : Context) (n : CollectionName)
    (c : Collection) (EventName : String) (nodes : List GraphNode) (key : String) :
    GetPrivateData ((s.setCollection n c).withEvent ctx EventName nodes) n key =
      lookupKey key c := by
  unfold GetPrivateData
  rw [collection_withEvent, collection_setCollection_self]

theorem GetPrivateData_written_ne (s : State) (ctx : Context) {n m : CollectionName}
    (hne : m ≠ n) (c : Collection) (EventName : String) (nodes : List GraphNode)
    (key : String) :
    GetPrivateData ((s.setCollection n c).withEvent ctx EventName nodes) m key =
      GetPrivateData s m key := by
  unfold GetPrivateData
  rw [collection_withEvent, collection_setCollection_ne _ hne]

/-- C12 (as amended): `AddVThingToThingVisor` and `AddVThingVSilo` make no
existence check. On an occupied key, when their other conditions hold (running
parent, owner segment, valid key segments; a non-empty body), they succeed and
the record stored under the key afterwards is the supplied body. -/
theorem add_on_occupied_child_key (h : Host) (ctx : Context) (s : State) :
    (∀ P body thingVisorByte thingVisor newVThing k1 key stored,
      GetPrivateData s CollectionThingVisors P = some thingVisorByte →
      Unmarshal h.unmarshalThingVisor (some thingVisorByte) = .ok thingVisor →
      thingVisor.Status = STATUS_RUNNING →
      Unmarshal h.unmarshalVThingTV (some body) = .ok newVThing →
      index0 (Split newVThing.ID '/') = P →
      index1 (Split newVThing.ID '/') = .ok k1 →
      CreateCompositeKey vThingTVObject [vThingTVPrefix, P, k1] = some key →
      GetPrivateData s CollectionvThingTVs key = some stored →
      ∃ s', AddVThingToThingVisor h ctx P body s = .ok s'
        ∧ GetPrivateData s' CollectionvThingTVs key = some body)
    ∧ (∀ VSiloID VThingID Data k1 key stored,
      index1 (Split VSiloID '_') = .ok k1 →
      CreateCompositeKey vThingVSiloObject
        [vThingVSiloPrefix, index0 (Split VSiloID '_'), k1, VThingID] = some key →
      Data ≠ "" →
      GetPrivateData s CollectionvThingVSilos key = some stored →
      ∃ s', AddVThingVSilo ctx VSiloID VThingID Data s = .ok s'
        ∧ GetPrivateData s' CollectionvThingVSilos key = some Data) := by
  refine ⟨?_, ?_⟩
  · intro P body thingVisorByte thingVisor newVThing k1 key stored hget htv hstatus hv howner hk1
      hkey _
    refine ⟨_, AddVThingToThingVisor_written h ctx P body s thingVisorByte thingVisor newVThing k1
      key hget htv hstatus hv howner hk1 hkey, ?_⟩
    rw [GetPrivateData_written]
    exact lookupKey_putKey_self _ _ _
  · intro VSiloID VThingID Data k1 key stored hk1 hkey hdata _
    refine ⟨_, AddVThingVSilo_written ctx VSiloID VThingID Data k1 key s hk1 hkey, ?_⟩
    rw [GetPrivateData_written, if_neg hdata]
    exact lookupKey_putKey_self _ _ _

set_option maxRecDepth 1000000 in
/-- Witness of `add_on_occupied_child_key`: the VThing `tv1/t1` and the
membership of `t1` in `tenantA_flavourX` are stored and are added again with
other bodies. -/
theorem add_on_occupied_child_key_witness :
    (∃ s', AddVThingToThingVisor sampleHost2
        (sampleContext ["AddVThingToThingVisor", "tv1", t1LabelledJSON]) "tv1" t1LabelledJSON
        stateTv1WithT1 = .ok s'
      ∧ GetPrivateData s' CollectionvThingTVs
          (compositeKey vThingTVObject [vThingTVPrefix, "tv1", "t1"]) = some t1LabelledJSON)
    ∧ ∃ s', AddVThingVSilo
        (sampleContext ["AddVThingVSilo", "tenantA_flavourX", "t1", memberLaterJSON])
        "tenantA_flavourX" "t1" memberLaterJSON stateOneMember = .ok s'
      ∧ GetPrivateData s' CollectionvThingVSilos
          (compositeKey vThingVSiloObject [vThingVSiloPrefix, "tenantA", "flavourX", "t1"]) =
        some memberLaterJSON :=
  ⟨(add_on_occupied_child_key sampleHost2
      (sampleContext ["AddVThingToThingVisor", "tv1", t1LabelledJSON]) stateTv1WithT1).1
      "tv1" t1LabelledJSON tv1RunningJSON tv1Running { Label := "lamp", ID := "tv1/t1" } "t1"
      (compositeKey vThingTVObject [vThingTVPrefix, "tv1", "t1"]) t1JSON
      (by decide) (by decide) (by decide) (by decide) (by decide) (by decide) (by decide)
      (by decide),
    (add_on_occupied_child_key sampleHost2
      (sampleContext ["AddVThingVSilo", "tenantA_flavourX", "t1", memberLaterJSON])
      stateOneMember).2
      "tenantA_flavourX" "t1" memberLaterJSON "flavourX"
      (compositeKey vThingVSiloObject [vThingVSiloPrefix, "tenantA", "flavourX", "t1"]) memberJSON
      (by decide) (by decide) (by decide) (by decide)⟩

set_option maxRecDepth 1000000 in
/-- C12 (counterexample): the VThing `tv1/t1` is stored with body `t1JSON` and
the membership of `t1` with body `memberJSON`; adding them again with other
bodies succeeds and replaces the stored records. -/
theorem add_replaces_stored_child :
    GetPrivateData stateTv1WithT1 CollectionvThingTVs
        (compositeKey vThingTVObject [vThingTVPrefix, "tv1", "t1"]) = some t1JSON
    ∧ (AddVThingToThingVisor sampleHost2
        (sampleContext ["AddVThingToThingVisor", "tv1", t1LabelledJSON]) "tv1" t1LabelledJSON
        stateTv1WithT1).toBool = true
    ∧ GetPrivateData
        (stateTv1WithT1.after
          (AddVThingToThingVisor sampleHost2
            (sampleContext ["AddVThingToThingVisor", "tv1", t1LabelledJSON]) "tv1" t1LabelledJSON
            stateTv1WithT1))
        CollectionvThingTVs (compositeKey vThingTVObject [vThingTVPrefix, "tv1", "t1"]) =
      some t1LabelledJSON
    ∧ GetPrivateData stateOneMember CollectionvThingVSilos
        (compositeKey vThingVSiloObject [vThingVSiloPrefix, "tenantA", "flavourX", "t1"]) =
      some memberJSON
    ∧ (AddVThingVSilo
        (sampleContext ["AddVThingVSilo", "tenantA_flavourX", "t1", memberLaterJSON])
        "tenantA_flavourX" "t1" memberLaterJSON stateOneMember).toBool = true
    ∧ GetPrivateData
        (stateOneMember.after
          (AddVThingVSilo
            (sampleContext ["AddVThingVSilo", "tenantA_flavourX", "t1", memberLaterJSON])
            "tenantA_flavourX" "t1" memberLaterJSON stateOneMember))
        CollectionvThingVSilos
        (compositeKey vThingVSiloObject [vThingVSiloPrefix, "tenantA", "flavourX", "t1"]) =
      some memberLaterJSON := by
  decide

/-! ## Memberships and the status of the silo -/

/-- C13 (as amended): `AddVThingVSilo` and `DeleteVThingVSilo` never read the
VirtualSilo collection. In every state, whether the silo is absent or stored
with any status, for a silo id with a second segment and a valid membership
key, `AddVThingVSilo` with a non-empty body succeeds and stores the body under
the membership key, and `DeleteVThingVSilo` succeeds and removes that key. -/
theorem membership_without_status (ctx : Context) (VSiloID VThingID Data k1 key : String)
    (s : State) (hk1 : index1 (Split VSiloID '_') = .ok k1)
    (hkey : CreateCompositeKey vThingVSiloObject
      [vThingVSiloPrefix, index0 (Split VSiloID '_'), k1, VThingID] = some key)
    (hdata : Data ≠ "") :
    (∃ s', AddVThingVSilo ctx VSiloID VThingID Data s = .ok s'
      ∧ GetPrivateData s' CollectionvThingVSilos key = some Data
      ∧ s'.vSilos = s.vSilos)
    ∧ (∃ s', DeleteVThingVSilo ctx VSiloID VThingID s = .ok s'
      ∧ GetPrivateData s' CollectionvThingVSilos key = none
      ∧ s'.vSilos = s.vSilos) := by
  refine ⟨⟨_, AddVThingVSilo_written ctx VSiloID VThingID Data k1 key s hk1 hkey, ?_, rfl⟩,
    ⟨_, DeleteVThingVSilo_written ctx VSiloID VThingID k1 key s hk1 hkey, ?_, rfl⟩⟩
  · rw [GetPrivateData_written, if_neg hdata]
    exact lookupKey_putKey_self _ _ _
  · rw [GetPrivateData_written]
    exact lookupKey_eraseKey_self _ _

set_option maxRecDepth 1000000 in
/-- Witness of `membership_without_status`: the membership of `t1` under the
pending silo `tenantA_flavourX`. -/
theorem membership_without_status_witness :
    GetVirtualSilo sampleHost stateSiloOnly "tenantA_flavourX" =
      .ok { VSiloID := "tenantA_flavourX", Status := STATUS_PENDING }
    ∧ (∃ s', AddVThingVSilo
          (sampleContext ["AddVThingVSilo", "tenantA_flavourX", "t1", memberJSON])
          "tenantA_flavourX" "t1" memberJSON stateSiloOnly = .ok s'
        ∧ GetPrivateData s' CollectionvThingVSilos
            (compositeKey vThingVSiloObject [vThingVSiloPrefix, "tenantA", "flavourX", "t1"]) =
          some memberJSON
        ∧ s'.vSilos = stateSiloOnly.vSilos)
    ∧ (∃ s', DeleteVThingVSilo
          (sampleContext ["AddVThingVSilo", "tenantA_flavourX", "t1", memberJSON])
          "tenantA_flavourX" "t1" stateSiloOnly = .ok s'
        ∧ GetPrivateData s' CollectionvThingVSilos
            (compositeKey vThingVSiloObject [vThingVSiloPrefix, "tenantA", "flavourX", "t1"]) =
          none
        ∧ s'.vSilos = stateSiloOnly.vSilos) :=
  ⟨by decide,
    membership_without_status
      (sampleContext ["AddVThingVSilo", "tenantA_flavourX", "t1", memberJSON])
      "tenantA_flavourX" "t1" memberJSON "flavourX"
      (compositeKey vThingVSiloObject [vThingVSiloPrefix, "tenantA", "flavourX", "t1"])
      stateSiloOnly (by decide) (by decide) (by decide)⟩

set_option maxRecDepth 1000000 in
/-- C13 (counterexample): with silo `tenantA_flavourX` absent (the empty ledger)
`AddVThingVSilo` succeeds and stores the membership; with the silo stored in
status `pending`, `DeleteVThingVSilo` succeeds and removes a stored
membership. -/
theorem membership_changes_without_running_silo :
    GetVirtualSilo sampleHost {} "tenantA_flavourX" =
      .error (.NotFound "Get VirtualSilo fails - VirtualSilo tenantA_flavourX not exist")
    ∧ AddVThingVSilo (sampleContext ["AddVThingVSilo", "tenantA_flavourX", "t1", memberJSON])
        "tenantA_flavourX" "t1" memberJSON {} = .ok stateOneMember
    ∧ stateOneMember.vThingVSilos =
      [(compositeKey vThingVSiloObject [vThingVSiloPrefix, "tenantA", "flavourX", "t1"],
        memberJSON)]
    ∧ AddVirtualSilo sampleHost
        (sampleContext ["AddVirtualSilo", "tenantA_flavourX", "flavourX"])
        "tenantA_flavourX" "flavourX" stateOneMember = .ok statePendingSiloMember
    ∧ GetVirtualSilo sampleHost statePendingSiloMember "tenantA_flavourX" =
      .ok { VSiloID := "tenantA_flavourX", Status := STATUS_PENDING }
    ∧ (DeleteVThingVSilo (sampleContext ["DeleteVThingVSilo", "tenantA_flavourX", "t1"])
        "tenantA_flavourX" "t1" statePendingSiloMember).toBool = true
    ∧ (statePendingSiloMember.after
        (DeleteVThingVSilo (sampleContext ["DeleteVThingVSilo", "tenantA_flavourX", "t1"])
          "tenantA_flavourX" "t1" statePendingSiloMember)).vThingVSilos = [] := by
  decide

/-! ## DeleteVThingFromThingVisor -/

theorem splitChars_of_not_mem (sep : Char) (cs : List Char) (hsep : sep ∉ cs) :
    splitChars sep cs = [cs] := by
  induction cs with
  | nil => rfl
  | cons c cs ih =>
    have hc : c ≠ sep := fun e => hsep (by rw [e]; exact List.mem_cons_self _ _)
    have hcs : sep ∉ cs := fun hmem => hsep (List.mem_cons_of_mem _ hmem)
    simp [splitChars, hc, ih hcs]

theorem splitChars_append_sep (sep : Char) (a b : List Char) (hsep : sep ∉ a) :
    splitChars sep (a ++ sep :: b) = a :: splitChars sep b := by
  induction a with
  | nil => simp [splitChars]
  | cons c a ih =>
    have hc : c ≠ sep := fun e => hsep (by rw [e]; exact List.mem_cons_self _ _)
    have ha : sep ∉ a := fun hmem => hsep (List.mem_cons_of_mem _ hmem)
    simp [splitChars, hc, ih ha]

/-- `strings.Split` of a string without the separator: the string itself. -/
theorem Split_of_not_mem (s : String) (sep : Char) (hsep : sep ∉ s.data) :
    Split s sep = [s] := by
  simp [Split, splitChars_of_not_mem sep s.data hsep]

/-- `strings.Split` of `a ++ sep ++ b` when `a` is free of the separator. -/
theorem Split_append_sep (a b : String) (sep : Char) (hsep : sep ∉ a.data) :
    Split (a ++ String.mk [sep] ++ b) sep = a :: Split b sep := by
  simp [Split, splitChars_append_sep sep a.data b.data hsep]

theorem CreateCompositeKey_vThingTV {k0 k1 : String}
    (hk0 : validateCompositeKeyAttribute k0 = true) (hk1 : validateCompositeKeyAttribute k1 = true) :
    CreateCompositeKey vThingTVObject [vThingTVPrefix, k0, k1] =
      some (compositeKey vThingTVObject [vThingTVPrefix, k0, k1]) :=
  CreateCompositeKey_of_valid _ _ (by decide)
    (by
      intro a ha
      simp only [List.mem_cons, List.mem_singleton, List.not_mem_nil, or_false] at ha
      rcases ha with rfl | rfl | rfl
      · decide
      · exact hk0
      · exact hk1)

/-- Result of `DeleteVThingFromThingVisor` when the parent is stored and
running and the id of the body has the parent as first segment, a second
segment and a valid key. -/
theorem DeleteVThingFromThingVisor_written (h : Host) (ctx : Context) (P body : String)
    (s : State) (thingVisorByte : String) (thingVisor : ThingVisor) (VThing : VThingTV)
    (k1 key : String)
    (hget : GetPrivateData s CollectionThingVisors P = some thingVisorByte)
    (htv : Unmarshal h.unmarshalThingVisor (some thingVisorByte) = .ok thingVisor)
    (hstatus : thingVisor.Status = STATUS_RUNNING)
    (hv : Unmarshal h.unmarshalVThingTV (some body) = .ok VThing)
    (howner : index0 (Split VThing.ID '/') = P)
    (hk1 : index1 (Split VThing.ID '/') = .ok k1)
    (hkey : CreateCompositeKey vThingTVObject [vThingTVPrefix, P, k1] = some key) :
    DeleteVThingFromThingVisor h ctx P body s =
      .ok ((s.setCollection CollectionvThingTVs
          (eraseKey key (s.collection CollectionvThingTVs))).withEvent ctx
        "DeleteVThingFromThingVisor"
        [ { StartNode := ctx.userMSPID, EndNode := "user-" ++ ctx.userID, Delete := false },
          { StartNode := "thingvisor-" ++ P, EndNode := "vthing-" ++ VThing.ID,
            Delete := true } ]) := by
  simp only [DeleteVThingFromThingVisor, hget, htv, hstatus, hv, howner, hk1, hkey, ne_eq,
    not_true_eq_false, if_false, DelPrivateData]
  rw [SetHistory_withEvent _ _ _ _ (by decide)]

/-- C14 (as amended): with ThingVisor `P` stored and decoding to `thingVisor`:
when its status is not `running`, `DeleteVThingFromThingVisor(P, body)` fails
with the invalid-state error and the ledger stays as it was; when it is
`running` and the body's logical id is `P/t` with `P` and `t` free of `/` and
valid in a key, the call succeeds, the VThing collection loses the key
`(P, t)` and nothing else, and the other collections are untouched. -/
theorem DeleteVThingFromThingVisor_outcome (h : Host) (ctx : Context) (P body : String)
    (s : State) (thingVisorByte : String) (thingVisor : ThingVisor)
    (hget : GetPrivateData s CollectionThingVisors P = some thingVisorByte)
    (htv : Unmarshal h.unmarshalThingVisor (some thingVisorByte) = .ok thingVisor) :
    (thingVisor.Status ≠ STATUS_RUNNING →
      DeleteVThingFromThingVisor h ctx P body s =
        .error (.InvalidState ("WARNING Add fails - ThingVisor " ++ P ++ " is not ready"))
      ∧ s.after (DeleteVThingFromThingVisor h ctx P body s) = s)
    ∧ (∀ VThing t, thingVisor.Status = STATUS_RUNNING →
      Unmarshal h.unmarshalVThingTV (some body) = .ok VThing →
      VThing.ID = P ++ "/" ++ t → '/' ∉ P.data → '/' ∉ t.data →
      validateCompositeKeyAttribute P = true → validateCompositeKeyAttribute t = true →
      ∃ s', DeleteVThingFromThingVisor h ctx P body s = .ok s'
        ∧ s'.vThingTVs =
            eraseKey (compositeKey vThingTVObject [vThingTVPrefix, P, t]) s.vThingTVs
        ∧ s'.thingVisors = s.thingVisors ∧ s'.vThingVSilos = s.vThingVSilos
        ∧ s'.vSilos = s.vSilos ∧ s'.flavours = s.flavours) := by
  refine ⟨?_, ?_⟩
  · intro hstatus
    have herr : DeleteVThingFromThingVisor h ctx P body s =
        .error (.InvalidState ("WARNING Add fails - ThingVisor " ++ P ++ " is not ready")) := by
      simp [DeleteVThingFromThingVisor, hget, htv, hstatus]
    exact ⟨herr, by rw [herr]; rfl⟩
  · intro VThing t hstatus hv hID hP ht hPv htv'
    have hsplit : Split VThing.ID '/' = [P, t] := by
      rw [hID]
      have hslash : ("/" : String) = String.mk ['/'] := rfl
      rw [hslash, Split_append_sep P t '/' hP, Split_of_not_mem t '/' ht]
    refine ⟨_, DeleteVThingFromThingVisor_written h ctx P body s thingVisorByte thingVisor VThing t
      _ hget htv hstatus hv (by rw [hsplit]; rfl) (by rw [hsplit]; rfl)
      (CreateCompositeKey_vThingTV hPv htv'), rfl, rfl, rfl, rfl, rfl⟩

/-- Witness of `DeleteVThingFromThingVisor_outcome`: the VThing `tv1/t1` of the
running ThingVisor `tv1` is deleted. -/
theorem DeleteVThingFromThingVisor_outcome_witness :
    (GetPrivateData stateTv1WithT1 CollectionThingVisors "tv1" = some tv1RunningJSON
      ∧ Unmarshal sampleHost.unmarshalThingVisor (some tv1RunningJSON) = .ok tv1Running)
    ∧ ∃ s', DeleteVThingFromThingVisor sampleHost
          (sampleContext ["DeleteVThingFromThingVisor", "tv1", t1JSON]) "tv1" t1JSON
          stateTv1WithT1 = .ok s'
        ∧ s'.vThingTVs =
            eraseKey (compositeKey vThingTVObject [vThingTVPrefix, "tv1", "t1"])
              stateTv1WithT1.vThingTVs
        ∧ s'.thingVisors = stateTv1WithT1.thingVisors
        ∧ s'.vThingVSilos = stateTv1WithT1.vThingVSilos
        ∧ s'.vSilos = stateTv1WithT1.vSilos ∧ s'.flavours = stateTv1WithT1.flavours :=
  ⟨⟨by decide, by decide⟩,
    (DeleteVThingFromThingVisor_outcome sampleHost
      (sampleContext ["DeleteVThingFromThingVisor", "tv1", t1JSON]) "tv1" t1JSON stateTv1WithT1
      tv1RunningJSON tv1Running (by decide) (by decide)).2
      { ID := "tv1/t1" } "t1" (by decide) (by decide) (by decide) (by decide) (by decide)
      (by decide) (by decide)⟩

/-- C14 (counterexample): ThingVisor `a/b` is stored and running and the body's
logical id is `a/b/t1`, that is `P/t` for `P = a/b` and `t = t1`; the call
fails with the invalid-key error, the first segment of the id being `a`. -/
theorem DeleteVThingFromThingVisor_owner_with_separator :
    CreateThingVisor (sampleContext ["CreateThingVisor", "a/b", slashRunningJSON]) "a/b"
        slashRunningJSON {} = .ok stateSlash
    ∧ Unmarshal sampleHost2.unmarshalThingVisor
        (GetPrivateData stateSlash CollectionThingVisors "a/b") =
      .ok { ThingVisorID := "a/b", Status := STATUS_RUNNING }
    ∧ Unmarshal sampleHost2.unmarshalVThingTV (some slashThingJSON) =
      .ok { ID := "a/b" ++ "/" ++ "t1" }
    ∧ DeleteVThingFromThingVisor sampleHost2
        (sampleContext ["DeleteVThingFromThingVisor", "a/b", slashThingJSON]) "a/b"
        slashThingJSON stateSlash =
      .error (.InvalidKey "WARNING Add fails - vThingID 'a/b/t1' not valid") := by
  decide

/-! ## Identifiers without a second segment -/

theorem index1_of_not_mem (s : String) (sep : Char) (hsep : sep ∉ s.data) :
    index1 (Split s sep) = .error (.Panic "index out of range [1] with length 1") := by
  rw [Split_of_not_mem s sep hsep]
  rfl

/-- C15 (what the code does): on a silo id `S` without `_` the eight silo and
membership functions, and on a VThing id `V` without `/` the three functions
that take the id, end in the run-time panic of the read of the second segment
and return no error; `AddVThingToThingVisor` and `DeleteVThingFromThingVisor`
do the same when the body's id `V` is the running parent itself. -/
theorem missing_segment_panics (h : Host) (ctx : Context) (s : State) (S V : String)
    (hS : '_' ∉ S.data) (hV : '/' ∉ V.data) :
    (∀ flavourID, AddVirtualSilo h ctx S flavourID s =
      .error (.Panic "index out of range [1] with length 1"))
    ∧ (∀ SiloData, UpdateVirtualSilo ctx S SiloData s =
      .error (.Panic "index out of range [1] with length 1"))
    ∧ GetVirtualSilo h s S = .error (.Panic "index out of range [1] with length 1")
    ∧ DeleteVirtualSilo ctx S s = .error (.Panic "index out of range [1] with length 1")
    ∧ (∀ VThingID Data, AddVThingVSilo ctx S VThingID Data s =
      .error (.Panic "index out of range [1] with length 1"))
    ∧ (∀ VThingID, DeleteVThingVSilo ctx S VThingID s =
      .error (.Panic "index out of range [1] with length 1"))
    ∧ GetVThingVSilosByVSiloID h s S = .error (.Panic "index out of range [1] with length 1")
    ∧ (∀ VThingID, GetVThingVSilo h s S VThingID =
      .error (.Panic "index out of range [1] with length 1"))
    ∧ GetVThingByID h s V = .error (.Panic "index out of range [1] with length 1")
    ∧ GetVThingOfThingVisor h s V = .error (.Panic "index out of range [1] with length 1")
    ∧ (∀ vThingData VThing, Unmarshal h.unmarshalVThingTV (some vThingData) = .ok VThing →
      UpdateVThingOfThingVisor h ctx V vThingData s =
        .error (.Panic "index out of range [1] with length 1"))
    ∧ (∀ vThingData thingVisorByte thingVisor VThing,
      GetPrivateData s CollectionThingVisors V = some thingVisorByte →
      Unmarshal h.unmarshalThingVisor (some thingVisorByte) = .ok thingVisor →
      thingVisor.Status = STATUS_RUNNING →
      Unmarshal h.unmarshalVThingTV (some vThingData) = .ok VThing → VThing.ID = V →
      AddVThingToThingVisor h ctx V vThingData s =
        .error (.Panic "index out of range [1] with length 1")
      ∧ DeleteVThingFromThingVisor h ctx V vThingData s =
        .error (.Panic "index out of range [1] with length 1")) := by
  have hS1 := index1_of_not_mem S '_' hS
  have hV1 := index1_of_not_mem V '/' hV
  refine ⟨?_, ?_, ?_, ?_, ?_, ?_, ?_, ?_, ?_, ?_, ?_, ?_⟩
  · intro flavourID; simp [AddVirtualSilo, hS1]
  · intro SiloData; simp [UpdateVirtualSilo, hS1]
  · simp [GetVirtualSilo, hS1]
  · simp [DeleteVirtualSilo, hS1]
  · intro VThingID Data; simp [AddVThingVSilo, hS1]
  · intro VThingID; simp [DeleteVThingVSilo, hS1]
  · simp [GetVThingVSilosByVSiloID, hS1]
  · intro VThingID; simp [GetVThingVSilo, hS1]
  · simp [GetVThingByID, hV1]
  · simp [GetVThingOfThingVisor, hV1]
  · intro vThingData VThing hv
    simp [UpdateVThingOfThingVisor, hv, hV1]
  · intro vThingData thingVisorByte thingVisor VThing hget htv hstatus hv hID
    have howner : index0 (Split VThing.ID '/') = V := by
      rw [hID, Split_of_not_mem V '/' hV]; rfl
    have hk1 : index1 (Split VThing.ID '/') =
        .error (.Panic "index out of range [1] with length 1") := by rw [hID]; exact hV1
    constructor
    · simp [AddVThingToThingVisor, hget, htv, hstatus, hv, howner, hk1]
    · simp [DeleteVThingFromThingVisor, hget, htv, hstatus, hv, howner, hk1]

/-- Witness of `missing_segment_panics`: the silo id `tenantA` and the VThing
id `tv1`, with ThingVisor `tv1` running. -/
theorem missing_segment_panics_witness :
    GetVirtualSilo sampleHost stateTv1Running "tenantA" =
      .error (.Panic "index out of range [1] with length 1")
    ∧ DeleteVirtualSilo (sampleContext ["DeleteVirtualSilo", "tenantA"]) "tenantA"
        stateTv1Running = .error (.Panic "index out of range [1] with length 1")
    ∧ GetVThingByID sampleHost stateTv1Running "tv1" =
      .error (.Panic "index out of range [1] with length 1")
    ∧ DeleteVThingFromThingVisor sampleHost (sampleContext ["DeleteVirtualSilo", "tenantA"]) "tv1"
        oneSegmentJSON stateTv1Running = .error (.Panic "index out of range [1] with length 1") :=
  have hall := missing_segment_panics sampleHost (sampleContext ["DeleteVirtualSilo", "tenantA"])
    stateTv1Running "tenantA" "tv1" (by decide) (by decide)
  ⟨hall.2.2.1, hall.2.2.2.1, hall.2.2.2.2.2.2.2.2.1,
    (hall.2.2.2.2.2.2.2.2.2.2.2 oneSegmentJSON tv1RunningJSON tv1Running { ID := "tv1" }
      (by decide) (by decide) (by decide) (by decide) rfl).2⟩

/-! ## Collections a transaction function leaves untouched -/

theorem SetHistory_collection {ctx : Context} {EventName : String} {nodes : List GraphNode}
    {userID userMSPID : String} {s s' : State}
    (hok : SetHistory ctx EventName nodes userID userMSPID s = .ok s') (n : CollectionName) :
    s'.collection n = s.collection n := by
  unfold SetHistory SetEvent at hok
  split at hok
  · cases hok
  · cases hok; cases n <;> rfl

theorem PutPrivateData_collection_ne {s s' : State} {n m : CollectionName} {key value : String}
    (hok : PutPrivateData s n key value = .ok s') (hne : m ≠ n) :
    s'.collection m = s.collection m := by
  unfold PutPrivateData at hok
  split at hok
  · cases hok
  · split at hok <;> (cases hok; exact collection_setCollection_ne _ hne _)

theorem DelPrivateData_collection_ne {s s' : State} {n m : CollectionName} {key : String}
    (hok : DelPrivateData s n key = .ok s') (hne : m ≠ n) :
    s'.collection m = s.collection m := by
  unfold DelPrivateData at hok
  cases hok
  exact collection_setCollection_ne _ hne _

theorem CreateThingVisor_frame {ctx : Context} {id JSONstr : String} {s s' : State}
    (hok : CreateThingVisor ctx id JSONstr s = .ok s') :
    ∀ m, m ≠ CollectionThingVisors → s'.collection m = s.collection m := by
  intro m hm
  unfold CreateThingVisor at hok
  dsimp only at hok
  repeat' split at hok
  all_goals first
    | exact (SetHistory_collection hok m).trans (PutPrivateData_collection_ne (by assumption) hm)
    | cases hok

theorem UpdateThingVisor_frame {ctx : Context} {id JSONstr : String} {s s' : State}
    (hok : UpdateThingVisor ctx id JSONstr s = .ok s') :
    ∀ m, m ≠ CollectionThingVisors → s'.collection m = s.collection m := by
  intro m hm
  unfold UpdateThingVisor at hok
  dsimp only at hok
  repeat' split at hok
  all_goals first
    | exact (SetHistory_collection hok m).trans (PutPrivateData_collection_ne (by assumption) hm)
    | cases hok

theorem UpdateThingVisorPartial_frame {h : Host} {ctx : Context} {id tvDescription params : String} {s s' : State}
    (hok : UpdateThingVisorPartial h ctx id tvDescription params s = .ok s') :
    ∀ m, m ≠ CollectionThingVisors → s'.collection m = s.collection m := by
  intro m hm
  unfold UpdateThingVisorPartial at hok
  dsimp only at hok
  split at hok
  · cases hok
  · split at hok
    · cases hok
    · exact (SetHistory_collection hok m).trans (PutPrivateData_collection_ne (by assumption) hm)

theorem StopThingVisor_frame {h : Host} {ctx : Context} {ThingVisorID : String} {s s' : State}
    (hok : StopThingVisor h ctx ThingVisorID s = .ok s') :
    ∀ m, m ≠ CollectionThingVisors → s'.collection m = s.collection m := by
  intro m hm
  unfold StopThingVisor at hok
  dsimp only at hok
  repeat' split at hok
  all_goals first
    | exact (SetHistory_collection hok m).trans (PutPrivateData_collection_ne (by assumption) hm)
    | cases hok

theorem AddVThingToThingVisor_frame {h : Host} {ctx : Context} {ThingVisorID vThingData : String} {s s' : State}
    (hok : AddVThingToThingVisor h ctx ThingVisorID vThingData s = .ok s') :
    ∀ m, m ≠ CollectionvThingTVs → s'.collection m = s.collection m := by
  intro m hm
  unfold AddVThingToThingVisor at hok
  dsimp only at hok
  repeat' split at hok
  all_goals first
    | exact (SetHistory_collection hok m).trans (PutPrivateData_collection_ne (by assumption) hm)
    | cases hok

theorem UpdateVThingOfThingVisor_frame {h : Host} {ctx : Context} {VThingID vThingData : String} {s s' : State}
    (hok : UpdateVThingOfThingVisor h ctx VThingID vThingData s = .ok s') :
    ∀ m, m ≠ CollectionvThingTVs → s'.collection m = s.collection m := by
  intro m hm
  unfold UpdateVThingOfThingVisor at hok
  dsimp only at hok
  repeat' split at hok
  all_goals first
    | exact (SetHistory_collection hok m).trans (PutPrivateData_collection_ne (by assumption) hm)
    | cases hok

theorem DeleteVThingFromThingVisor_frame {h : Host} {ctx : Context} {ThingVisorID vThingData : String} {s s' : State}
    (hok : DeleteVThingFromThingVisor h ctx ThingVisorID vThingData s = .ok s') :
    ∀ m, m ≠ CollectionvThingTVs → s'.collection m = s.collection m := by
  intro m hm
  unfold DeleteVThingFromThingVisor at hok
  dsimp only at hok
  repeat' split at hok
  all_goals first
    | exact (SetHistory_collection hok m).trans (DelPrivateData_collection_ne (by assumption) hm)
    | cases hok

theorem AddFlavour_frame {h : Host} {ctx : Context} {flavourID : String} {s s' : State}
    (hok : AddFlavour h ctx flavourID s = .ok s') :
    ∀ m, m ≠ CollectionFlavours → s'.collection m = s.collection m := by
  intro m hm
  unfold AddFlavour at hok
  dsimp only at hok
  repeat' split at hok
  all_goals first
    | exact (SetHistory_collection hok m).trans (PutPrivateData_collection_ne (by assumption) hm)
    | cases hok

theorem UpdateFlavour_frame {ctx : Context} {flavourID flavourData : String} {s s' : State}
    (hok : UpdateFlavour ctx flavourID flavourData s = .ok s') :
    ∀ m, m ≠ CollectionFlavours → s'.collection m = s.collection m := by
  intro m hm
  unfold UpdateFlavour at hok
  dsimp only at hok
  repeat' split at hok
  all_goals first
    | exact (SetHistory_collection hok m).trans (PutPrivateData_collection_ne (by assumption) hm)
    | cases hok

theorem DeleteFlavour_frame {ctx : Context} {flavourID : String} {s s' : State}
    (hok : DeleteFlavour ctx flavourID s = .ok s') :
    ∀ m, m ≠ CollectionFlavours → s'.collection m = s.collection m := by
  intro m hm
  unfold DeleteFlavour at hok
  dsimp only at hok
  repeat' split at hok
  all_goals first
    | exact (SetHistory_collection hok m).trans (DelPrivateData_collection_ne (by assumption) hm)
    | cases hok

theorem AddVirtualSilo_frame {h : Host} {ctx : Context} {VSiloID flavourID : String} {s s' : State}
    (hok : AddVirtualSilo h ctx VSiloID flavourID s = .ok s') :
    ∀ m, m ≠ CollectionvSilos → s'.collection m = s.collection m := by
  intro m hm
  unfold AddVirtualSilo at hok
  dsimp only at hok
  repeat' split at hok
  all_goals first
    | exact (SetHistory_collection hok m).trans (PutPrivateData_collection_ne (by assumption) hm)
    | cases hok

theorem UpdateVirtualSilo_frame {ctx : Context} {VSiloID SiloData : String} {s s' : State}
    (hok : UpdateVirtualSilo ctx VSiloID SiloData s = .ok s') :
    ∀ m, m ≠ CollectionvSilos → s'.collection m = s.collection m := by
  intro m hm
  unfold UpdateVirtualSilo at hok
  dsimp only at hok
  repeat' split at hok
  all_goals first
    | exact (SetHistory_collection hok m).trans (PutPrivateData_collection_ne (by assumption) hm)
    | cases hok

theorem AddVThingVSilo_frame {ctx : Context} {VSiloID VThingID Data : String} {s s' : State}
    (hok : AddVThingVSilo ctx VSiloID VThingID Data s = .ok s') :
    ∀ m, m ≠ CollectionvThingVSilos → s'.collection m = s.collection m := by
  intro m hm
  unfold AddVThingVSilo at hok
  dsimp only at hok
  repeat' split at hok
  all_goals first
    | exact (SetHistory_collection hok m).trans (PutPrivateData_collection_ne (by assumption) hm)
    | cases hok

theorem DeleteVThingVSilo_frame {ctx : Context} {VSiloID VThingID : String} {s s' : State}
    (hok : DeleteVThingVSilo ctx VSiloID VThingID s = .ok s') :
    ∀ m, m ≠ CollectionvThingVSilos → s'.collection m = s.collection m := by
  intro m hm
  unfold DeleteVThingVSilo at hok
  dsimp only at hok
  repeat' split at hok
  all_goals first
    | exact (SetHistory_collection hok m).trans (DelPrivateData_collection_ne (by assumption) hm)
    | cases hok

theorem DelPrivateData_collection_self {s s' : State} {n : CollectionName} {key : String}
    (hok : DelPrivateData s n key = .ok s') :
    s'.collection n = eraseKey key (s.collection n) := by
  unfold DelPrivateData at hok
  cases hok
  exact collection_setCollection_self _ _ _

theorem delLoop_mem (n : CollectionName) (args : List String) :
    ∀ (s s1 : State), delLoop n args s = .ok s1 →
      ∀ kv ∈ s1.collection n, kv ∈ s.collection n := by
  induction args with
  | nil =>
    intro s s1 hloop kv hkv
    simp only [delLoop, Except.ok.injEq] at hloop
    subst hloop
    exact hkv
  | cons key rest ih =>
    intro s s1 hloop kv hkv
    simp only [delLoop, DelPrivateData] at hloop
    have hin := ih _ _ hloop kv hkv
    rw [collection_setCollection_self] at hin
    exact (mem_eraseKey hin).1

/-- `DeleteVThingFromThingVisor` only removes VThing records. -/
theorem DeleteVThingFromThingVisor_mem {h : Host} {ctx : Context}
    {ThingVisorID vThingData : String} {s s' : State}
    (hok : DeleteVThingFromThingVisor h ctx ThingVisorID vThingData s = .ok s') :
    ∀ kv ∈ s'.vThingTVs, kv ∈ s.vThingTVs := by
  unfold DeleteVThingFromThingVisor at hok
  dsimp only at hok
  repeat' split at hok
  all_goals first
    | (intro kv hkv
       have hcoll := (SetHistory_collection hok CollectionvThingTVs).trans
         (DelPrivateData_collection_self (by assumption))
       have hkv' : kv ∈ s'.collection CollectionvThingTVs := hkv
       rw [hcoll] at hkv'
       exact (mem_eraseKey hkv').1)
    | cases hok

/-- `DeleteThingVisor` only removes VThing records, and touches neither the
membership, silo nor flavour collections. -/
theorem DeleteThingVisor_mem {ctx : Context} {ThingVisorID : String} {s s' : State}
    (hok : DeleteThingVisor ctx ThingVisorID s = .ok s') :
    ∀ kv ∈ s'.vThingTVs, kv ∈ s.vThingTVs := by
  unfold DeleteThingVisor at hok
  dsimp only at hok
  repeat' split at hok
  all_goals first
    | (intro kv hkv
       have hcoll := (SetHistory_collection hok CollectionvThingTVs).trans
         (DelPrivateData_collection_ne (by assumption) (by decide))
       have hkv' : kv ∈ s'.collection CollectionvThingTVs := hkv
       rw [hcoll] at hkv'
       exact delLoop_mem _ _ _ _ (by assumption) kv hkv')
    | cases hok

theorem DeleteVirtualSilo_frame {ctx : Context} {VSiloID : String} {s s' : State}
    (hok : DeleteVirtualSilo ctx VSiloID s = .ok s') :
    s'.thingVisors = s.thingVisors ∧ s'.vThingTVs = s.vThingTVs ∧ s'.flavours = s.flavours := by
  obtain ⟨k1, args, s1, g, key, -, -, hloop, -, hs'⟩ := DeleteVirtualSilo_ok hok
  obtain ⟨-, htv, hvt, -, hfl, -, -⟩ := deleteMembershipLoop_ok _ _ _ _ _ _ _ _ hloop
  rw [hs']
  exact ⟨htv, hvt, hfl⟩

theorem answered_state {α : Type} {f : α → Response} {s s' : State} {r : Except Error α}
    {x : Response} (hok : answered f s r = .ok (x, s')) : s' = s := by
  unfold answered at hok
  split at hok
  · cases hok; rfl
  · cases hok

/-- A call that is not one of the two VThing writers adds no VThing record. -/
theorem invoke_vThingTVs_mem (h : Host) (ctx : Context) (call : Invocation) (s s' : State)
    (x : Response) (hok : invoke h ctx call s = .ok (x, s'))
    (hcall : call.writesVThing = false) :
    ∀ kv ∈ s'.vThingTVs, kv ∈ s.vThingTVs := by
  have hsame : s'.collection CollectionvThingTVs = s.collection CollectionvThingTVs →
      ∀ kv ∈ s'.vThingTVs, kv ∈ s.vThingTVs := by
    intro heq kv hkv
    have hkv' : kv ∈ s'.collection CollectionvThingTVs := hkv
    rw [heq] at hkv'
    exact hkv'
  cases call <;> simp only [invoke] at hok
  case AddVThingToThingVisor => cases hcall
  case UpdateVThingOfThingVisor => cases hcall
  case CreateThingVisor =>
    exact hsame (CreateThingVisor_frame (written_ok hok) _ (by decide))
  case UpdateThingVisor =>
    exact hsame (UpdateThingVisor_frame (written_ok hok) _ (by decide))
  case UpdateThingVisorPartial =>
    exact hsame (UpdateThingVisorPartial_frame (written_ok hok) _ (by decide))
  case StopThingVisor =>
    exact hsame (StopThingVisor_frame (written_ok hok) _ (by decide))
  case DeleteThingVisor => exact DeleteThingVisor_mem (written_ok hok)
  case DeleteVThingFromThingVisor => exact DeleteVThingFromThingVisor_mem (written_ok hok)
  case AddFlavour => exact hsame (AddFlavour_frame (written_ok hok) _ (by decide))
  case UpdateFlavour => exact hsame (UpdateFlavour_frame (written_ok hok) _ (by decide))
  case DeleteFlavour => exact hsame (DeleteFlavour_frame (written_ok hok) _ (by decide))
  case AddVirtualSilo => exact hsame (AddVirtualSilo_frame (written_ok hok) _ (by decide))
  case UpdateVirtualSilo => exact hsame (UpdateVirtualSilo_frame (written_ok hok) _ (by decide))
  case DeleteVirtualSilo => exact hsame (DeleteVirtualSilo_frame (written_ok hok)).2.1
  case AddVThingVSilo => exact hsame (AddVThingVSilo_frame (written_ok hok) _ (by decide))
  case DeleteVThingVSilo => exact hsame (DeleteVThingVSilo_frame (written_ok hok) _ (by decide))
  all_goals (rw [answered_state hok]; exact fun kv hkv => hkv)

/-! ## VThings and their owners -/

theorem PutPrivateData_collection_self {s s' : State} {n : CollectionName} {key value : String}
    (hok : PutPrivateData s n key value = .ok s') :
    s'.collection n =
      if value = "" then eraseKey key (s.collection n) else putKey key value (s.collection n) := by
  unfold PutPrivateData at hok
  split at hok
  · cases hok
  · split at hok
    · rename_i hvalue
      cases hok
      rw [collection_setCollection_self, if_pos hvalue]
    · rename_i hvalue
      cases hok
      rw [collection_setCollection_self, if_neg hvalue]

/-- A write of a non-empty value, or a write under an absent key, removes no
key. -/
theorem present_after_put {s s' : State} {n : CollectionName} {key value : String}
    (hput : PutPrivateData s n key value = .ok s')
    (hsafe : value ≠ "" ∨ GetPrivateData s n key = none) :
    ∀ o, (lookupKey o (s.collection n)).isSome = true →
      (lookupKey o (s'.collection n)).isSome = true := by
  intro o ho
  rw [PutPrivateData_collection_self hput]
  by_cases hvalue : value = ""
  · rw [if_pos hvalue]
    rcases hsafe with hne | habsent
    · exact absurd hvalue hne
    · have hok : o ≠ key := by
        intro e
        rw [e] at ho
        have habsent' : lookupKey key (s.collection n) = none := habsent
        rw [habsent'] at ho
        cases ho
      rw [lookupKey_eraseKey_ne hok]
      exact ho
  · rw [if_neg hvalue]
    by_cases hok : o = key
    · rw [hok, lookupKey_putKey_self]; rfl
    · rw [lookupKey_putKey_ne hok]
      exact ho

theorem CreateThingVisor_present {ctx : Context} {id JSONstr : String} {s s' : State}
    (hok : CreateThingVisor ctx id JSONstr s = .ok s') :
    ∀ o, (lookupKey o (s.collection CollectionThingVisors)).isSome = true →
      (lookupKey o (s'.collection CollectionThingVisors)).isSome = true := by
  unfold CreateThingVisor at hok
  dsimp only at hok
  repeat' split at hok
  all_goals first
    | (intro o ho
       rw [SetHistory_collection hok]
       exact present_after_put (by assumption) (Or.inr (by assumption)) o ho)
    | cases hok

theorem UpdateThingVisor_present {ctx : Context} {id JSONstr : String} {s s' : State}
    (hbody : JSONstr ≠ "") (hok : UpdateThingVisor ctx id JSONstr s = .ok s') :
    ∀ o, (lookupKey o (s.collection CollectionThingVisors)).isSome = true →
      (lookupKey o (s'.collection CollectionThingVisors)).isSome = true := by
  unfold UpdateThingVisor at hok
  dsimp only at hok
  repeat' split at hok
  all_goals first
    | (intro o ho
       rw [SetHistory_collection hok]
       exact present_after_put (by assumption) (Or.inl hbody) o ho)
    | cases hok

theorem UpdateThingVisorPartial_present {h : Host} {ctx : Context}
    {id tvDescription params : String} {s s' : State}
    (hmarshal : ∀ t, h.marshalThingVisor t ≠ "")
    (hok : UpdateThingVisorPartial h ctx id tvDescription params s = .ok s') :
    ∀ o, (lookupKey o (s.collection CollectionThingVisors)).isSome = true →
      (lookupKey o (s'.collection CollectionThingVisors)).isSome = true := by
  unfold UpdateThingVisorPartial at hok
  dsimp only at hok
  split at hok
  · cases hok
  · split at hok
    · cases hok
    · intro o ho
      rw [SetHistory_collection hok]
      exact present_after_put (by assumption) (Or.inl (hmarshal _)) o ho

theorem StopThingVisor_present {h : Host} {ctx : Context} {ThingVisorID : String}
    {s s' : State} (hmarshal : ∀ t, h.marshalThingVisor t ≠ "")
    (hok : StopThingVisor h ctx ThingVisorID s = .ok s') :
    ∀ o, (lookupKey o (s.collection CollectionThingVisors)).isSome = true →
      (lookupKey o (s'.collection CollectionThingVisors)).isSome = true := by
  unfold StopThingVisor at hok
  dsimp only at hok
  repeat' split at hok
  all_goals first
    | (intro o ho
       rw [SetHistory_collection hok]
       exact present_after_put (by assumption) (Or.inl (hmarshal _)) o ho)
    | cases hok

theorem sampleMarshalThingVisor_ne_empty (t : ThingVisor) : sampleMarshalThingVisor t ≠ "" := by
  intro hempty
  have hlen := congrArg String.length hempty
  simp [sampleMarshalThingVisor, sampleObject, String.length_append] at hlen
  exact absurd hlen.1.1 (by decide)

/-! ## Entities created without a body -/

/-- C18 (as amended): when JSON round-trips the created document, for a
non-empty absent flavour id `f`, `AddFlavour(f)` succeeds and `GetFlavour(f)`
then returns the Flavour with flavourID `f`, status `pending`, empty image and
yaml lists and every other field empty; for an absent silo id `S` free of
U+0000 and U+10FFFF that has a second `_`-separated segment,
`AddVirtualSilo(S, flavour)` succeeds and `GetVirtualSilo(S)` then returns the
VirtualSilo with vSiloID `S`, status `pending`, empty additional service and
deployment name lists and every other field empty. -/
theorem created_pending (h : Host) (ctxF ctxS : Context) (f S flavourID k1 : String) (s : State)
    (hf : f ≠ "")
    (habsentF : GetPrivateData s CollectionFlavours f = none)
    (hroundF : Unmarshal h.unmarshalFlavour
        (some (h.marshalFlavour { FlavourID := f, Status := STATUS_PENDING })) =
      .ok { FlavourID := f, Status := STATUS_PENDING })
    (hS : validateCompositeKeyAttribute S = true)
    (hk1 : index1 (Split S '_') = .ok k1)
    (habsentS : GetPrivateData s CollectionvSilos
        (compositeKey vSiloObject [vSiloPrefix, index0 (Split S '_'), k1]) = none)
    (hroundS : Unmarshal h.unmarshalVirtualSilo
        (some (h.marshalVirtualSilo { VSiloID := S, Status := STATUS_PENDING })) =
      .ok { VSiloID := S, Status := STATUS_PENDING }) :
    (∃ s1, AddFlavour h ctxF f s = .ok s1
      ∧ GetFlavour h s1 f =
        .ok { FlavourID := f, FlavourParams := "", ImageName := [], FlavourDescription := "",
              CreationTime := "", Status := "pending", YamlFiles := [] })
    ∧ (∃ s2, AddVirtualSilo h ctxS S flavourID s = .ok s2
      ∧ GetVirtualSilo h s2 S =
        .ok { VSiloID := S, Status := "pending", AdditionalServicesNames := [],
              AdditionalDeploymentsNames := [] }) := by
  constructor
  · have hne := (Unmarshal_ok_ne_empty hroundF).1
    have hadd : AddFlavour h ctxF f s =
        .ok ((s.setCollection CollectionFlavours
            (putKey f (h.marshalFlavour { FlavourID := f, Status := STATUS_PENDING })
              (s.collection CollectionFlavours))).withEvent ctxF "AddFlavour"
          [ { StartNode := ctxF.userMSPID, EndNode := "user-" ++ ctxF.userID },
            { StartNode := "user-" ++ ctxF.userID, EndNode := "flavour-" ++ f } ]) := by
      simp only [AddFlavour, habsentF, PutPrivateData_ok _ _ _ _ hf hne]
      rw [SetHistory_withEvent _ _ _ _ (by decide)]
    refine ⟨_, hadd, ?_⟩
    simp only [GetFlavour, GetPrivateData_written, lookupKey_putKey_self, hroundF]
    rfl
  · have hk0valid := validate_of_mem_Split hS (index0_mem_Split S '_')
    have hk1valid := validate_of_mem_Split hS (index1_mem hk1)
    have hkey := CreateCompositeKey_vSilo hk0valid hk1valid
    have hne := (Unmarshal_ok_ne_empty hroundS).1
    refine ⟨_, AddVirtualSilo_written h ctxS S flavourID k1 _ s hk1 hkey habsentS, ?_⟩
    simp only [GetVirtualSilo, hk1, hkey, GetPrivateData_written, if_neg hne,
      lookupKey_putKey_self, hroundS]
    rfl

set_option maxRecDepth 1000000 in
/-- Witness of `created_pending`: flavour `flavourX` and silo
`tenantA_flavourX` on the empty ledger. -/
theorem created_pending_witness :
    ("flavourX" ≠ "" ∧ GetPrivateData {} CollectionFlavours "flavourX" = none
      ∧ validateCompositeKeyAttribute "tenantA_flavourX" = true
      ∧ index1 (Split "tenantA_flavourX" '_') = .ok "flavourX"
      ∧ GetPrivateData {} CollectionvSilos
          (compositeKey vSiloObject [vSiloPrefix, index0 (Split "tenantA_flavourX" '_'),
            "flavourX"]) = none)
    ∧ (∃ s1, AddFlavour sampleHost (sampleContext ["AddFlavour", "flavourX"]) "flavourX" {} =
          .ok s1
        ∧ GetFlavour sampleHost s1 "flavourX" =
          .ok { FlavourID := "flavourX", FlavourParams := "", ImageName := [],
                FlavourDescription := "", CreationTime := "", Status := "pending",
                YamlFiles := [] })
    ∧ (∃ s2, AddVirtualSilo sampleHost
          (sampleContext ["AddVirtualSilo", "tenantA_flavourX", "flavourX"]) "tenantA_flavourX"
          "flavourX" {} = .ok s2
        ∧ GetVirtualSilo sampleHost s2 "tenantA_flavourX" =
          .ok { VSiloID := "tenantA_flavourX", Status := "pending",
                AdditionalServicesNames := [], AdditionalDeploymentsNames := [] }) :=
  ⟨⟨by decide, by decide, by decide, by decide, by decide⟩,
    created_pending sampleHost (sampleContext ["AddFlavour", "flavourX"])
      (sampleContext ["AddVirtualSilo", "tenantA_flavourX", "flavourX"]) "flavourX"
      "tenantA_flavourX" "flavourX" "flavourX" {} (by decide) (by decide) (by decide) (by decide)
      (by decide) (by decide) (by decide)⟩

set_option maxRecDepth 1000000 in
/-- C18 (counterexample): the empty flavour id is absent from the empty
ledger and `AddFlavour` fails on it, the ledger refuses the empty key; the silo
id `a<U+0000>_b` is absent and `AddVirtualSilo` fails on it, the ledger refuses
the key segment. Nothing is stored by either call. -/
theorem AddFlavour_empty_id :
    GetPrivateData {} CollectionFlavours "" = none
    ∧ AddFlavour sampleHost (sampleContext ["AddFlavour", ""]) "" {} =
      .error (.Store "key must not be an empty string")
    ∧ invoke sampleHost (sampleContext ["GetFlavour", ""]) (.GetFlavour "") {} =
      .error (.NotFound "Get Flavour fails - Flavour  not exist")
    ∧ Split nulSilo '_' = [String.mk ['a', minUnicodeRuneValue], "b"]
    ∧ ({} : State).vSilos = []
    ∧ AddVirtualSilo sampleHost (sampleContext ["AddVirtualSilo", nulSilo, "b"]) nulSilo "b" {} =
      .error (.InvalidKey ("Generate key of " ++ nulSilo ++ " failed.")) := by
  decide

/-! ## Reads of a body that does not decode -/

/-- C19: when the body stored under the key does not decode, `GetThingVisor`,
`GetVirtualSilo` and `GetVThingByID` fail with the decoding error, and
`GetFlavour` succeeds: it returns the Flavour that the failed decoding left
behind. -/
theorem undecodable_reads (h : Host) (s : State) :
    (∀ f b, GetPrivateData s CollectionFlavours f = some b →
      Unmarshal h.unmarshalFlavour (some b) = .error .Serialization →
      GetFlavour h s f = .ok (h.flavourAfterError b))
    ∧ (∀ id b, GetPrivateData s CollectionThingVisors id = some b →
      Unmarshal h.unmarshalThingVisor (some b) = .error .Serialization →
      GetThingVisor h s id = .error .Serialization)
    ∧ (∀ S k1 b, validateCompositeKeyAttribute S = true → index1 (Split S '_') = .ok k1 →
      GetPrivateData s CollectionvSilos
        (compositeKey vSiloObject [vSiloPrefix, index0 (Split S '_'), k1]) = some b →
      Unmarshal h.unmarshalVirtualSilo (some b) = .error .Serialization →
      GetVirtualSilo h s S = .error .Serialization)
    ∧ (∀ V k1 b, validateCompositeKeyAttribute V = true → index1 (Split V '/') = .ok k1 →
      GetPrivateData s CollectionvThingTVs
        (compositeKey vThingTVObject [vThingTVPrefix, index0 (Split V '/'), k1]) = some b →
      Unmarshal h.unmarshalVThingTV (some b) = .error .Serialization →
      GetVThingByID h s V = .error .Serialization) := by
  refine ⟨?_, ?_, ?_, ?_⟩
  · intro f b hstored hbad
    simp only [GetFlavour, hstored, hbad]
  · intro id b hstored hbad
    simp only [GetThingVisor, hstored, hbad]
  · intro S k1 b hvalid hk1 hstored hbad
    have hkey := CreateCompositeKey_vSilo
      (validate_of_mem_Split hvalid (index0_mem_Split S '_'))
      (validate_of_mem_Split hvalid (index1_mem hk1))
    simp only [GetVirtualSilo, hk1, hkey, hstored, hbad]
  · intro V k1 b hvalid hk1 hstored hbad
    have hkey := CreateCompositeKey_vThingTV
      (validate_of_mem_Split hvalid (index0_mem_Split V '/'))
      (validate_of_mem_Split hvalid (index1_mem hk1))
    simp only [GetVThingByID, hk1, hkey, hstored, hbad]

set_option maxRecDepth 1000000 in
/-- Witness of `undecodable_reads`: `AddFlavour("flavourX")` and
`UpdateFlavour("flavourX", "oops")` succeed from the empty ledger; the stored
body `oops` does not decode, `GetAllFlavours` fails on it and
`GetFlavour("flavourX")` returns the zero Flavour. -/
theorem undecodable_reads_witness :
    invoke sampleHost (sampleContext ["AddFlavour", "flavourX"]) (.AddFlavour "flavourX") {} =
      .ok (.done, stateFlavourAdded)
    ∧ invoke sampleHost (sampleContext ["UpdateFlavour", "flavourX", "oops"])
        (.UpdateFlavour "flavourX" "oops") stateFlavourAdded = .ok (.done, stateFlavourUndecodable)
    ∧ GetPrivateData stateFlavourUndecodable CollectionFlavours "flavourX" = some "oops"
    ∧ Unmarshal sampleHost.unmarshalFlavour (some "oops") = .error .Serialization
    ∧ GetAllFlavours sampleHost stateFlavourUndecodable = .error .Serialization
    ∧ GetFlavour sampleHost stateFlavourUndecodable "flavourX" =
      .ok { FlavourID := "", FlavourParams := "", ImageName := [], FlavourDescription := "",
            CreationTime := "", Status := "", YamlFiles := [] } :=
  ⟨by decide, by decide, by decide, by decide, by decide,
    (undecodable_reads sampleHost stateFlavourUndecodable).1 "flavourX" "oops" (by decide)
      (by decide)⟩

/-! ## GetThingVisor and the VThings under its prefix -/

/-- The results of the listing loop started on `acc` are `acc` followed by the
results of the loop started on the empty list. -/
theorem collectLoop_acc {α : Type} (dec : String → Option α)
    (xs : List (Except Error (String × String))) (acc : List α) :
    collectLoop dec xs acc = (collectLoop dec xs []).map (fun vs => acc ++ vs) := by
  induction xs generalizing acc with
  | nil => simp [collectLoop, Except.map]
  | cons x rest ih =>
    cases x with
    | error e => simp [collectLoop, Except.map]
    | ok q =>
      simp only [collectLoop]
      cases hq : Unmarshal dec (some q.2) with
      | error e => simp [Except.map]
      | ok v =>
        simp only []
        rw [ih (acc ++ [v]), ih ([] ++ [v])]
        cases collectLoop dec rest [] <;> simp [Except.map]

/-- An iterator closed before it is read serves all its results when they fit
in one fetch. -/
theorem nextResults_closed_of_le (batch : Nat) (rs : Collection) (hle : rs.length ≤ batch) :
    nextResults true batch rs = rs.map .ok := by
  simp [nextResults, Nat.not_lt.mpr hle]

/-- C20 (as amended): `GetThingVisor(id)` fails with the not-found error when
`id` is absent from the ThingVisor collection. When the stored body decodes to
`t` and the VThing records under the prefix of `id` fit in one fetch of the
peer, it fails when `GetAllVThingOfThingVisor(id)` fails, with the same error,
and otherwise returns `t` with the sequence returned by
`GetAllVThingOfThingVisor(id)` appended to the VThings list of `t`. -/
theorem GetThingVisor_outcome (h : Host) (s : State) (id : String) :
    (GetPrivateData s CollectionThingVisors id = none →
      GetThingVisor h s id =
        .error (.NotFound ("Operation fails - thingVisor " ++ id ++ " not exists")))
    ∧ (∀ body t, GetPrivateData s CollectionThingVisors id = some body →
        Unmarshal h.unmarshalThingVisor (some body) = .ok t →
        (∀ rs, GetPrivateDataByPartialCompositeKey s CollectionvThingTVs vThingTVObject
            [vThingTVPrefix, id] = .ok rs → rs.length ≤ h.queryBatch) →
        GetThingVisor h s id =
          (GetAllVThingOfThingVisor h s id).map
            (fun vs => { t with VThings := t.VThings ++ vs })) := by
  constructor
  · intro habsent
    simp only [GetThingVisor, habsent]
  · intro body t hstored hbody hfit
    simp only [GetThingVisor, GetAllVThingOfThingVisor, hstored, hbody]
    cases hscan : GetPrivateDataByPartialCompositeKey s CollectionvThingTVs vThingTVObject
        [vThingTVPrefix, id] with
    | error e => simp [Except.map]
    | ok rs =>
      simp only [nextResults_closed_of_le _ _ (hfit rs hscan), nextResults_open]
      rw [collectLoop_acc]
      cases collectLoop h.unmarshalVThingTV (rs.map .ok) [] <;> simp [Except.map]

set_option maxRecDepth 1000000 in
/-- Witness of `GetThingVisor_outcome`: `tv1` with the VThing `tv1/t1`. -/
theorem GetThingVisor_outcome_witness :
    GetPrivateData stateCreatedWithT1 CollectionThingVisors "tv1" = some tv1RunningJSON
    ∧ Unmarshal sampleHost.unmarshalThingVisor (some tv1RunningJSON) = .ok tv1Running
    ∧ GetAllVThingOfThingVisor sampleHost stateCreatedWithT1 "tv1" = .ok [{ ID := "tv1/t1" }]
    ∧ GetThingVisor sampleHost stateCreatedWithT1 "tv1" =
      (GetAllVThingOfThingVisor sampleHost stateCreatedWithT1 "tv1").map
        (fun vs => { tv1Running with VThings := tv1Running.VThings ++ vs }) :=
  ⟨by decide, by decide, by decide,
    (GetThingVisor_outcome sampleHost stateCreatedWithT1 "tv1").2 tv1RunningJSON tv1Running
      (by decide) (by decide)
      (by
        intro rs hrs
        have hscan : GetPrivateDataByPartialCompositeKey stateCreatedWithT1 CollectionvThingTVs
            vThingTVObject [vThingTVPrefix, "tv1"] =
            .ok [(compositeKey vThingTVObject [vThingTVPrefix, "tv1", "t1"], t1JSON)] := by
          decide
        rw [hscan] at hrs
        cases hrs
        decide)⟩

set_option maxRecDepth 1000000 in
/-- C20 (counterexample): after `CreateThingVisor("tv1", body)` on the empty
ledger, with a body that lists the VThing `tv1/t1`, no VThing record is stored
and `GetAllVThingOfThingVisor("tv1")` returns the empty sequence, while
`GetThingVisor("tv1")` returns a ThingVisor whose VThings list holds
`tv1/t1`. -/
theorem GetThingVisor_own_vThings :
    invoke sampleHost2 (sampleContext ["CreateThingVisor", "tv1", tv1EnrichedJSON])
        (.CreateThingVisor "tv1" tv1EnrichedJSON) {} = .ok (.done, stateEnriched)
    ∧ stateEnriched.vThingTVs = []
    ∧ GetAllVThingOfThingVisor sampleHost2 stateEnriched "tv1" = .ok []
    ∧ GetThingVisor sampleHost2 stateEnriched "tv1" =
      .ok { ThingVisorID := "tv1", Status := "running", VThings := [{ ID := "tv1/t1" }] } := by
  decide

set_option maxRecDepth 1000000 in
/-- On a peer that ships one result per fetch, with two VThing records under
`tv1`, `GetAllVThingOfThingVisor("tv1")` returns both and `GetThingVisor("tv1")`
fails: its iterator was closed before the loop and cannot fetch again. -/
theorem GetThingVisor_closed_iterator :
    invoke sampleHost (sampleContext ["UpdateVThingOfThingVisor", "tv1/t2", t1JSON])
        (.UpdateVThingOfThingVisor "tv1/t2" t1JSON) stateCreatedWithT1 =
      .ok (.done, stateTwoThings)
    ∧ GetAllVThingOfThingVisor sampleHostBatch1 stateTwoThings "tv1" =
      .ok [{ ID := "tv1/t1" }, { ID := "tv1/t1" }]
    ∧ GetThingVisor sampleHostBatch1 stateTwoThings "tv1" =
      .error (.Store "query iterator not found") := by
  decide

/-! ## The two reads of a VThing by id -/

/-- C25: `GetVThingByID` and `GetVThingOfThingVisor` succeed on the same
states and ids, with the same VThing; when one fails the other fails. -/
theorem GetVThingByID_equiv_GetVThingOfThingVisor (h : Host) (s : State) (VThingID : String) :
    (∀ v, GetVThingByID h s VThingID = .ok v ↔ GetVThingOfThingVisor h s VThingID = .ok v)
    ∧ (GetVThingByID h s VThingID).toBool = (GetVThingOfThingVisor h s VThingID).toBool := by
  unfold GetVThingByID GetVThingOfThingVisor
  dsimp only
  cases index1 (Split VThingID '/') with
  | error e => simp [Except.toBool]
  | ok k1 =>
    dsimp only
    cases CreateCompositeKey vThingTVObject [vThingTVPrefix, index0 (Split VThingID '/'), k1] with
    | none => simp [Except.toBool]
    | some key =>
      dsimp only
      cases GetPrivateData s CollectionvThingTVs key with
      | none => simp [Except.toBool]
      | some byteData => simp

set_option maxRecDepth 1000000 in
/-- Witness of `GetVThingByID_equiv_GetVThingOfThingVisor`: both reads return
the stored VThing `tv1/t1`, and both fail on the id `tv1/t2`. -/
theorem GetVThingByID_equiv_GetVThingOfThingVisor_witness :
    GetVThingByID sampleHost stateCreatedWithT1 "tv1/t1" = .ok { ID := "tv1/t1" }
    ∧ GetVThingOfThingVisor sampleHost stateCreatedWithT1 "tv1/t1" = .ok { ID := "tv1/t1" }
    ∧ (GetVThingByID sampleHost stateCreatedWithT1 "tv1/t2").toBool = false
    ∧ (GetVThingOfThingVisor sampleHost stateCreatedWithT1 "tv1/t2").toBool = false :=
  ⟨by decide,
    ((GetVThingByID_equiv_GetVThingOfThingVisor sampleHost stateCreatedWithT1 "tv1/t1").1
      { ID := "tv1/t1" }).1 (by decide),
    by decide, by decide⟩

/-! ## ThingVisorRunning -/

/-- C28: `ThingVisorRunning(id)` succeeds exactly when a record is stored under
`id`, it decodes and its status is `running`; in every other case it returns
its error; the ledger after the call is the ledger before it. -/
theorem ThingVisorRunning_outcome (h : Host) (ctx : Context) (s : State) (id : String) :
    (ThingVisorRunning h s id = .ok () ↔
      ∃ b t, GetPrivateData s CollectionThingVisors id = some b
        ∧ Unmarshal h.unmarshalThingVisor (some b) = .ok t ∧ t.Status = STATUS_RUNNING)
    ∧ (ThingVisorRunning h s id ≠ .ok () →
      ThingVisorRunning h s id =
        .error (.InvalidState ("ThingVisor " ++ id ++ "is not running!")))
    ∧ ledgerAfter s (invoke h ctx (.ThingVisorRunning id) s) = s := by
  refine ⟨?_, ?_, ?_⟩
  · unfold ThingVisorRunning
    dsimp only
    cases hget : GetPrivateData s CollectionThingVisors id with
    | none => simp [Unmarshal]
    | some b =>
      cases hdec : Unmarshal h.unmarshalThingVisor (some b) with
      | error e => simp [hdec]
      | ok t =>
        by_cases hstatus : t.Status = STATUS_RUNNING
        · simp [hdec, hstatus]
        · simp [hdec, hstatus]
  · unfold ThingVisorRunning
    dsimp only
    cases Unmarshal h.unmarshalThingVisor (GetPrivateData s CollectionThingVisors id) with
    | error e => simp
    | ok t =>
      by_cases hstatus : t.Status = STATUS_RUNNING
      · simp [hstatus]
      · simp [hstatus]
  · simp only [invoke]
    cases ThingVisorRunning h s id <;> rfl

set_option maxRecDepth 1000000 in
/-- Witness of `ThingVisorRunning_outcome`: success on the running `tv1`, the
error on the pending `tv1` and on an absent id. -/
theorem ThingVisorRunning_outcome_witness :
    ThingVisorRunning sampleHost stateTv1Running "tv1" = .ok ()
    ∧ ThingVisorRunning sampleHost stateTv1Pending "tv1" =
      .error (.InvalidState "ThingVisor tv1is not running!")
    ∧ ThingVisorRunning sampleHost stateTv1Running "tv2" =
      .error (.InvalidState "ThingVisor tv2is not running!") :=
  ⟨(ThingVisorRunning_outcome sampleHost (sampleContext ["ThingVisorRunning", "tv1"])
      stateTv1Running "tv1").1.mpr ⟨tv1RunningJSON, tv1Running, by decide, by decide, by decide⟩,
    by decide, by decide⟩

/-! ## The event of DeleteVirtualSilo -/

/-- C29 (what the code does): the loop of `DeleteVirtualSilo` runs over every
argument of the call after the function name, the silo id included. The event
of a successful `DeleteVirtualSilo(S)` accompanied by `ts` holds the three
fixed edges, then the deletion edge `silo-S -> vthing-S`, then one deletion
edge `silo-S -> vthing-t` for each `t` of `ts` in argument order: `4 + |ts|`
edges. -/
theorem DeleteVirtualSilo_edges (ctx : Context) (S fn : String) (ts : List String)
    (s s' : State) (hargs : ctx.StringArgs = fn :: S :: ts)
    (hdel : DeleteVirtualSilo ctx S s = .ok s') :
    ∃ k1 g, index1 (Split S '_') = .ok k1
      ∧ g =
        [ { StartNode := ctx.userMSPID, EndNode := "user-" ++ ctx.userID, Delete := false },
          { StartNode := "user-" ++ ctx.userID, EndNode := "silo-" ++ S, Delete := true },
          { StartNode := "flavour-" ++ k1, EndNode := "silo-" ++ S, Delete := true },
          { StartNode := "silo-" ++ S, EndNode := "vthing-" ++ S, Delete := true } ]
        ++ ts.map (fun t =>
          ({ StartNode := "silo-" ++ S, EndNode := "vthing-" ++ t, Delete := true } : GraphNode))
      ∧ s'.events = s.events ++
        [("DeleteVirtualSilo",
          { EventName := "DeleteVirtualSilo", Time := ctx.Time, TxID := ctx.TxID,
            UserID := ctx.userID, UserMSPID := ctx.userMSPID, GraphNodes := g })]
      ∧ g.length = 4 + ts.length := by
  obtain ⟨k1, args, s1, g, key, hk1, hargs1, hloop, -, hs'⟩ := DeleteVirtualSilo_ok hdel
  have hargs' : args = S :: ts := by
    simp only [argsFrom1, hargs, Except.ok.injEq] at hargs1
    exact hargs1.symm
  obtain ⟨-, -, -, -, -, hev, hg⟩ := deleteMembershipLoop_ok _ _ _ _ _ _ _ _ hloop
  refine ⟨k1, g, hk1, ?_, ?_, ?_⟩
  · rw [hg, hargs']
    simp
  · rw [hs', hev]
  · rw [hg, hargs']
    simp
    omega

set_option maxRecDepth 1000000 in
/-- Witness of `DeleteVirtualSilo_edges`: `DeleteVirtualSilo("tenantA_flavourX")`
accompanied by the one thing id `t1` emits five edges. -/
theorem DeleteVirtualSilo_edges_witness :
    DeleteVirtualSilo (sampleContext ["DeleteVirtualSilo", "tenantA_flavourX", "t1"])
        "tenantA_flavourX" statePendingSiloMember = .ok stateSiloDeleted
    ∧ stateSiloDeleted.events.getLast?.map (fun e => e.2.GraphNodes) =
      some
        [ { StartNode := "Org1MSP", EndNode := "user-alice", Delete := false },
          { StartNode := "user-alice", EndNode := "silo-tenantA_flavourX", Delete := true },
          { StartNode := "flavour-flavourX", EndNode := "silo-tenantA_flavourX", Delete := true },
          { StartNode := "silo-tenantA_flavourX", EndNode := "vthing-tenantA_flavourX",
            Delete := true },
          { StartNode := "silo-tenantA_flavourX", EndNode := "vthing-t1", Delete := true } ]
    ∧ ∃ k1 g, index1 (Split "tenantA_flavourX" '_') = .ok k1
      ∧ g =
        [ { StartNode := "Org1MSP", EndNode := "user-" ++ "alice", Delete := false },
          { StartNode := "user-" ++ "alice", EndNode := "silo-" ++ "tenantA_flavourX",
            Delete := true },
          { StartNode := "flavour-" ++ k1, EndNode := "silo-" ++ "tenantA_flavourX",
            Delete := true },
          { StartNode := "silo-" ++ "tenantA_flavourX", EndNode := "vthing-" ++ "tenantA_flavourX",
            Delete := true } ]
        ++ ["t1"].map (fun t =>
          ({ StartNode := "silo-" ++ "tenantA_flavourX", EndNode := "vthing-" ++ t,
             Delete := true } : GraphNode))
      ∧ stateSiloDeleted.events = statePendingSiloMember.events ++
        [("DeleteVirtualSilo",
          { EventName := "DeleteVirtualSilo", Time := "seconds:1", TxID := "tx1",
            UserID := "alice", UserMSPID := "Org1MSP", GraphNodes := g })]
      ∧ g.length = 4 + ["t1"].length :=
  ⟨by decide, by decide,
    DeleteVirtualSilo_edges (sampleContext ["DeleteVirtualSilo", "tenantA_flavourX", "t1"])
      "tenantA_flavourX" "DeleteVirtualSilo" ["t1"] statePendingSiloMember stateSiloDeleted rfl
      (by decide)⟩

/-! ## What a write changes -/

/-- The ledger after a write of `value` under `key` and an event: the key holds
the value, every other key of the collection and every other collection is as
before. -/
theorem written_state (s : State) (ctx : Context) (n : CollectionName) (key value : String)
    (EventName : String) (nodes : List GraphNode) :
    GetPrivateData
        ((s.setCollection n (putKey key value (s.collection n))).withEvent ctx EventName nodes)
        n key = some value
    ∧ (∀ k, k ≠ key →
      GetPrivateData
          ((s.setCollection n (putKey key value (s.collection n))).withEvent ctx EventName nodes)
          n k = GetPrivateData s n k)
    ∧ (∀ m, m ≠ n →
      ((s.setCollection n (putKey key value (s.collection n))).withEvent ctx EventName
        nodes).collection m = s.collection m) := by
  refine ⟨?_, ?_, ?_⟩
  · rw [GetPrivateData_written]
    exact lookupKey_putKey_self _ _ _
  · intro k hk
    rw [GetPrivateData_written]
    exact lookupKey_putKey_ne hk _ _
  · intro m hm
    rw [collection_withEvent, collection_setCollection_ne _ hm]

/-! ## StopThingVisor changes the status only -/

/-- C24: after a successful `StopThingVisor(id)` on a record that decodes to
`thingVisor`, the record stored under `id` decodes to `thingVisor` with status
`stopping` and every other field as before, every other key of the ThingVisor
collection holds what it held, and the other four collections are as
before. -/
theorem StopThingVisor_changes_status_only (h : Host) (ctx : Context) (id : String)
    (s s' : State) (thingVisorByte : String) (thingVisor : ThingVisor)
    (hget : GetPrivateData s CollectionThingVisors id = some thingVisorByte)
    (htv : Unmarshal h.unmarshalThingVisor (some thingVisorByte) = .ok thingVisor)
    (hround : Unmarshal h.unmarshalThingVisor
        (some (h.marshalThingVisor { thingVisor with Status := STATUS_STOPPING })) =
      .ok { thingVisor with Status := STATUS_STOPPING })
    (hok : StopThingVisor h ctx id s = .ok s') :
    Unmarshal h.unmarshalThingVisor (GetPrivateData s' CollectionThingVisors id) =
      .ok { ThingVisorID := thingVisor.ThingVisorID, CreationTime := thingVisor.CreationTime,
            TvDescription := thingVisor.TvDescription, Status := "stopping",
            DebugMode := thingVisor.DebugMode, IpAddress := thingVisor.IpAddress,
            DeploymentName := thingVisor.DeploymentName, ServiceName := thingVisor.ServiceName,
            ContainerID := thingVisor.ContainerID, VThings := thingVisor.VThings,
            Params := thingVisor.Params, MQTTDataBroker := thingVisor.MQTTDataBroker,
            MQTTControlBroker := thingVisor.MQTTControlBroker,
            AdditionalServicesNames := thingVisor.AdditionalServicesNames,
            AdditionalDeploymentsNames := thingVisor.AdditionalDeploymentsNames }
    ∧ (∀ k, k ≠ id →
      GetPrivateData s' CollectionThingVisors k = GetPrivateData s CollectionThingVisors k)
    ∧ s'.vThingTVs = s.vThingTVs ∧ s'.vThingVSilos = s.vThingVSilos
    ∧ s'.vSilos = s.vSilos ∧ s'.flavours = s.flavours := by
  have hne := (Unmarshal_ok_ne_empty hround).1
  have hframe := StopThingVisor_frame hok
  refine ⟨?_, ?_, hframe CollectionvThingTVs (by decide), hframe CollectionvThingVSilos (by decide),
    hframe CollectionvSilos (by decide), hframe CollectionFlavours (by decide)⟩
  all_goals
    unfold StopThingVisor at hok
    simp only [hget, htv] at hok
    split at hok
    · cases hok
    · split at hok
      · cases hok
      · rename_i s1 hput
        have hcoll : s'.collection CollectionThingVisors =
            putKey id (h.marshalThingVisor { thingVisor with Status := STATUS_STOPPING })
              (s.collection CollectionThingVisors) := by
          rw [SetHistory_collection hok, PutPrivateData_collection_self hput, if_neg hne]
        first
          | (intro k hk
             show lookupKey k (s'.collection CollectionThingVisors) = _
             rw [hcoll]
             exact lookupKey_putKey_ne hk _ _)
          | (have hstored : GetPrivateData s' CollectionThingVisors id =
                 some (h.marshalThingVisor { thingVisor with Status := STATUS_STOPPING }) := by
               show lookupKey id (s'.collection CollectionThingVisors) = _
               rw [hcoll]
               exact lookupKey_putKey_self _ _ _
             rw [hstored]
             exact hround)

set_option maxRecDepth 1000000 in
/-- Witness of `StopThingVisor_changes_status_only`: `tv1` with its VThing
`tv1/t1` stored. -/
theorem StopThingVisor_changes_status_only_witness :
    (GetPrivateData stateCreatedWithT1 CollectionThingVisors "tv1" = some tv1RunningJSON
      ∧ Unmarshal sampleHost.unmarshalThingVisor (some tv1RunningJSON) = .ok tv1Running
      ∧ StopThingVisor sampleHost (sampleContext ["StopThingVisor", "tv1"]) "tv1"
          stateCreatedWithT1 = .ok stateStopped)
    ∧ Unmarshal sampleHost.unmarshalThingVisor
        (GetPrivateData stateStopped CollectionThingVisors "tv1") =
      .ok { ThingVisorID := tv1Running.ThingVisorID, CreationTime := tv1Running.CreationTime,
            TvDescription := tv1Running.TvDescription, Status := "stopping",
            DebugMode := tv1Running.DebugMode, IpAddress := tv1Running.IpAddress,
            DeploymentName := tv1Running.DeploymentName, ServiceName := tv1Running.ServiceName,
            ContainerID := tv1Running.ContainerID, VThings := tv1Running.VThings,
            Params := tv1Running.Params, MQTTDataBroker := tv1Running.MQTTDataBroker,
            MQTTControlBroker := tv1Running.MQTTControlBroker,
            AdditionalServicesNames := tv1Running.AdditionalServicesNames,
            AdditionalDeploymentsNames := tv1Running.AdditionalDeploymentsNames }
    ∧ (∀ k, k ≠ "tv1" →
      GetPrivateData stateStopped CollectionThingVisors k =
        GetPrivateData stateCreatedWithT1 CollectionThingVisors k)
    ∧ stateStopped.vThingTVs = stateCreatedWithT1.vThingTVs
    ∧ stateStopped.vThingVSilos = stateCreatedWithT1.vThingVSilos
    ∧ stateStopped.vSilos = stateCreatedWithT1.vSilos
    ∧ stateStopped.flavours = stateCreatedWithT1.flavours :=
  ⟨⟨by decide, by decide, by decide⟩,
    StopThingVisor_changes_status_only sampleHost (sampleContext ["StopThingVisor", "tv1"]) "tv1"
      stateCreatedWithT1 stateStopped tv1RunningJSON tv1Running (by decide) (by decide)
      (by decide) (by decide)⟩

/-! ## Full-replace updates -/

/-- C26 (as amended): `UpdateFlavour` and `UpdateVirtualSilo` fail with the
not-found error, leaving the ledger as it was, when the addressed record is
absent; when it is present and the supplied body is not empty they succeed, the
value stored under the key afterwards is the supplied body, every other key of
the collection holds what it held and the other collections are as before. -/
theorem full_update_outcome (ctx : Context) (s : State) :
    (∀ id body, GetPrivateData s CollectionFlavours id = none →
      UpdateFlavour ctx id body s =
        .error (.NotFound ("Update Flavour fails - Flavour " ++ id ++ " not exist"))
      ∧ s.after (UpdateFlavour ctx id body s) = s)
    ∧ (∀ id body old, GetPrivateData s CollectionFlavours id = some old → id ≠ "" → body ≠ "" →
      ∃ s', UpdateFlavour ctx id body s = .ok s'
        ∧ GetPrivateData s' CollectionFlavours id = some body
        ∧ (∀ k, k ≠ id →
          GetPrivateData s' CollectionFlavours k = GetPrivateData s CollectionFlavours k)
        ∧ (∀ m, m ≠ CollectionFlavours → s'.collection m = s.collection m))
    ∧ (∀ S k1 body, validateCompositeKeyAttribute S = true → index1 (Split S '_') = .ok k1 →
      GetPrivateData s CollectionvSilos
        (compositeKey vSiloObject [vSiloPrefix, index0 (Split S '_'), k1]) = none →
      UpdateVirtualSilo ctx S body s =
        .error (.NotFound ("Update VirtualSilo fails - VirtualSilo " ++ S ++ " not exist"))
      ∧ s.after (UpdateVirtualSilo ctx S body s) = s)
    ∧ (∀ S k1 body old, validateCompositeKeyAttribute S = true → index1 (Split S '_') = .ok k1 →
      GetPrivateData s CollectionvSilos
        (compositeKey vSiloObject [vSiloPrefix, index0 (Split S '_'), k1]) = some old →
      body ≠ "" →
      ∃ s', UpdateVirtualSilo ctx S body s = .ok s'
        ∧ GetPrivateData s' CollectionvSilos
            (compositeKey vSiloObject [vSiloPrefix, index0 (Split S '_'), k1]) = some body
        ∧ (∀ k, k ≠ compositeKey vSiloObject [vSiloPrefix, index0 (Split S '_'), k1] →
          GetPrivateData s' CollectionvSilos k = GetPrivateData s CollectionvSilos k)
        ∧ (∀ m, m ≠ CollectionvSilos → s'.collection m = s.collection m)) := by
  refine ⟨?_, ?_, ?_, ?_⟩
  · intro id body habsent
    have hfail : UpdateFlavour ctx id body s =
        .error (.NotFound ("Update Flavour fails - Flavour " ++ id ++ " not exist")) := by
      simp only [UpdateFlavour, habsent]
    exact ⟨hfail, by rw [hfail]; rfl⟩
  · intro id body old hpresent hid hbody
    have hupdate : UpdateFlavour ctx id body s =
        .ok ((s.setCollection CollectionFlavours
            (putKey id body (s.collection CollectionFlavours))).withEvent ctx "UpdateFlavour"
          [ { StartNode := ctx.userMSPID, EndNode := "user-" ++ ctx.userID, Delete := false },
            { StartNode := "user-" ++ ctx.userID, EndNode := "flavour-" ++ id,
              Delete := false } ]) := by
      simp only [UpdateFlavour, hpresent, PutPrivateData_ok _ _ _ _ hid hbody]
      rw [SetHistory_withEvent _ _ _ _ (by decide)]
    exact ⟨_, hupdate, written_state s ctx CollectionFlavours id body _ _⟩
  · intro S k1 body hS hk1 habsent
    have hkey := CreateCompositeKey_vSilo
      (validate_of_mem_Split hS (index0_mem_Split S '_'))
      (validate_of_mem_Split hS (index1_mem hk1))
    have hfail : UpdateVirtualSilo ctx S body s =
        .error (.NotFound ("Update VirtualSilo fails - VirtualSilo " ++ S ++ " not exist")) := by
      simp only [UpdateVirtualSilo, hk1, hkey, habsent]
    exact ⟨hfail, by rw [hfail]; rfl⟩
  · intro S k1 body old hS hk1 hpresent hbody
    have hkey := CreateCompositeKey_vSilo
      (validate_of_mem_Split hS (index0_mem_Split S '_'))
      (validate_of_mem_Split hS (index1_mem hk1))
    have hupdate : UpdateVirtualSilo ctx S body s =
        .ok ((s.setCollection CollectionvSilos
            (putKey (compositeKey vSiloObject [vSiloPrefix, index0 (Split S '_'), k1]) body
              (s.collection CollectionvSilos))).withEvent ctx "UpdateVirtualSilo"
          [ { StartNode := ctx.userMSPID, EndNode := "user-" ++ ctx.userID, Delete := false },
            { StartNode := "user-" ++ ctx.userID, EndNode := "silo-" ++ S,
              Delete := false } ]) := by
      simp only [UpdateVirtualSilo, hk1, hkey, hpresent,
        PutPrivateData_ok _ _ _ _ (compositeKey_ne_empty _ _) hbody]
      rw [SetHistory_withEvent _ _ _ _ (by decide)]
    exact ⟨_, hupdate, written_state s ctx CollectionvSilos _ body _ _⟩

set_option maxRecDepth 1000000 in
/-- Witness of `full_update_outcome`: the stored flavour `flavourX` takes the
body `oops`; the absent flavour `flavourY` is refused. -/
theorem full_update_outcome_witness :
    (∃ s', UpdateFlavour (sampleContext ["UpdateFlavour", "flavourX", "oops"]) "flavourX" "oops"
          stateFlavourAdded = .ok s'
        ∧ GetPrivateData s' CollectionFlavours "flavourX" = some "oops"
        ∧ (∀ k, k ≠ "flavourX" →
          GetPrivateData s' CollectionFlavours k =
            GetPrivateData stateFlavourAdded CollectionFlavours k)
        ∧ (∀ m, m ≠ CollectionFlavours → s'.collection m = stateFlavourAdded.collection m))
    ∧ UpdateFlavour (sampleContext ["UpdateFlavour", "flavourY", "oops"]) "flavourY" "oops"
        stateFlavourAdded =
      .error (.NotFound "Update Flavour fails - Flavour flavourY not exist") :=
  ⟨(full_update_outcome (sampleContext ["UpdateFlavour", "flavourX", "oops"])
      stateFlavourAdded).2.1 "flavourX" "oops"
      (sampleMarshalFlavour { FlavourID := "flavourX", Status := STATUS_PENDING })
      (by decide) (by decide) (by decide),
    by decide⟩

set_option maxRecDepth 1000000 in
/-- C26 (counterexample): the flavour `flavourX` and the silo
`tenantA_flavourX` are stored; `UpdateFlavour` and `UpdateVirtualSilo` with the
empty body succeed, and afterwards no value is stored under the key: the reads
fail with the not-found error. -/
theorem update_with_empty_body :
    GetFlavour sampleHost stateFlavourAdded "flavourX" =
      .ok { FlavourID := "flavourX", Status := STATUS_PENDING }
    ∧ invoke sampleHost (sampleContext ["UpdateFlavour", "flavourX", ""])
        (.UpdateFlavour "flavourX" "") stateFlavourAdded = .ok (.done, stateFlavourEmptied)
    ∧ GetPrivateData stateFlavourEmptied CollectionFlavours "flavourX" = none
    ∧ GetFlavour sampleHost stateFlavourEmptied "flavourX" =
      .error (.NotFound "Get Flavour fails - Flavour flavourX not exist")
    ∧ GetVirtualSilo sampleHost stateSiloOnly "tenantA_flavourX" =
      .ok { VSiloID := "tenantA_flavourX", Status := STATUS_PENDING }
    ∧ invoke sampleHost (sampleContext ["UpdateVirtualSilo", "tenantA_flavourX", ""])
        (.UpdateVirtualSilo "tenantA_flavourX" "") stateSiloOnly = .ok (.done, stateSiloEmptied)
    ∧ stateSiloEmptied.vSilos = []
    ∧ GetVirtualSilo sampleHost stateSiloEmptied "tenantA_flavourX" =
      .error (.NotFound "Get VirtualSilo fails - VirtualSilo tenantA_flavourX not exist") := by
  decide

/-! ## Updates that make no existence check -/

/-- C27 (as amended): `UpdateThingVisor` and `UpdateVThingOfThingVisor` read
neither the addressed record nor, for the VThing, its owner. In every state,
`UpdateThingVisor(id, body)` with a non-empty id and body, and
`UpdateVThingOfThingVisor(vThingID, body)` with an id free of U+0000 and
U+10FFFF that has a second `/` segment and a body that decodes, succeed; the
value stored under the addressed key afterwards is the supplied body, every
other key of the collection holds what it held and the other collections are
as before. -/
theorem upsert_outcome (h : Host) (ctx : Context) (s : State) :
    (∀ id body, id ≠ "" → body ≠ "" →
      ∃ s', UpdateThingVisor ctx id body s = .ok s'
        ∧ GetPrivateData s' CollectionThingVisors id = some body
        ∧ (∀ k, k ≠ id →
          GetPrivateData s' CollectionThingVisors k = GetPrivateData s CollectionThingVisors k)
        ∧ (∀ m, m ≠ CollectionThingVisors → s'.collection m = s.collection m))
    ∧ (∀ V body k1 v, validateCompositeKeyAttribute V = true → index1 (Split V '/') = .ok k1 →
      Unmarshal h.unmarshalVThingTV (some body) = .ok v →
      ∃ s', UpdateVThingOfThingVisor h ctx V body s = .ok s'
        ∧ GetPrivateData s' CollectionvThingTVs
            (compositeKey vThingTVObject [vThingTVPrefix, index0 (Split V '/'), k1]) = some body
        ∧ (∀ k, k ≠ compositeKey vThingTVObject [vThingTVPrefix, index0 (Split V '/'), k1] →
          GetPrivateData s' CollectionvThingTVs k = GetPrivateData s CollectionvThingTVs k)
        ∧ (∀ m, m ≠ CollectionvThingTVs → s'.collection m = s.collection m)) := by
  refine ⟨?_, ?_⟩
  · intro id body hid hbody
    have hupdate : UpdateThingVisor ctx id body s =
        .ok ((s.setCollection CollectionThingVisors
            (putKey id body (s.collection CollectionThingVisors))).withEvent ctx
          "UpdateThingVisor"
          [ { StartNode := ctx.userMSPID, EndNode := "user-" ++ ctx.userID, Delete := false },
            { StartNode := "user-" ++ ctx.userID, EndNode := "thingvisor-" ++ id,
              Delete := false } ]) := by
      simp only [UpdateThingVisor, PutPrivateData_ok _ _ _ _ hid hbody]
      rw [SetHistory_withEvent _ _ _ _ (by decide)]
    exact ⟨_, hupdate, written_state s ctx CollectionThingVisors id body _ _⟩
  · intro V body k1 v hV hk1 hv
    have hbody := (Unmarshal_ok_ne_empty hv).1
    have hkey := CreateCompositeKey_vThingTV
      (validate_of_mem_Split hV (index0_mem_Split V '/'))
      (validate_of_mem_Split hV (index1_mem hk1))
    have hupdate : UpdateVThingOfThingVisor h ctx V body s =
        .ok ((s.setCollection CollectionvThingTVs
            (putKey (compositeKey vThingTVObject [vThingTVPrefix, index0 (Split V '/'), k1]) body
              (s.collection CollectionvThingTVs))).withEvent ctx "UpdateVThingOfThingVisor"
          [ { StartNode := ctx.userMSPID, EndNode := "user-" ++ ctx.userID, Delete := false },
            { StartNode := "user-" ++ ctx.userID,
              EndNode := "thingvisor-" ++ index0 (Split V '/'), Delete := false },
            { StartNode := "thingvisor-" ++ index0 (Split V '/'), EndNode := "vthing-" ++ V,
              Delete := false } ]) := by
      simp only [UpdateVThingOfThingVisor, hv, hk1, hkey,
        PutPrivateData_ok _ _ _ _ (compositeKey_ne_empty _ _) hbody]
      rw [SetHistory_withEvent _ _ _ _ (by decide)]
    exact ⟨_, hupdate, written_state s ctx CollectionvThingTVs _ body _ _⟩

set_option maxRecDepth 1000000 in
/-- Witness of `upsert_outcome`: on the empty ledger, where neither `tv1` nor
a VThing is stored, both updates succeed and store the body. -/
theorem upsert_outcome_witness :
    (∃ s', UpdateThingVisor (sampleContext ["UpdateThingVisor", "tv1", tv1RunningJSON]) "tv1"
          tv1RunningJSON {} = .ok s'
        ∧ GetPrivateData s' CollectionThingVisors "tv1" = some tv1RunningJSON
        ∧ (∀ k, k ≠ "tv1" →
          GetPrivateData s' CollectionThingVisors k = GetPrivateData {} CollectionThingVisors k)
        ∧ (∀ m, m ≠ CollectionThingVisors → s'.collection m = ({} : State).collection m))
    ∧ (∃ s', UpdateVThingOfThingVisor sampleHost
          (sampleContext ["UpdateVThingOfThingVisor", "tv1/t1", t1JSON]) "tv1/t1" t1JSON {} =
          .ok s'
        ∧ GetPrivateData s' CollectionvThingTVs
            (compositeKey vThingTVObject [vThingTVPrefix, index0 (Split "tv1/t1" '/'), "t1"]) =
          some t1JSON
        ∧ (∀ k, k ≠ compositeKey vThingTVObject
              [vThingTVPrefix, index0 (Split "tv1/t1" '/'), "t1"] →
          GetPrivateData s' CollectionvThingTVs k = GetPrivateData {} CollectionvThingTVs k)
        ∧ (∀ m, m ≠ CollectionvThingTVs → s'.collection m = ({} : State).collection m)) :=
  ⟨(upsert_outcome sampleHost (sampleContext ["UpdateThingVisor", "tv1", tv1RunningJSON]) {}).1
      "tv1" tv1RunningJSON (by decide) (by decide),
    (upsert_outcome sampleHost
      (sampleContext ["UpdateVThingOfThingVisor", "tv1/t1", t1JSON]) {}).2
      "tv1/t1" t1JSON "t1" { ID := "tv1/t1" } (by decide) (by decide) (by decide)⟩

set_option maxRecDepth 1000000 in
/-- C27 (counterexample): with ThingVisor `tv1` stored,
`UpdateVThingOfThingVisor("tv1/t1", "oops")` fails, the body does not decode,
and nothing is stored; `UpdateThingVisor("tv1", "")` succeeds and afterwards no
value is stored under `tv1`; `UpdateThingVisor("", body)` fails, the ledger
refuses the empty key. -/
theorem update_refused_or_emptied :
    UpdateVThingOfThingVisor sampleHost
        (sampleContext ["UpdateVThingOfThingVisor", "tv1/t1", "oops"]) "tv1/t1" "oops"
        stateCreated = .error .Serialization
    ∧ GetThingVisor sampleHost stateCreated "tv1" = .ok tv1Running
    ∧ invoke sampleHost (sampleContext ["UpdateThingVisor", "tv1", ""])
        (.UpdateThingVisor "tv1" "") stateCreated = .ok (.done, stateThingVisorEmptied)
    ∧ GetPrivateData stateThingVisorEmptied CollectionThingVisors "tv1" = none
    ∧ GetThingVisor sampleHost stateThingVisorEmptied "tv1" =
      .error (.NotFound "Operation fails - thingVisor tv1 not exists")
    ∧ UpdateThingVisor (sampleContext ["UpdateThingVisor", "", tv1RunningJSON]) ""
        tv1RunningJSON {} = .error (.Store "key must not be an empty string") := by
  decide

/-! ## Compound ids and their first two segments -/

theorem splitChars_ne_nil (sep : Char) (cs : List Char) : splitChars sep cs ≠ [] := by
  cases cs with
  | nil => simp [splitChars]
  | cons d ds =>
    unfold splitChars
    split
    · simp
    · split <;> simp

/-- The pieces of `x ++ sep ++ y` are the pieces of `x` followed by the pieces
of `y`. -/
theorem splitChars_append (sep : Char) (x y : List Char) :
    splitChars sep (x ++ sep :: y) = splitChars sep x ++ splitChars sep y := by
  induction x with
  | nil => simp [splitChars]
  | cons c x ih =>
    by_cases hc : c = sep
    · simp [splitChars, hc, ih]
    · cases hx : splitChars sep x with
      | nil => exact absurd hx (splitChars_ne_nil sep x)
      | cons w ws => simp [splitChars, hc, ih, hx]

theorem Split_append (x y z : String) (sep : Char) (hz : z.data = x.data ++ sep :: y.data) :
    Split z sep = Split x sep ++ Split y sep := by
  simp [Split, hz, splitChars_append]

/-- Reads of the first two elements of a slice do not see what is appended to
it. -/
theorem index_append {l : List String} {k1 : String} (hk1 : index1 l = .ok k1)
    (m : List String) : index1 (l ++ m) = .ok k1 ∧ index0 (l ++ m) = index0 l := by
  cases l with
  | nil => cases hk1
  | cons a l =>
    cases l with
    | nil => cases hk1
    | cons b l => exact ⟨hk1, rfl⟩

/-- An id `a ++ sep ++ b` has a second segment, and `a ++ sep ++ b ++ sep ++ rest` has
the same first two segments. -/
theorem first_two_of_extended (a b rest : String) (sep : Char) (X Y : String)
    (hX : X.data = a.data ++ sep :: b.data) (hY : Y.data = X.data ++ sep :: rest.data) :
    ∃ k1, index1 (Split X sep) = .ok k1 ∧ index1 (Split Y sep) = .ok k1
      ∧ index0 (Split Y sep) = index0 (Split X sep) := by
  have hsplitX := Split_append a b X sep hX
  have hsplitY := Split_append X rest Y sep hY
  have hk1 : ∃ k1, index1 (Split X sep) = .ok k1 := by
    rw [hsplitX]
    cases ha : Split a sep with
    | nil => exact absurd ha (Split_ne_nil a sep)
    | cons a0 ra =>
      cases hb : Split b sep with
      | nil => exact absurd hb (Split_ne_nil b sep)
      | cons b0 rb =>
        cases ra with
        | nil => exact ⟨b0, rfl⟩
        | cons a1 ra => exact ⟨a1, rfl⟩
  obtain ⟨k1, hk1⟩ := hk1
  rw [hsplitY]
  exact ⟨k1, hk1, (index_append hk1 _).1, (index_append hk1 _).2⟩

/-- C23: a silo id `a_b_rest` has the first two `_` segments of `a_b`, so both
address the same record: in every state `GetVirtualSilo` returns the same
silo for both; after a successful `AddVirtualSilo("a_b")`,
`AddVirtualSilo("a_b_rest")` fails as already existing and
`GetVirtualSilo("a_b_rest")` returns the silo whose vSiloID is `a_b`. Likewise
`GetVThingByID` returns the same VThing for `a/b` and `a/b/rest`. -/
theorem first_two_segments (h : Host) (s : State) (a b rest : String) :
    (∃ k1, index1 (Split (a ++ "_" ++ b) '_') = .ok k1
      ∧ index1 (Split (a ++ "_" ++ b ++ "_" ++ rest) '_') = .ok k1
      ∧ index0 (Split (a ++ "_" ++ b ++ "_" ++ rest) '_') = index0 (Split (a ++ "_" ++ b) '_'))
    ∧ (∀ v, GetVirtualSilo h s (a ++ "_" ++ b ++ "_" ++ rest) = .ok v ↔
      GetVirtualSilo h s (a ++ "_" ++ b) = .ok v)
    ∧ (∀ ctx1 ctx2 flavour1 flavour2 s1,
      AddVirtualSilo h ctx1 (a ++ "_" ++ b) flavour1 s = .ok s1 →
      Unmarshal h.unmarshalVirtualSilo
          (some (h.marshalVirtualSilo { VSiloID := a ++ "_" ++ b, Status := STATUS_PENDING })) =
        .ok { VSiloID := a ++ "_" ++ b, Status := STATUS_PENDING } →
      AddVirtualSilo h ctx2 (a ++ "_" ++ b ++ "_" ++ rest) flavour2 s1 =
        .error (.AlreadyExists
          ("WARNING Add fails - VirtualSilo " ++ (a ++ "_" ++ b ++ "_" ++ rest) ++
            " already exists"))
      ∧ GetVirtualSilo h s1 (a ++ "_" ++ b ++ "_" ++ rest) =
        .ok { VSiloID := a ++ "_" ++ b, Status := "pending" })
    ∧ (∀ v, GetVThingByID h s (a ++ "/" ++ b ++ "/" ++ rest) = .ok v ↔
      GetVThingByID h s (a ++ "/" ++ b) = .ok v) := by
  obtain ⟨k1, hk1X, hk1Y, h0⟩ := first_two_of_extended a b rest '_' (a ++ "_" ++ b)
    (a ++ "_" ++ b ++ "_" ++ rest) (by simp [String.data_append])
    (by simp [String.data_append])
  obtain ⟨j1, hj1X, hj1Y, hj0⟩ := first_two_of_extended a b rest '/' (a ++ "/" ++ b)
    (a ++ "/" ++ b ++ "/" ++ rest) (by simp [String.data_append])
    (by simp [String.data_append])
  refine ⟨⟨k1, hk1X, hk1Y, h0⟩, ?_, ?_, ?_⟩
  · intro v
    simp only [GetVirtualSilo, hk1X, hk1Y, h0]
    cases CreateCompositeKey vSiloObject [vSiloPrefix, index0 (Split (a ++ "_" ++ b) '_'), k1] with
    | none => simp
    | some key =>
      cases hstored : GetPrivateData s CollectionvSilos key with
      | none => simp [hstored]
      | some byteData => simp [hstored]
  · intro ctx1 ctx2 flavour1 flavour2 s1 hadd hround
    have hne := (Unmarshal_ok_ne_empty hround).1
    cases hkey : CreateCompositeKey vSiloObject
        [vSiloPrefix, index0 (Split (a ++ "_" ++ b) '_'), k1] with
    | none => simp [AddVirtualSilo, hk1X, hkey] at hadd
    | some key =>
      cases habsent : GetPrivateData s CollectionvSilos key with
      | some old => simp [AddVirtualSilo, hk1X, hkey, habsent] at hadd
      | none =>
        rw [AddVirtualSilo_written h ctx1 _ flavour1 k1 key s hk1X hkey habsent, if_neg hne]
          at hadd
        have hs1 := (Except.ok.inj hadd).symm
        have hstored : GetPrivateData s1 CollectionvSilos key =
            some (h.marshalVirtualSilo { VSiloID := a ++ "_" ++ b, Status := STATUS_PENDING }) := by
          rw [hs1, GetPrivateData_written]
          exact lookupKey_putKey_self _ _ _
        constructor
        · simp only [AddVirtualSilo, hk1Y, h0, hkey, hstored]
        · simp only [GetVirtualSilo, hk1Y, h0, hkey, hstored, hround]
          rfl
  · intro v
    simp only [GetVThingByID, hj1X, hj1Y, hj0]
    cases CreateCompositeKey vThingTVObject
        [vThingTVPrefix, index0 (Split (a ++ "/" ++ b) '/'), j1] with
    | none => simp
    | some key =>
      cases hstored : GetPrivateData s CollectionvThingTVs key with
      | none => simp [hstored]
      | some byteData => simp [hstored]

set_option maxRecDepth 1000000 in
/-- Witness of `first_two_segments`: after `AddVirtualSilo("tenantA_flavourX")`
on the empty ledger, the id `tenantA_flavourX_extra` addresses the stored
silo. -/
theorem first_two_segments_witness :
    AddVirtualSilo sampleHost (sampleContext ["AddVirtualSilo", "tenantA_flavourX", "flavourX"])
        ("tenantA" ++ "_" ++ "flavourX") "flavourX" {} = .ok stateSiloOnly
    ∧ AddVirtualSilo sampleHost
        (sampleContext ["AddVirtualSilo", "tenantA_flavourX_extra", "flavourX"])
        ("tenantA" ++ "_" ++ "flavourX" ++ "_" ++ "extra") "flavourX" stateSiloOnly =
      .error (.AlreadyExists
        ("WARNING Add fails - VirtualSilo " ++ ("tenantA" ++ "_" ++ "flavourX" ++ "_" ++ "extra") ++
          " already exists"))
    ∧ GetVirtualSilo sampleHost stateSiloOnly ("tenantA" ++ "_" ++ "flavourX" ++ "_" ++ "extra") =
      .ok { VSiloID := "tenantA" ++ "_" ++ "flavourX", Status := "pending" } :=
  ⟨by decide,
    (first_two_segments sampleHost {} "tenantA" "flavourX" "extra").2.2.1
      (sampleContext ["AddVirtualSilo", "tenantA_flavourX", "flavourX"])
      (sampleContext ["AddVirtualSilo", "tenantA_flavourX_extra", "flavourX"])
      "flavourX" "flavourX" stateSiloOnly (by decide) (by decide)⟩

/-! ## DeleteThingVisor with the keys listed by GetThingVisorWithVThingKeys -/

/-- The keys kept by the loop of `GetThingVisorWithVThingKeys` are the keys of
the scan results, in scan order. -/
theorem collectWithKeyLoop_keys (h : Host) (rs : Collection) :
    ∀ (acc out : List VThingTVWithKey),
      collectWithKeyLoop h (rs.map .ok) acc = .ok out →
      out.map (fun v => v.Key) = acc.map (fun v => v.Key) ++ rs.map (fun kv => kv.1) := by
  induction rs with
  | nil =>
    intro acc out hloop
    simp only [List.map_nil, collectWithKeyLoop, Except.ok.injEq] at hloop
    rw [← hloop]
    simp
  | cons kv rest ih =>
    intro acc out hloop
    simp only [List.map_cons, collectWithKeyLoop] at hloop
    split at hloop
    · cases hloop
    · rw [ih _ _ hloop]
      simp

theorem delLoop_total (n : CollectionName) (args : List String) :
    ∀ s : State, ∃ s1, delLoop n args s = .ok s1 := by
  induction args with
  | nil => exact fun s => ⟨s, rfl⟩
  | cons key rest ih =>
    intro s
    simp only [delLoop, DelPrivateData]
    exact ih _

theorem lookupKey_ne_none_of_mem {c : Collection} {kv : String × String} (hkv : kv ∈ c) :
    lookupKey kv.1 c ≠ none := by
  induction c with
  | nil => cases hkv
  | cons x rest ih =>
    obtain ⟨a, b⟩ := x
    rw [lookupKey_cons]
    by_cases ha : a = kv.1
    · simp [ha]
    · simp only [ha, if_false]
      rcases List.mem_cons.1 hkv with heq | hrest
      · exact absurd (by rw [heq]) ha
      · exact ih hrest

/-- A string free of U+0000 is no composite key. -/
theorem compositeKey_ne_of_valid (objectType : String) (attributes : List String) (t : String)
    (ht : validateCompositeKeyAttribute t = true) : compositeKey objectType attributes ≠ t := by
  intro heq
  have hdata := compositeKey_data objectType attributes
  rw [heq] at hdata
  have hmem : minUnicodeRuneValue ∈ t.data := by
    rw [hdata]
    simp
  exact ((validateCompositeKeyAttribute_iff t).1 ht _ hmem).1 rfl

/-- C21: when `GetThingVisorWithVThingKeys(tv)` returns and `DeleteThingVisor(tv)`
is called with the keys of the returned vThings, in that order, the call
succeeds; afterwards `GetAllVThingOfThingVisor(tv)` returns the empty sequence
and `GetThingVisor(tv)` fails with the not-found error; every other key of the
ThingVisor collection holds what it held; every key of the VThing collection
outside the prefix range of `tv` (and other than the string `tv`) holds what it
held, in particular every composite key of another owner; the other three
collections are as before. -/
theorem DeleteThingVisor_listed_keys (h : Host) (ctx : Context) (fn tv : String) (s : State)
    (r : ThingVisorWithVThingKey)
    (hlisted : GetThingVisorWithVThingKeys h s tv = .ok r)
    (hargs : ctx.StringArgs = fn :: tv :: r.VThings.map (fun v => v.Key)) :
    ∃ s', DeleteThingVisor ctx tv s = .ok s'
      ∧ GetAllVThingOfThingVisor h s' tv = .ok []
      ∧ GetThingVisor h s' tv =
        .error (.NotFound ("Operation fails - thingVisor " ++ tv ++ " not exists"))
      ∧ (∀ o, o ≠ tv →
        GetPrivateData s' CollectionThingVisors o = GetPrivateData s CollectionThingVisors o)
      ∧ (∀ k, inPartialRange (compositeKey vThingTVObject [vThingTVPrefix, tv]) k = false →
        k ≠ tv →
        GetPrivateData s' CollectionvThingTVs k = GetPrivateData s CollectionvThingTVs k)
      ∧ (∀ o l, o ≠ tv → validateCompositeKeyAttribute o = true →
        GetPrivateData s' CollectionvThingTVs
            (compositeKey vThingTVObject [vThingTVPrefix, o, l]) =
          GetPrivateData s CollectionvThingTVs
            (compositeKey vThingTVObject [vThingTVPrefix, o, l]))
      ∧ s'.vThingVSilos = s.vThingVSilos ∧ s'.vSilos = s.vSilos
      ∧ s'.flavours = s.flavours := by
  -- what the listing read
  obtain ⟨hp, hkeys⟩ :
      CreateCompositeKey vThingTVObject [vThingTVPrefix, tv] =
        some (compositeKey vThingTVObject [vThingTVPrefix, tv])
      ∧ r.VThings.map (fun v => v.Key) =
        ((s.collection CollectionvThingTVs).filter (fun kv =>
          inPartialRange (compositeKey vThingTVObject [vThingTVPrefix, tv]) kv.1)).map
          (fun kv => kv.1) := by
    unfold GetThingVisorWithVThingKeys GetPrivateDataByPartialCompositeKey at hlisted
    cases hget : GetPrivateData s CollectionThingVisors tv with
    | none => simp [hget] at hlisted
    | some byteData =>
      cases hdec : Unmarshal h.unmarshalThingVisor (some byteData) with
      | error e => simp [hget, hdec] at hlisted
      | ok thingVisor =>
        cases hkey : CreateCompositeKey vThingTVObject [vThingTVPrefix, tv] with
        | none => simp [hget, hdec, hkey] at hlisted
        | some p =>
          have hpeq := (CreateCompositeKey_eq_some hkey).2.2
          subst hpeq
          simp only [hget, hdec, hkey, nextResults_open, rangeScan_inPartialRange] at hlisted
          split at hlisted
          · cases hlisted
          · rename_i vThings hloop
            cases hlisted
            have hk := collectWithKeyLoop_keys h _ _ _ hloop
            simp only [List.map_nil, List.nil_append] at hk
            exact ⟨rfl, hk⟩
  have htv : validateCompositeKeyAttribute tv = true :=
    (CreateCompositeKey_eq_some hp).2.1 tv (by simp)
  -- the call
  have hargs' : argsFrom1 ctx = .ok (tv :: r.VThings.map (fun v => v.Key)) := by
    simp [argsFrom1, hargs]
  obtain ⟨sl, hloop⟩ := delLoop_total CollectionvThingTVs
    (tv :: r.VThings.map (fun v => v.Key)) s
  obtain ⟨-, hother, hlook⟩ := delLoop_frame _ _ _ _ hloop
  have hmem := delLoop_mem _ _ _ _ hloop
  have hdel : DeleteThingVisor ctx tv s =
      .ok ((sl.setCollection CollectionThingVisors
          (eraseKey tv (sl.collection CollectionThingVisors))).withEvent ctx "DeleteThingVisor"
        [ { StartNode := ctx.userMSPID, EndNode := "user-" ++ ctx.userID, Delete := false },
          { StartNode := "user-" ++ ctx.userID, EndNode := "thingvisor-" ++ tv,
            Delete := true } ]) := by
    simp only [DeleteThingVisor, hargs', hloop, DelPrivateData]
    rw [SetHistory_withEvent _ _ _ _ (by decide)]
  -- keys outside the range, other than `tv`, are not among the arguments
  have hnotarg : ∀ k, inPartialRange (compositeKey vThingTVObject [vThingTVPrefix, tv]) k = false →
      k ≠ tv → k ∉ tv :: r.VThings.map (fun v => v.Key) := by
    intro k hout hk hin
    rcases List.mem_cons.1 hin with heq | hrest
    · exact hk heq
    · rw [hkeys] at hrest
      obtain ⟨kv, hkv, hkvk⟩ := List.mem_map.1 hrest
      have hinrange := (List.mem_filter.1 hkv).2
      rw [hkvk, hout] at hinrange
      cases hinrange
  have hvt : ∀ k, inPartialRange (compositeKey vThingTVObject [vThingTVPrefix, tv]) k = false →
      k ≠ tv →
      GetPrivateData
          ((sl.setCollection CollectionThingVisors
              (eraseKey tv (sl.collection CollectionThingVisors))).withEvent ctx
            "DeleteThingVisor"
            [ { StartNode := ctx.userMSPID, EndNode := "user-" ++ ctx.userID, Delete := false },
              { StartNode := "user-" ++ ctx.userID, EndNode := "thingvisor-" ++ tv,
                Delete := true } ]) CollectionvThingTVs k =
        GetPrivateData s CollectionvThingTVs k := by
    intro k hout hk
    rw [GetPrivateData_written_ne _ _ (by decide)]
    show lookupKey k (sl.collection CollectionvThingTVs) = _
    rw [hlook k, if_neg (hnotarg k hout hk)]
    rfl
  refine ⟨_, hdel, ?_, ?_, ?_, hvt, ?_, ?_, ?_, ?_⟩
  · -- nothing is left in the range
    have hempty : (sl.collection CollectionvThingTVs).filter (fun kv =>
        inPartialRange (compositeKey vThingTVObject [vThingTVPrefix, tv]) kv.1) = [] := by
      rw [List.filter_eq_nil_iff]
      intro kv hkv hin
      have hnone : lookupKey kv.1 (sl.collection CollectionvThingTVs) = none := by
        rw [hlook kv.1, if_pos]
        apply List.mem_cons_of_mem
        rw [hkeys]
        exact List.mem_map.2 ⟨kv, List.mem_filter.2 ⟨hmem kv hkv, hin⟩, rfl⟩
      exact lookupKey_ne_none_of_mem hkv hnone
    simp only [GetAllVThingOfThingVisor, GetPrivateDataByPartialCompositeKey, hp,
      rangeScan_inPartialRange, collection_withEvent,
      collection_setCollection_ne _ (show CollectionvThingTVs ≠ CollectionThingVisors by decide),
      hempty, nextResults_open, List.map_nil, collectLoop]
  · have hgone : GetPrivateData
        ((sl.setCollection CollectionThingVisors
            (eraseKey tv (sl.collection CollectionThingVisors))).withEvent ctx
          "DeleteThingVisor"
          [ { StartNode := ctx.userMSPID, EndNode := "user-" ++ ctx.userID, Delete := false },
            { StartNode := "user-" ++ ctx.userID, EndNode := "thingvisor-" ++ tv,
              Delete := true } ]) CollectionThingVisors tv = none := by
      rw [GetPrivateData_written]
      exact lookupKey_eraseKey_self _ _
    simp only [GetThingVisor, hgone]
  · intro o ho
    rw [GetPrivateData_written, lookupKey_eraseKey_ne ho, hother _ (by decide)]
    rfl
  · intro o l ho hovalid
    apply hvt
    · exact inPartialRange_other vThingTVObject [vThingTVPrefix] [l] o tv hovalid htv ho
    · exact compositeKey_ne_of_valid _ _ _ htv
  · show ((sl.setCollection CollectionThingVisors _).withEvent ctx _ _).collection
      CollectionvThingVSilos = s.collection CollectionvThingVSilos
    rw [collection_withEvent, collection_setCollection_ne _ (by decide), hother _ (by decide)]
  · show ((sl.setCollection CollectionThingVisors _).withEvent ctx _ _).collection
      CollectionvSilos = s.collection CollectionvSilos
    rw [collection_withEvent, collection_setCollection_ne _ (by decide), hother _ (by decide)]
  · show ((sl.setCollection CollectionThingVisors _).withEvent ctx _ _).collection
      CollectionFlavours = s.collection CollectionFlavours
    rw [collection_withEvent, collection_setCollection_ne _ (by decide), hother _ (by decide)]

set_option maxRecDepth 1000000 in
/-- Witness of `DeleteThingVisor_listed_keys`: ThingVisor `tv1` with the VThing
`tv1/t1`, deleted with the key that `GetThingVisorWithVThingKeys` lists. -/
theorem DeleteThingVisor_listed_keys_witness :
    (GetThingVisorWithVThingKeys sampleHost stateCreatedWithT1 "tv1" = .ok listedT1
      ∧ GetAllVThingOfThingVisor sampleHost stateCreatedWithT1 "tv1" = .ok [{ ID := "tv1/t1" }])
    ∧ ∃ s', DeleteThingVisor
          (sampleContext ["DeleteThingVisor", "tv1",
            compositeKey vThingTVObject [vThingTVPrefix, "tv1", "t1"]]) "tv1"
          stateCreatedWithT1 = .ok s'
      ∧ GetAllVThingOfThingVisor sampleHost s' "tv1" = .ok []
      ∧ GetThingVisor sampleHost s' "tv1" =
        .error (.NotFound ("Operation fails - thingVisor " ++ "tv1" ++ " not exists"))
      ∧ (∀ o, o ≠ "tv1" →
        GetPrivateData s' CollectionThingVisors o =
          GetPrivateData stateCreatedWithT1 CollectionThingVisors o)
      ∧ (∀ k, inPartialRange (compositeKey vThingTVObject [vThingTVPrefix, "tv1"]) k = false →
        k ≠ "tv1" →
        GetPrivateData s' CollectionvThingTVs k =
          GetPrivateData stateCreatedWithT1 CollectionvThingTVs k)
      ∧ (∀ o l, o ≠ "tv1" → validateCompositeKeyAttribute o = true →
        GetPrivateData s' CollectionvThingTVs
            (compositeKey vThingTVObject [vThingTVPrefix, o, l]) =
          GetPrivateData stateCreatedWithT1 CollectionvThingTVs
            (compositeKey vThingTVObject [vThingTVPrefix, o, l]))
      ∧ s'.vThingVSilos = stateCreatedWithT1.vThingVSilos
      ∧ s'.vSilos = stateCreatedWithT1.vSilos
      ∧ s'.flavours = stateCreatedWithT1.flavours :=
  ⟨⟨by decide, by decide⟩,
    DeleteThingVisor_listed_keys sampleHost
      (sampleContext ["DeleteThingVisor", "tv1",
        compositeKey vThingTVObject [vThingTVPrefix, "tv1", "t1"]])
      "DeleteThingVisor" "tv1" stateCreatedWithT1 listedT1 (by decide) rfl⟩

/-! ## Key order of the collections -/

theorem ltChars_trans : ∀ (a b c : List Char),
    ltChars a b = true → ltChars b c = true → ltChars a c = true := by
  intro a
  induction a with
  | nil =>
    intro b c hab hbc
    cases c with
    | nil => rw [ltChars_nil_right] at hbc; cases hbc
    | cons z zs => rfl
  | cons x xs ih =>
    intro b c hab hbc
    cases b with
    | nil => rw [ltChars_nil_right] at hab; cases hab
    | cons y ys =>
      cases c with
      | nil => rw [ltChars_nil_right] at hbc; cases hbc
      | cons z zs =>
        simp only [ltChars] at hab hbc ⊢
        by_cases hxy : x.toNat < y.toNat
        · by_cases hyz : y.toNat < z.toNat
          · have hxz : x.toNat < z.toNat := by omega
            simp [hxz]
          · by_cases hzy : z.toNat < y.toNat
            · simp [hyz, hzy] at hbc
            · have hxz : x.toNat < z.toNat := by omega
              simp [hxz]
        · by_cases hyx : y.toNat < x.toNat
          · simp [hxy, hyx] at hab
          · simp only [hxy, hyx, if_false] at hab
            by_cases hyz : y.toNat < z.toNat
            · have hxz : x.toNat < z.toNat := by omega
              simp [hxz]
            · by_cases hzy : z.toNat < y.toNat
              · simp [hyz, hzy] at hbc
              · simp only [hyz, hzy, if_false] at hbc
                have hxz : ¬ x.toNat < z.toNat := by omega
                have hzx : ¬ z.toNat < x.toNat := by omega
                simp only [hxz, hzx, if_false]
                exact ih ys zs hab hbc

theorem ltChars_total : ∀ (a b : List Char),
    ltChars a b = false → a ≠ b → ltChars b a = true := by
  intro a
  induction a with
  | nil =>
    intro b hab hne
    cases b with
    | nil => exact absurd rfl hne
    | cons y ys => simp [ltChars] at hab
  | cons x xs ih =>
    intro b hab hne
    cases b with
    | nil => rfl
    | cons y ys =>
      simp only [ltChars] at hab ⊢
      by_cases hxy : x.toNat < y.toNat
      · simp [hxy] at hab
      · by_cases hyx : y.toNat < x.toNat
        · simp [hyx]
        · simp only [hxy, hyx, if_false] at hab ⊢
          have hchar : x = y := Char.eq_of_toNat_not_lt hxy hyx
          subst hchar
          exact ih ys hab (fun e => hne (by rw [e]))

theorem insertKey_sorted (k v : String) (c : Collection) (hsorted : SortedByKey c)
    (hfresh : ∀ kv ∈ c, kv.1 ≠ k) : SortedByKey (insertKey k v c) := by
  induction c with
  | nil => simp [insertKey, SortedByKey]
  | cons x rest ih =>
    have hx := List.pairwise_cons.1 hsorted
    unfold insertKey
    split
    · rename_i hlt
      refine List.pairwise_cons.2 ⟨?_, hsorted⟩
      intro y hy
      rcases List.mem_cons.1 hy with rfl | hrest
      · exact hlt
      · exact ltChars_trans _ _ _ hlt (hx.1 y hrest)
    · rename_i hlt
      refine List.pairwise_cons.2 ⟨?_, ih hx.2 (fun kv hkv => hfresh kv (List.mem_cons_of_mem _ hkv))⟩
      intro y hy
      rcases mem_insertKey hy with rfl | hrest
      · have hne : x.1.data ≠ k.data := by
          intro e
          exact hfresh x (List.mem_cons_self _ _) (String.ext e)
        have hfalse : ltChars k.data x.1.data = false := by
          cases hb : ltChars k.data x.1.data with
          | false => rfl
          | true => exact absurd hb hlt
        exact ltChars_total _ _ hfalse (fun e => hne e.symm)
      · exact hx.1 y hrest

theorem eraseKey_sorted (k : String) (c : Collection) (hsorted : SortedByKey c) :
    SortedByKey (eraseKey k c) :=
  List.Pairwise.sublist (List.filter_sublist _) hsorted

theorem putKey_sorted (k v : String) (c : Collection) (hsorted : SortedByKey c) :
    SortedByKey (putKey k v c) :=
  insertKey_sorted k v _ (eraseKey_sorted k c hsorted) (fun _ hkv => (mem_eraseKey hkv).2)

theorem setCollection_sorted {s : State} (n : CollectionName) {c : Collection}
    (hs : StateSorted s) (hc : SortedByKey c) : StateSorted (s.setCollection n c) := by
  intro m
  by_cases hm : m = n
  · rw [hm, collection_setCollection_self]
    exact hc
  · rw [collection_setCollection_ne _ hm]
    exact hs m

theorem PutPrivateData_sorted {s s' : State} {n : CollectionName} {key value : String}
    (hok : PutPrivateData s n key value = .ok s') (hs : StateSorted s) : StateSorted s' := by
  unfold PutPrivateData at hok
  split at hok
  · cases hok
  · split at hok
    · cases hok
      exact setCollection_sorted n hs (eraseKey_sorted _ _ (hs n))
    · cases hok
      exact setCollection_sorted n hs (putKey_sorted _ _ _ (hs n))

theorem DelPrivateData_sorted {s s' : State} {n : CollectionName} {key : String}
    (hok : DelPrivateData s n key = .ok s') (hs : StateSorted s) : StateSorted s' := by
  unfold DelPrivateData at hok
  cases hok
  exact setCollection_sorted n hs (eraseKey_sorted _ _ (hs n))

theorem SetHistory_sorted {ctx : Context} {EventName : String} {nodes : List GraphNode}
    {userID userMSPID : String} {s s' : State}
    (hok : SetHistory ctx EventName nodes userID userMSPID s = .ok s') (hs : StateSorted s) :
    StateSorted s' := by
  intro n
  rw [SetHistory_collection hok n]
  exact hs n

theorem delLoop_sorted (n : CollectionName) (args : List String) :
    ∀ (s s1 : State), delLoop n args s = .ok s1 → StateSorted s → StateSorted s1 := by
  induction args with
  | nil =>
    intro s s1 hloop hs
    simp only [delLoop, Except.ok.injEq] at hloop
    rw [← hloop]
    exact hs
  | cons key rest ih =>
    intro s s1 hloop hs
    simp only [delLoop, DelPrivateData] at hloop
    exact ih _ _ hloop (setCollection_sorted n hs (eraseKey_sorted _ _ (hs n)))

theorem deleteMembershipLoop_sorted (VSiloID k0 k1 : String) (args : List String) :
    ∀ (s s1 : State) (g g1 : List GraphNode),
      deleteMembershipLoop VSiloID k0 k1 args s g = .ok (s1, g1) → StateSorted s →
      StateSorted s1 := by
  induction args with
  | nil =>
    intro s s1 g g1 hloop hs
    simp only [deleteMembershipLoop, Except.ok.injEq, Prod.mk.injEq] at hloop
    rw [← hloop.1]
    exact hs
  | cons t rest ih =>
    intro s s1 g g1 hloop hs
    unfold deleteMembershipLoop at hloop
    split at hloop
    · cases hloop
    · simp only [DelPrivateData] at hloop
      exact ih _ _ _ _ hloop (setCollection_sorted _ hs (eraseKey_sorted _ _ (hs _)))

theorem CreateThingVisor_sorted {ctx : Context} {id JSONstr : String} {s s' : State}
    (hok : CreateThingVisor ctx id JSONstr s = .ok s') (hs : StateSorted s) : StateSorted s' := by
  unfold CreateThingVisor at hok
  dsimp only at hok
  repeat' split at hok
  all_goals first
    | exact SetHistory_sorted hok (PutPrivateData_sorted (by assumption) hs)
    | cases hok

theorem UpdateThingVisor_sorted {ctx : Context} {id JSONstr : String} {s s' : State}
    (hok : UpdateThingVisor ctx id JSONstr s = .ok s') (hs : StateSorted s) : StateSorted s' := by
  unfold UpdateThingVisor at hok
  dsimp only at hok
  repeat' split at hok
  all_goals first
    | exact SetHistory_sorted hok (PutPrivateData_sorted (by assumption) hs)
    | cases hok

theorem StopThingVisor_sorted {h : Host} {ctx : Context} {ThingVisorID : String} {s s' : State}
    (hok : StopThingVisor h ctx ThingVisorID s = .ok s') (hs : StateSorted s) : StateSorted s' := by
  unfold StopThingVisor at hok
  dsimp only at hok
  repeat' split at hok
  all_goals first
    | exact SetHistory_sorted hok (PutPrivateData_sorted (by assumption) hs)
    | cases hok

theorem AddVThingToThingVisor_sorted {h : Host} {ctx : Context} {ThingVisorID vThingData : String} {s s' : State}
    (hok : AddVThingToThingVisor h ctx ThingVisorID vThingData s = .ok s') (hs : StateSorted s) : StateSorted s' := by
  unfold AddVThingToThingVisor at hok
  dsimp only at hok
  repeat' split at hok
  all_goals first
    | exact SetHistory_sorted hok (PutPrivateData_sorted (by assumption) hs)
    | cases hok

theorem UpdateVThingOfThingVisor_sorted {h : Host} {ctx : Context} {VThingID vThingData : String} {s s' : State}
    (hok : UpdateVThingOfThingVisor h ctx VThingID vThingData s = .ok s') (hs : StateSorted s) : StateSorted s' := by
  unfold UpdateVThingOfThingVisor at hok
  dsimp only at hok
  repeat' split at hok
  all_goals first
    | exact SetHistory_sorted hok (PutPrivateData_sorted (by assumption) hs)
    | cases hok

theorem DeleteVThingFromThingVisor_sorted {h : Host} {ctx : Context} {ThingVisorID vThingData : String} {s s' : State}
    (hok : DeleteVThingFromThingVisor h ctx ThingVisorID vThingData s = .ok s') (hs : StateSorted s) : StateSorted s' := by
  unfold DeleteVThingFromThingVisor at hok
  dsimp only at hok
  repeat' split at hok
  all_goals first
    | exact SetHistory_sorted hok (DelPrivateData_sorted (by assumption) hs)
    | cases hok

theorem AddFlavour_sorted {h : Host} {ctx : Context} {flavourID : String} {s s' : State}
    (hok : AddFlavour h ctx flavourID s = .ok s') (hs : StateSorted s) : StateSorted s' := by
  unfold AddFlavour at hok
  dsimp only at hok
  repeat' split at hok
  all_goals first
    | exact SetHistory_sorted hok (PutPrivateData_sorted (by assumption) hs)
    | cases hok

theorem UpdateFlavour_sorted {ctx : Context} {flavourID flavourData : String} {s s' : State}
    (hok : UpdateFlavour ctx flavourID flavourData s = .ok s') (hs : StateSorted s) : StateSorted s' := by
  unfold UpdateFlavour at hok
  dsimp only at hok
  repeat' split at hok
  all_goals first
    | exact SetHistory_sorted hok (PutPrivateData_sorted (by assumption) hs)
    | cases hok

theorem DeleteFlavour_sorted {ctx : Context} {flavourID : String} {s s' : State}
    (hok : DeleteFlavour ctx flavourID s = .ok s') (hs : StateSorted s) : StateSorted s' := by
  unfold DeleteFlavour at hok
  dsimp only at hok
  repeat' split at hok
  all_goals first
    | exact SetHistory_sorted hok (DelPrivateData_sorted (by assumption) hs)
    | cases hok

theorem AddVirtualSilo_sorted {h : Host} {ctx : Context} {VSiloID flavourID : String} {s s' : State}
    (hok : AddVirtualSilo h ctx VSiloID flavourID s = .ok s') (hs : StateSorted s) : StateSorted s' := by
  unfold AddVirtualSilo at hok
  dsimp only at hok
  repeat' split at hok
  all_goals first
    | exact SetHistory_sorted hok (PutPrivateData_sorted (by assumption) hs)
    | cases hok

theorem UpdateVirtualSilo_sorted {ctx : Context} {VSiloID SiloData : String} {s s' : State}
    (hok : UpdateVirtualSilo ctx VSiloID SiloData s = .ok s') (hs : StateSorted s) : StateSorted s' := by
  unfold UpdateVirtualSilo at hok
  dsimp only at hok
  repeat' split at hok
  all_goals first
    | exact SetHistory_sorted hok (PutPrivateData_sorted (by assumption) hs)
    | cases hok

theorem AddVThingVSilo_sorted {ctx : Context} {VSiloID VThingID Data : String} {s s' : State}
    (hok : AddVThingVSilo ctx VSiloID VThingID Data s = .ok s') (hs : StateSorted s) : StateSorted s' := by
  unfold AddVThingVSilo at hok
  dsimp only at hok
  repeat' split at hok
  all_goals first
    | exact SetHistory_sorted hok (PutPrivateData_sorted (by assumption) hs)
    | cases hok

theorem DeleteVThingVSilo_sorted {ctx : Context} {VSiloID VThingID : String} {s s' : State}
    (hok : DeleteVThingVSilo ctx VSiloID VThingID s = .ok s') (hs : StateSorted s) : StateSorted s' := by
  unfold DeleteVThingVSilo at hok
  dsimp only at hok
  repeat' split at hok
  all_goals first
    | exact SetHistory_sorted hok (DelPrivateData_sorted (by assumption) hs)
    | cases hok

theorem UpdateThingVisorPartial_sorted {h : Host} {ctx : Context}
    {id tvDescription params : String} {s s' : State}
    (hok : UpdateThingVisorPartial h ctx id tvDescription params s = .ok s')
    (hs : StateSorted s) : StateSorted s' := by
  unfold UpdateThingVisorPartial at hok
  dsimp only at hok
  split at hok
  · cases hok
  · split at hok
    · cases hok
    · exact SetHistory_sorted hok (PutPrivateData_sorted (by assumption) hs)

theorem DeleteThingVisor_sorted {ctx : Context} {ThingVisorID : String} {s s' : State}
    (hok : DeleteThingVisor ctx ThingVisorID s = .ok s') (hs : StateSorted s) :
    StateSorted s' := by
  unfold DeleteThingVisor at hok
  dsimp only at hok
  repeat' split at hok
  all_goals first
    | exact SetHistory_sorted hok
        (DelPrivateData_sorted (by assumption) (delLoop_sorted _ _ _ _ (by assumption) hs))
    | cases hok

theorem DeleteVirtualSilo_sorted {ctx : Context} {VSiloID : String} {s s' : State}
    (hok : DeleteVirtualSilo ctx VSiloID s = .ok s') (hs : StateSorted s) : StateSorted s' := by
  obtain ⟨k1, args, s1, g, key, -, -, hloop, -, hs'⟩ := DeleteVirtualSilo_ok hok
  have hs1 := deleteMembershipLoop_sorted _ _ _ _ _ _ _ _ hloop hs
  have hset := setCollection_sorted CollectionvSilos hs1
    (eraseKey_sorted key _ (hs1 CollectionvSilos))
  intro n
  rw [hs']
  have hcoll : ∀ (t : State) (ev : List (String × History)),
      ({ t with events := ev } : State).collection n = t.collection n := by
    intro t ev
    cases n <;> rfl
  rw [hcoll]
  exact hset n

/-- Every transaction keeps the collections in key order. -/
theorem invoke_sorted (h : Host) (ctx : Context) (call : Invocation) (s s' : State)
    (x : Response) (hok : invoke h ctx call s = .ok (x, s')) (hs : StateSorted s) :
    StateSorted s' := by
  cases call <;> simp only [invoke] at hok
  case CreateThingVisor => exact CreateThingVisor_sorted (written_ok hok) hs
  case UpdateThingVisor => exact UpdateThingVisor_sorted (written_ok hok) hs
  case UpdateThingVisorPartial => exact UpdateThingVisorPartial_sorted (written_ok hok) hs
  case DeleteThingVisor => exact DeleteThingVisor_sorted (written_ok hok) hs
  case StopThingVisor => exact StopThingVisor_sorted (written_ok hok) hs
  case AddVThingToThingVisor => exact AddVThingToThingVisor_sorted (written_ok hok) hs
  case UpdateVThingOfThingVisor => exact UpdateVThingOfThingVisor_sorted (written_ok hok) hs
  case DeleteVThingFromThingVisor => exact DeleteVThingFromThingVisor_sorted (written_ok hok) hs
  case AddFlavour => exact AddFlavour_sorted (written_ok hok) hs
  case UpdateFlavour => exact UpdateFlavour_sorted (written_ok hok) hs
  case DeleteFlavour => exact DeleteFlavour_sorted (written_ok hok) hs
  case AddVirtualSilo => exact AddVirtualSilo_sorted (written_ok hok) hs
  case UpdateVirtualSilo => exact UpdateVirtualSilo_sorted (written_ok hok) hs
  case DeleteVirtualSilo => exact DeleteVirtualSilo_sorted (written_ok hok) hs
  case AddVThingVSilo => exact AddVThingVSilo_sorted (written_ok hok) hs
  case DeleteVThingVSilo => exact DeleteVThingVSilo_sorted (written_ok hok) hs
  all_goals (rw [answered_state hok]; exact hs)

/-- In every ledger reached from the empty one the collections are in strict
key order. -/
theorem reachable_sorted (h : Host) (allowed : Invocation → Prop) (s : State)
    (hreach : Reachable h allowed s) : StateSorted s := by
  induction hreach with
  | empty =>
    intro n
    cases n <;> exact List.Pairwise.nil
  | step _ _ hok ih => exact invoke_sorted h _ _ _ _ _ hok ih

/-! ## Listings by tenant -/

/-- The listing loop returns exactly when every result decodes, with one
decoded document per result, in the order of the results. -/
theorem collectLoop_ok_iff {α : Type} (dec : String → Option α) (rs : Collection) :
    ∀ (acc out : List α),
      collectLoop dec (rs.map .ok) acc = .ok out ↔
        ∃ vs, out = acc ++ vs
          ∧ List.Forall₂ (fun kv v => Unmarshal dec (some kv.2) = .ok v) rs vs := by
  induction rs with
  | nil =>
    intro acc out
    simp only [List.map_nil, collectLoop, Except.ok.injEq]
    constructor
    · intro hout
      exact ⟨[], by simp [hout], List.Forall₂.nil⟩
    · rintro ⟨vs, hout, hall⟩
      cases hall
      simp [hout]
  | cons kv rest ih =>
    intro acc out
    simp only [List.map_cons, collectLoop]
    cases hdec : Unmarshal dec (some kv.2) with
    | error e =>
      constructor
      · intro hloop
        cases hloop
      · rintro ⟨vs, -, hall⟩
        cases hall with
        | cons hhead _ =>
          rw [hdec] at hhead
          cases hhead
    | ok x =>
      simp only []
      rw [ih]
      constructor
      · rintro ⟨vs, hout, hall⟩
        exact ⟨x :: vs, by simp [hout], List.Forall₂.cons hdec hall⟩
      · rintro ⟨vs, hout, hall⟩
        cases hall with
        | cons hhead htail =>
          rename_i v vs'
          rw [hdec] at hhead
          cases hhead
          exact ⟨vs', by simp [hout], htail⟩

/-- A composite key lies in the prefix range of `pre ++ [i]` exactly when its
attribute after `pre` is `i`. -/
theorem inPartialRange_iff (objectType : String) (pre more : List String) (o i : String)
    (ho : validateCompositeKeyAttribute o = true) (hi : validateCompositeKeyAttribute i = true)
    (hmore : ∀ a ∈ more, validateCompositeKeyAttribute a = true) :
    inPartialRange (compositeKey objectType (pre ++ [i]))
      (compositeKey objectType (pre ++ o :: more)) = true ↔ o = i := by
  constructor
  · intro hin
    by_contra hne
    rw [inPartialRange_other objectType pre more o i ho hi hne] at hin
    cases hin
  · intro heq
    subst heq
    have hext := inPartialRange_extension objectType (pre ++ [o]) more hmore
    simpa using hext

/-- C22: `GetVirtualSilosByTenantID(T)` returns exactly when `T` is free of
U+0000 and U+10FFFF and every record in the prefix range of `T` decodes; what it
returns is one decoded VirtualSilo per record of that range, in the order of
the collection, which is strict key order in every ledger reached from the
empty one. A silo key of tenant `T'` lies in the range exactly when `T' = T`,
also when `T` is a proper prefix of `T'`. The same holds of
`GetVThingVSilosByTenantID(T)` and the Membership records. -/
theorem tenant_listings_exact (h : Host) (s : State) (T : String) :
    (∀ vs, GetVirtualSilosByTenantID h s T = .ok vs ↔
      validateCompositeKeyAttribute T = true
      ∧ List.Forall₂ (fun kv v => Unmarshal h.unmarshalVirtualSilo (some kv.2) = .ok v)
          (s.vSilos.filter (fun kv =>
            inPartialRange (compositeKey vSiloObject [vSiloPrefix, T]) kv.1)) vs)
    ∧ (∀ ms, GetVThingVSilosByTenantID h s T = .ok ms ↔
      validateCompositeKeyAttribute T = true
      ∧ List.Forall₂ (fun kv m => Unmarshal h.unmarshalVThingVSilo (some kv.2) = .ok m)
          (s.vThingVSilos.filter (fun kv =>
            inPartialRange (compositeKey vThingVSiloObject [vThingVSiloPrefix, T]) kv.1)) ms)
    ∧ (validateCompositeKeyAttribute T = true →
      (∀ T' F, validateCompositeKeyAttribute T' = true → validateCompositeKeyAttribute F = true →
        (inPartialRange (compositeKey vSiloObject [vSiloPrefix, T])
          (compositeKey vSiloObject [vSiloPrefix, T', F]) = true ↔ T' = T))
      ∧ (∀ T' F t, validateCompositeKeyAttribute T' = true →
        validateCompositeKeyAttribute F = true → validateCompositeKeyAttribute t = true →
        (inPartialRange (compositeKey vThingVSiloObject [vThingVSiloPrefix, T])
          (compositeKey vThingVSiloObject [vThingVSiloPrefix, T', F, t]) = true ↔ T' = T)))
    ∧ (s.vSilos.Pairwise (fun a b => keyLt a.1 b.1 = true) →
      (s.vSilos.filter (fun kv =>
        inPartialRange (compositeKey vSiloObject [vSiloPrefix, T]) kv.1)).Pairwise
        (fun a b => keyLt a.1 b.1 = true))
    ∧ (s.vThingVSilos.Pairwise (fun a b => keyLt a.1 b.1 = true) →
      (s.vThingVSilos.filter (fun kv =>
        inPartialRange (compositeKey vThingVSiloObject [vThingVSiloPrefix, T]) kv.1)).Pairwise
        (fun a b => keyLt a.1 b.1 = true))
    ∧ (Reachable h anyCall s →
      s.vSilos.Pairwise (fun a b => keyLt a.1 b.1 = true)
      ∧ s.vThingVSilos.Pairwise (fun a b => keyLt a.1 b.1 = true)) := by
  refine ⟨?_, ?_, ?_, ?_, ?_, ?_⟩
  · intro vs
    unfold GetVirtualSilosByTenantID GetPrivateDataByPartialCompositeKey
    cases hkey : CreateCompositeKey vSiloObject [vSiloPrefix, T] with
    | none =>
      have hT : ¬ validateCompositeKeyAttribute T = true := by
        intro hT
        rw [CreateCompositeKey_of_valid vSiloObject [vSiloPrefix, T] (by decide)
          (by
            intro a ha
            simp only [List.mem_cons, List.mem_singleton, List.not_mem_nil, or_false] at ha
            rcases ha with rfl | rfl
            · decide
            · exact hT)] at hkey
        cases hkey
      simp [hT]
    | some p =>
      obtain ⟨-, hattrs, hp⟩ := CreateCompositeKey_eq_some hkey
      subst hp
      have hT : validateCompositeKeyAttribute T = true := hattrs T (by simp)
      simp only [nextResults_open, rangeScan_inPartialRange, collectLoop_ok_iff, List.nil_append,
        hT, true_and]
      constructor
      · rintro ⟨ws, rfl, hall⟩
        exact hall
      · intro hall
        exact ⟨vs, rfl, hall⟩
  · intro ms
    unfold GetVThingVSilosByTenantID GetPrivateDataByPartialCompositeKey
    cases hkey : CreateCompositeKey vThingVSiloObject [vThingVSiloPrefix, T] with
    | none =>
      have hT : ¬ validateCompositeKeyAttribute T = true := by
        intro hT
        rw [CreateCompositeKey_of_valid vThingVSiloObject [vThingVSiloPrefix, T] (by decide)
          (by
            intro a ha
            simp only [List.mem_cons, List.mem_singleton, List.not_mem_nil, or_false] at ha
            rcases ha with rfl | rfl
            · decide
            · exact hT)] at hkey
        cases hkey
      simp [hT]
    | some p =>
      obtain ⟨-, hattrs, hp⟩ := CreateCompositeKey_eq_some hkey
      subst hp
      have hT : validateCompositeKeyAttribute T = true := hattrs T (by simp)
      simp only [nextResults_open, rangeScan_inPartialRange, collectLoop_ok_iff, List.nil_append,
        hT, true_and]
      constructor
      · rintro ⟨ws, rfl, hall⟩
        exact hall
      · intro hall
        exact ⟨ms, rfl, hall⟩
  · intro hT
    constructor
    · intro T' F hT' hF
      exact inPartialRange_iff vSiloObject [vSiloPrefix] [F] T' T hT' hT
        (by intro a ha; simp only [List.mem_singleton] at ha; rw [ha]; exact hF)
    · intro T' F t hT' hF ht
      exact inPartialRange_iff vThingVSiloObject [vThingVSiloPrefix] [F, t] T' T hT' hT
        (by
          intro a ha
          simp only [List.mem_cons, List.mem_singleton, List.not_mem_nil, or_false] at ha
          rcases ha with rfl | rfl
          · exact hF
          · exact ht)
  · intro hsorted
    exact hsorted.sublist (List.filter_sublist _)
  · intro hsorted
    exact hsorted.sublist (List.filter_sublist _)
  · intro hreach
    have hs := reachable_sorted h anyCall s hreach
    exact ⟨hs CollectionvSilos, hs CollectionvThingVSilos⟩

set_option maxRecDepth 1000000 in
/-- Witness of `tenant_listings_exact`: silos and memberships of the tenants
`tenantA` and `tenantAB` are stored; the listings of `tenantA` return the
records of `tenantA` only. -/
theorem tenant_listings_exact_witness :
    stateTwoTenants.vSilos.map (fun kv => kv.1) =
      [compositeKey vSiloObject [vSiloPrefix, "tenantA", "flavourX"],
        compositeKey vSiloObject [vSiloPrefix, "tenantAB", "flavourX"]]
    ∧ stateTwoTenants.vThingVSilos.map (fun kv => kv.1) =
      [compositeKey vThingVSiloObject [vThingVSiloPrefix, "tenantA", "flavourX", "t1"],
        compositeKey vThingVSiloObject [vThingVSiloPrefix, "tenantAB", "flavourX", "t1"]]
    ∧ GetVirtualSilosByTenantID sampleHostTenants stateTwoTenants "tenantA" =
      .ok [{ VSiloID := "tenantA_flavourX", Status := STATUS_PENDING }]
    ∧ GetVThingVSilosByTenantID sampleHostTenants stateTwoTenants "tenantA" =
      .ok [{ TenantID := "tenantA", VSiloID := "tenantA_flavourX", VThingID := "t1" }]
    ∧ (validateCompositeKeyAttribute "tenantA" = true
      ∧ List.Forall₂
          (fun kv v => Unmarshal sampleHostTenants.unmarshalVirtualSilo (some kv.2) = .ok v)
          (stateTwoTenants.vSilos.filter (fun kv =>
            inPartialRange (compositeKey vSiloObject [vSiloPrefix, "tenantA"]) kv.1))
          [{ VSiloID := "tenantA_flavourX", Status := STATUS_PENDING }])
    ∧ (inPartialRange (compositeKey vSiloObject [vSiloPrefix, "tenantA"])
        (compositeKey vSiloObject [vSiloPrefix, "tenantAB", "flavourX"]) = true ↔
      "tenantAB" = "tenantA") :=
  ⟨by decide, by decide, by decide, by decide,
    ((tenant_listings_exact sampleHostTenants stateTwoTenants "tenantA").1
      [{ VSiloID := "tenantA_flavourX", Status := STATUS_PENDING }]).1 (by decide),
    ((tenant_listings_exact sampleHostTenants stateTwoTenants "tenantA").2.2.1 (by decide)).1
      "tenantAB" "flavourX" (by decide) (by decide)⟩

/-! ## VThing keys and logical ids -/

theorem splitChars_one (sep : Char) : ∀ (cs b : List Char), splitChars sep cs = [b] → cs = b := by
  intro cs
  induction cs with
  | nil =>
    intro b hsplit
    simp only [splitChars, List.cons.injEq, and_true] at hsplit
    exact hsplit
  | cons c cs ih =>
    intro b hsplit
    unfold splitChars at hsplit
    split at hsplit
    · simp only [List.cons.injEq] at hsplit
      exact absurd hsplit.2 (splitChars_ne_nil sep cs)
    · split at hsplit
      · rename_i hnil
        exact absurd hnil (splitChars_ne_nil sep cs)
      · rename_i w ws hws
        simp only [List.cons.injEq] at hsplit
        obtain ⟨hb, hnil⟩ := hsplit
        rw [hnil] at hws
        rw [← hb, ih w hws]

/-- A string that splits in two pieces is the first piece, the separator and
the second piece. -/
theorem splitChars_two (sep : Char) :
    ∀ (cs a b : List Char), splitChars sep cs = [a, b] → cs = a ++ sep :: b := by
  intro cs
  induction cs with
  | nil =>
    intro a b hsplit
    simp [splitChars] at hsplit
  | cons c cs ih =>
    intro a b hsplit
    unfold splitChars at hsplit
    split at hsplit
    · rename_i hc
      simp only [List.cons.injEq] at hsplit
      obtain ⟨ha, hrest⟩ := hsplit
      rw [← ha, hc, splitChars_one sep cs b hrest]
      rfl
    · split at hsplit
      · rename_i hnil
        exact absurd hnil (splitChars_ne_nil sep cs)
      · rename_i w ws hws
        simp only [List.cons.injEq] at hsplit
        obtain ⟨ha, hrest⟩ := hsplit
        rw [hrest] at hws
        rw [← ha, ih w b hws]
        rfl

theorem Split_two (s o l : String) (sep : Char) (hsplit : Split s sep = [o, l]) :
    s.data = o.data ++ sep :: l.data := by
  unfold Split at hsplit
  cases hchars : splitChars sep s.data with
  | nil => simp [hchars] at hsplit
  | cons a rest =>
    cases rest with
    | nil => simp [hchars] at hsplit
    | cons b rest =>
      cases rest with
      | nil =>
        simp only [hchars, List.map_cons, List.map_nil, List.cons.injEq, and_true] at hsplit
        obtain ⟨ha, hb⟩ := hsplit
        rw [← ha, ← hb]
        exact splitChars_two sep _ _ _ hchars
      | cons c rest => simp [hchars] at hsplit

/-- Shape of a successful `UpdateVThingOfThingVisor`: the body decodes, the id
has two valid segments and the body is written under their composite key. -/
theorem UpdateVThingOfThingVisor_ok {h : Host} {ctx : Context} {VThingID vThingData : String}
    {s s' : State} (hok : UpdateVThingOfThingVisor h ctx VThingID vThingData s = .ok s') :
    ∃ v k1, Unmarshal h.unmarshalVThingTV (some vThingData) = .ok v
      ∧ index1 (Split VThingID '/') = .ok k1
      ∧ validateCompositeKeyAttribute (index0 (Split VThingID '/')) = true
      ∧ validateCompositeKeyAttribute k1 = true
      ∧ s'.collection CollectionvThingTVs =
        putKey (compositeKey vThingTVObject [vThingTVPrefix, index0 (Split VThingID '/'), k1])
          vThingData (s.collection CollectionvThingTVs) := by
  unfold UpdateVThingOfThingVisor at hok
  dsimp only at hok
  cases hv : Unmarshal h.unmarshalVThingTV (some vThingData) with
  | error e => simp [hv] at hok
  | ok v =>
    cases hk1 : index1 (Split VThingID '/') with
    | error e => simp [hv, hk1] at hok
    | ok k1 =>
      cases hkey : CreateCompositeKey vThingTVObject
          [vThingTVPrefix, index0 (Split VThingID '/'), k1] with
      | none => simp [hv, hk1, hkey] at hok
      | some key =>
        simp only [hv, hk1, hkey] at hok
        obtain ⟨-, hattrs, hkeyeq⟩ := CreateCompositeKey_eq_some hkey
        subst hkeyeq
        split at hok
        · cases hok
        · rename_i s1 hput
          refine ⟨v, k1, rfl, rfl, hattrs _ (by simp), hattrs _ (by simp), ?_⟩
          rw [SetHistory_collection hok, PutPrivateData_collection_self hput,
            if_neg (Unmarshal_ok_ne_empty hv).1]

theorem VThingKeysFromIds_step (h : Host) (ctx : Context) (call : Invocation) (s s' : State)
    (x : Response) (hinv : VThingKeysFromIds h s) (hallowed : updateKeepsSegments h call)
    (hok : invoke h ctx call s = .ok (x, s')) : VThingKeysFromIds h s' := by
  cases call
  case UpdateVThingOfThingVisor VThingID vThingData =>
    simp only [invoke] at hok
    obtain ⟨v, k1, hv, hk1, -, -, hs'⟩ := UpdateVThingOfThingVisor_ok (written_ok hok)
    obtain ⟨h0, h1⟩ := hallowed v hv
    intro kv hkv
    have hkv' : kv ∈ putKey
        (compositeKey vThingTVObject [vThingTVPrefix, index0 (Split VThingID '/'), k1])
        vThingData (s.collection CollectionvThingTVs) := by
      rw [← hs']
      exact hkv
    rcases mem_putKey hkv' with hnew | hold
    · refine ⟨v, k1, by rw [hnew]; exact hv, by rw [h1, hk1], ?_⟩
      rw [hnew, h0]
    · exact hinv kv hold
  case AddVThingToThingVisor ThingVisorID vThingData =>
    simp only [invoke] at hok
    obtain ⟨thingVisorByte, thingVisor, newVThing, k1, key, -, -, -, hv, howner, hk1, hkey,
      hs'⟩ := AddVThingToThingVisor_ok (written_ok hok)
    intro kv hkv
    have hkv' : kv ∈ putKey key vThingData (s.collection CollectionvThingTVs) := by
      rw [hs'] at hkv
      exact hkv
    rcases mem_putKey hkv' with hnew | hold
    · refine ⟨newVThing, k1, by rw [hnew]; exact hv, hk1, ?_⟩
      rw [hnew, howner]
      exact (CreateCompositeKey_eq_some hkey).2.2
    · exact hinv kv hold
  all_goals
    intro kv hkv
    exact hinv kv (invoke_vThingTVs_mem h ctx _ s s' x hok rfl kv hkv)

/-- C16 (as amended): in every state reachable from the empty ledger by calls
in which every `UpdateVThingOfThingVisor(VThingID, body)` carries a body whose
`id` has the first two `/` segments of `VThingID`, every VThing record decodes
and is stored under the composite key of the first two `/` segments of the `id`
of its body; when the `id` has exactly two segments, owner and local, it is
owner, `/`, local and the record is stored under the key (owner, local). -/
theorem reachable_vThing_keys (h : Host) (s : State)
    (hreach : Reachable h (updateKeepsSegments h) s) :
    VThingKeysFromIds h s
    ∧ ∀ kv ∈ s.vThingTVs, ∀ v o l, Unmarshal h.unmarshalVThingTV (some kv.2) = .ok v →
        Split v.ID '/' = [o, l] →
        v.ID = o ++ "/" ++ l
        ∧ kv.1 = compositeKey vThingTVObject [vThingTVPrefix, o, l] := by
  have hkeys : VThingKeysFromIds h s := by
    induction hreach with
    | empty => intro kv hkv; cases hkv
    | step _ hallowed hok ih => exact VThingKeysFromIds_step h _ _ _ _ _ ih hallowed hok
  refine ⟨hkeys, ?_⟩
  intro kv hkv v o l hv hsplit
  obtain ⟨v', k1, hv', hk1, hkey⟩ := hkeys kv hkv
  rw [hv] at hv'
  cases hv'
  constructor
  · apply String.ext
    rw [Split_two v.ID o l '/' hsplit]
    simp [String.data_append]
  · rw [hsplit] at hk1 hkey
    cases hk1
    exact hkey

set_option maxRecDepth 1000000 in
/-- Witness of `reachable_vThing_keys`: the ledger reached by
`CreateThingVisor("tv1", ...)`, `AddVThingToThingVisor("tv1", ...)` and
`UpdateVThingOfThingVisor("tv1/t1", ...)` with a body whose `id` is `tv1/t1`. -/
theorem reachable_vThing_keys_witness :
    stateUpdatedT1.vThingTVs =
      [(compositeKey vThingTVObject [vThingTVPrefix, "tv1", "t1"], t1JSON)]
    ∧ VThingKeysFromIds sampleHost stateUpdatedT1
    ∧ ∀ kv ∈ stateUpdatedT1.vThingTVs, ∀ v o l,
        Unmarshal sampleHost.unmarshalVThingTV (some kv.2) = .ok v →
        Split v.ID '/' = [o, l] →
        v.ID = o ++ "/" ++ l
        ∧ kv.1 = compositeKey vThingTVObject [vThingTVPrefix, o, l] :=
  ⟨by decide,
    reachable_vThing_keys sampleHost stateUpdatedT1
      (Reachable.step
        (Reachable.step
          (Reachable.step Reachable.empty
            (show updateKeepsSegments sampleHost (.CreateThingVisor "tv1" tv1RunningJSON)
              from trivial)
            (by decide : invoke sampleHost
              (sampleContext ["CreateThingVisor", "tv1", tv1RunningJSON])
              (.CreateThingVisor "tv1" tv1RunningJSON) {} = .ok (.done, stateCreated)))
          (show updateKeepsSegments sampleHost (.AddVThingToThingVisor "tv1" t1JSON)
            from trivial)
          (by decide : invoke sampleHost
            (sampleContext ["AddVThingToThingVisor", "tv1", t1JSON])
            (.AddVThingToThingVisor "tv1" t1JSON) stateCreated =
              .ok (.done, stateCreatedWithT1)))
        (show updateKeepsSegments sampleHost (.UpdateVThingOfThingVisor "tv1/t1" t1JSON) from by
          intro v hv
          have hdec : Unmarshal sampleHost.unmarshalVThingTV (some t1JSON) =
              .ok { ID := "tv1/t1" } := by decide
          rw [hdec] at hv
          cases hv
          exact ⟨rfl, rfl⟩)
        (by decide : invoke sampleHost
          (sampleContext ["UpdateVThingOfThingVisor", "tv1/t1", t1JSON])
          (.UpdateVThingOfThingVisor "tv1/t1" t1JSON) stateCreatedWithT1 =
            .ok (.done, stateUpdatedT1)))⟩

set_option maxRecDepth 1000000 in
/-- C16 (counterexample): one call from the empty ledger,
`UpdateVThingOfThingVisor("tv2/x", body)` with a body whose `id` is `tv1/t1`,
succeeds and stores that body under the key `(tv2, x)`; and with ThingVisor
`tv1` running, `AddVThingToThingVisor("tv1", body)` with a body whose `id` is
`tv1/t1/x` succeeds and stores that body under the key `(tv1, t1)`. -/
theorem UpdateVThingOfThingVisor_foreign_id :
    invoke sampleHost (sampleContext ["UpdateVThingOfThingVisor", "tv2/x", t1JSON])
        (.UpdateVThingOfThingVisor "tv2/x" t1JSON) {} = .ok (.done, stateStrayVThing)
    ∧ stateStrayVThing.vThingTVs =
      [(compositeKey vThingTVObject [vThingTVPrefix, "tv2", "x"], t1JSON)]
    ∧ Unmarshal sampleHost.unmarshalVThingTV (some t1JSON) = .ok { ID := "tv1/t1" }
    ∧ "tv1/t1" ≠ "tv2" ++ "/" ++ "x"
    ∧ invoke sampleHostSegments
        (sampleContext ["AddVThingToThingVisor", "tv1", threeSegmentJSON])
        (.AddVThingToThingVisor "tv1" threeSegmentJSON) stateCreated =
      .ok (.done, stateThreeSegments)
    ∧ stateThreeSegments.vThingTVs =
      [(compositeKey vThingTVObject [vThingTVPrefix, "tv1", "t1"], threeSegmentJSON)]
    ∧ Unmarshal sampleHostSegments.unmarshalVThingTV (some threeSegmentJSON) =
      .ok { ID := "tv1/t1/x" }
    ∧ "tv1/t1/x" ≠ "tv1" ++ "/" ++ "t1" := by
  decide

/-! ## VThings and their owners in reachable ledgers -/

/-- Shape of a successful `DeleteThingVisor`: the keys of `GetStringArgs()[1:]`
are deleted from the VThing collection, the id from the ThingVisor
collection. -/
theorem DeleteThingVisor_shape {ctx : Context} {ThingVisorID : String} {s s' : State}
    (hok : DeleteThingVisor ctx ThingVisorID s = .ok s') :
    ∃ sl, delLoop CollectionvThingTVs (ctx.StringArgs.drop 1) s = .ok sl
      ∧ s'.collection CollectionThingVisors =
        eraseKey ThingVisorID (s.collection CollectionThingVisors)
      ∧ s'.collection CollectionvThingTVs = sl.collection CollectionvThingTVs := by
  unfold DeleteThingVisor at hok
  dsimp only at hok
  cases hargs : ctx.StringArgs with
  | nil => simp [argsFrom1, hargs] at hok
  | cons fn args =>
    simp only [argsFrom1, hargs] at hok
    obtain ⟨sl, hloop⟩ := delLoop_total CollectionvThingTVs args s
    obtain ⟨-, hother, -⟩ := delLoop_frame _ _ _ _ hloop
    simp only [hloop, DelPrivateData] at hok
    refine ⟨sl, by simpa using hloop, ?_, ?_⟩
    · rw [SetHistory_collection hok, collection_setCollection_self, hother _ (by decide)]
    · rw [SetHistory_collection hok, collection_setCollection_ne _ (by decide)]

/-- When the keys of every VThing record in the prefix range of the id are
among the arguments, `DeleteThingVisor` leaves no record in that range, and
adds none. -/
theorem DeleteThingVisor_covered {ctx : Context} {ThingVisorID : String} {s s' : State}
    (hok : DeleteThingVisor ctx ThingVisorID s = .ok s')
    (hcovered : ∀ kv ∈ s.vThingTVs,
      inPartialRange (compositeKey vThingTVObject [vThingTVPrefix, ThingVisorID]) kv.1 = true →
      kv.1 ∈ ctx.StringArgs.drop 1) :
    ∀ kv ∈ s'.vThingTVs, kv ∈ s.vThingTVs
      ∧ inPartialRange (compositeKey vThingTVObject [vThingTVPrefix, ThingVisorID]) kv.1 =
        false := by
  obtain ⟨sl, hloop, -, hvt⟩ := DeleteThingVisor_shape hok
  obtain ⟨-, -, hlook⟩ := delLoop_frame _ _ _ _ hloop
  intro kv hkv
  have hkv' : kv ∈ sl.collection CollectionvThingTVs := by
    rw [← hvt]
    exact hkv
  have hold := delLoop_mem _ _ _ _ hloop kv hkv'
  refine ⟨hold, ?_⟩
  cases hin : inPartialRange (compositeKey vThingTVObject [vThingTVPrefix, ThingVisorID]) kv.1
    with
  | false => rfl
  | true =>
    have hnone : lookupKey kv.1 (sl.collection CollectionvThingTVs) = none := by
      rw [hlook kv.1, if_pos (hcovered kv hold hin)]
    exact absurd hnone (lookupKey_ne_none_of_mem hkv')

/-- Shape of a successful `UpdateThingVisor`. -/
theorem UpdateThingVisor_shape {ctx : Context} {id JSONstr : String} {s s' : State}
    (hok : UpdateThingVisor ctx id JSONstr s = .ok s') :
    s'.collection CollectionThingVisors =
      if JSONstr = "" then eraseKey id (s.collection CollectionThingVisors)
      else putKey id JSONstr (s.collection CollectionThingVisors) := by
  unfold UpdateThingVisor at hok
  dsimp only at hok
  split at hok
  · cases hok
  · rename_i s1 hput
    rw [SetHistory_collection hok, PutPrivateData_collection_self hput]

/-- What `GetThingVisorWithVThingKeys` lists: the id is a valid key segment and
the listed keys are those of the records in its prefix range. -/
theorem GetThingVisorWithVThingKeys_keys {h : Host} {s : State} {tv : String}
    {r : ThingVisorWithVThingKey} (hlisted : GetThingVisorWithVThingKeys h s tv = .ok r) :
    CreateCompositeKey vThingTVObject [vThingTVPrefix, tv] =
      some (compositeKey vThingTVObject [vThingTVPrefix, tv])
    ∧ r.VThings.map (fun v => v.Key) =
      ((s.collection CollectionvThingTVs).filter (fun kv =>
        inPartialRange (compositeKey vThingTVObject [vThingTVPrefix, tv]) kv.1)).map
        (fun kv => kv.1) := by
  unfold GetThingVisorWithVThingKeys GetPrivateDataByPartialCompositeKey at hlisted
  cases hget : GetPrivateData s CollectionThingVisors tv with
  | none => simp [hget] at hlisted
  | some byteData =>
    cases hdec : Unmarshal h.unmarshalThingVisor (some byteData) with
    | error e => simp [hget, hdec] at hlisted
    | ok thingVisor =>
      cases hkey : CreateCompositeKey vThingTVObject [vThingTVPrefix, tv] with
      | none => simp [hget, hdec, hkey] at hlisted
      | some p =>
        have hpeq := (CreateCompositeKey_eq_some hkey).2.2
        subst hpeq
        simp only [hget, hdec, hkey, nextResults_open, rangeScan_inPartialRange] at hlisted
        split at hlisted
        · cases hlisted
        · rename_i vThings hloop
          cases hlisted
          have hk := collectWithKeyLoop_keys h _ _ _ hloop
          simp only [List.map_nil, List.nil_append] at hk
          exact ⟨rfl, hk⟩

/-- A call that is neither `DeleteThingVisor` nor `UpdateThingVisor` removes no
ThingVisor key. -/
theorem invoke_thingVisors_kept (h : Host) (ctx : Context) (call : Invocation)
    (s s' : State) (x : Response) (hmarshal : ∀ t, h.marshalThingVisor t ≠ "")
    (hcall : call.mayRemoveThingVisor = false) (hok : invoke h ctx call s = .ok (x, s')) :
    ∀ o, (lookupKey o s.thingVisors).isSome = true →
      (lookupKey o s'.thingVisors).isSome = true := by
  have hsame : s'.collection CollectionThingVisors = s.collection CollectionThingVisors →
      ∀ o, (lookupKey o s.thingVisors).isSome = true →
        (lookupKey o s'.thingVisors).isSome = true := by
    intro heq o ho
    have heq' : s'.thingVisors = s.thingVisors := heq
    rw [heq']
    exact ho
  cases call <;> simp only [invoke] at hok
  case DeleteThingVisor => cases hcall
  case UpdateThingVisor => cases hcall
  case CreateThingVisor => exact CreateThingVisor_present (written_ok hok)
  case UpdateThingVisorPartial =>
    exact UpdateThingVisorPartial_present hmarshal (written_ok hok)
  case StopThingVisor => exact StopThingVisor_present hmarshal (written_ok hok)
  case AddVThingToThingVisor =>
    exact hsame (AddVThingToThingVisor_frame (written_ok hok) _ (by decide))
  case UpdateVThingOfThingVisor =>
    exact hsame (UpdateVThingOfThingVisor_frame (written_ok hok) _ (by decide))
  case DeleteVThingFromThingVisor =>
    exact hsame (DeleteVThingFromThingVisor_frame (written_ok hok) _ (by decide))
  case AddFlavour => exact hsame (AddFlavour_frame (written_ok hok) _ (by decide))
  case UpdateFlavour => exact hsame (UpdateFlavour_frame (written_ok hok) _ (by decide))
  case DeleteFlavour => exact hsame (DeleteFlavour_frame (written_ok hok) _ (by decide))
  case AddVirtualSilo => exact hsame (AddVirtualSilo_frame (written_ok hok) _ (by decide))
  case UpdateVirtualSilo => exact hsame (UpdateVirtualSilo_frame (written_ok hok) _ (by decide))
  case DeleteVirtualSilo => exact hsame (DeleteVirtualSilo_frame (written_ok hok)).1
  case AddVThingVSilo => exact hsame (AddVThingVSilo_frame (written_ok hok) _ (by decide))
  case DeleteVThingVSilo => exact hsame (DeleteVThingVSilo_frame (written_ok hok) _ (by decide))
  all_goals (rw [answered_state hok]; exact fun o ho => ho)

/-- A VThing key of owner `o` lies in the prefix range of `o`. -/
theorem owner_inPartialRange (o l : String) (hl : validateCompositeKeyAttribute l = true) :
    inPartialRange (compositeKey vThingTVObject [vThingTVPrefix, o])
      (compositeKey vThingTVObject [vThingTVPrefix, o, l]) = true := by
  have hin := inPartialRange_extension vThingTVObject [vThingTVPrefix, o] [l]
    (by intro a ha; simp only [List.mem_singleton] at ha; rw [ha]; exact hl)
  simpa using hin

theorem VThingOwnersStored_step (h : Host) (ctx : Context) (call : Invocation) (s s' : State)
    (x : Response) (hmarshal : ∀ t, h.marshalThingVisor t ≠ "")
    (hinv : VThingOwnersStored s) (hallowed : keepsOwners s ctx call)
    (hok : invoke h ctx call s = .ok (x, s')) : VThingOwnersStored s' := by
  cases call
  case AddVThingToThingVisor ThingVisorID vThingData =>
    have hpresent := invoke_thingVisors_kept h ctx _ s s' x hmarshal (by rfl) hok
    simp only [invoke] at hok
    obtain ⟨thingVisorByte, thingVisor, newVThing, k1, key, hget, -, -, -, -, -, hkey, hs'⟩ :=
      AddVThingToThingVisor_ok (written_ok hok)
    obtain ⟨-, hattrs, hkeyeq⟩ := CreateCompositeKey_eq_some hkey
    intro kv hkv
    have hkv' : kv ∈ putKey key vThingData (s.collection CollectionvThingTVs) := by
      rw [hs'] at hkv
      exact hkv
    rcases mem_putKey hkv' with hnew | hold
    · refine ⟨ThingVisorID, k1, hattrs _ (by simp), hattrs _ (by simp), ?_, ?_⟩
      · rw [hnew]
        exact hkeyeq
      · apply hpresent
        have hget' : lookupKey ThingVisorID s.thingVisors = some thingVisorByte := hget
        rw [hget']
        rfl
    · obtain ⟨o, l, ho, hl, hk, hstored⟩ := hinv kv hold
      exact ⟨o, l, ho, hl, hk, hpresent o hstored⟩
  case UpdateVThingOfThingVisor VThingID vThingData =>
    have hpresent := invoke_thingVisors_kept h ctx _ s s' x hmarshal (by rfl) hok
    have howner : (lookupKey (index0 (Split VThingID '/')) s.thingVisors).isSome = true :=
      hallowed
    simp only [invoke] at hok
    obtain ⟨v, k1, -, -, h0valid, h1valid, hs'⟩ := UpdateVThingOfThingVisor_ok (written_ok hok)
    intro kv hkv
    have hkv' : kv ∈ putKey
        (compositeKey vThingTVObject [vThingTVPrefix, index0 (Split VThingID '/'), k1])
        vThingData (s.collection CollectionvThingTVs) := by
      rw [← hs']
      exact hkv
    rcases mem_putKey hkv' with hnew | hold
    · exact ⟨index0 (Split VThingID '/'), k1, h0valid, h1valid, by rw [hnew],
        hpresent _ howner⟩
    · obtain ⟨o, l, ho, hl, hk, hstored⟩ := hinv kv hold
      exact ⟨o, l, ho, hl, hk, hpresent o hstored⟩
  case DeleteThingVisor ThingVisorID =>
    have hcovered : validateCompositeKeyAttribute ThingVisorID = true →
        ∀ kv ∈ s.vThingTVs,
          inPartialRange (compositeKey vThingTVObject [vThingTVPrefix, ThingVisorID]) kv.1 =
            true →
          kv.1 ∈ ctx.StringArgs.drop 1 := hallowed
    simp only [invoke] at hok
    obtain ⟨sl, -, htv, -⟩ := DeleteThingVisor_shape (written_ok hok)
    intro kv hkv
    have hold := DeleteThingVisor_mem (written_ok hok) kv hkv
    obtain ⟨o, l, ho, hl, hk, hstored⟩ := hinv kv hold
    have hne : o ≠ ThingVisorID := by
      intro heq
      rw [heq] at ho
      have hout := (DeleteThingVisor_covered (written_ok hok) (hcovered ho) kv hkv).2
      rw [hk, heq, owner_inPartialRange ThingVisorID l hl] at hout
      cases hout
    refine ⟨o, l, ho, hl, hk, ?_⟩
    show (lookupKey o (s'.collection CollectionThingVisors)).isSome = true
    rw [htv, lookupKey_eraseKey_ne hne]
    exact hstored
  case UpdateThingVisor id JSONstr =>
    have hsafe : JSONstr ≠ "" ∨ validateCompositeKeyAttribute id = false ∨
        ∀ kv ∈ s.vThingTVs,
          inPartialRange (compositeKey vThingTVObject [vThingTVPrefix, id]) kv.1 = false :=
      hallowed
    have hmem := invoke_vThingTVs_mem h ctx _ s s' x hok rfl
    simp only [invoke] at hok
    have htv := UpdateThingVisor_shape (written_ok hok)
    intro kv hkv
    have hold := hmem kv hkv
    obtain ⟨o, l, ho, hl, hk, hstored⟩ := hinv kv hold
    refine ⟨o, l, ho, hl, hk, ?_⟩
    show (lookupKey o (s'.collection CollectionThingVisors)).isSome = true
    rw [htv]
    by_cases hbody : JSONstr = ""
    · rw [if_pos hbody]
      have hne : o ≠ id := by
        intro heq
        rcases hsafe with hne | hinvalid | hnone
        · exact hne hbody
        · rw [heq, hinvalid] at ho
          cases ho
        · have hout := hnone kv hold
          rw [hk, heq, owner_inPartialRange id l hl] at hout
          cases hout
      rw [lookupKey_eraseKey_ne hne]
      exact hstored
    · rw [if_neg hbody]
      by_cases hoid : o = id
      · rw [hoid, lookupKey_putKey_self]
        rfl
      · rw [lookupKey_putKey_ne hoid]
        exact hstored
  all_goals
    have hpresent := invoke_thingVisors_kept h ctx _ s s' x hmarshal (by rfl) hok
    intro kv hkv
    obtain ⟨o, l, ho, hl, hk, hstored⟩ :=
      hinv kv (invoke_vThingTVs_mem h ctx _ s s' x hok rfl kv hkv)
    exact ⟨o, l, ho, hl, hk, hpresent o hstored⟩

/-- C17 (as amended): when JSON encodings are never empty, in every state
reachable from the empty ledger by calls in which every
`UpdateVThingOfThingVisor` addresses a stored owner, every `DeleteThingVisor`
is accompanied by the keys of the VThing records in the prefix range of its id,
and every `UpdateThingVisor` with an empty body addresses an id with no VThing
record in its prefix range (ids that are no valid key segment own no VThing and
are not restricted), every VThing record sits under a composite key whose owner
segment is the key of a stored ThingVisor record. In such a state,
`DeleteThingVisor(tv)` accompanied by the keys that
`GetThingVisorWithVThingKeys(tv)` lists is one of these calls, it succeeds, and
afterwards no VThing record lies in the prefix range of `tv`,
`GetAllVThingOfThingVisor(tv)` returns the empty sequence and every VThing
record left has its owner stored. -/
theorem reachable_vThing_owners (h : Host) (s : State)
    (hmarshal : ∀ t, h.marshalThingVisor t ≠ "")
    (hreach : ReachableWhen h keepsOwners s) :
    VThingOwnersStored s
    ∧ ∀ ctx fn tv r, GetThingVisorWithVThingKeys h s tv = .ok r →
        ctx.StringArgs = fn :: tv :: r.VThings.map (fun v => v.Key) →
        keepsOwners s ctx (.DeleteThingVisor tv)
        ∧ ∃ s', DeleteThingVisor ctx tv s = .ok s'
          ∧ (∀ kv ∈ s'.vThingTVs,
            inPartialRange (compositeKey vThingTVObject [vThingTVPrefix, tv]) kv.1 = false)
          ∧ GetAllVThingOfThingVisor h s' tv = .ok []
          ∧ VThingOwnersStored s' := by
  have hinv : VThingOwnersStored s := by
    induction hreach with
    | empty => intro kv hkv; cases hkv
    | step _ hallowed hok ih =>
      exact VThingOwnersStored_step h _ _ _ _ _ hmarshal ih hallowed hok
  refine ⟨hinv, ?_⟩
  intro ctx fn tv r hlisted hargs
  obtain ⟨hp, hkeys⟩ := GetThingVisorWithVThingKeys_keys hlisted
  have hcovered : ∀ kv ∈ s.vThingTVs,
      inPartialRange (compositeKey vThingTVObject [vThingTVPrefix, tv]) kv.1 = true →
      kv.1 ∈ ctx.StringArgs.drop 1 := by
    intro kv hkv hin
    rw [hargs, List.drop_succ_cons, List.drop_zero]
    apply List.mem_cons_of_mem
    rw [hkeys]
    exact List.mem_map.2 ⟨kv, List.mem_filter.2 ⟨hkv, hin⟩, rfl⟩
  refine ⟨fun _ => hcovered, ?_⟩
  obtain ⟨sl, hloop⟩ := delLoop_total CollectionvThingTVs
    (tv :: r.VThings.map (fun v => v.Key)) s
  have hdel : DeleteThingVisor ctx tv s =
      .ok ((sl.setCollection CollectionThingVisors
          (eraseKey tv (sl.collection CollectionThingVisors))).withEvent ctx "DeleteThingVisor"
        [ { StartNode := ctx.userMSPID, EndNode := "user-" ++ ctx.userID, Delete := false },
          { StartNode := "user-" ++ ctx.userID, EndNode := "thingvisor-" ++ tv,
            Delete := true } ]) := by
    simp only [DeleteThingVisor, argsFrom1, hargs, hloop, DelPrivateData]
    rw [SetHistory_withEvent _ _ _ _ (by decide)]
  have hleft := DeleteThingVisor_covered hdel hcovered
  refine ⟨_, hdel, fun kv hkv => (hleft kv hkv).2, ?_, ?_⟩
  · have hempty : List.filter (fun kv =>
        inPartialRange (compositeKey vThingTVObject [vThingTVPrefix, tv]) kv.1)
        (((sl.setCollection CollectionThingVisors
            (eraseKey tv (sl.collection CollectionThingVisors))).withEvent ctx
          "DeleteThingVisor"
          [ { StartNode := ctx.userMSPID, EndNode := "user-" ++ ctx.userID, Delete := false },
            { StartNode := "user-" ++ ctx.userID, EndNode := "thingvisor-" ++ tv,
              Delete := true } ]).collection CollectionvThingTVs) = [] := by
      rw [List.filter_eq_nil_iff]
      intro kv hkv hin
      rw [(hleft kv hkv).2] at hin
      cases hin
    simp only [GetAllVThingOfThingVisor, GetPrivateDataByPartialCompositeKey, hp,
      rangeScan_inPartialRange, hempty, nextResults_open, List.map_nil, collectLoop]
  · exact VThingOwnersStored_step h ctx (.DeleteThingVisor tv) s _ .done hmarshal hinv
      (fun _ => hcovered) (by simp only [invoke, hdel, written])

set_option maxRecDepth 1000000 in
/-- Witness of `reachable_vThing_owners`: the ledger reached by
`CreateThingVisor("tv1", ...)`, `AddVThingToThingVisor("tv1", ...)` and
`UpdateVThingOfThingVisor("tv1/t1", ...)`, and `DeleteThingVisor("tv1")` with
the listed key on it. -/
theorem reachable_vThing_owners_witness :
    stateUpdatedT1.vThingTVs =
      [(compositeKey vThingTVObject [vThingTVPrefix, "tv1", "t1"], t1JSON)]
    ∧ lookupKey "tv1" stateUpdatedT1.thingVisors = some tv1RunningJSON
    ∧ GetThingVisorWithVThingKeys sampleHost stateUpdatedT1 "tv1" = .ok listedT1
    ∧ VThingOwnersStored stateUpdatedT1
    ∧ ∃ s', DeleteThingVisor
          (sampleContext ["DeleteThingVisor", "tv1",
            compositeKey vThingTVObject [vThingTVPrefix, "tv1", "t1"]]) "tv1"
          stateUpdatedT1 = .ok s'
        ∧ (∀ kv ∈ s'.vThingTVs,
          inPartialRange (compositeKey vThingTVObject [vThingTVPrefix, "tv1"]) kv.1 = false)
        ∧ GetAllVThingOfThingVisor sampleHost s' "tv1" = .ok []
        ∧ VThingOwnersStored s' :=
  have hall := reachable_vThing_owners sampleHost stateUpdatedT1 sampleMarshalThingVisor_ne_empty
    (ReachableWhen.step
      (ReachableWhen.step
        (ReachableWhen.step ReachableWhen.empty
          (show keepsOwners {} (sampleContext ["CreateThingVisor", "tv1", tv1RunningJSON])
            (.CreateThingVisor "tv1" tv1RunningJSON) from trivial)
          (by decide : invoke sampleHost
            (sampleContext ["CreateThingVisor", "tv1", tv1RunningJSON])
            (.CreateThingVisor "tv1" tv1RunningJSON) {} = .ok (.done, stateCreated)))
        (show keepsOwners stateCreated (sampleContext ["AddVThingToThingVisor", "tv1", t1JSON])
          (.AddVThingToThingVisor "tv1" t1JSON) from trivial)
        (by decide : invoke sampleHost
          (sampleContext ["AddVThingToThingVisor", "tv1", t1JSON])
          (.AddVThingToThingVisor "tv1" t1JSON) stateCreated =
            .ok (.done, stateCreatedWithT1)))
      (show keepsOwners stateCreatedWithT1
        (sampleContext ["UpdateVThingOfThingVisor", "tv1/t1", t1JSON])
        (.UpdateVThingOfThingVisor "tv1/t1" t1JSON) from
        (by decide :
          (lookupKey (index0 (Split "tv1/t1" '/')) stateCreatedWithT1.thingVisors).isSome =
            true))
      (by decide : invoke sampleHost
        (sampleContext ["UpdateVThingOfThingVisor", "tv1/t1", t1JSON])
        (.UpdateVThingOfThingVisor "tv1/t1" t1JSON) stateCreatedWithT1 =
          .ok (.done, stateUpdatedT1)))
  ⟨by decide, by decide, by decide, hall.1,
    (hall.2
      (sampleContext ["DeleteThingVisor", "tv1",
        compositeKey vThingTVObject [vThingTVPrefix, "tv1", "t1"]])
      "DeleteThingVisor" "tv1" listedT1 (by decide) rfl).2⟩

set_option maxRecDepth 1000000 in
/-- C17 (counterexample): from the empty ledger,
`UpdateVThingOfThingVisor("tv2/x", ...)` succeeds and stores a VThing under
owner `tv2` while no ThingVisor `tv2` exists; after `CreateThingVisor` and
`AddVThingToThingVisor` for `tv1`, `DeleteThingVisor("tv1")` accompanied by no
child key succeeds and leaves the VThing `tv1/t1` stored; and so does
`UpdateThingVisor("tv1", "")`, which removes the ThingVisor record. -/
theorem vThing_without_owner :
    invoke sampleHost (sampleContext ["UpdateVThingOfThingVisor", "tv2/x", t1JSON])
        (.UpdateVThingOfThingVisor "tv2/x" t1JSON) {} = .ok (.done, stateStrayVThing)
    ∧ GetVThingByID sampleHost stateStrayVThing "tv2/x" = .ok { ID := "tv1/t1" }
    ∧ GetThingVisor sampleHost stateStrayVThing "tv2" =
      .error (.NotFound "Operation fails - thingVisor tv2 not exists")
    ∧ invoke sampleHost (sampleContext ["DeleteThingVisor", "tv1"]) (.DeleteThingVisor "tv1")
        stateCreatedWithT1 = .ok (.done, stateOrphanedT1)
    ∧ GetVThingByID sampleHost stateOrphanedT1 "tv1/t1" = .ok { ID := "tv1/t1" }
    ∧ GetThingVisor sampleHost stateOrphanedT1 "tv1" =
      .error (.NotFound "Operation fails - thingVisor tv1 not exists")
    ∧ invoke sampleHost (sampleContext ["UpdateThingVisor", "tv1", ""])
        (.UpdateThingVisor "tv1" "") stateCreatedWithT1 = .ok (.done, stateOwnerEmptied)
    ∧ GetVThingByID sampleHost stateOwnerEmptied "tv1/t1" = .ok { ID := "tv1/t1" }
    ∧ GetThingVisor sampleHost stateOwnerEmptied "tv1" =
      .error (.NotFound "Operation fails - thingVisor tv1 not exists") := by
  decide

/-! ## The calls left out are those that break the invariants -/

theorem mem_of_lookupKey {k v : String} {c : Collection} (hlook : lookupKey k c = some v) :
    ∃ kv ∈ c, kv.1 = k ∧ kv.2 = v := by
  induction c with
  | nil => cases hlook
  | cons x rest ih =>
    obtain ⟨a, b⟩ := x
    rw [lookupKey_cons] at hlook
    by_cases ha : a = k
    · rw [if_pos ha] at hlook
      cases hlook
      exact ⟨_, List.mem_cons_self _ _, ha, rfl⟩
    · rw [if_neg ha] at hlook
      obtain ⟨kv, hkv, hk⟩ := ih hlook
      exact ⟨kv, List.mem_cons_of_mem _ hkv, hk⟩

/-- The owner segment of a VThing key in the prefix range of `tv` is `tv`. -/
theorem owner_of_inPartialRange (o l tv : String) (ho : validateCompositeKeyAttribute o = true)
    (htv : validateCompositeKeyAttribute tv = true)
    (hin : inPartialRange (compositeKey vThingTVObject [vThingTVPrefix, tv])
      (compositeKey vThingTVObject [vThingTVPrefix, o, l]) = true) : o = tv := by
  by_contra hne
  have hout := inPartialRange_other vThingTVObject [vThingTVPrefix] [l] o tv ho htv hne
  have hout' : inPartialRange (compositeKey vThingTVObject [vThingTVPrefix, tv])
      (compositeKey vThingTVObject [vThingTVPrefix, o, l]) = false := by simpa using hout
  rw [hout'] at hin
  cases hin

/-- Two lists cut at a separator that occurs in neither piece of the first are
cut at the same place. -/
theorem cut_unique (z : Char) : ∀ (a b c d : List Char), z ∉ a → z ∉ b →
    a ++ z :: b = c ++ z :: d → a = c ∧ b = d := by
  intro a
  induction a with
  | nil =>
    intro b c d _ hb heq
    cases c with
    | nil =>
      simp only [List.nil_append, List.cons.injEq, true_and] at heq
      exact ⟨rfl, heq⟩
    | cons y c =>
      simp only [List.nil_append, List.cons_append, List.cons.injEq] at heq
      exact absurd (by rw [heq.2]; simp) hb
  | cons x a ih =>
    intro b c d ha hb heq
    cases c with
    | nil =>
      simp only [List.nil_append, List.cons_append, List.cons.injEq] at heq
      exact absurd (by rw [heq.1]; exact List.mem_cons_self _ _) ha
    | cons y c =>
      simp only [List.cons_append, List.cons.injEq] at heq
      obtain ⟨hac, hbd⟩ := ih b c d (fun hmem => ha (List.mem_cons_of_mem _ hmem)) hb heq.2
      exact ⟨by rw [heq.1, hac], hbd⟩

/-- A composite key of two valid segments is the composite key of no other two
segments. -/
theorem compositeKey_two_inj (objectType pre o l o' l' : String)
    (ho : validateCompositeKeyAttribute o = true) (hl : validateCompositeKeyAttribute l = true)
    (heq : compositeKey objectType [pre, o, l] = compositeKey objectType [pre, o', l']) :
    o = o' ∧ l = l' := by
  have hdata := congrArg String.data heq
  simp only [compositeKey_data, List.flatMap_cons, List.flatMap_nil, List.append_nil,
    List.append_assoc, List.cons_append, List.nil_append, List.append_cancel_left_eq,
    List.cons.injEq, true_and] at hdata
  have ho' : minUnicodeRuneValue ∉ o.data.reverse := by
    intro hmem
    exact ((validateCompositeKeyAttribute_iff o).1 ho _ (List.mem_reverse.1 hmem)).1 rfl
  have hl' : minUnicodeRuneValue ∉ l.data.reverse := by
    intro hmem
    exact ((validateCompositeKeyAttribute_iff l).1 hl _ (List.mem_reverse.1 hmem)).1 rfl
  have hrev := congrArg List.reverse hdata
  simp only [List.reverse_append, List.reverse_cons, List.reverse_nil, List.nil_append,
    List.append_assoc, List.singleton_append, List.cons_append, List.cons.injEq, true_and]
    at hrev
  obtain ⟨hlrev, horev⟩ := cut_unique minUnicodeRuneValue l.data.reverse o.data.reverse
    l'.data.reverse o'.data.reverse hl' ho' hrev
  exact ⟨String.ext (List.reverse_injective horev), String.ext (List.reverse_injective hlrev)⟩

/-- The calls that `updateKeepsSegments` leaves out are those that break the
relation of keys and ids: after a successful call that is not admitted, a
VThing record is stored under another key than that of the first two segments
of its `id`. -/
theorem updateKeepsSegments_exact (h : Host) (ctx : Context) (call : Invocation)
    (s s' : State) (x : Response) (hok : invoke h ctx call s = .ok (x, s'))
    (hnot : ¬ updateKeepsSegments h call) : ¬ VThingKeysFromIds h s' := by
  cases call
  case UpdateVThingOfThingVisor VThingID vThingData =>
    simp only [invoke] at hok
    obtain ⟨v, k1, hv, hk1, h0valid, h1valid, hs'⟩ :=
      UpdateVThingOfThingVisor_ok (written_ok hok)
    intro hinv
    apply hnot
    intro v' hv'
    rw [hv] at hv'
    cases hv'
    have hlook : lookupKey
        (compositeKey vThingTVObject [vThingTVPrefix, index0 (Split VThingID '/'), k1])
        (s'.collection CollectionvThingTVs) = some vThingData := by
      rw [hs']
      exact lookupKey_putKey_self _ _ _
    obtain ⟨kv, hkv, hkey, hbody⟩ := mem_of_lookupKey hlook
    obtain ⟨w, j1, hw, hj1, hkvkey⟩ := hinv kv hkv
    rw [hbody, hv] at hw
    cases hw
    rw [hkey] at hkvkey
    obtain ⟨h0, h1⟩ := compositeKey_two_inj _ _ _ _ _ _ h0valid h1valid hkvkey
    exact ⟨h0.symm, by rw [hj1, hk1, h1]⟩
  all_goals exact absurd trivial hnot

/-- The calls that `keepsOwners` leaves out are those that orphan a VThing:
after a successful call that is not admitted, a VThing record is stored whose
owner is not. -/
theorem keepsOwners_exact (h : Host) (ctx : Context) (call : Invocation) (s s' : State)
    (x : Response) (hok : invoke h ctx call s = .ok (x, s'))
    (hnot : ¬ keepsOwners s ctx call) : ¬ VThingOwnersStored s' := by
  cases call
  case UpdateVThingOfThingVisor VThingID vThingData =>
    simp only [invoke] at hok
    obtain ⟨v, k1, -, -, h0valid, h1valid, hs'⟩ := UpdateVThingOfThingVisor_ok (written_ok hok)
    have htv := UpdateVThingOfThingVisor_frame (written_ok hok) CollectionThingVisors (by decide)
    intro hinv
    apply hnot
    have hlook : lookupKey
        (compositeKey vThingTVObject [vThingTVPrefix, index0 (Split VThingID '/'), k1])
        (s'.collection CollectionvThingTVs) = some vThingData := by
      rw [hs']
      exact lookupKey_putKey_self _ _ _
    obtain ⟨kv, hkv, hkey, -⟩ := mem_of_lookupKey hlook
    obtain ⟨o, l, ho, hl, hkvkey, hstored⟩ := hinv kv hkv
    rw [hkey] at hkvkey
    obtain ⟨h0, -⟩ := compositeKey_two_inj _ _ _ _ _ _ h0valid h1valid hkvkey
    show (lookupKey (index0 (Split VThingID '/')) (s.collection CollectionThingVisors)).isSome =
      true
    rw [h0, ← htv]
    exact hstored
  case DeleteThingVisor ThingVisorID =>
    simp only [invoke] at hok
    obtain ⟨sl, hloop, htv, hvt⟩ := DeleteThingVisor_shape (written_ok hok)
    obtain ⟨-, -, hlook⟩ := delLoop_frame _ _ _ _ hloop
    intro hinv
    apply hnot
    intro hvalid kv hkv hin
    by_contra hnotin
    have hkept : lookupKey kv.1 (s'.collection CollectionvThingTVs) =
        lookupKey kv.1 (s.collection CollectionvThingTVs) := by
      rw [hvt, hlook kv.1, if_neg hnotin]
    cases hsome : lookupKey kv.1 (s.collection CollectionvThingTVs) with
    | none => exact lookupKey_ne_none_of_mem hkv hsome
    | some b =>
      rw [hsome] at hkept
      obtain ⟨kv', hkv', hkey, -⟩ := mem_of_lookupKey hkept
      obtain ⟨o, l, ho, hl, hkvkey, hstored⟩ := hinv kv' hkv'
      rw [← hkey, hkvkey] at hin
      have howner := owner_of_inPartialRange o l ThingVisorID ho hvalid hin
      have hgone : lookupKey o (s'.collection CollectionThingVisors) = none := by
        rw [htv, howner]
        exact lookupKey_eraseKey_self _ _
      have hstored' : (lookupKey o (s'.collection CollectionThingVisors)).isSome = true :=
        hstored
      rw [hgone] at hstored'
      cases hstored'
  case UpdateThingVisor id JSONstr =>
    simp only [invoke] at hok
    have htv := UpdateThingVisor_shape (written_ok hok)
    have hvt := UpdateThingVisor_frame (written_ok hok) CollectionvThingTVs (by decide)
    intro hinv
    apply hnot
    by_cases hbody : JSONstr = ""
    · by_cases hvalid : validateCompositeKeyAttribute id = true
      · right
        right
        intro kv hkv
        cases hin : inPartialRange (compositeKey vThingTVObject [vThingTVPrefix, id]) kv.1 with
        | false => rfl
        | true =>
          have hkv' : kv ∈ s'.collection CollectionvThingTVs := by
            rw [hvt]
            exact hkv
          obtain ⟨o, l, ho, hl, hkvkey, hstored⟩ := hinv kv hkv'
          rw [hkvkey] at hin
          have howner := owner_of_inPartialRange o l id ho hvalid hin
          have hgone : lookupKey o (s'.collection CollectionThingVisors) = none := by
            rw [htv, if_pos hbody, howner]
            exact lookupKey_eraseKey_self _ _
          have hstored' : (lookupKey o (s'.collection CollectionThingVisors)).isSome = true :=
            hstored
          rw [hgone] at hstored'
          cases hstored'
      · right
        left
        cases hv : validateCompositeKeyAttribute id with
        | false => rfl
        | true => exact absurd hv hvalid
    · left
      exact hbody
  all_goals exact absurd trivial hnot

end Chaincode
